import Mathlib

/-!
# libpinproc: PRDevice.cpp

A shallow embedding of `src/PRDevice.cpp` (the P-ROC device object of libpinproc)
and theorems about it.

Conventions of the embedding.

* C arrays (`drivers`, `driverGroups`, `switchRules`, `collected_bytes_fifo`,
  `preparedWriteWords`, `wr_buffer`) are total functions `Nat → α`; an access
  outside the declared extent is not modelled.
* `std::queue` is a `List`: `front` is the head, `push` appends at the end.
* A pointer-and-count argument (`uint32_t * words, int32_t numWords`) is the
  list of the `numWords` words found at the pointer.
* Machine integers are `Nat`; a reduction `% 2 ^ w` is written where the
  source narrows a value (`uint8_t` stores, `uint32_t` words).
* A loop whose number of iterations is not a syntactic bound runs on fuel and
  the function returns `none` when the fuel runs out; the theorems show that
  the fuel supplied by the callers is enough.
* Everything declared in headers that are not part of `src/` (`pinproc.h`,
  `PRDevice.h`, `PRHardware.h`) is a field of the parameter `Header`.
-/

namespace PinProc

/-! ## Types declared in the headers -/

/-- Result code of an operation: `kPRSuccess` or `kPRFailure`. -/
inductive PRResult where
  | kPRSuccess
  | kPRFailure
deriving DecidableEq, Repr

/-- Modelled from the spec: the enumeration `PRMachineType` of `pinproc.h`, which is
not under `src/`; the spec gives the closed set WPC, WPC95, Stern-Whitestar,
Stern-SAM, Custom, and these are the enumerators `PRDevice.cpp` names. -/
inductive PRMachineType where
  | kPRMachineCustom
  | kPRMachineWPC
  | kPRMachineWPC95
  | kPRMachineSternWhitestar
  | kPRMachineSternSAM
deriving DecidableEq, Repr

/-- Modelled from the spec: the enumeration `PREventType` of `pinproc.h`, which is
not under `src/`; the spec lists the six event kinds of an event record.
`kPREventTypeInvalid` is the enumerator of value zero (what `memset` leaves). -/
inductive PREventType where
  | kPREventTypeInvalid
  | kPREventTypeSwitchClosedDebounced
  | kPREventTypeSwitchOpenDebounced
  | kPREventTypeSwitchClosedNondebounced
  | kPREventTypeSwitchOpenNondebounced
  | kPREventTypeDMDFrameDisplayed
deriving DecidableEq, Repr

/-- Modelled from the spec: the record `PREvent` of `pinproc.h` (a type and a value). -/
structure PREvent where
  type : PREventType
  value : Nat
deriving DecidableEq, Repr

/-- Modelled from the spec: the record `PRDriverState` of `pinproc.h`, which is not
under `src/`: number, polarity, timeslot pattern, drive and patter timing. The
fields `driverNum`, `polarity`, `timeslots` and `outputDriveTime` are the ones
`PRDevice.cpp` reads. -/
structure PRDriverState where
  driverNum : Nat
  outputDriveTime : Nat
  polarity : Bool
  state : Bool
  waitForFirstTimeSlot : Bool
  timeslots : Nat
  patterOnTime : Nat
  patterOffTime : Nat
  patterEnable : Bool
deriving DecidableEq, Repr

/-- Modelled from the spec: the record `PRDriverGroupConfig` of `pinproc.h`; the
fields are the ones `DriverLoadMachineTypeDefaults` assigns. -/
structure PRDriverGroupConfig where
  groupNum : Nat
  slowTime : Nat
  enableIndex : Nat
  rowActivateIndex : Nat
  rowEnableSelect : Nat
  matrixed : Bool
  polarity : Bool
  active : Bool
  disableStrobeAfter : Bool
deriving DecidableEq, Repr

/-- Modelled from the spec: the record `PRDriverGlobalConfig` of `pinproc.h`; the
fields are the ones `DriverLoadMachineTypeDefaults` assigns. -/
structure PRDriverGlobalConfig where
  enableOutputs : Bool
  globalPolarity : Bool
  useClear : Bool
  strobeStartSelect : Bool
  startStrobeTime : Nat
  matrixRowEnableIndex1 : Nat
  matrixRowEnableIndex0 : Nat
  activeLowMatrixRows : Bool
  tickleSternWatchdog : Bool
  encodeEnables : Bool
  watchdogExpired : Bool
  watchdogEnable : Bool
  watchdogResetTime : Nat
deriving DecidableEq, Repr

/-- Modelled from the spec: the public record `PRSwitchRule` of `pinproc.h`; the only
field `SwitchUpdateRule` reads is `notifyHost`. -/
structure PRSwitchRule where
  notifyHost : Bool
deriving DecidableEq, Repr

/-- Modelled from the spec: the record `PRSwitchRuleInternal` of `PRHardware.h`, one
slot of the rule table; the fields are the ones `PRDevice.cpp` reads or writes. -/
structure PRSwitchRuleInternal where
  switchNum : Nat
  eventType : PREventType
  notifyHost : Bool
  changeOutput : Bool
  linkActive : Bool
  linkIndex : Nat
  driver : PRDriverState
deriving DecidableEq, Repr

/-- The all-zero `PRDriverState` left by `memset(driver, 0x00, sizeof(PRDriverState))`. -/
def zeroDriverState : PRDriverState :=
  { driverNum := 0, outputDriveTime := 0, polarity := false, state := false,
    waitForFirstTimeSlot := false, timeslots := 0, patterOnTime := 0,
    patterOffTime := 0, patterEnable := false }

/-- The all-zero `PRDriverGroupConfig` left by `memset`. -/
def zeroDriverGroupConfig : PRDriverGroupConfig :=
  { groupNum := 0, slowTime := 0, enableIndex := 0, rowActivateIndex := 0,
    rowEnableSelect := 0, matrixed := false, polarity := false, active := false,
    disableStrobeAfter := false }

/-- The all-zero `PRDriverGlobalConfig` left by `memset`. -/
def zeroDriverGlobalConfig : PRDriverGlobalConfig :=
  { enableOutputs := false, globalPolarity := false, useClear := false,
    strobeStartSelect := false, startStrobeTime := 0, matrixRowEnableIndex1 := 0,
    matrixRowEnableIndex0 := 0, activeLowMatrixRows := false,
    tickleSternWatchdog := false, encodeEnables := false, watchdogExpired := false,
    watchdogEnable := false, watchdogResetTime := 0 }

/-- The all-zero `PRSwitchRuleInternal` left by `memset(switchRules, 0x00, ...)`. -/
def zeroSwitchRule : PRSwitchRuleInternal :=
  { switchNum := 0, eventType := PREventType.kPREventTypeInvalid, notifyHost := false,
    changeOutput := false, linkActive := false, linkIndex := 0,
    driver := zeroDriverState }

/-- The declarations of `pinproc.h`, `PRDevice.h` and `PRHardware.h` that
`PRDevice.cpp` uses and that are not under `src/`: constants, bit-field
masks and the word builders of the protocol codec. Every theorem holds for all
values of these parameters unless it states a hypothesis on them. -/
structure Header where
  kPRDriverCount : Nat
  kPRDriverGroupsMax : Nat
  kPRSwitchCount : Nat
  kPRSwitchPhysicalLast : Nat
  kPRSwitchVirtualFirst : Nat
  kPRSwitchRulesCount : Nat
  maxSwitchRules : Nat
  maxWriteWords : Nat
  FTDI_BUFFER_SIZE : Nat
  P_ROC_EVENT_TYPE_MASK : Nat
  P_ROC_EVENT_TYPE_SHIFT : Nat
  P_ROC_EVENT_TYPE_SWITCH : Nat
  P_ROC_EVENT_TYPE_DMD : Nat
  P_ROC_EVENT_SWITCH_NUM_MASK : Nat
  P_ROC_EVENT_SWITCH_STATE_MASK : Nat
  P_ROC_EVENT_SWITCH_STATE_SHIFT : Nat
  P_ROC_EVENT_SWITCH_DEBOUNCED_MASK : Nat
  P_ROC_EVENT_SWITCH_DEBOUNCED_SHIFT : Nat
  P_ROC_COMMAND_MASK : Nat
  P_ROC_COMMAND_SHIFT : Nat
  P_ROC_REQUESTED_DATA : Nat
  P_ROC_UNREQUESTED_DATA : Nat
  P_ROC_HEADER_LENGTH_MASK : Nat
  P_ROC_HEADER_LENGTH_SHIFT : Nat
  CreateSwitchRuleIndex : Nat → PREventType → Nat
  ParseSwitchRuleIndex : Nat → Nat × PREventType
  CreateDriverUpdateBurst : PRDriverState → Nat × Nat × Nat
  CreateDriverUpdateGlobalConfigBurst : PRDriverGlobalConfig → Nat × Nat
  CreateWatchdogConfigBurst : Bool → Bool → Nat → Nat × Nat
  CreateDriverUpdateGroupConfigBurst : PRDriverGroupConfig → Nat × Nat
  CreateSwitchUpdateRulesBurst : PRSwitchRuleInternal → Nat × Nat × Nat × Nat
  CreateRegRequestWord : Nat → Nat → Nat → Nat
  P_ROC_BUS_SWITCH_CTRL_SELECT : Nat
  P_ROC_SWITCH_CTRL_STATE_BASE_ADDR : Nat
  P_ROC_SWITCH_CTRL_DEBOUNCE_BASE_ADDR : Nat
  P_ROC_MANAGER_SELECT : Nat
  P_ROC_REG_CHIP_ID_ADDR : Nat
  P_ROC_CHIP_ID : Nat
  P_ROC_INIT_PATTERN_A : Nat
  P_ROC_INIT_PATTERN_B : Nat
  IsStern : Nat → Bool

/-! ## The hardware transport -/

/-- Modelled from the spec: the hardware transport boundary (`PRHardwareRead`,
`PRHardwareWrite`; their code is not under `src/`), `write(bytes) -> bytesWritten`
and `read(bytes) -> bytesRead`. `rxPending` holds the byte chunks the link will
deliver, oldest first; `txLog` records the bytes of every write call, oldest
first; `txReplies` scripts the `bytesWritten` result of the coming write calls,
and a write call made when the script is empty is complete. -/
structure Hardware where
  rxPending : List (List Nat)
  txLog : List (List Nat)
  txReplies : List Nat
deriving DecidableEq, Repr

/-- Modelled from the spec: `PRHardwareRead(buffer, maxBytes)`, which never blocks and
returns at most `maxBytes` bytes of the oldest pending chunk; what it does not
return stays pending. -/
def PRHardwareRead (hw : Hardware) (maxBytes : Nat) : List Nat × Hardware :=
  match hw.rxPending with
  | [] => ([], hw)
  | c :: cs =>
    (c.take maxBytes,
      { hw with rxPending := if c.drop maxBytes = [] then cs else c.drop maxBytes :: cs })

/-- Modelled from the spec: `PRHardwareWrite(buffer, bytesToWrite)`, which returns the
number of bytes written: the scripted reply, or `bytesToWrite` when no reply is
scripted. -/
def PRHardwareWrite (hw : Hardware) (bytes : List Nat) : Nat × Hardware :=
  match hw.txReplies with
  | [] => (bytes.length, { hw with txLog := hw.txLog ++ [bytes] })
  | r :: rs => (r, { hw with txLog := hw.txLog ++ [bytes], txReplies := rs })

/-! ## The device object -/

/-- The data members of `PRDevice` that the functions embedded here read or write
(the members `dmdConfig` and `switchConfig` are only stored by them). -/
structure PRDevice where
  machineType : PRMachineType
  readMachineType : PRMachineType
  collected_bytes_rd_addr : Nat
  collected_bytes_wr_addr : Nat
  num_collected_bytes : Nat
  collected_bytes_fifo : Nat → Nat
  unrequestedDataQueue : List Nat
  requestedDataQueue : List Nat
  numPreparedWriteWords : Nat
  preparedWriteWords : Nat → Nat
  wr_buffer : Nat → Nat
  freeSwitchRuleIndexes : List Nat
  switchRules : Nat → PRSwitchRuleInternal
  drivers : Nat → PRDriverState
  driverGroups : Nat → PRDriverGroupConfig
  driverGlobalConfig : PRDriverGlobalConfig
  hw : Hardware

/-- A counted `for (i = lo; i < hi; i++)` loop over a state. -/
def forLoop {σ : Type} (lo hi : Nat) (body : Nat → σ → σ) (init : σ) : σ :=
  (List.range' lo (hi - lo)).foldl (fun s i => body i s) init

/-- The `n` elements found at the start of an array. -/
def readArr {α : Type} (a : Nat → α) (n : Nat) : List α :=
  (List.range n).map a

/-- The array after `memcpy(dst + off, src, ...)` of the whole list `src`. -/
def memcpyAt {α : Type} (dst : Nat → α) (off : Nat) (src : List α) : Nat → α :=
  fun i => if off ≤ i then (src.get? (i - off)).getD (dst i) else dst i

/-! ## PRDevice::Create -/

/-- What `PRDevice::Create` does after the device object is allocated. -/
inductive CreateOutcome where
  | openFailed
  | rejected
  | accepted
deriving DecidableEq, Repr

/-- The condition of the `if` at lines 65 to 73 of `PRDevice::Create`: the
requested machine type is refused for the board-reported one. In C++ `&&`
binds tighter than `||`. -/
def Create.mismatch (machineType readMachineType : PRMachineType) : Bool :=
  machineType != PRMachineType.kPRMachineCustom &&
    ( ((machineType == PRMachineType.kPRMachineWPC ||
          machineType == PRMachineType.kPRMachineWPC95) &&
        (readMachineType != PRMachineType.kPRMachineWPC &&
          readMachineType != PRMachineType.kPRMachineWPC95)) ||
      (machineType != PRMachineType.kPRMachineWPC &&
        machineType != PRMachineType.kPRMachineWPC95 &&
        readMachineType == PRMachineType.kPRMachineWPC) )

/-- `PRDevice::Create(machineType)`, as a function of the result of `dev->Open()` and
of the machine type `dev->GetReadMachineType()` returns after it. A failed
`Open` deletes the device and returns `NULL` (`openFailed`); a mismatch closes
the device and returns `NULL` (`rejected`); otherwise the device is returned. -/
def Create (machineType : PRMachineType) (openResult : PRResult)
    (readMachineType : PRMachineType) : CreateOutcome :=
  if openResult != PRResult.kPRSuccess then CreateOutcome.openFailed
  else if Create.mismatch machineType readMachineType then CreateOutcome.rejected
  else CreateOutcome.accepted

/-! ## The write path -/

/-- The inner loop of `WriteData`, `for (k = 3; k >= 0; k--)`: the four bytes of the
`uint32_t` `word` are stored at `wr_buffer[(j*4)+k]`, the low byte first, at
`k = 3`. -/
def WriteData.storeWord (wr_buffer : Nat → Nat) (j : Nat) (word : Nat) : Nat → Nat :=
  ([3, 2, 1, 0].foldl
    (fun (acc : (Nat → Nat) × Nat) k =>
      (Function.update acc.1 ((j * 4) + k) ((acc.2 &&& 0x000000ff) % 256), acc.2 >>> 8))
    (wr_buffer, word % 2 ^ 32)).1

/-- `PRDevice::WriteData(words, numWords)`: the words are laid out in `wr_buffer`,
most significant byte first, and handed to the transport in one write; a
short write is a failure. Nothing is written when `numWords` is zero. -/
def WriteData (s : PRDevice) (words : List Nat) : PRResult × PRDevice :=
  if words.length = 0 then (PRResult.kPRSuccess, s)
  else
    let wr_buffer := forLoop 0 words.length
      (fun j wr => WriteData.storeWord wr j (words.getD j 0)) s.wr_buffer
    let bytesToWrite := words.length * 4
    let w := PRHardwareWrite s.hw (readArr wr_buffer bytesToWrite)
    let s1 := { s with wr_buffer := wr_buffer, hw := w.2 }
    if w.1 != bytesToWrite then (PRResult.kPRFailure, s1) else (PRResult.kPRSuccess, s1)

/-- `PRDevice::FlushWriteData()`: writes the prepared words and resets the counter,
whatever the result. -/
def FlushWriteData (s : PRDevice) : PRResult × PRDevice :=
  let r := WriteData s (readArr s.preparedWriteWords s.numPreparedWriteWords)
  (r.1, { r.2 with numPreparedWriteWords := 0 })

/-- `PRDevice::PrepareWriteData(words, numWords)`. -/
def PrepareWriteData (h : Header) (s : PRDevice) (words : List Nat) : PRResult × PRDevice :=
  if words.length > h.maxWriteWords then (PRResult.kPRFailure, s)
  else
    let r := if s.numPreparedWriteWords + words.length > h.maxWriteWords
      then FlushWriteData s else (PRResult.kPRSuccess, s)
    if r.1 = PRResult.kPRFailure then (PRResult.kPRFailure, r.2)
    else
      (PRResult.kPRSuccess,
        { r.2 with
          preparedWriteWords :=
            memcpyAt r.2.preparedWriteWords r.2.numPreparedWriteWords words
          numPreparedWriteWords := r.2.numPreparedWriteWords + words.length })

/-! ## Driver configuration -/

/-- The kinds of label a statement inside a C++ `switch` body can carry. -/
inductive SwitchLabel (α : Type) where
  | caseLabel (v : α)
  | defaultLabel
  | plainLabel (name : String)
deriving DecidableEq, Repr

/-- How a block inside a `switch` body ends: with `return r`, with `break`, or by
running into the next statement. -/
inductive BlockExit where
  | returns (r : PRResult)
  | breaks
  | fallsThrough
deriving DecidableEq, Repr

/-- Runs the statements of a `switch` body from an entry point on: `some r` when a
`return r` is reached, `none` when control leaves the `switch`. -/
def runSwitch.from : List BlockExit → Option PRResult
  | [] => none
  | BlockExit.returns r :: _ => some r
  | BlockExit.breaks :: _ => none
  | BlockExit.fallsThrough :: rest => runSwitch.from rest

/-- The statements of a `switch` body from the first one that carries a label
satisfying `p` on. -/
def runSwitch.entry {α : Type} (p : SwitchLabel α → Bool) :
    List (List (SwitchLabel α) × BlockExit) → Option (List BlockExit)
  | [] => none
  | st :: rest =>
    if st.1.any p then some (st.2 :: rest.map Prod.snd) else runSwitch.entry p rest

/-- A C++ `switch (x) { body }` whose blocks only return, break or fall through:
control goes to the statement labelled `case x:`, else to the one labelled
`default:`, else past the body; an ordinary label `name:` is no entry point. -/
def runSwitch {α : Type} [DecidableEq α] (x : α)
    (body : List (List (SwitchLabel α) × BlockExit)) : Option PRResult :=
  match runSwitch.entry (fun l => l == SwitchLabel.caseLabel x) body with
  | some blocks => runSwitch.from blocks
  | none =>
    match runSwitch.entry (fun l => l == SwitchLabel.defaultLabel) body with
    | some blocks => runSwitch.from blocks
    | none => none

/-- The block at lines 242 to 251 of `DriverUpdateState`. -/
def DriverUpdateState.wpcBlock (driverState : PRDriverState) : BlockExit :=
  if (driverState.driverNum ≥ 40 && driverState.driverNum ≤ 47) ||
      driverState.driverNum == 32 || driverState.driverNum == 34 ||
      driverState.driverNum == 36 || driverState.driverNum == 38 then
    if driverState.timeslots == 0 && driverState.outputDriveTime == 0
    then BlockExit.returns PRResult.kPRFailure else BlockExit.breaks
  else BlockExit.breaks

/-- The block at lines 253 to 258 of `DriverUpdateState`. -/
def DriverUpdateState.sternBlock (driverState : PRDriverState) : BlockExit :=
  if driverState.driverNum ≥ 32 && driverState.driverNum ≤ 47 then
    if driverState.timeslots == 0 && driverState.outputDriveTime == 0
    then BlockExit.returns PRResult.kPRFailure else BlockExit.breaks
  else BlockExit.breaks

/-- The body of `switch (readMachineType)` at lines 240 to 259 of `DriverUpdateState`.
The source labels its two blocks `kPRMachineWPC: kPRMachineWPC95:` and
`kPRMachineSternWhitestar: kPRMachineSternSAM:`, without the keyword `case`:
these are ordinary statement labels. -/
def DriverUpdateState.switchBody (driverState : PRDriverState) :
    List (List (SwitchLabel PRMachineType) × BlockExit) :=
  [ ([SwitchLabel.plainLabel "kPRMachineWPC", SwitchLabel.plainLabel "kPRMachineWPC95"],
      DriverUpdateState.wpcBlock driverState),
    ([SwitchLabel.plainLabel "kPRMachineSternWhitestar",
        SwitchLabel.plainLabel "kPRMachineSternSAM"],
      DriverUpdateState.sternBlock driverState) ]

/-- `PRDevice::DriverGetState(driverNum, driverState)`. -/
def DriverGetState (s : PRDevice) (driverNum : Nat) : PRDriverState :=
  s.drivers driverNum

/-- `PRDevice::DriverUpdateState(driverState)`. -/
def DriverUpdateState (h : Header) (s : PRDevice) (driverState : PRDriverState) :
    PRResult × PRDevice :=
  match runSwitch s.readMachineType (DriverUpdateState.switchBody driverState) with
  | some r => (r, s)
  | none =>
    if driverState.polarity != (s.drivers driverState.driverNum).polarity &&
        s.machineType != PRMachineType.kPRMachineCustom then
      (PRResult.kPRFailure, s)
    else
      let s1 := { s with drivers := Function.update s.drivers driverState.driverNum driverState }
      let burst := h.CreateDriverUpdateBurst (s1.drivers driverState.driverNum)
      PrepareWriteData h s1 [burst.1, burst.2.1, burst.2.2]

/-- `PRDevice::DriverUpdateGlobalConfig(driverGlobalConfig)`. -/
def DriverUpdateGlobalConfig (h : Header) (s : PRDevice)
    (driverGlobalConfig : PRDriverGlobalConfig) : PRResult × PRDevice :=
  let s1 := { s with driverGlobalConfig := driverGlobalConfig }
  let b := h.CreateDriverUpdateGlobalConfigBurst driverGlobalConfig
  let w := h.CreateWatchdogConfigBurst driverGlobalConfig.watchdogExpired
    driverGlobalConfig.watchdogEnable driverGlobalConfig.watchdogResetTime
  PrepareWriteData h s1 [b.1, b.2, w.1, w.2]

/-- `PRDevice::DriverGetGroupConfig(groupNum, driverGroupConfig)`. -/
def DriverGetGroupConfig (s : PRDevice) (groupNum : Nat) : PRDriverGroupConfig :=
  s.driverGroups groupNum

/-- `PRDevice::DriverUpdateGroupConfig(driverGroupConfig)`. -/
def DriverUpdateGroupConfig (h : Header) (s : PRDevice)
    (driverGroupConfig : PRDriverGroupConfig) : PRResult × PRDevice :=
  let s1 := { s with
    driverGroups := Function.update s.driverGroups driverGroupConfig.groupNum driverGroupConfig }
  let b := h.CreateDriverUpdateGroupConfigBurst driverGroupConfig
  PrepareWriteData h s1 [b.1, b.2]

/-- The values the `switch (machineType)` of `DriverLoadMachineTypeDefaults` gives
to its local variables. -/
structure MachineProfile where
  mappedDriverGroupEnableIndex : List Nat
  mappedDriverGroupSlowTime : List Nat
  mappedDriverGroupActivateIndex : List Nat
  rowEnableIndex1 : Nat
  rowEnableIndex0 : Nat
  tickleSternWatchdog : Bool
  globalPolarity : Bool
  activeLowMatrixRows : Bool
  driverLoopTime : Nat
  numMatrixGroups : Nat
  encodeEnables : Bool
  rowEnableSelect : Nat
  lastCoilDriverGroup : Nat
deriving DecidableEq, Repr

/-- The table `mappedWPCDriverGroupEnableIndex`. -/
def mappedWPCDriverGroupEnableIndex : List Nat :=
  [0, 0, 0, 0, 0, 2, 4, 3, 1, 5, 7, 7, 7, 7, 7, 7, 7, 7, 8, 0, 0, 0, 0, 0, 0, 0]

/-- The table `mappedSternDriverGroupEnableIndex`. -/
def mappedSternDriverGroupEnableIndex : List Nat :=
  [0, 0, 0, 0, 1, 0, 2, 3, 0, 0, 8, 9, 8, 9, 8, 9, 8, 9, 8, 9, 8, 9, 8, 9, 8, 9]

/-- The constant `lastWPCCoilDriverGroup`. -/
def lastWPCCoilDriverGroup : Nat := 9

/-- The constant `lastSternCoilDriverGroup`. -/
def lastSternCoilDriverGroup : Nat := 7

/-- The table `mappedWPCDriverGroupSlowTime`. -/
def mappedWPCDriverGroupSlowTime : List Nat :=
  [0, 0, 0, 0, 0, 0, 0, 0, 0, 0, 400, 400, 400, 400, 400, 400, 400, 400, 0, 0, 0, 0, 0, 0, 0, 0]

/-- The table `mappedSternDriverGroupSlowTime`. -/
def mappedSternDriverGroupSlowTime : List Nat :=
  [0, 0, 0, 0, 0, 0, 0, 0, 0, 0, 400, 400, 400, 400, 400, 400, 400, 400, 400, 400, 400, 400,
    400, 400, 400, 400]

/-- The table `mappedWPCDriverGroupActivateIndex`. -/
def mappedWPCDriverGroupActivateIndex : List Nat :=
  [0, 0, 0, 0, 0, 0, 0, 0, 0, 0, 0, 1, 2, 3, 4, 5, 6, 7, 0, 0, 0, 0, 0, 0, 0, 0]

/-- The table `mappedSternDriverGroupActivateIndex`. -/
def mappedSternDriverGroupActivateIndex : List Nat :=
  [0, 0, 0, 0, 0, 0, 0, 0, 0, 0, 0, 0, 1, 1, 2, 2, 3, 3, 4, 4, 5, 5, 6, 6, 7, 7]

/-- The constant `watchdogResetTime` of `DriverLoadMachineTypeDefaults`, in milliseconds. -/
def watchdogResetTime : Nat := 1000

/-- The `switch (machineType)` at lines 311 to 356: the local variables for the WPC
family and for the Stern family. No `case` matches `kPRMachineCustom`, for
which the local variables stay uninitialised (`none`). -/
def DriverLoadMachineTypeDefaults.profile : PRMachineType → Option MachineProfile
  | PRMachineType.kPRMachineWPC | PRMachineType.kPRMachineWPC95 =>
    some
      { mappedDriverGroupEnableIndex := mappedWPCDriverGroupEnableIndex
        rowEnableIndex1 := 6
        rowEnableIndex0 := 6
        tickleSternWatchdog := false
        globalPolarity := false
        activeLowMatrixRows := true
        driverLoopTime := 4
        mappedDriverGroupSlowTime := mappedWPCDriverGroupSlowTime
        mappedDriverGroupActivateIndex := mappedWPCDriverGroupActivateIndex
        numMatrixGroups := 8
        encodeEnables := false
        rowEnableSelect := 0
        lastCoilDriverGroup := lastWPCCoilDriverGroup }
  | PRMachineType.kPRMachineSternWhitestar | PRMachineType.kPRMachineSternSAM =>
    some
      { mappedDriverGroupEnableIndex := mappedSternDriverGroupEnableIndex
        rowEnableIndex1 := 6
        rowEnableIndex0 := 10
        tickleSternWatchdog := true
        globalPolarity := true
        activeLowMatrixRows := false
        driverLoopTime := 1
        mappedDriverGroupSlowTime := mappedSternDriverGroupSlowTime
        mappedDriverGroupActivateIndex := mappedSternDriverGroupActivateIndex
        numMatrixGroups := 16
        encodeEnables := true
        rowEnableSelect := 0
        lastCoilDriverGroup := lastSternCoilDriverGroup }
  | PRMachineType.kPRMachineCustom => none

/-- Lines 358 to 448 of `DriverLoadMachineTypeDefaults`, once the local variables are
set; `updateDevice` is `resetFlags & kPRResetFlagUpdateDevice`. The pair
carried through the loops is the local `res` and the device. -/
def DriverLoadMachineTypeDefaults.apply (h : Header) (p : MachineProfile) (s : PRDevice)
    (updateDevice : Bool) : PRResult × PRDevice :=
  let s0 : PRDevice := { s with driverGlobalConfig := zeroDriverGlobalConfig }
  let a1 := forLoop 0 h.kPRDriverCount
    (fun i (a : PRResult × PRDevice) =>
      let driver : PRDriverState :=
        { zeroDriverState with driverNum := i, polarity := p.globalPolarity }
      let s1 : PRDevice := { a.2 with drivers := Function.update a.2.drivers i driver }
      if updateDevice then DriverUpdateState h s1 (s1.drivers i) else (a.1, s1))
    (PRResult.kPRSuccess, s0)
  let a2 := forLoop 0 h.kPRDriverGroupsMax
    (fun i (a : PRResult × PRDevice) =>
      let group : PRDriverGroupConfig :=
        { zeroDriverGroupConfig with groupNum := i, polarity := p.globalPolarity }
      (a.1, { a.2 with driverGroups := Function.update a.2.driverGroups i group }))
    a1
  let globals : PRDriverGlobalConfig :=
    { enableOutputs := false
      globalPolarity := p.globalPolarity
      useClear := false
      strobeStartSelect := false
      startStrobeTime := p.driverLoopTime
      matrixRowEnableIndex1 := p.rowEnableIndex1
      matrixRowEnableIndex0 := p.rowEnableIndex0
      activeLowMatrixRows := p.activeLowMatrixRows
      tickleSternWatchdog := p.tickleSternWatchdog
      encodeEnables := p.encodeEnables
      watchdogExpired := false
      watchdogEnable := true
      watchdogResetTime := watchdogResetTime }
  let a3 : PRResult × PRDevice :=
    if updateDevice then DriverUpdateGlobalConfig h a2.2 globals
    else (a2.1, { a2.2 with driverGlobalConfig := globals })
  let globals2 : PRDriverGlobalConfig := { globals with enableOutputs := true }
  let a4 : PRResult × PRDevice :=
    if updateDevice then DriverUpdateGlobalConfig h a3.2 globals2
    else (a3.1, { a3.2 with driverGlobalConfig := globals2 })
  let a5 := forLoop 4 (p.lastCoilDriverGroup + 1)
    (fun i (a : PRResult × PRDevice) =>
      let group : PRDriverGroupConfig :=
        { DriverGetGroupConfig a.2 i with
          slowTime := 0
          enableIndex := p.mappedDriverGroupEnableIndex.getD i 0
          rowActivateIndex := 0
          rowEnableSelect := 0
          matrixed := false
          polarity := p.globalPolarity
          active := true
          disableStrobeAfter := false }
      if updateDevice then DriverUpdateGroupConfig h a.2 group
      else (a.1, { a.2 with driverGroups := Function.update a.2.driverGroups i group }))
    a4
  forLoop 10 (10 + p.numMatrixGroups)
    (fun i (a : PRResult × PRDevice) =>
      let group : PRDriverGroupConfig :=
        { DriverGetGroupConfig a.2 i with
          slowTime := p.mappedDriverGroupSlowTime.getD i 0
          enableIndex := p.mappedDriverGroupEnableIndex.getD i 0
          rowActivateIndex := p.mappedDriverGroupActivateIndex.getD i 0
          rowEnableSelect := p.rowEnableSelect
          matrixed := true
          polarity := p.globalPolarity
          active := true
          disableStrobeAfter := p.mappedDriverGroupSlowTime.getD i 0 != 0 }
      if updateDevice then DriverUpdateGroupConfig h a.2 group
      else (a.1, { a.2 with driverGroups := Function.update a.2.driverGroups i group }))
    a5

/-- `PRDevice::DriverLoadMachineTypeDefaults(machineType, resetFlags)`; `none` for
`kPRMachineCustom`, where the source reads uninitialised local variables. -/
def DriverLoadMachineTypeDefaults (h : Header) (s : PRDevice) (machineType : PRMachineType)
    (updateDevice : Bool) : Option (PRResult × PRDevice) :=
  (DriverLoadMachineTypeDefaults.profile machineType).map
    (fun p => DriverLoadMachineTypeDefaults.apply h p s updateDevice)

/-- Lines 362 to 364 of `DriverLoadMachineTypeDefaults`: the record of driver `i`
after `memset` and the two assignments. -/
def DriverLoadMachineTypeDefaults.clearedDriver (p : MachineProfile) (i : Nat) :
    PRDriverState :=
  { zeroDriverState with driverNum := i, polarity := p.globalPolarity }

/-- The body of the loop at lines 359 to 367 of `DriverLoadMachineTypeDefaults`: the
record of driver `i` is cleared and, with the update flag, sent to the device. -/
def DriverLoadMachineTypeDefaults.clearDriver (h : Header) (p : MachineProfile)
    (updateDevice : Bool) (i : Nat) (a : PRResult × PRDevice) : PRResult × PRDevice :=
  let driver := DriverLoadMachineTypeDefaults.clearedDriver p i
  let s1 : PRDevice := { a.2 with drivers := Function.update a.2.drivers i driver }
  if updateDevice then DriverUpdateState h s1 (s1.drivers i) else (a.1, s1)

/-- Lines 371 to 373 of `DriverLoadMachineTypeDefaults`: the record of group `i`
after `memset` and the two assignments. -/
def DriverLoadMachineTypeDefaults.clearedGroup (p : MachineProfile) (i : Nat) :
    PRDriverGroupConfig :=
  { zeroDriverGroupConfig with groupNum := i, polarity := p.globalPolarity }

/-- The body of the loop at lines 368 to 374 of `DriverLoadMachineTypeDefaults`. -/
def DriverLoadMachineTypeDefaults.clearGroup (p : MachineProfile) (i : Nat)
    (a : PRResult × PRDevice) : PRResult × PRDevice :=
  let group := DriverLoadMachineTypeDefaults.clearedGroup p i
  (a.1, { a.2 with driverGroups := Function.update a.2.driverGroups i group })

/-- Lines 358 to 374 of `DriverLoadMachineTypeDefaults`: the global configuration
is zeroed, every driver record is cleared (and sent to the device with the
update flag) and every group record is cleared. -/
def DriverLoadMachineTypeDefaults.clearTables (h : Header) (p : MachineProfile)
    (s : PRDevice) (updateDevice : Bool) : PRResult × PRDevice :=
  forLoop 0 h.kPRDriverGroupsMax (DriverLoadMachineTypeDefaults.clearGroup p)
    (forLoop 0 h.kPRDriverCount (DriverLoadMachineTypeDefaults.clearDriver h p updateDevice)
      (PRResult.kPRSuccess, { s with driverGlobalConfig := zeroDriverGlobalConfig }))

/-- Lines 376 to 389 of `DriverLoadMachineTypeDefaults`: the local `globals`, with
the outputs disabled. -/
def DriverLoadMachineTypeDefaults.globals (p : MachineProfile) : PRDriverGlobalConfig :=
  { enableOutputs := false
    globalPolarity := p.globalPolarity
    useClear := false
    strobeStartSelect := false
    startStrobeTime := p.driverLoopTime
    matrixRowEnableIndex1 := p.rowEnableIndex1
    matrixRowEnableIndex0 := p.rowEnableIndex0
    activeLowMatrixRows := p.activeLowMatrixRows
    tickleSternWatchdog := p.tickleSternWatchdog
    encodeEnables := p.encodeEnables
    watchdogExpired := false
    watchdogEnable := true
    watchdogResetTime := watchdogResetTime }

/-- Lines 395 to 398 and 402 to 405 of `DriverLoadMachineTypeDefaults`: the global
configuration is sent to the device with the update flag and stored otherwise. -/
def DriverLoadMachineTypeDefaults.storeGlobals (h : Header) (updateDevice : Bool)
    (globals : PRDriverGlobalConfig) (a : PRResult × PRDevice) : PRResult × PRDevice :=
  if updateDevice then DriverUpdateGlobalConfig h a.2 globals
  else (a.1, { a.2 with driverGlobalConfig := globals })

/-- Lines 415 to 422 of `DriverLoadMachineTypeDefaults`: the record of a coil group. -/
def DriverLoadMachineTypeDefaults.coilGroup (p : MachineProfile)
    (group : PRDriverGroupConfig) (i : Nat) : PRDriverGroupConfig :=
  { group with
    slowTime := 0
    enableIndex := p.mappedDriverGroupEnableIndex.getD i 0
    rowActivateIndex := 0
    rowEnableSelect := 0
    matrixed := false
    polarity := p.globalPolarity
    active := true
    disableStrobeAfter := false }

/-- Lines 434 to 441 of `DriverLoadMachineTypeDefaults`: the record of a matrix group. -/
def DriverLoadMachineTypeDefaults.matrixGroup (p : MachineProfile)
    (group : PRDriverGroupConfig) (i : Nat) : PRDriverGroupConfig :=
  { group with
    slowTime := p.mappedDriverGroupSlowTime.getD i 0
    enableIndex := p.mappedDriverGroupEnableIndex.getD i 0
    rowActivateIndex := p.mappedDriverGroupActivateIndex.getD i 0
    rowEnableSelect := p.rowEnableSelect
    matrixed := true
    polarity := p.globalPolarity
    active := true
    disableStrobeAfter := p.mappedDriverGroupSlowTime.getD i 0 != 0 }

/-- The body of the loops at lines 412 to 428 and 432 to 447 of
`DriverLoadMachineTypeDefaults`, with `build` the assignments to the fields of
the local `group`: the record of group `i` is read, rebuilt and sent to the
device with the update flag, stored at `i` otherwise. -/
def DriverLoadMachineTypeDefaults.configureGroup (h : Header) (updateDevice : Bool)
    (build : PRDriverGroupConfig → Nat → PRDriverGroupConfig) (i : Nat)
    (a : PRResult × PRDevice) : PRResult × PRDevice :=
  let group := build (DriverGetGroupConfig a.2 i) i
  if updateDevice then DriverUpdateGroupConfig h a.2 group
  else (a.1, { a.2 with driverGroups := Function.update a.2.driverGroups i group })

/-- Lines 411 to 447 of `DriverLoadMachineTypeDefaults`: the loop over the coil
groups and the loop over the matrix groups. -/
def DriverLoadMachineTypeDefaults.configureGroups (h : Header) (p : MachineProfile)
    (updateDevice : Bool) (a4 : PRResult × PRDevice) : PRResult × PRDevice :=
  forLoop 10 (10 + p.numMatrixGroups)
    (DriverLoadMachineTypeDefaults.configureGroup h updateDevice
      (DriverLoadMachineTypeDefaults.matrixGroup p))
    (forLoop 4 (p.lastCoilDriverGroup + 1)
      (DriverLoadMachineTypeDefaults.configureGroup h updateDevice
        (DriverLoadMachineTypeDefaults.coilGroup p))
      a4)

/-! ## The read path -/

/-- The cursor step of the circular buffer: back to zero from `FTDI_BUFFER_SIZE-1`,
one further otherwise. -/
def nextAddr (h : Header) (addr : Nat) : Nat :=
  if addr + 1 = h.FTDI_BUFFER_SIZE then 0 else addr + 1

/-- The inner loop of `ReadData`, `for (i=0; i<4; i++)`: four bytes are taken at the
read cursor and put into a `uint32_t`, the first byte highest. The pair is
`buffer[j]` and `collected_bytes_rd_addr`. -/
def ReadData.word (h : Header) (fifo : Nat → Nat) (rd_addr : Nat) : Nat × Nat :=
  forLoop 0 4
    (fun i (a : Nat × Nat) =>
      ((((fifo a.2 % 256) <<< (24 - (i * 8))) ||| a.1) % 2 ^ 32, nextAddr h a.2))
    (0, rd_addr)

/-- `PRDevice::ReadData(buffer, num_words)`: the return value, the words stored into
`buffer[0 .. num_words-1]` (none when the call returns 0) and the device. -/
def ReadData (h : Header) (s : PRDevice) (num_words : Nat) : Nat × List Nat × PRDevice :=
  if num_words * 4 ≤ s.num_collected_bytes then
    let r := forLoop 0 num_words
      (fun _ (a : List Nat × Nat) =>
        let w := ReadData.word h s.collected_bytes_fifo a.2
        (a.1 ++ [w.1], w.2))
      ([], s.collected_bytes_rd_addr)
    (num_words, r.1,
      { s with
        collected_bytes_rd_addr := r.2
        num_collected_bytes := s.num_collected_bytes - num_words * 4 })
  else (0, [], s)

/-- `PRDevice::CollectReadData()`: the bytes the transport returns are stored at the
write cursor, in order. -/
def CollectReadData (h : Header) (s : PRDevice) : Nat × PRDevice :=
  let r := PRHardwareRead s.hw (h.FTDI_BUFFER_SIZE - s.num_collected_bytes)
  let rc := r.1.length
  let st := r.1.foldl
    (fun (a : (Nat → Nat) × Nat) byte =>
      (Function.update a.1 a.2 (byte % 256), nextAddr h a.2))
    (s.collected_bytes_fifo, s.collected_bytes_wr_addr)
  (rc,
    { s with
      collected_bytes_fifo := st.1
      collected_bytes_wr_addr := st.2
      num_collected_bytes := s.num_collected_bytes + rc
      hw := r.2 })

/-- `PRDevice::FlushReadBuffer()`; its return value is an uninitialised variable and
is left out. -/
def FlushReadBuffer (h : Header) (s : PRDevice) : PRDevice :=
  { (CollectReadData h s).2 with
    collected_bytes_rd_addr := 0
    collected_bytes_wr_addr := 0
    num_collected_bytes := 0 }

/-- One pass of the `while (num_words >= 2)` loop of `SortReturningData`, where
`num_words` is `num_collected_bytes/4` at every test. -/
def SortReturningData.step (h : Header) (s : PRDevice) : PRDevice :=
  let r := ReadData h s 1
  let rd_buffer0 := r.2.1.headD 0
  let s1 := r.2.2
  let command := (rd_buffer0 &&& h.P_ROC_COMMAND_MASK) >>> h.P_ROC_COMMAND_SHIFT
  if command = h.P_ROC_REQUESTED_DATA then
    let s2 := { s1 with requestedDataQueue := s1.requestedDataQueue ++ [rd_buffer0] }
    let r2 := ReadData h s2
      ((rd_buffer0 &&& h.P_ROC_HEADER_LENGTH_MASK) >>> h.P_ROC_HEADER_LENGTH_SHIFT)
    { r2.2.2 with requestedDataQueue := r2.2.2.requestedDataQueue ++ r2.2.1 }
  else if command = h.P_ROC_UNREQUESTED_DATA then
    let r2 := ReadData h s1 1
    { r2.2.2 with
      unrequestedDataQueue := r2.2.2.unrequestedDataQueue ++ [r2.2.1.headD rd_buffer0] }
  else s1

/-- The `while (num_words >= 2)` loop of `SortReturningData`, on fuel. -/
def SortReturningData.loop (h : Header) : Nat → PRDevice → Option PRDevice
  | fuel, s =>
    if s.num_collected_bytes / 4 ≥ 2 then
      match fuel with
      | 0 => none
      | fuel + 1 => SortReturningData.loop h fuel (SortReturningData.step h s)
    else some s

/-- `PRDevice::SortReturningData()`. Every pass of the loop takes at least one word
out of the buffer, so `num_collected_bytes` passes are never needed. -/
def SortReturningData (h : Header) (s : PRDevice) : Option (PRResult × PRDevice) :=
  let c := CollectReadData h s
  (SortReturningData.loop h c.2.num_collected_bytes c.2).map
    (fun s1 => (PRResult.kPRSuccess, s1))

/-! ## Events -/

/-- The body of the loop of `GetEvents`: the event decoded from one word of the
unrequested-data queue. -/
def GetEvents.decode (h : Header) (event_data : Nat) : PREvent :=
  let value := event_data &&& h.P_ROC_EVENT_SWITCH_NUM_MASK
  let isOpen : Bool :=
    (event_data &&& h.P_ROC_EVENT_SWITCH_STATE_MASK) >>> h.P_ROC_EVENT_SWITCH_STATE_SHIFT != 0
  let type := (event_data &&& h.P_ROC_EVENT_TYPE_MASK) >>> h.P_ROC_EVENT_TYPE_SHIFT
  if type = h.P_ROC_EVENT_TYPE_SWITCH then
    let debounced : Bool :=
      (event_data &&& h.P_ROC_EVENT_SWITCH_DEBOUNCED_MASK) >>>
        h.P_ROC_EVENT_SWITCH_DEBOUNCED_SHIFT != 0
    if isOpen then
      { type := if debounced then PREventType.kPREventTypeSwitchOpenDebounced
          else PREventType.kPREventTypeSwitchOpenNondebounced
        value := value }
    else
      { type := if debounced then PREventType.kPREventTypeSwitchClosedDebounced
          else PREventType.kPREventTypeSwitchOpenNondebounced
        value := value }
  else if type = h.P_ROC_EVENT_TYPE_DMD then
    { type := PREventType.kPREventTypeDMDFrameDisplayed, value := value }
  else { type := PREventType.kPREventTypeInvalid, value := value }

/-- The loop of `GetEvents`, `for (i = 0; (i < maxEvents) && !queue.empty(); i++)`:
the events stored and the queue left. -/
def GetEvents.loop (h : Header) : Nat → List Nat → List PREvent × List Nat
  | 0, queue => ([], queue)
  | _ + 1, [] => ([], [])
  | maxEvents + 1, event_data :: queue =>
    let r := GetEvents.loop h maxEvents queue
    (GetEvents.decode h event_data :: r.1, r.2)

/-- `PRDevice::GetEvents(events, maxEvents)`: the return value, the events stored
into `events` and the device. -/
def GetEvents (h : Header) (s : PRDevice) (maxEvents : Nat) :
    Option (Nat × List PREvent × PRDevice) :=
  (SortReturningData h s).map
    (fun r =>
      let l := GetEvents.loop h maxEvents r.2.unrequestedDataQueue
      (l.1.length, l.1, { r.2 with unrequestedDataQueue := l.2 }))

/-! ## Switch rules -/

/-- A counted `for` loop whose body can fail to give a result. -/
def forLoopM {σ : Type} (lo hi : Nat) (body : Nat → σ → Option σ) (init : σ) : Option σ :=
  (List.range' lo (hi - lo)).foldlM (fun s i => body i s) init

/-- `PRDevice::GetSwitchRuleByIndex(index)`. -/
def GetSwitchRuleByIndex (s : PRDevice) (index : Nat) : PRSwitchRuleInternal :=
  s.switchRules index

/-- The loop `while (oldRule->linkActive)` at lines 512 to 522 of `SwitchUpdateRule`,
on fuel: `oldRule` moves to the slot it links to, then the `linkIndex` field of
that slot is pushed on the free list. The result is `kPRFailure` when the list
grows beyond 128 entries, with the free list at that point. -/
def SwitchUpdateRule.freeOldLinks (switchRules : Nat → PRSwitchRuleInternal) :
    Nat → PRSwitchRuleInternal → List Nat → Option (PRResult × List Nat)
  | fuel, oldRule, free =>
    if oldRule.linkActive then
      match fuel with
      | 0 => none
      | fuel + 1 =>
        let oldRule1 := switchRules oldRule.linkIndex
        let free1 := free ++ [oldRule1.linkIndex]
        if free1.length > 128 then some (PRResult.kPRFailure, free1)
        else SwitchUpdateRule.freeOldLinks switchRules fuel oldRule1 free1
    else some (PRResult.kPRSuccess, free)

/-- The four words of `CreateSwitchUpdateRulesBurst(burst, rule)`. -/
def switchRuleBurst (h : Header) (rule : PRSwitchRuleInternal) : List Nat :=
  let b := h.CreateSwitchUpdateRulesBurst rule
  [b.1, b.2.1, b.2.2.1, b.2.2.2]

/-- Lines 563 to 572 of `SwitchUpdateRule`: after a failed write `res`, the base slot
is disabled and written again, and `res` is returned whatever the second write
gives. -/
def SwitchUpdateRule.revert (h : Header) (firstRuleIndex : Nat) (res : PRResult)
    (s : PRDevice) : PRResult × PRDevice :=
  let newRule : PRSwitchRuleInternal :=
    { GetSwitchRuleByIndex s firstRuleIndex with changeOutput := false, linkActive := false }
  let s1 := { s with switchRules := Function.update s.switchRules firstRuleIndex newRule }
  (res, (PrepareWriteData h s1 (switchRuleBurst h newRule)).2)

/-- The loop `while (numDrivers > 0)` at lines 536 to 577 of `SwitchUpdateRule`;
`newRuleIndex` is the index of the slot `newRule` points to. The result is
`none` when `front()` is called on an empty free list. -/
def SwitchUpdateRule.install (h : Header) (firstRuleIndex : Nat) :
    List PRDriverState → Nat → PRDevice → Option (PRResult × PRDevice)
  | [], _, s => some (PRResult.kPRSuccess, s)
  | driver :: linkedDrivers, newRuleIndex, s =>
    let newRule : PRSwitchRuleInternal :=
      { GetSwitchRuleByIndex s newRuleIndex with changeOutput := true, driver := driver }
    if linkedDrivers.length + 1 > 1 then
      match s.freeSwitchRuleIndexes with
      | [] => none
      | front :: free =>
        let newRule1 : PRSwitchRuleInternal :=
          { newRule with linkActive := true, linkIndex := front }
        let s1 := { s with
          switchRules := Function.update s.switchRules newRuleIndex newRule1
          freeSwitchRuleIndexes := free }
        let w := PrepareWriteData h s1 (switchRuleBurst h newRule1)
        if w.1 != PRResult.kPRSuccess then
          some (SwitchUpdateRule.revert h firstRuleIndex w.1 w.2)
        else SwitchUpdateRule.install h firstRuleIndex linkedDrivers newRule1.linkIndex w.2
    else
      let newRule1 : PRSwitchRuleInternal := { newRule with linkActive := false }
      let s1 := { s with switchRules := Function.update s.switchRules newRuleIndex newRule1 }
      let w := PrepareWriteData h s1 (switchRuleBurst h newRule1)
      if w.1 != PRResult.kPRSuccess then
        some (SwitchUpdateRule.revert h firstRuleIndex w.1 w.2)
      else SwitchUpdateRule.install h firstRuleIndex linkedDrivers newRuleIndex w.2

/-- `PRDevice::SwitchUpdateRule(switchNum, eventType, rule, linkedDrivers, numDrivers)`,
with `numDrivers` the length of `linkedDrivers`. The walk over the old links
gets 129 units of fuel. -/
def SwitchUpdateRule (h : Header) (s : PRDevice) (switchNum : Nat) (eventType : PREventType)
    (rule : PRSwitchRule) (linkedDrivers : List PRDriverState) :
    Option (PRResult × PRDevice) :=
  if switchNum > h.kPRSwitchPhysicalLast then some (PRResult.kPRFailure, s)
  else if linkedDrivers.length > 0 &&
      s.freeSwitchRuleIndexes.length < linkedDrivers.length - 1 then
    some (PRResult.kPRFailure, s)
  else
    let newRuleIndex := h.CreateSwitchRuleIndex switchNum eventType
    match SwitchUpdateRule.freeOldLinks s.switchRules 129
        (GetSwitchRuleByIndex s newRuleIndex) s.freeSwitchRuleIndexes with
    | none => none
    | some (PRResult.kPRFailure, free) =>
      some (PRResult.kPRFailure, { s with freeSwitchRuleIndexes := free })
    | some (PRResult.kPRSuccess, free) =>
      let s1 := { s with freeSwitchRuleIndexes := free }
      let firstRuleIndex := newRuleIndex
      let newRule : PRSwitchRuleInternal :=
        { GetSwitchRuleByIndex s1 newRuleIndex with
          notifyHost := rule.notifyHost, changeOutput := false, linkActive := false }
      let s2 := { s1 with switchRules := Function.update s1.switchRules newRuleIndex newRule }
      if linkedDrivers.length > 0 then
        SwitchUpdateRule.install h firstRuleIndex linkedDrivers newRuleIndex s2
      else some (PrepareWriteData h s2 (switchRuleBurst h newRule))

/-- Lines 507 to 588 of `SwitchUpdateRule`: what the function does once the range
check of line 493 and the free-index check of line 501 have let the call
through. -/
def SwitchUpdateRule.afterChecks (h : Header) (s : PRDevice) (switchNum : Nat)
    (eventType : PREventType) (rule : PRSwitchRule) (linkedDrivers : List PRDriverState) :
    Option (PRResult × PRDevice) :=
  let newRuleIndex := h.CreateSwitchRuleIndex switchNum eventType
  match SwitchUpdateRule.freeOldLinks s.switchRules 129
      (GetSwitchRuleByIndex s newRuleIndex) s.freeSwitchRuleIndexes with
  | none => none
  | some (PRResult.kPRFailure, free) =>
    some (PRResult.kPRFailure, { s with freeSwitchRuleIndexes := free })
  | some (PRResult.kPRSuccess, free) =>
    let s1 := { s with freeSwitchRuleIndexes := free }
    let firstRuleIndex := newRuleIndex
    let newRule : PRSwitchRuleInternal :=
      { GetSwitchRuleByIndex s1 newRuleIndex with
        notifyHost := rule.notifyHost, changeOutput := false, linkActive := false }
    let s2 := { s1 with switchRules := Function.update s1.switchRules newRuleIndex newRule }
    if linkedDrivers.length > 0 then
      SwitchUpdateRule.install h firstRuleIndex linkedDrivers newRuleIndex s2
    else some (PrepareWriteData h s2 (switchRuleBurst h newRule))

/-! ## Reset -/

/-- The body of the loop at lines 116 to 125 of `Reset`: the rule slot `i` gets the
switch number and event type parsed from its index and the global polarity,
and `i` is pushed on the free list when its switch number is virtual. -/
def Reset.initRule (h : Header) (i : Nat) (s : PRDevice) : PRDevice :=
  let parsed := h.ParseSwitchRuleIndex i
  let switchRule : PRSwitchRuleInternal :=
    { s.switchRules i with
      switchNum := parsed.1
      eventType := parsed.2
      driver := { (s.switchRules i).driver with
        polarity := s.driverGlobalConfig.globalPolarity } }
  { s with
    switchRules := Function.update s.switchRules i switchRule
    freeSwitchRuleIndexes :=
      if switchRule.switchNum ≥ h.kPRSwitchVirtualFirst
      then s.freeSwitchRuleIndexes ++ [i] else s.freeSwitchRuleIndexes }

/-- The loop `for (i = 0; i < kPRSwitchRulesCount; i++)` at lines 116 to 125 of
`Reset`. -/
def Reset.initRules (h : Header) (s : PRDevice) : PRDevice :=
  forLoop 0 h.kPRSwitchRulesCount (Reset.initRule h) s

/-- The loop at lines 131 to 141 of `Reset`: with the update flag, an empty rule is
sent for the four event types of every physical switch; the results are not
looked at. The `uint8_t` parameter `switchNum` receives `i`. -/
def Reset.clearRules (h : Header) (updateDevice : Bool) (s : PRDevice) : Option PRDevice :=
  let emptySwitchRule : PRSwitchRule := { notifyHost := false }
  forLoopM 0 h.kPRSwitchCount
    (fun i (s : PRDevice) =>
      if updateDevice && i ≤ h.kPRSwitchPhysicalLast then do
        let r1 ← SwitchUpdateRule h s (i % 256)
          PREventType.kPREventTypeSwitchOpenDebounced emptySwitchRule []
        let r2 ← SwitchUpdateRule h r1.2 (i % 256)
          PREventType.kPREventTypeSwitchClosedDebounced emptySwitchRule []
        let r3 ← SwitchUpdateRule h r2.2 (i % 256)
          PREventType.kPREventTypeSwitchOpenNondebounced emptySwitchRule []
        let r4 ← SwitchUpdateRule h r3.2 (i % 256)
          PREventType.kPREventTypeSwitchClosedNondebounced emptySwitchRule []
        some r4.2
      else some s)
    s

/-- Lines 89 to 97 of `Reset`: the cursors and the byte count of the circular buffer
are zeroed, the two data queues are emptied and the prepared-write counter is
zeroed. -/
def Reset.clearBuffers (s : PRDevice) : PRDevice :=
  { s with
    collected_bytes_rd_addr := 0
    collected_bytes_wr_addr := 0
    num_collected_bytes := 0
    unrequestedDataQueue := []
    requestedDataQueue := []
    numPreparedWriteWords := 0 }

/-- Line 99 of `Reset`:
`if (machineType != kPRMachineCustom) DriverLoadMachineTypeDefaults(machineType, resetFlags);`
the result of the call is not looked at. -/
def Reset.loadDefaults (h : Header) (s : PRDevice) (updateDevice : Bool) : Option PRDevice :=
  if s.machineType != PRMachineType.kPRMachineCustom then
    (DriverLoadMachineTypeDefaults h s s.machineType updateDevice).map Prod.snd
  else some s

/-- Lines 112 to 114 of `Reset`: the free list is emptied and the `maxSwitchRules`
slots of the rule table are zeroed. -/
def Reset.clearRuleTable (h : Header) (s : PRDevice) : PRDevice :=
  { s with
    freeSwitchRuleIndexes := []
    switchRules := fun i => if i < h.maxSwitchRules then zeroSwitchRule else s.switchRules i }

/-- `PRDevice::Reset(resetFlags)`; `updateDevice` is
`resetFlags & kPRResetFlagUpdateDevice`. -/
def Reset (h : Header) (s : PRDevice) (updateDevice : Bool) : Option (PRResult × PRDevice) :=
  (Reset.loadDefaults h (Reset.clearBuffers s) updateDevice).bind fun s2 =>
    (Reset.clearRules h updateDevice (Reset.initRules h (Reset.clearRuleTable h s2))).map
      fun s5 => (PRResult.kPRSuccess, s5)

/-! ## Register reads -/

/-- `PRDevice::RequestData(module_select, start_addr, num_words)`: the request word
is written to the transport at once, not through the prepared-write buffer. -/
def RequestData (h : Header) (s : PRDevice) (module_select start_addr num_words : Nat) :
    PRResult × PRDevice :=
  WriteData s [h.CreateRegRequestWord module_select start_addr num_words]

/-- What a call of `ReadDataRaw` leaves: its return value, the words stored into
`readBuffer`, the number of passes of its polling loop (one `PRSleep` and one
`SortReturningData` each) and the device. -/
structure ReadDataRawOutcome where
  result : PRResult
  readBuffer : List Nat
  passes : Nat
  device : PRDevice

/-- The loop `while (requestedDataQueue.size() < (numReadWords + 1) && i++ < 10)` of
`ReadDataRaw`; `budget` is `10 - i`. Each pass sleeps and calls
`SortReturningData`. The result is the number of passes made and the device
when the loop ends. -/
def ReadDataRaw.poll (h : Header) (numReadWords : Nat) : Nat → PRDevice → Option (Nat × PRDevice)
  | budget, s =>
    if s.requestedDataQueue.length < numReadWords + 1 then
      match budget with
      | 0 => some (0, s)
      | budget + 1 =>
        match SortReturningData h s with
        | none => none
        | some r =>
          match ReadDataRaw.poll h numReadWords budget r.2 with
          | none => none
          | some p => some (p.1 + 1, p.2)
    else some (0, s)

/-- The loop `for (i = 0; i < numReadWords; i++)` of `ReadDataRaw`: the front of the
queue is stored into `readBuffer[i]` and popped. The result is the words stored
and the queue left, and `none` when `front()` is called on an empty queue. -/
def ReadDataRaw.copy : Nat → List Nat → Option (List Nat × List Nat)
  | 0, queue => some ([], queue)
  | _ + 1, [] => none
  | numReadWords + 1, word :: queue =>
    match ReadDataRaw.copy numReadWords queue with
    | none => none
    | some r => some (word :: r.1, r.2)

/-- `PRDevice::ReadDataRaw(moduleSelect, startingAddr, numReadWords, readBuffer)`, for
`numReadWords ≥ 0`. -/
def ReadDataRaw (h : Header) (s : PRDevice) (moduleSelect startingAddr numReadWords : Nat) :
    Option ReadDataRawOutcome :=
  let s1 := (RequestData h s moduleSelect startingAddr numReadWords).2
  match ReadDataRaw.poll h numReadWords 10 s1 with
  | none => none
  | some (passes, s2) =>
    if s2.requestedDataQueue.length = numReadWords + 1 then
      match ReadDataRaw.copy numReadWords s2.requestedDataQueue.tail with
      | none => none
      | some (readBuffer, queue) =>
        some
          { result := PRResult.kPRSuccess
            readBuffer := readBuffer
            passes := passes
            device := { s2 with requestedDataQueue := queue } }
    else
      some { result := PRResult.kPRFailure, readBuffer := [], passes := passes, device := s2 }

/-! ## PRDevice::SwitchGetStates -/

/-- The loop at lines 603 to 609 of `SwitchGetStates`: for each block of 32 switches
one state word and one debounce word are requested; the results of
`RequestData` are not looked at. -/
def SwitchGetStates.request (h : Header) (blocks : Nat) (s : PRDevice) : PRDevice :=
  forLoop 0 blocks
    (fun i (s : PRDevice) =>
      let s1 := (RequestData h s h.P_ROC_BUS_SWITCH_CTRL_SELECT
        (h.P_ROC_SWITCH_CTRL_STATE_BASE_ADDR + i) 1).2
      (RequestData h s1 h.P_ROC_BUS_SWITCH_CTRL_SELECT
        (h.P_ROC_SWITCH_CTRL_DEBOUNCE_BASE_ADDR + i) 1).2)
    s

/-- The loop `while (requestedDataQueue.size() < numWords && i++ < 10)` of
`SwitchGetStates`; `budget` is `10 - i`. The result is the number of passes
made and the device when the loop ends. -/
def SwitchGetStates.poll (h : Header) (numWords : Nat) : Nat → PRDevice → Option (Nat × PRDevice)
  | budget, s =>
    if s.requestedDataQueue.length < numWords then
      match budget with
      | 0 => some (0, s)
      | budget + 1 =>
        match SortReturningData h s with
        | none => none
        | some r =>
          match SwitchGetStates.poll h numWords budget r.2 with
          | none => none
          | some p => some (p.1 + 1, p.2)
    else some (0, s)

/-- Lines 645 to 649 of `SwitchGetStates`: the event type of the state bit and the
debounce bit at position `j`. -/
def SwitchGetStates.eventType (stateWord debounceWord j : Nat) : PREventType :=
  if (stateWord >>> j) &&& 1 ≠ 0 then
    if (debounceWord >>> j) &&& 1 ≠ 0 then PREventType.kPREventTypeSwitchOpenDebounced
    else PREventType.kPREventTypeSwitchOpenNondebounced
  else if (debounceWord >>> j) &&& 1 ≠ 0 then PREventType.kPREventTypeSwitchClosedDebounced
  else PREventType.kPREventTypeSwitchClosedNondebounced

/-- The loop `for (j = 0; j < 32; j++)` at lines 640 to 652 of `SwitchGetStates` for
block `i`. -/
def SwitchGetStates.bits (numSwitches i stateWord debounceWord : Nat)
    (switchStates : Nat → PREventType) : Nat → PREventType :=
  forLoop 0 32
    (fun j (switchStates : Nat → PREventType) =>
      if (i * 32) + j < numSwitches then
        Function.update switchStates ((i * 32) + j)
          (SwitchGetStates.eventType stateWord debounceWord j)
      else switchStates)
    switchStates

/-- One pass of the loop at lines 630 to 653 of `SwitchGetStates`: an address word
is popped, the state word is read and popped, an address word is popped, the
debounce word is read and popped, and the 32 bits are stored. The pair is the
array `switchStates` and the requested-data queue; the result is `none` when
the queue runs out. -/
def SwitchGetStates.block (numSwitches i : Nat) (a : (Nat → PREventType) × List Nat) :
    Option ((Nat → PREventType) × List Nat) :=
  match a.2 with
  | _ :: stateWord :: _ :: debounceWord :: queue =>
    some (SwitchGetStates.bits numSwitches i stateWord debounceWord a.1, queue)
  | _ => none

/-- What a call of `SwitchGetStates` leaves: its return value, the array
`switchStates`, the number of passes of its polling loop and the device. -/
structure SwitchGetStatesOutcome where
  result : PRResult
  switchStates : Nat → PREventType
  passes : Nat
  device : PRDevice

/-- `PRDevice::SwitchGetStates(switchStates, numSwitches)`, with `switchStates` the
array of the caller before the call. The loop counter `i` is a `uint8_t`:
when `numSwitches / 32` is above 255 it never reaches the bound of the first
loop, which does not end (`none`). -/
def SwitchGetStates (h : Header) (s : PRDevice) (switchStates : Nat → PREventType)
    (numSwitches : Nat) : Option SwitchGetStatesOutcome :=
  if numSwitches / 32 > 255 then none
  else
    let s1 := SwitchGetStates.request h (numSwitches / 32) s
    let numWords := (4 * (numSwitches / 32)) % 2 ^ 16
    match SwitchGetStates.poll h numWords 10 s1 with
    | none => none
    | some (passes, s2) =>
      if s2.requestedDataQueue.length = numWords then
        match forLoopM 0 (numSwitches / 32) (SwitchGetStates.block numSwitches)
            (switchStates, s2.requestedDataQueue) with
        | none => none
        | some (states, queue) =>
          some
            { result := PRResult.kPRSuccess
              switchStates := states
              passes := passes
              device := { s2 with requestedDataQueue := queue } }
      else
        some
          { result := PRResult.kPRFailure, switchStates := switchStates, passes := passes,
            device := s2 }

/-! ## PRDevice::Open -/

/-- `PRDevice::DMDUpdateConfig(dmdConfig)`. The array `burst` is what
`CreateDMDUpdateConfigBurst(burst, dmdConfig)` fills (its code is not under
`src/`); `burstWords = 7` words of it are submitted. The copy of `*dmdConfig`
into the member `dmdConfig` is not modelled. -/
def DMDUpdateConfig (h : Header) (s : PRDevice) (burst : Nat → Nat) : PRResult × PRDevice :=
  PrepareWriteData h s (readArr burst 7)

/-- `PRDevice::SwitchUpdateConfig(switchConfig)`. The array `burst` is what
`CreateSwitchUpdateConfigBurst(burst, switchConfig)` fills (its code is not under
`src/`); `burstWords = 4` words of it are submitted. The copy of `*switchConfig`
into the member `switchConfig` is not modelled. -/
def SwitchUpdateConfig (h : Header) (s : PRDevice) (burst : Nat → Nat) : PRResult × PRDevice :=
  PrepareWriteData h s (readArr burst 4)

/-- The loop `while (num_collected_bytes < (bufferWords*4) && max_count < 10)` of
`VerifyChipID`, with `bufferWords = 5`; `budget` is `10 - max_count`. Each pass
sleeps and calls `CollectReadData`. The result is the number of passes made
(`max_count` when the loop ends) and the device. -/
def VerifyChipID.wait (h : Header) : Nat → PRDevice → Nat × PRDevice
  | 0, s => (0, s)
  | budget + 1, s =>
    if s.num_collected_bytes < 5 * 4 then
      let r := VerifyChipID.wait h budget (CollectReadData h s).2
      (r.1 + 1, r.2)
    else (0, s)

/-- `PRDevice::VerifyChipID()`. On the path on which `ReadData` does not return 5
words the variable `rc` that is returned still holds what `RequestData` or the
last `CollectReadData` stored in it (a byte count in the second case), which
is not a `PRResult`: `none`. -/
def VerifyChipID (h : Header) (s : PRDevice) : Option (PRResult × PRDevice) :=
  let s1 := (RequestData h s h.P_ROC_MANAGER_SELECT h.P_ROC_REG_CHIP_ID_ADDR 4).2
  let w := VerifyChipID.wait h 10 s1
  if w.1 ≠ 10 then
    let r := ReadData h w.2 5
    let buffer := r.2.1
    if r.1 = 5 then
      let rc :=
        if buffer.getD 1 0 ≠ h.P_ROC_CHIP_ID then PRResult.kPRFailure
        else PRResult.kPRSuccess
      let readMachineType :=
        if h.IsStern (buffer.getD 4 0) then PRMachineType.kPRMachineSternWhitestar
        else PRMachineType.kPRMachineWPC
      some (rc, { r.2.2 with readMachineType := readMachineType })
    else none
  else some (PRResult.kPRFailure, w.2)

/-- The loop `while (VerifyChipID() == kPRFailure && verify_ctr++ < 50)` at lines 827
to 843 of `Open`; `budget` is `50 - verify_ctr` and `res` the variable of that
name. A pass flushes the read buffer, writes the two words of the
initialisation sequence and stores the result of another `VerifyChipID` in
`res`. -/
def Open.verify (h : Header) : Nat → PRResult → PRDevice → Option (PRResult × PRDevice)
  | budget, res, s =>
    (VerifyChipID h s).bind fun r =>
      if r.1 = PRResult.kPRFailure then
        match budget with
        | 0 => some (res, r.2)
        | budget + 1 =>
          let s2 := FlushReadBuffer h r.2
          let s3 := (WriteData s2 [h.P_ROC_INIT_PATTERN_A]).2
          let s4 := (WriteData s3 [h.P_ROC_INIT_PATTERN_B]).2
          (VerifyChipID h s4).bind fun r1 => Open.verify h budget r1.1 r1.2
      else some (res, r.2)

/-- `PRDevice::Open()`. `hardwareOpen` is the result of `PRHardwareOpen()` (its code
is not under `src/`), `dmdBurst` and `switchBurst` are the words made of the two
local configuration records of lines 800 to 819. -/
def Open (h : Header) (s : PRDevice) (hardwareOpen : PRResult) (dmdBurst switchBurst : Nat → Nat) :
    Option (PRResult × PRDevice) :=
  if hardwareOpen = PRResult.kPRSuccess then
    let s1 := (DMDUpdateConfig h s dmdBurst).2
    let s2 := (SwitchUpdateConfig h s1 switchBurst).2
    let s3 := FlushReadBuffer h s2
    Open.verify h 50 PRResult.kPRSuccess s3
  else some (hardwareOpen, s)

/-! ## A sample valuation of the header parameters

The general theorems quantify over `Header`. Where a statement has to be closed,
it is taken at `sampleHeader`: 256 drivers in 26 groups, 256 switches of which
the numbers 224 to 255 are virtual, a rule index made of the switch number in
bits 0 to 7, the state in bit 8 and the debounce flag in bit 9, a circular
buffer of 2048 bytes, and word builders that only list a few of the fields they
are given (no theorem depends on the layout of a burst). -/

/-- The index of the rule slot of a switch and an event type in `sampleHeader`. -/
def sampleCreateSwitchRuleIndex (switchNum : Nat) (eventType : PREventType) : Nat :=
  let debounce : Nat :=
    if eventType = PREventType.kPREventTypeSwitchOpenDebounced ∨
      eventType = PREventType.kPREventTypeSwitchClosedDebounced then 1 else 0
  let state : Nat :=
    if eventType = PREventType.kPREventTypeSwitchOpenDebounced ∨
      eventType = PREventType.kPREventTypeSwitchOpenNondebounced then 1 else 0
  (debounce <<< 9) ||| (state <<< 8) ||| (switchNum % 256)

/-- The switch number and event type of a rule index in `sampleHeader`. -/
def sampleParseSwitchRuleIndex (index : Nat) : Nat × PREventType :=
  (index &&& 0xff,
    if (index >>> 9) &&& 1 = 1 then
      (if (index >>> 8) &&& 1 = 1 then PREventType.kPREventTypeSwitchOpenDebounced
        else PREventType.kPREventTypeSwitchClosedDebounced)
    else
      (if (index >>> 8) &&& 1 = 1 then PREventType.kPREventTypeSwitchOpenNondebounced
        else PREventType.kPREventTypeSwitchClosedNondebounced))

/-- The sample valuation of the header parameters. -/
def sampleHeader : Header :=
  { kPRDriverCount := 256
    kPRDriverGroupsMax := 26
    kPRSwitchCount := 256
    kPRSwitchPhysicalLast := 223
    kPRSwitchVirtualFirst := 224
    kPRSwitchRulesCount := 1024
    maxSwitchRules := 1024
    maxWriteWords := 1536
    FTDI_BUFFER_SIZE := 2048
    P_ROC_EVENT_TYPE_MASK := 0xC00
    P_ROC_EVENT_TYPE_SHIFT := 10
    P_ROC_EVENT_TYPE_SWITCH := 0
    P_ROC_EVENT_TYPE_DMD := 1
    P_ROC_EVENT_SWITCH_NUM_MASK := 0xFF
    P_ROC_EVENT_SWITCH_STATE_MASK := 0x100
    P_ROC_EVENT_SWITCH_STATE_SHIFT := 8
    P_ROC_EVENT_SWITCH_DEBOUNCED_MASK := 0x200
    P_ROC_EVENT_SWITCH_DEBOUNCED_SHIFT := 9
    P_ROC_COMMAND_MASK := 0x80000000
    P_ROC_COMMAND_SHIFT := 31
    P_ROC_REQUESTED_DATA := 0
    P_ROC_UNREQUESTED_DATA := 1
    P_ROC_HEADER_LENGTH_MASK := 0x7FF00000
    P_ROC_HEADER_LENGTH_SHIFT := 20
    CreateSwitchRuleIndex := sampleCreateSwitchRuleIndex
    ParseSwitchRuleIndex := sampleParseSwitchRuleIndex
    CreateDriverUpdateBurst := fun d => (d.driverNum, d.timeslots, d.outputDriveTime)
    CreateDriverUpdateGlobalConfigBurst := fun g => (g.startStrobeTime, g.matrixRowEnableIndex0)
    CreateWatchdogConfigBurst := fun _ _ t => (0, t)
    CreateDriverUpdateGroupConfigBurst := fun g => (g.groupNum, g.enableIndex)
    CreateSwitchUpdateRulesBurst := fun r => (r.switchNum, r.linkIndex, r.driver.driverNum, 0)
    CreateRegRequestWord := fun m a n => (m <<< 28) ||| (n <<< 16) ||| a
    P_ROC_BUS_SWITCH_CTRL_SELECT := 2
    P_ROC_SWITCH_CTRL_STATE_BASE_ADDR := 4
    P_ROC_SWITCH_CTRL_DEBOUNCE_BASE_ADDR := 12
    P_ROC_MANAGER_SELECT := 0
    P_ROC_REG_CHIP_ID_ADDR := 0
    P_ROC_CHIP_ID := 0xfeedbeef
    P_ROC_INIT_PATTERN_A := 0x801F1122
    P_ROC_INIT_PATTERN_B := 0x345678AB
    IsStern := fun hardware_data => (hardware_data >>> 8) &&& 1 == 1 }

/-- A transport with nothing pending, nothing written and no scripted reply. -/
def idleHardware : Hardware :=
  { rxPending := [], txLog := [], txReplies := [] }

/-- A device object with the given machine types whose other members are zero or
empty (the constructor leaves them uninitialised before it calls `Reset`). -/
def blankDevice (machineType readMachineType : PRMachineType) : PRDevice :=
  { machineType := machineType
    readMachineType := readMachineType
    collected_bytes_rd_addr := 0
    collected_bytes_wr_addr := 0
    num_collected_bytes := 0
    collected_bytes_fifo := fun _ => 0
    unrequestedDataQueue := []
    requestedDataQueue := []
    numPreparedWriteWords := 0
    preparedWriteWords := fun _ => 0
    wr_buffer := fun _ => 0
    freeSwitchRuleIndexes := []
    switchRules := fun _ => zeroSwitchRule
    drivers := fun _ => zeroDriverState
    driverGroups := fun _ => zeroDriverGroupConfig
    driverGlobalConfig := zeroDriverGlobalConfig
    hw := idleHardware }

/-! ## Notions used by the statements -/

/-- The circular-buffer invariant of the collected-bytes buffer: the byte count is
at most `FTDI_BUFFER_SIZE`, both cursors are below it, and the write cursor is
the read cursor advanced by the byte count, modulo `FTDI_BUFFER_SIZE`. -/
def BufferInvariant (h : Header) (s : PRDevice) : Prop :=
  s.num_collected_bytes ≤ h.FTDI_BUFFER_SIZE ∧
  s.collected_bytes_rd_addr < h.FTDI_BUFFER_SIZE ∧
  s.collected_bytes_wr_addr < h.FTDI_BUFFER_SIZE ∧
  s.collected_bytes_wr_addr =
    (s.collected_bytes_rd_addr + s.num_collected_bytes) % h.FTDI_BUFFER_SIZE

instance (h : Header) (s : PRDevice) : Decidable (BufferInvariant h s) := by
  unfold BufferInvariant
  infer_instance

/-- The buffered byte at FIFO position `k` counted from the read cursor, wrapping at
`FTDI_BUFFER_SIZE`; a cell of `collected_bytes_fifo` is a `uint8_t`. -/
def fifoByte (h : Header) (s : PRDevice) (k : Nat) : Nat :=
  s.collected_bytes_fifo ((s.collected_bytes_rd_addr + k) % h.FTDI_BUFFER_SIZE) % 256

/-- The value whose four bytes, most significant first, are `b0`, `b1`, `b2`, `b3`. -/
def bigEndianWord (b0 b1 b2 b3 : Nat) : Nat :=
  b0 * 2 ^ 24 + b1 * 2 ^ 16 + b2 * 2 ^ 8 + b3

/-- The value whose bytes, most significant first, are the buffered bytes at FIFO
positions `4*j` to `4*j+3`. -/
def fifoWord (h : Header) (s : PRDevice) (j : Nat) : Nat :=
  bigEndianWord (fifoByte h s (4 * j)) (fifoByte h s (4 * j + 1)) (fifoByte h s (4 * j + 2))
    (fifoByte h s (4 * j + 3))

/-- A device whose circular buffer holds 8 bytes across the wrap-around point: the
read cursor is at 2046, the byte at address `i` is `i % 256`. -/
def wrappedBufferDevice : PRDevice :=
  { blankDevice PRMachineType.kPRMachineCustom PRMachineType.kPRMachineWPC with
    collected_bytes_rd_addr := 2046
    collected_bytes_wr_addr := 6
    num_collected_bytes := 8
    collected_bytes_fifo := fun i => i % 256 }

/-- The free list of the sample header after `Reset`, without its first two entries
224 and 225. -/
def samplePoolRest : List Nat :=
  List.range' 226 30 ++ List.range' 480 32 ++ List.range' 736 32 ++ List.range' 992 32

/-- A constant-on state (`timeslots = 0`, `outputDriveTime = 0`) for driver 40, a
high-current output of both machine families. -/
def constantOnDriver40 : PRDriverState :=
  { zeroDriverState with driverNum := 40, timeslots := 0, outputDriveTime := 0 }

/-- The bytes of a list of 32-bit words on the wire: four bytes for each word in
order, the most significant byte first. -/
def wireBytes : List Nat → List Nat
  | [] => []
  | w :: ws =>
    (((w % 2 ^ 32) >>> 24) &&& 0xFF) :: (((w % 2 ^ 32) >>> 16) &&& 0xFF) ::
      (((w % 2 ^ 32) >>> 8) &&& 0xFF) :: ((w % 2 ^ 32) &&& 0xFF) :: wireBytes ws

/-- All the words of a sequence of word lists, in order. -/
def allWords : List (List Nat) → List Nat
  | [] => []
  | words :: calls => words ++ allWords calls

/-- A sequence of `PrepareWriteData` calls, one for each word list: the results of
the calls in order and the device after the last one. -/
def prepareAll (h : Header) : List (List Nat) → PRDevice → List PRResult × PRDevice
  | [], s => ([], s)
  | words :: calls, s =>
    ((PrepareWriteData h s words).1 :: (prepareAll h calls (PrepareWriteData h s words).2).1,
      (prepareAll h calls (PrepareWriteData h s words).2).2)

/-- The requested-data queue is shorter than `numReadWords + 1` now and after each of
the next `k` calls of `SortReturningData`: the transport never delivers
enough reply words during `k` polls. -/
def ReadDataRaw.starved (h : Header) (numReadWords : Nat) : Nat → PRDevice → Bool
  | 0, s => decide (s.requestedDataQueue.length < numReadWords + 1)
  | k + 1, s =>
    decide (s.requestedDataQueue.length < numReadWords + 1) &&
      match SortReturningData h s with
      | none => false
      | some r => ReadDataRaw.starved h numReadWords k r.2

/-- The command field of a returned word. -/
def commandField (h : Header) (word : Nat) : Nat :=
  (word &&& h.P_ROC_COMMAND_MASK) >>> h.P_ROC_COMMAND_SHIFT

/-- The length field of a returned header word. -/
def lengthField (h : Header) (word : Nat) : Nat :=
  (word &&& h.P_ROC_HEADER_LENGTH_MASK) >>> h.P_ROC_HEADER_LENGTH_SHIFT

/-- A reply frame: a solicited frame is a header word followed by payload words, an
unsolicited frame is a header word followed by one data word. -/
inductive ReplyFrame where
  | solicited (header : Nat) (payload : List Nat)
  | unsolicited (header : Nat) (data : Nat)
deriving DecidableEq, Repr

/-- A solicited frame is complete when the command field of its header is
`P_ROC_REQUESTED_DATA` and the length field is the number of its payload words;
the command field of the header of an unsolicited frame is
`P_ROC_UNREQUESTED_DATA`. -/
def ReplyFrame.Complete (h : Header) : ReplyFrame → Prop
  | ReplyFrame.solicited header payload =>
    commandField h header = h.P_ROC_REQUESTED_DATA ∧ lengthField h header = payload.length
  | ReplyFrame.unsolicited header _ => commandField h header = h.P_ROC_UNREQUESTED_DATA

instance (h : Header) (f : ReplyFrame) : Decidable (ReplyFrame.Complete h f) := by
  cases f <;> unfold ReplyFrame.Complete <;> infer_instance

/-- The words of a frame in the order of the wire. -/
def ReplyFrame.words : ReplyFrame → List Nat
  | ReplyFrame.solicited header payload => header :: payload
  | ReplyFrame.unsolicited header data => [header, data]

/-- The words of a sequence of frames in arrival order. -/
def frameWords : List ReplyFrame → List Nat
  | [] => []
  | f :: frames => f.words ++ frameWords frames

/-- The header and payload words of the solicited frames of a sequence, in arrival
order. -/
def solicitedWords : List ReplyFrame → List Nat
  | [] => []
  | ReplyFrame.solicited header payload :: frames => header :: payload ++ solicitedWords frames
  | ReplyFrame.unsolicited _ _ :: frames => solicitedWords frames

/-- The data words of the unsolicited frames of a sequence, in arrival order. -/
def unsolicitedWords : List ReplyFrame → List Nat
  | [] => []
  | ReplyFrame.solicited _ _ :: frames => unsolicitedWords frames
  | ReplyFrame.unsolicited _ data :: frames => data :: unsolicitedWords frames

/-- The last frame of the sequence is a single word, that is a solicited frame whose
length field is 0. -/
def endsWithBareHeader : List ReplyFrame → Bool
  | [] => false
  | [f] => decide (f.words.length < 2)
  | _ :: g :: frames => endsWithBareHeader (g :: frames)

/-- The whole words held by the circular buffer, oldest first. -/
def bufferWords (h : Header) (s : PRDevice) : List Nat :=
  (List.range (s.num_collected_bytes / 4)).map (fifoWord h s)

/-- A device object with empty buffers and queues whose transport has one pending
chunk of reply bytes. -/
def deviceWithReplies (bytes : List Nat) : PRDevice :=
  { blankDevice PRMachineType.kPRMachineWPC PRMachineType.kPRMachineWPC with
    hw := { idleHardware with rxPending := [bytes] } }

/-- Three frames of the sample header: an unsolicited frame, a solicited frame with
two payload words, and another unsolicited frame. -/
def sampleFrames : List ReplyFrame :=
  [ReplyFrame.unsolicited 0x80000000 5, ReplyFrame.solicited 0x00200000 [7, 8],
    ReplyFrame.unsolicited 0x80000001 6]

/-- The state `constantOnDriver40` with the polarity bit set. -/
def reversedDriver40 : PRDriverState :=
  { constantOnDriver40 with polarity := true }

/-- The bytes a device has been given to send, in order: the bytes of every
transport write made so far followed by the bytes of the words waiting in the
prepared-write buffer. -/
def submittedBytes (s : PRDevice) : List Nat :=
  s.hw.txLog.flatten ++ wireBytes (readArr s.preparedWriteWords s.numPreparedWriteWords)

/-- The sample header with room for four words only in the prepared-write buffer. -/
def tightHeader : Header :=
  { sampleHeader with maxWriteWords := 4 }

/-- A device object for `tightHeader` whose prepared-write buffer is full (the words
1, 2, 3, 4) and whose transport will report that no byte of the next write was
written. -/
def fullBufferDevice : PRDevice :=
  { blankDevice PRMachineType.kPRMachineWPC PRMachineType.kPRMachineWPC with
    numPreparedWriteWords := 4
    preparedWriteWords := fun i => i + 1
    hw := { idleHardware with txReplies := [0] } }

/-- A rule table in which every slot has an active link to slot 5, so that the chain
of slot 5 is a cycle, with an empty free pool. -/
def cyclicDevice : PRDevice :=
  { blankDevice PRMachineType.kPRMachineWPC PRMachineType.kPRMachineWPC with
    switchRules := fun _ => { zeroSwitchRule with linkActive := true, linkIndex := 5 } }

/-- A device object with empty buffers and queues whose transport will deliver the
given chunks of reply bytes, one for each read. -/
def deviceWithChunks (chunks : List (List Nat)) : PRDevice :=
  { blankDevice PRMachineType.kPRMachineWPC PRMachineType.kPRMachineWPC with
    hw := { idleHardware with rxPending := chunks } }

/-- The queues and the byte count a drain leaves. -/
def drained (r : Option (PRResult × PRDevice)) : Option (List Nat × List Nat × Nat) :=
  r.map (fun r => (r.2.requestedDataQueue, r.2.unrequestedDataQueue, r.2.num_collected_bytes))

/-- The three words of `CreateDriverUpdateBurst(burst, driver)`. -/
def driverStateBurst (h : Header) (driver : PRDriverState) : List Nat :=
  let b := h.CreateDriverUpdateBurst driver
  [b.1, b.2.1, b.2.2]

/-- The four words `DriverUpdateGlobalConfig` builds: the two words of
`CreateDriverUpdateGlobalConfigBurst` and the two words of
`CreateWatchdogConfigBurst`. -/
def globalConfigBurst (h : Header) (g : PRDriverGlobalConfig) : List Nat :=
  let b := h.CreateDriverUpdateGlobalConfigBurst g
  let w := h.CreateWatchdogConfigBurst g.watchdogExpired g.watchdogEnable g.watchdogResetTime
  [b.1, b.2, w.1, w.2]

/-- The two words of `CreateDriverUpdateGroupConfigBurst(burst, group)`. -/
def groupConfigBurst (h : Header) (g : PRDriverGroupConfig) : List Nat :=
  let b := h.CreateDriverUpdateGroupConfigBurst g
  [b.1, b.2]

/-- A call leaves the read path as it was: the cursors and the byte count of the
circular buffer and the two data queues are unchanged, and a transport that
took whole writes before still does. -/
def KeepsReadPath (s t : PRDevice) : Prop :=
  t.collected_bytes_rd_addr = s.collected_bytes_rd_addr ∧
  t.collected_bytes_wr_addr = s.collected_bytes_wr_addr ∧
  t.num_collected_bytes = s.num_collected_bytes ∧
  t.unrequestedDataQueue = s.unrequestedDataQueue ∧
  t.requestedDataQueue = s.requestedDataQueue ∧
  (s.hw.txReplies = [] → t.hw.txReplies = [])

/-- The polarity of a machine family: `false` for WPC and WPC95, `true` for
Stern Whitestar and Stern SAM. -/
def familyPolarity : PRMachineType → Bool
  | PRMachineType.kPRMachineSternWhitestar | PRMachineType.kPRMachineSternSAM => true
  | _ => false

/-- The reference group table of a machine family, `stern` being its polarity.
WPC family: groups 4 to 9 are coil groups with the enable indices 0, 2, 4, 3,
1, 5 and groups 10 to 17 are matrix groups with enable index 7, row activate
index `g - 10` and slow time 400. Stern family: groups 4 to 7 are coil groups
with the enable indices 1, 0, 2, 3 and groups 10 to 25 are matrix groups with
enable index 8 for even `g` and 9 for odd `g`, row activate index
`(g - 10) / 2` and slow time 400. A coil group is active, not matrixed, with
slow time 0; a matrix group is active, matrixed, with `disableStrobeAfter`
set. Every other group is inactive with all remaining fields zero. Every
record has its own number and the family polarity. -/
def referenceGroup (stern : Bool) (g : Nat) : PRDriverGroupConfig :=
  if stern then
    if 4 ≤ g ∧ g ≤ 7 then
      { groupNum := g, slowTime := 0, enableIndex := [1, 0, 2, 3].getD (g - 4) 0,
        rowActivateIndex := 0, rowEnableSelect := 0, matrixed := false, polarity := true,
        active := true, disableStrobeAfter := false }
    else if 10 ≤ g ∧ g ≤ 25 then
      { groupNum := g, slowTime := 400, enableIndex := if g % 2 = 0 then 8 else 9,
        rowActivateIndex := (g - 10) / 2, rowEnableSelect := 0, matrixed := true,
        polarity := true, active := true, disableStrobeAfter := true }
    else { zeroDriverGroupConfig with groupNum := g, polarity := true }
  else
    if 4 ≤ g ∧ g ≤ 9 then
      { groupNum := g, slowTime := 0, enableIndex := [0, 2, 4, 3, 1, 5].getD (g - 4) 0,
        rowActivateIndex := 0, rowEnableSelect := 0, matrixed := false, polarity := false,
        active := true, disableStrobeAfter := false }
    else if 10 ≤ g ∧ g ≤ 17 then
      { groupNum := g, slowTime := 400, enableIndex := 7, rowActivateIndex := g - 10,
        rowEnableSelect := 0, matrixed := true, polarity := false, active := true,
        disableStrobeAfter := true }
    else { zeroDriverGroupConfig with groupNum := g, polarity := false }

/-- The words `DriverLoadMachineTypeDefaults` builds for the driver records: one
burst of `CreateDriverUpdateBurst` for each driver, in ascending order. -/
def clearedDriverBursts (h : Header) (p : MachineProfile) : List Nat :=
  ((List.range h.kPRDriverCount).map (fun i =>
    driverStateBurst h (DriverLoadMachineTypeDefaults.clearedDriver p i))).flatten

/-- The words `DriverLoadMachineTypeDefaults` builds for the group records: one
burst of `CreateDriverUpdateGroupConfigBurst` for each coil group and then for
each matrix group, in ascending order. -/
def configuredGroupBursts (h : Header) (p : MachineProfile) : List Nat :=
  ((List.range' 4 (p.lastCoilDriverGroup + 1 - 4)).map (fun g =>
    groupConfigBurst h (DriverLoadMachineTypeDefaults.coilGroup p
      (DriverLoadMachineTypeDefaults.clearedGroup p g) g))).flatten ++
  ((List.range' 10 p.numMatrixGroups).map (fun g =>
    groupConfigBurst h (DriverLoadMachineTypeDefaults.matrixGroup p
      (DriverLoadMachineTypeDefaults.clearedGroup p g) g))).flatten

/-- The free pool `Reset` builds: the rule indices below `kPRSwitchRulesCount` whose
decoded switch number is at least `kPRSwitchVirtualFirst`, in ascending order. -/
def virtualRuleIndexes (h : Header) : List Nat :=
  (List.range h.kPRSwitchRulesCount).filter
    (fun i => decide ((h.ParseSwitchRuleIndex i).1 ≥ h.kPRSwitchVirtualFirst))

/-- The chain of links that starts at slot `idx` carries the reactions `ds`, one for
each slot, and goes through the slots `taken` in order: every slot of the
chain has `changeOutput` set and the reaction of its position as driver, every
slot but the last has an active link to the next index of `taken`, the last
one has an inactive link. For no reaction, the slot `idx` has `changeOutput`
clear and an inactive link. -/
def LinkedChain (rules : Nat → PRSwitchRuleInternal) :
    Nat → List PRDriverState → List Nat → Prop
  | idx, [], taken =>
    (rules idx).changeOutput = false ∧ (rules idx).linkActive = false ∧ taken = []
  | idx, [d], taken =>
    (rules idx).changeOutput = true ∧ (rules idx).driver = d ∧
      (rules idx).linkActive = false ∧ taken = []
  | _, _ :: _ :: _, [] => False
  | idx, d :: d2 :: ds, next :: taken =>
    (rules idx).changeOutput = true ∧ (rules idx).driver = d ∧
      (rules idx).linkActive = true ∧ (rules idx).linkIndex = next ∧
      LinkedChain rules next (d2 :: ds) taken

/-- Bit `j` of the word `w`. -/
def wordBit (w j : Nat) : Bool :=
  decide (w / 2 ^ j % 2 = 1)

/-- The event type the text gives for a state bit and a debounce bit: state 1 is
open, state 0 is closed; debounce 1 is debounced, debounce 0 is not. -/
def switchStateOf : Bool → Bool → PREventType
  | true, true => PREventType.kPREventTypeSwitchOpenDebounced
  | true, false => PREventType.kPREventTypeSwitchOpenNondebounced
  | false, true => PREventType.kPREventTypeSwitchClosedDebounced
  | false, false => PREventType.kPREventTypeSwitchClosedNondebounced

/-- A device object with empty buffers and queues whose transport has the replies to
one state request (the word 5) and one debounce request (the word 3) pending,
each a solicited frame of the sample header with one payload word. -/
def oneBlockDevice : PRDevice :=
  deviceWithReplies (wireBytes [0x00100000, 0x5, 0x00100000, 0x3])

/-- What is compared of the outcome of `SwitchGetStates`: the result, the first
`n` entries of `switchStates`, the passes of the polling loop and the solicited
queue it leaves. -/
def outcomeView (n : Nat) (r : SwitchGetStatesOutcome) :
    PRResult × List PREventType × Nat × List Nat :=
  (r.result, (List.range n).map r.switchStates, r.passes, r.device.requestedDataQueue)

/-- The bytes held by the circular buffer, oldest first. -/
def bufferBytes (h : Header) (s : PRDevice) : List Nat :=
  (List.range s.num_collected_bytes).map (fifoByte h s)

/-- The words made of the first `4 * n` bytes of a byte list, four bytes each, the
first byte of a word highest. -/
def leadingWords (bytes : List Nat) (n : Nat) : List Nat :=
  (List.range n).map (fun j =>
    bigEndianWord (bytes.getD (4 * j) 0) (bytes.getD (4 * j + 1) 0) (bytes.getD (4 * j + 2) 0)
      (bytes.getD (4 * j + 3) 0))

/-- A device object for a Stern-SAM request whose `readMachineType` holds
`kPRMachineWPC95` before `Open`, with empty buffers and queues; the transport
has nothing for the flush at the start of `Open` and then delivers the reply
to the chip-identity request: the address word, the chip identity of the
sample header, a version word, the watchdog settings and a switch word that
`IsStern` of the sample header does not take for a Stern board. -/
def chipReplyDevice : PRDevice :=
  { deviceWithChunks [[], wireBytes [0x00400000, 0xfeedbeef, 0x00010002, 0, 0]] with
    machineType := PRMachineType.kPRMachineSternSAM
    readMachineType := PRMachineType.kPRMachineWPC95 }

/-- The machine types `VerifyChipID` stores as the type the board reports. -/
def StoredByVerifyChipID (readMachineType : PRMachineType) : Prop :=
  readMachineType = PRMachineType.kPRMachineWPC ∨
    readMachineType = PRMachineType.kPRMachineSternWhitestar

/-- The device after `k` calls of `SortReturningData` in a row. -/
def drainTimes (h : Header) : Nat → PRDevice → Option PRDevice
  | 0, s => some s
  | k + 1, s =>
    match SortReturningData h s with
    | none => none
    | some r => drainTimes h k r.2

/-- A device object with empty buffers and queues whose transport delivers one
unsolicited frame of the sample header (the words `0x80000000 + i` and `i`)
to each of the next twelve reads, and never a solicited word. -/
def eventsOnlyDevice : PRDevice :=
  deviceWithChunks ((List.range 12).map (fun i => wireBytes [0x80000000 + i, i]))

/-- The device on which the loop over the reactions of `SwitchUpdateRule` starts: the
free pool is what the walk over the old links left, and the base slot of the
pair has the `notifyHost` of the rule, `changeOutput = false` and an inactive
link. -/
def installStart (h : Header) (s : PRDevice) (switchNum : Nat) (eventType : PREventType)
    (rule : PRSwitchRule) (free : List Nat) : PRDevice :=
  { s with
    freeSwitchRuleIndexes := free
    switchRules := Function.update s.switchRules (h.CreateSwitchRuleIndex switchNum eventType)
      { s.switchRules (h.CreateSwitchRuleIndex switchNum eventType) with
        notifyHost := rule.notifyHost, changeOutput := false, linkActive := false } }

/-- The submissions of the slots of a chain, as the text describes them, up to the
first that fails: the slot `idx` gets the first reaction (with a link to the
front of the free pool when more reactions follow, and an inactive link
otherwise) and its burst is submitted to `PrepareWriteData`; when that
submission succeeds, the next reaction goes to the linked slot. The value is
the result and the device of the first submission that does not succeed, and
`none` when no submission fails. -/
def firstFailedSubmission (h : Header) :
    List PRDriverState → Nat → PRDevice → Option (PRResult × PRDevice)
  | [], _, _ => none
  | [d], idx, s =>
    let slot : PRSwitchRuleInternal :=
      { s.switchRules idx with changeOutput := true, driver := d, linkActive := false }
    let w := PrepareWriteData h
      { s with switchRules := Function.update s.switchRules idx slot } (switchRuleBurst h slot)
    if w.1 = PRResult.kPRSuccess then none else some w
  | d :: d2 :: ds, idx, s =>
    match s.freeSwitchRuleIndexes with
    | [] => none
    | front :: free =>
      let slot : PRSwitchRuleInternal :=
        { s.switchRules idx with
          changeOutput := true, driver := d, linkActive := true, linkIndex := front }
      let w := PrepareWriteData h
        { s with
          switchRules := Function.update s.switchRules idx slot
          freeSwitchRuleIndexes := free }
        (switchRuleBurst h slot)
      if w.1 = PRResult.kPRSuccess then firstFailedSubmission h (d2 :: ds) front w.2
      else some w

/-- The rollback submission, as the text describes it, on the device `t` a failed
submission left: the base slot gets `changeOutput = false` and an inactive
link, and its burst is submitted to `PrepareWriteData`. -/
def rollbackSubmission (h : Header) (base : Nat) (t : PRDevice) : PRResult × PRDevice :=
  let inert : PRSwitchRuleInternal :=
    { t.switchRules base with changeOutput := false, linkActive := false }
  PrepareWriteData h { t with switchRules := Function.update t.switchRules base inert }
    (switchRuleBurst h inert)

/-- The sample header with room for three words only in the prepared-write buffer,
so that no burst of four words is accepted. -/
def narrowHeader : Header :=
  { sampleHeader with maxWriteWords := 3 }

/-- The device `fullBufferDevice` with one index, 230, in the free pool. -/
def fullBufferPoolDevice : PRDevice :=
  { fullBufferDevice with freeSwitchRuleIndexes := [230] }

/-- The device the first submission of `SwitchUpdateRule` leaves on
`fullBufferPoolDevice`, for switch 5, closed and debounced, with two reactions
`zeroDriverState`: the base slot has the first reaction and a link to slot 230. -/
def refusedLinkDevice (h : Header) : PRDevice :=
  let start := installStart h fullBufferPoolDevice 5
    PREventType.kPREventTypeSwitchClosedDebounced { notifyHost := true } [230]
  let base := h.CreateSwitchRuleIndex 5 PREventType.kPREventTypeSwitchClosedDebounced
  let slot : PRSwitchRuleInternal :=
    { start.switchRules base with
      changeOutput := true, driver := zeroDriverState, linkActive := true, linkIndex := 230 }
  (PrepareWriteData h
    { start with
      switchRules := Function.update start.switchRules base slot
      freeSwitchRuleIndexes := [] }
    (switchRuleBurst h slot)).2

/-! ## Loops -/

theorem forLoop_self {σ : Type} (lo : Nat) (body : Nat → σ → σ) (init : σ) :
    forLoop lo lo body init = init := by
  simp [forLoop]

theorem forLoop_succ {σ : Type} (lo hi : Nat) (body : Nat → σ → σ) (init : σ)
    (hle : lo ≤ hi) :
    forLoop lo (hi + 1) body init = body hi (forLoop lo hi body init) := by
  have e : hi + 1 - lo = (hi - lo) + 1 := by omega
  have e2 : lo + (hi - lo) = hi := by omega
  simp [forLoop, e, List.range'_1_concat, List.foldl_append, e2]

/-- A property that holds before a counted loop and is kept by every pass of its
body holds after the loop. -/
theorem forLoop_invariant {σ : Type} (P : σ → Prop) (lo hi : Nat) (body : Nat → σ → σ)
    (init : σ) (h0 : P init) (hstep : ∀ i s, P s → P (body i s)) :
    P (forLoop lo hi body init) := by
  unfold forLoop
  generalize List.range' lo (hi - lo) = l
  induction l generalizing init with
  | nil => simpa using h0
  | cons a l ih => simpa using ih (body a init) (hstep a init h0)

theorem forLoopM_some {σ : Type} (lo hi : Nat) (body : Nat → σ → Option σ) (init : σ)
    (hb : ∀ i s, body i s = some s) : forLoopM lo hi body init = some init := by
  unfold forLoopM
  generalize List.range' lo (hi - lo) = l
  induction l with
  | nil => rfl
  | cons a l ih => simpa [List.foldlM, hb] using ih

/-! ## PRDevice::Create -/

/-- C3: once `Open` has succeeded, a requested `kPRMachineWPC` or `kPRMachineWPC95` is
accepted by `Create` exactly when the board reports `kPRMachineWPC` or
`kPRMachineWPC95` and is rejected otherwise (WPC95 on a WPC board is accepted,
WPC95 on a Stern-SAM board is rejected), and a requested `kPRMachineCustom`
is accepted for every reported type. -/
theorem Create_wpc_family_and_custom (readMachineType : PRMachineType) :
    (Create PRMachineType.kPRMachineWPC PRResult.kPRSuccess readMachineType =
        CreateOutcome.accepted ↔
      (readMachineType = PRMachineType.kPRMachineWPC ∨
        readMachineType = PRMachineType.kPRMachineWPC95)) ∧
    (Create PRMachineType.kPRMachineWPC95 PRResult.kPRSuccess readMachineType =
        CreateOutcome.accepted ↔
      (readMachineType = PRMachineType.kPRMachineWPC ∨
        readMachineType = PRMachineType.kPRMachineWPC95)) ∧
    (Create PRMachineType.kPRMachineWPC PRResult.kPRSuccess readMachineType =
        CreateOutcome.rejected ↔
      ¬ (readMachineType = PRMachineType.kPRMachineWPC ∨
        readMachineType = PRMachineType.kPRMachineWPC95)) ∧
    (Create PRMachineType.kPRMachineWPC95 PRResult.kPRSuccess readMachineType =
        CreateOutcome.rejected ↔
      ¬ (readMachineType = PRMachineType.kPRMachineWPC ∨
        readMachineType = PRMachineType.kPRMachineWPC95)) ∧
    Create PRMachineType.kPRMachineWPC95 PRResult.kPRSuccess PRMachineType.kPRMachineWPC =
      CreateOutcome.accepted ∧
    Create PRMachineType.kPRMachineWPC95 PRResult.kPRSuccess PRMachineType.kPRMachineSternSAM =
      CreateOutcome.rejected ∧
    Create PRMachineType.kPRMachineCustom PRResult.kPRSuccess readMachineType =
      CreateOutcome.accepted := by
  cases readMachineType <;> decide

/-! ## PRDevice::ReadData -/

/-- C9: when `num_words * 4` exceeds `num_collected_bytes`, `ReadData` returns 0, stores
no word and leaves the device (the cursors, the byte count and the buffered
bytes among its members) as it was; in particular no word comes out of fewer
than 4 buffered bytes. -/
theorem ReadData_short (h : Header) (s : PRDevice) (num_words : Nat)
    (hshort : num_words * 4 > s.num_collected_bytes) :
    ReadData h s num_words = (0, [], s) := by
  have hn : ¬ num_words * 4 ≤ s.num_collected_bytes := by omega
  simp [ReadData, hn]

theorem ReadData_short_witness :
    1 * 4 > ({ blankDevice PRMachineType.kPRMachineCustom PRMachineType.kPRMachineWPC with
        num_collected_bytes := 3 } : PRDevice).num_collected_bytes ∧
    ReadData sampleHeader
        { blankDevice PRMachineType.kPRMachineCustom PRMachineType.kPRMachineWPC with
          num_collected_bytes := 3 } 1 =
      (0, [], { blankDevice PRMachineType.kPRMachineCustom PRMachineType.kPRMachineWPC with
          num_collected_bytes := 3 }) :=
  ⟨by decide, ReadData_short sampleHeader _ 1 (by decide)⟩

/-! ## The write path -/

theorem PrepareWriteData_room (h : Header) (s : PRDevice) (words : List Nat)
    (hroom : s.numPreparedWriteWords + words.length ≤ h.maxWriteWords) :
    PrepareWriteData h s words =
      (PRResult.kPRSuccess,
        { s with
          preparedWriteWords := memcpyAt s.preparedWriteWords s.numPreparedWriteWords words
          numPreparedWriteWords := s.numPreparedWriteWords + words.length }) := by
  have h1 : ¬ words.length > h.maxWriteWords := by omega
  have h2 : ¬ s.numPreparedWriteWords + words.length > h.maxWriteWords := by omega
  simp [PrepareWriteData, h1, h2]

/-! ## PRDevice::DriverUpdateState -/

/-- The `switch (readMachineType)` of `DriverUpdateState` has no `case` label, so that
for every machine type and every driver state control passes over its body. -/
theorem DriverUpdateState_switch_skipped (readMachineType : PRMachineType)
    (driverState : PRDriverState) :
    runSwitch readMachineType (DriverUpdateState.switchBody driverState) = none := by
  cases readMachineType <;> rfl

/-- C1 (the code where the claim fails): for every driver state whose polarity is the
stored one and for which the prepared-write buffer has room for three words,
`DriverUpdateState` returns success, stores the state and prepares its burst.
This holds whatever the machine types, the driver number, `timeslots` and
`outputDriveTime` are, so also for a constant-on state (`timeslots = 0`,
`outputDriveTime = 0`) of a high-current driver of the WPC or Stern family:
the guard of lines 240 to 259 is never run. -/
theorem DriverUpdateState_constant_on_stored (h : Header) (s : PRDevice)
    (driverState : PRDriverState)
    (hpol : driverState.polarity = (s.drivers driverState.driverNum).polarity)
    (hroom : s.numPreparedWriteWords + 3 ≤ h.maxWriteWords) :
    DriverUpdateState h s driverState =
      (PRResult.kPRSuccess,
        { s with
          drivers := Function.update s.drivers driverState.driverNum driverState
          preparedWriteWords := memcpyAt s.preparedWriteWords s.numPreparedWriteWords
            [(h.CreateDriverUpdateBurst driverState).1,
              (h.CreateDriverUpdateBurst driverState).2.1,
              (h.CreateDriverUpdateBurst driverState).2.2]
          numPreparedWriteWords := s.numPreparedWriteWords + 3 }) := by
  unfold DriverUpdateState
  rw [DriverUpdateState_switch_skipped]
  simp only [hpol, bne_self_eq_false, Bool.false_and]
  rw [PrepareWriteData_room]
  · simp
  · simpa using hroom

theorem DriverUpdateState_constant_on_stored_witness :
    constantOnDriver40.polarity =
      ((blankDevice PRMachineType.kPRMachineWPC PRMachineType.kPRMachineWPC).drivers
        constantOnDriver40.driverNum).polarity ∧
    (blankDevice PRMachineType.kPRMachineWPC PRMachineType.kPRMachineWPC).numPreparedWriteWords
        + 3 ≤ sampleHeader.maxWriteWords ∧
    (constantOnDriver40.driverNum = 40 ∧ constantOnDriver40.timeslots = 0 ∧
      constantOnDriver40.outputDriveTime = 0) ∧
    (DriverUpdateState sampleHeader
        (blankDevice PRMachineType.kPRMachineWPC PRMachineType.kPRMachineWPC)
        constantOnDriver40).1 = PRResult.kPRSuccess ∧
    DriverGetState (DriverUpdateState sampleHeader
        (blankDevice PRMachineType.kPRMachineWPC PRMachineType.kPRMachineWPC)
        constantOnDriver40).2 40 = constantOnDriver40 ∧
    (DriverUpdateState sampleHeader
        (blankDevice PRMachineType.kPRMachineWPC PRMachineType.kPRMachineWPC)
        constantOnDriver40).2.numPreparedWriteWords = 3 :=
  ⟨by decide, by decide, by decide,
    by rw [DriverUpdateState_constant_on_stored sampleHeader _ _ (by decide) (by decide)],
    by rw [DriverUpdateState_constant_on_stored sampleHeader _ _ (by decide) (by decide)]
       simp [DriverGetState, constantOnDriver40],
    by rw [DriverUpdateState_constant_on_stored sampleHeader _ _ (by decide) (by decide)]
       rfl⟩

/-! ## PRDevice::GetEvents -/

/-- C7 (the code where the claim fails): for every valuation of the masks and every
word whose type field is the switch type and whose state bit and debounced bit
are both 0 (closed, not debounced), the event decoded by the loop body of
`GetEvents` has the type `kPREventTypeSwitchOpenNondebounced` (and the switch
number field as value), and it is the first event the loop of `GetEvents`
stores when that word is the oldest of the unrequested-data queue. -/
theorem GetEvents_closed_nondebounced (h : Header) (event_data maxEvents : Nat)
    (queue : List Nat)
    (htype : (event_data &&& h.P_ROC_EVENT_TYPE_MASK) >>> h.P_ROC_EVENT_TYPE_SHIFT =
      h.P_ROC_EVENT_TYPE_SWITCH)
    (hstate : (event_data &&& h.P_ROC_EVENT_SWITCH_STATE_MASK) >>>
      h.P_ROC_EVENT_SWITCH_STATE_SHIFT = 0)
    (hdebounced : (event_data &&& h.P_ROC_EVENT_SWITCH_DEBOUNCED_MASK) >>>
      h.P_ROC_EVENT_SWITCH_DEBOUNCED_SHIFT = 0) :
    GetEvents.decode h event_data =
      { type := PREventType.kPREventTypeSwitchOpenNondebounced
        value := event_data &&& h.P_ROC_EVENT_SWITCH_NUM_MASK } ∧
    (GetEvents.loop h (maxEvents + 1) (event_data :: queue)).1.head? =
      some { type := PREventType.kPREventTypeSwitchOpenNondebounced
             value := event_data &&& h.P_ROC_EVENT_SWITCH_NUM_MASK } := by
  have e : GetEvents.decode h event_data =
      { type := PREventType.kPREventTypeSwitchOpenNondebounced
        value := event_data &&& h.P_ROC_EVENT_SWITCH_NUM_MASK } := by
    simp [GetEvents.decode, htype, hstate, hdebounced]
  exact ⟨e, by simp [GetEvents.loop, e]⟩

set_option maxRecDepth 100000 in
theorem GetEvents_closed_nondebounced_witness :
    ((0x005 &&& sampleHeader.P_ROC_EVENT_TYPE_MASK) >>> sampleHeader.P_ROC_EVENT_TYPE_SHIFT =
        sampleHeader.P_ROC_EVENT_TYPE_SWITCH ∧
      (0x005 &&& sampleHeader.P_ROC_EVENT_SWITCH_STATE_MASK) >>>
        sampleHeader.P_ROC_EVENT_SWITCH_STATE_SHIFT = 0 ∧
      (0x005 &&& sampleHeader.P_ROC_EVENT_SWITCH_DEBOUNCED_MASK) >>>
        sampleHeader.P_ROC_EVENT_SWITCH_DEBOUNCED_SHIFT = 0) ∧
    (GetEvents.decode sampleHeader 0x005 =
        { type := PREventType.kPREventTypeSwitchOpenNondebounced
          value := 0x005 &&& sampleHeader.P_ROC_EVENT_SWITCH_NUM_MASK } ∧
      (GetEvents.loop sampleHeader (0 + 1) (0x005 :: [])).1.head? =
        some { type := PREventType.kPREventTypeSwitchOpenNondebounced
               value := 0x005 &&& sampleHeader.P_ROC_EVENT_SWITCH_NUM_MASK }) ∧
    GetEvents.decode sampleHeader 0x305 =
      { type := PREventType.kPREventTypeSwitchOpenDebounced, value := 5 } ∧
    GetEvents.decode sampleHeader 0x105 =
      { type := PREventType.kPREventTypeSwitchOpenNondebounced, value := 5 } ∧
    GetEvents.decode sampleHeader 0x205 =
      { type := PREventType.kPREventTypeSwitchClosedDebounced, value := 5 } ∧
    (GetEvents sampleHeader
        { blankDevice PRMachineType.kPRMachineWPC PRMachineType.kPRMachineWPC with
          hw := { idleHardware with rxPending := [[0x80, 0, 0, 0, 0, 0, 0, 5]] } } 1).map
        (fun r => (r.1, r.2.1)) =
      some (1, [{ type := PREventType.kPREventTypeSwitchOpenNondebounced, value := 5 }]) :=
  ⟨by decide,
    GetEvents_closed_nondebounced sampleHeader 0x005 0 [] (by decide) (by decide) (by decide),
    by decide, by decide, by decide, by decide⟩

/-! ## The circular buffer and the wire format -/

theorem nextAddr_eq (h : Header) (addr : Nat) (hlt : addr < h.FTDI_BUFFER_SIZE) :
    nextAddr h addr = (addr + 1) % h.FTDI_BUFFER_SIZE := by
  unfold nextAddr
  split
  · next e => rw [e, Nat.mod_self]
  · next e => rw [Nat.mod_eq_of_lt (by omega)]

theorem nextAddr_mod (h : Header) (a k : Nat) (hpos : 0 < h.FTDI_BUFFER_SIZE) :
    nextAddr h ((a + k) % h.FTDI_BUFFER_SIZE) = (a + (k + 1)) % h.FTDI_BUFFER_SIZE := by
  rw [nextAddr_eq h _ (Nat.mod_lt _ hpos), Nat.mod_add_mod, Nat.add_assoc]

theorem assemble_bytes (b0 b1 b2 b3 : Nat) (h0 : b0 < 256) (h1 : b1 < 256) (h2 : b2 < 256)
    (h3 : b3 < 256) :
    (b3 <<< 0 ||| (b2 <<< 8 ||| (b1 <<< 16 ||| (b0 <<< 24 ||| 0) % 2 ^ 32) % 2 ^ 32) % 2 ^ 32)
      % 2 ^ 32 = bigEndianWord b0 b1 b2 b3 := by
  have e0 : (b0 <<< 24 ||| 0) % 2 ^ 32 = 2 ^ 24 * b0 := by
    rw [Nat.or_zero, Nat.shiftLeft_eq, Nat.mod_eq_of_lt (by omega)]; omega
  have e1 : (b1 <<< 16 ||| 2 ^ 24 * b0) % 2 ^ 32 = 2 ^ 16 * (2 ^ 8 * b0 + b1) := by
    rw [Nat.or_comm, Nat.shiftLeft_eq, ← Nat.mul_add_lt_is_or (by omega),
      Nat.mod_eq_of_lt (by omega)]; omega
  have e2 : (b2 <<< 8 ||| 2 ^ 16 * (2 ^ 8 * b0 + b1)) % 2 ^ 32
      = 2 ^ 8 * (2 ^ 16 * b0 + 2 ^ 8 * b1 + b2) := by
    rw [Nat.or_comm, Nat.shiftLeft_eq, ← Nat.mul_add_lt_is_or (by omega),
      Nat.mod_eq_of_lt (by omega)]; omega
  rw [e0, e1, e2, Nat.or_comm, Nat.shiftLeft_eq, Nat.pow_zero, Nat.mul_one,
    ← Nat.mul_add_lt_is_or (by omega), Nat.mod_eq_of_lt (by omega)]
  unfold bigEndianWord
  omega

theorem ReadData_word_eq (h : Header) (fifo : Nat → Nat) (rd k : Nat)
    (hpos : 0 < h.FTDI_BUFFER_SIZE) :
    ReadData.word h fifo ((rd + k) % h.FTDI_BUFFER_SIZE) =
      (bigEndianWord (fifo ((rd + k) % h.FTDI_BUFFER_SIZE) % 256)
          (fifo ((rd + (k + 1)) % h.FTDI_BUFFER_SIZE) % 256)
          (fifo ((rd + (k + 2)) % h.FTDI_BUFFER_SIZE) % 256)
          (fifo ((rd + (k + 3)) % h.FTDI_BUFFER_SIZE) % 256),
        (rd + (k + 4)) % h.FTDI_BUFFER_SIZE) := by
  simp only [ReadData.word, forLoop, List.range', List.foldl, Nat.sub_zero, nextAddr_mod h _ _ hpos]
  refine Prod.ext ?_ ?_
  · exact assemble_bytes _ _ _ _ (Nat.mod_lt _ (by decide)) (Nat.mod_lt _ (by decide))
      (Nat.mod_lt _ (by decide)) (Nat.mod_lt _ (by decide))
  · rfl

theorem ReadData_loop_eq (h : Header) (s : PRDevice) (n : Nat)
    (hrd : s.collected_bytes_rd_addr < h.FTDI_BUFFER_SIZE) :
    forLoop 0 n
        (fun _ (a : List Nat × Nat) =>
          ((a.1 ++ [(ReadData.word h s.collected_bytes_fifo a.2).1]),
            (ReadData.word h s.collected_bytes_fifo a.2).2))
        ([], s.collected_bytes_rd_addr) =
      ((List.range n).map (fifoWord h s),
        (s.collected_bytes_rd_addr + 4 * n) % h.FTDI_BUFFER_SIZE) := by
  have hpos : 0 < h.FTDI_BUFFER_SIZE := by omega
  induction n with
  | zero => simp [forLoop_self, Nat.mod_eq_of_lt hrd]
  | succ n ih =>
    rw [forLoop_succ _ _ _ _ (Nat.zero_le n), ih]
    simp only [ReadData_word_eq h _ _ _ hpos, List.range_succ, List.map_append, List.map_cons,
      List.map_nil]
    refine Prod.ext ?_ ?_
    · simp only [fifoWord, fifoByte]
    · simp only [Nat.mul_add, Nat.mul_one]

/-- `ReadData` with enough buffered bytes and a read cursor inside the buffer. -/
theorem ReadData_enough (h : Header) (s : PRDevice) (n : Nat)
    (hrd : s.collected_bytes_rd_addr < h.FTDI_BUFFER_SIZE)
    (hn : 4 * n ≤ s.num_collected_bytes) :
    ReadData h s n =
      (n, (List.range n).map (fifoWord h s),
        { s with
          collected_bytes_rd_addr := (s.collected_bytes_rd_addr + 4 * n) % h.FTDI_BUFFER_SIZE
          num_collected_bytes := s.num_collected_bytes - 4 * n }) := by
  have hn2 : n * 4 ≤ s.num_collected_bytes := by omega
  simp only [ReadData, hn2, if_true, ReadData_loop_eq h s n hrd, Nat.mul_comm n 4, hn]

theorem and_255_lt (y : Nat) : y &&& 255 < 256 :=
  Nat.lt_succ_of_le Nat.and_le_right

theorem storeWord_at (wr : Nat → Nat) (j x k : Nat) (hk : k < 4) :
    WriteData.storeWord wr j x (j * 4 + k) = ((x % 2 ^ 32) >>> (8 * (3 - k))) &&& 0xFF := by
  have m : ∀ y : Nat, (y &&& 255) % 256 = y &&& 255 := fun y => Nat.mod_eq_of_lt (and_255_lt y)
  interval_cases k <;>
    simp [WriteData.storeWord, Function.update_apply, m, Nat.shiftRight_add, ← Nat.shiftRight_add]

theorem storeWord_other (wr : Nat → Nat) (j x p : Nat) (hp : p < j * 4 ∨ j * 4 + 4 ≤ p) :
    WriteData.storeWord wr j x p = wr p := by
  have h0 : p ≠ j * 4 := by omega
  have h1 : p ≠ j * 4 + 1 := by omega
  have h2 : p ≠ j * 4 + 2 := by omega
  have h3 : p ≠ j * 4 + 3 := by omega
  simp [WriteData.storeWord, Function.update_apply, h0, h1, h2, h3]

theorem WriteData_layout (wr0 : Nat → Nat) (words : List Nat) (n j k : Nat) (hj : j < n)
    (hk : k < 4) :
    forLoop 0 n (fun j wr => WriteData.storeWord wr j (words.getD j 0)) wr0 (j * 4 + k) =
      ((words.getD j 0 % 2 ^ 32) >>> (8 * (3 - k))) &&& 0xFF := by
  induction n with
  | zero => omega
  | succ n ih =>
    rw [forLoop_succ _ _ _ _ (Nat.zero_le n)]
    by_cases e : j = n
    · subst e
      exact storeWord_at _ _ _ _ hk
    · rw [storeWord_other _ _ _ _ (by omega)]
      exact ih (by omega)

theorem WriteData_txLog (s : PRDevice) (words : List Nat) (hn : 1 ≤ words.length) :
    (WriteData s words).2.hw.txLog =
      s.hw.txLog ++
        [readArr (forLoop 0 words.length
          (fun j wr => WriteData.storeWord wr j (words.getD j 0)) s.wr_buffer)
          (words.length * 4)] := by
  have h0 : words.length ≠ 0 := by omega
  unfold WriteData PRHardwareWrite
  simp only [h0, if_false]
  cases s.hw.txReplies <;> simp <;> split <;> rfl

theorem mod_add_ne (N a i m : Nat) (him : i < m) (hm : m < N) :
    (a + i) % N ≠ (a + m) % N := by
  intro e
  have e1 : i % N = m % N := Nat.ModEq.add_left_cancel' a e
  rw [Nat.mod_eq_of_lt (by omega), Nat.mod_eq_of_lt hm] at e1
  omega

theorem collect_fold (h : Header) (bs : List Nat) (fifo : Nat → Nat) (wr : Nat)
    (hlen : bs.length ≤ h.FTDI_BUFFER_SIZE) (hpos : 0 < h.FTDI_BUFFER_SIZE):
    (bs.foldl (fun (a : (Nat → Nat) × Nat) byte =>
        (Function.update a.1 a.2 (byte % 256), nextAddr h a.2))
      (fifo, wr % h.FTDI_BUFFER_SIZE)).2 = (wr + bs.length) % h.FTDI_BUFFER_SIZE ∧
    ∀ i, i < bs.length →
      (bs.foldl (fun (a : (Nat → Nat) × Nat) byte =>
          (Function.update a.1 a.2 (byte % 256), nextAddr h a.2))
        (fifo, wr % h.FTDI_BUFFER_SIZE)).1 ((wr + i) % h.FTDI_BUFFER_SIZE) = bs.getD i 0 % 256 := by
  induction bs using List.reverseRecOn with
  | nil => simp
  | append_singleton bs b ih =>
    have hl : bs.length + 1 ≤ h.FTDI_BUFFER_SIZE := by simpa using hlen
    obtain ⟨ih1, ih2⟩ := ih (by omega)
    rw [List.foldl_append]
    simp only [List.foldl_cons, List.foldl_nil, ih1, List.length_append, List.length_singleton]
    refine ⟨by rw [nextAddr_eq h _ (Nat.mod_lt _ hpos), Nat.mod_add_mod, Nat.add_assoc], ?_⟩
    intro i hi
    by_cases e : i = bs.length
    · subst e
      simp
    · have hi2 : i < bs.length := by omega
      rw [Function.update_noteq (mod_add_ne _ _ _ _ hi2 (by omega)), ih2 i hi2,
        List.getD_append _ _ _ _ hi2]

theorem readArr_length {α : Type} (a : Nat → α) (n : Nat) : (readArr a n).length = n := by
  simp [readArr]

theorem readArr_getD {α : Type} (a : Nat → α) (n i : Nat) (d : α) (hi : i < n) :
    (readArr a n).getD i d = a i := by
  simp [readArr, List.getD_eq_getElem?_getD, hi]

theorem bigEndianWord_bytes (x : Nat) (hx : x < 2 ^ 32) :
    bigEndianWord ((x >>> 24) &&& 0xFF) ((x >>> 16) &&& 0xFF) ((x >>> 8) &&& 0xFF)
      (x &&& 0xFF) = x := by
  have m : ∀ y : Nat, y &&& 0xFF = y % 256 := fun y => Nat.and_pow_two_sub_one_eq_mod y 8
  simp only [m, Nat.shiftRight_eq_div_pow, bigEndianWord]
  omega

theorem range_map_getD (w : List Nat) : (List.range w.length).map (fun j => w.getD j 0) = w := by
  apply List.ext_getElem
  · simp
  · intro i h1 h2
    simp [List.getD_eq_getElem?_getD, h2]

theorem CollectReadData_empty (h : Header) (r : PRDevice) (bytes : List Nat)
    (hempty : r.num_collected_bytes = 0)
    (hrd : r.collected_bytes_rd_addr < h.FTDI_BUFFER_SIZE)
    (hwr : r.collected_bytes_wr_addr = r.collected_bytes_rd_addr)
    (hrx : r.hw.rxPending = [bytes]) (hlen : bytes.length ≤ h.FTDI_BUFFER_SIZE) :
    (CollectReadData h r).2.collected_bytes_rd_addr = r.collected_bytes_rd_addr ∧
    (CollectReadData h r).2.num_collected_bytes = bytes.length ∧
    ∀ i, i < bytes.length → fifoByte h (CollectReadData h r).2 i = bytes.getD i 0 % 256 := by
  have hpos : 0 < h.FTDI_BUFFER_SIZE := by omega
  have hread : PRHardwareRead r.hw h.FTDI_BUFFER_SIZE =
      (bytes, { r.hw with rxPending := [] }) := by
    simp [PRHardwareRead, hrx, List.take_of_length_le hlen, List.drop_of_length_le hlen]
  have hw2 : r.collected_bytes_wr_addr = r.collected_bytes_rd_addr % h.FTDI_BUFFER_SIZE := by
    rw [hwr, Nat.mod_eq_of_lt hrd]
  obtain ⟨_, c2⟩ := collect_fold h bytes r.collected_bytes_fifo r.collected_bytes_rd_addr hlen hpos
  refine ⟨?_, ?_, ?_⟩
  · simp [CollectReadData]
  · simp [CollectReadData, hread, hempty]
  · intro i hi
    simp only [fifoByte, CollectReadData, hempty, Nat.sub_zero, hread, hw2]
    rw [c2 i hi, Nat.mod_mod]

/-- C10: for every list `w` of `n` 32-bit words with `n ≥ 1` and `4*n ≤ FTDI_BUFFER_SIZE`,
`WriteData` hands the transport one byte sequence of `4*n` bytes whose byte
`4*j+k` is `(w[j] >> 8*(3-k)) & 0xFF`; and on every device whose buffer is empty,
with both cursors at the same position inside the buffer, to which the
transport delivers exactly that byte sequence, `CollectReadData` followed by
`ReadData(buffer, n)` returns `n` and stores `w`. -/
theorem wire_round_trip (h : Header) (s : PRDevice) (w : List Nat)
    (hw : ∀ x ∈ w, x < 2 ^ 32) (hn : 1 ≤ w.length)
    (hcap : 4 * w.length ≤ h.FTDI_BUFFER_SIZE) :
    ∃ bytes : List Nat,
      (WriteData s w).2.hw.txLog = s.hw.txLog ++ [bytes] ∧
      bytes.length = 4 * w.length ∧
      (∀ j k, j < w.length → k < 4 →
        bytes.getD (4 * j + k) 0 = ((w.getD j 0) >>> (8 * (3 - k))) &&& 0xFF) ∧
      ∀ r : PRDevice, r.num_collected_bytes = 0 →
        r.collected_bytes_rd_addr < h.FTDI_BUFFER_SIZE →
        r.collected_bytes_wr_addr = r.collected_bytes_rd_addr →
        r.hw.rxPending = [bytes] →
        (ReadData h (CollectReadData h r).2 w.length).1 = w.length ∧
        (ReadData h (CollectReadData h r).2 w.length).2.1 = w := by
  have hx : ∀ j, j < w.length → w.getD j 0 < 2 ^ 32 := by
    intro j hj
    rw [List.getD_eq_getElem _ _ hj]
    exact hw _ (List.getElem_mem _)
  have hbyte : ∀ j k, j < w.length → k < 4 →
      (readArr (forLoop 0 w.length
          (fun j wr => WriteData.storeWord wr j (w.getD j 0)) s.wr_buffer)
        (w.length * 4)).getD (4 * j + k) 0 = ((w.getD j 0) >>> (8 * (3 - k))) &&& 0xFF := by
    intro j k hj hk
    rw [readArr_getD _ _ _ _ (by omega), Nat.mul_comm 4 j, WriteData_layout _ _ _ _ _ hj hk,
      Nat.mod_eq_of_lt (hx j hj)]
  refine ⟨_, WriteData_txLog s w hn, by rw [readArr_length]; omega, hbyte, ?_⟩
  intro r hempty hrd hwr hrx
  have hlen : (readArr (forLoop 0 w.length
      (fun j wr => WriteData.storeWord wr j (w.getD j 0)) s.wr_buffer)
      (w.length * 4)).length ≤ h.FTDI_BUFFER_SIZE := by rw [readArr_length]; omega
  obtain ⟨c1, c2, c3⟩ := CollectReadData_empty h r _ hempty hrd hwr hrx hlen
  rw [readArr_length] at c2 c3
  rw [ReadData_enough h _ w.length (by rw [c1]; exact hrd) (by rw [c2]; omega)]
  refine ⟨rfl, ?_⟩
  show (List.range w.length).map (fifoWord h (CollectReadData h r).2) = w
  conv => rhs; rw [← range_map_getD w]
  apply List.map_congr_left
  intro j hj
  have hj2 : j < w.length := List.mem_range.mp hj
  have b : ∀ k, k < 4 → fifoByte h (CollectReadData h r).2 (4 * j + k) =
      ((w.getD j 0) >>> (8 * (3 - k))) &&& 0xFF := by
    intro k hk
    rw [c3 _ (by omega), hbyte j k hj2 hk, Nat.mod_eq_of_lt (and_255_lt _)]
  have b0 := b 0 (by omega)
  have b1 := b 1 (by omega)
  have b2 := b 2 (by omega)
  have b3 := b 3 (by omega)
  simp only [Nat.add_zero] at b0
  rw [fifoWord, b0, b1, b2, b3]
  exact bigEndianWord_bytes _ (hx j hj2)

theorem wire_round_trip_witness :
    (∀ x ∈ [0x01020304, 0xAABBCCDD], x < 2 ^ 32) ∧
    1 ≤ [0x01020304, 0xAABBCCDD].length ∧
    4 * [0x01020304, 0xAABBCCDD].length ≤ sampleHeader.FTDI_BUFFER_SIZE ∧
    ∃ bytes : List Nat,
      (WriteData (blankDevice PRMachineType.kPRMachineCustom PRMachineType.kPRMachineWPC)
          [0x01020304, 0xAABBCCDD]).2.hw.txLog =
        (blankDevice PRMachineType.kPRMachineCustom PRMachineType.kPRMachineWPC).hw.txLog
          ++ [bytes] ∧
      bytes.length = 4 * [0x01020304, 0xAABBCCDD].length ∧
      (∀ j k, j < [0x01020304, 0xAABBCCDD].length → k < 4 →
        bytes.getD (4 * j + k) 0 =
          (([0x01020304, 0xAABBCCDD].getD j 0) >>> (8 * (3 - k))) &&& 0xFF) ∧
      ∀ r : PRDevice, r.num_collected_bytes = 0 →
        r.collected_bytes_rd_addr < sampleHeader.FTDI_BUFFER_SIZE →
        r.collected_bytes_wr_addr = r.collected_bytes_rd_addr →
        r.hw.rxPending = [bytes] →
        (ReadData sampleHeader (CollectReadData sampleHeader r).2
            [0x01020304, 0xAABBCCDD].length).1 = [0x01020304, 0xAABBCCDD].length ∧
        (ReadData sampleHeader (CollectReadData sampleHeader r).2
            [0x01020304, 0xAABBCCDD].length).2.1 = [0x01020304, 0xAABBCCDD] :=
  ⟨by decide, by decide, by decide,
    wire_round_trip sampleHeader
      (blankDevice PRMachineType.kPRMachineCustom PRMachineType.kPRMachineWPC)
      [0x01020304, 0xAABBCCDD] (by decide) (by decide) (by decide)⟩

/-- C8: in a buffer state satisfying the circular-buffer invariant, for every `n` with
`4*n ≤ num_collected_bytes`, `ReadData(buffer, n)` returns `n`, stores for each
`j < n` the value whose bytes, most significant first, are the buffered bytes
at FIFO positions `4*j` to `4*j+3` from the read cursor (wrapping at
`FTDI_BUFFER_SIZE`), advances the read cursor by `4*n` modulo
`FTDI_BUFFER_SIZE`, decreases `num_collected_bytes` by `4*n` and changes nothing
else. -/
theorem ReadData_reassembles (h : Header) (s : PRDevice) (n : Nat)
    (hinv : BufferInvariant h s) (hn : 4 * n ≤ s.num_collected_bytes) :
    ReadData h s n =
      (n, (List.range n).map (fifoWord h s),
        { s with
          collected_bytes_rd_addr := (s.collected_bytes_rd_addr + 4 * n) % h.FTDI_BUFFER_SIZE
          num_collected_bytes := s.num_collected_bytes - 4 * n }) :=
  ReadData_enough h s n hinv.2.1 hn

theorem ReadData_reassembles_witness :
    BufferInvariant sampleHeader wrappedBufferDevice ∧
    4 * 2 ≤ wrappedBufferDevice.num_collected_bytes ∧
    (List.range 2).map (fifoWord sampleHeader wrappedBufferDevice) = [0xFEFF0001, 0x02030405] ∧
    ReadData sampleHeader wrappedBufferDevice 2 =
      (2, (List.range 2).map (fifoWord sampleHeader wrappedBufferDevice),
        { wrappedBufferDevice with
          collected_bytes_rd_addr :=
            (wrappedBufferDevice.collected_bytes_rd_addr + 4 * 2) %
              sampleHeader.FTDI_BUFFER_SIZE
          num_collected_bytes := wrappedBufferDevice.num_collected_bytes - 4 * 2 }) :=
  ⟨by decide, by decide, by decide,
    ReadData_reassembles sampleHeader wrappedBufferDevice 2 (by decide) (by decide)⟩

/-! ## Switch rules and Reset -/

theorem WriteData_frame (s : PRDevice) (words : List Nat) :
    (WriteData s words).2.switchRules = s.switchRules ∧
    (WriteData s words).2.freeSwitchRuleIndexes = s.freeSwitchRuleIndexes ∧
    (WriteData s words).2.numPreparedWriteWords = s.numPreparedWriteWords ∧
    (WriteData s words).2.preparedWriteWords = s.preparedWriteWords := by
  unfold WriteData
  split
  · exact ⟨rfl, rfl, rfl, rfl⟩
  · simp only []
    split <;> exact ⟨rfl, rfl, rfl, rfl⟩

theorem WriteData_accepted (s : PRDevice) (words : List Nat) (hrep : s.hw.txReplies = []) :
    (WriteData s words).1 = PRResult.kPRSuccess ∧ (WriteData s words).2.hw.txReplies = [] := by
  unfold WriteData
  split
  · exact ⟨rfl, hrep⟩
  · simp [PRHardwareWrite, hrep, readArr]

@[simp] theorem PrepareWriteData_switchRules (h : Header) (s : PRDevice) (words : List Nat) :
    (PrepareWriteData h s words).2.switchRules = s.switchRules := by
  unfold PrepareWriteData FlushWriteData
  split
  · rfl
  · simp only []
    split <;> split <;> simp [(WriteData_frame s _).1]

@[simp] theorem PrepareWriteData_free (h : Header) (s : PRDevice) (words : List Nat) :
    (PrepareWriteData h s words).2.freeSwitchRuleIndexes = s.freeSwitchRuleIndexes := by
  unfold PrepareWriteData FlushWriteData
  split
  · rfl
  · simp only []
    split <;> split <;> simp [(WriteData_frame s _).2.1]

theorem PrepareWriteData_accepted (h : Header) (s : PRDevice) (words : List Nat)
    (hlen : words.length ≤ h.maxWriteWords) (hrep : s.hw.txReplies = []) :
    (PrepareWriteData h s words).1 = PRResult.kPRSuccess ∧
    (PrepareWriteData h s words).2.hw.txReplies = [] := by
  have h1 : ¬ words.length > h.maxWriteWords := by omega
  obtain ⟨a1, a2⟩ := WriteData_accepted s
    (readArr s.preparedWriteWords s.numPreparedWriteWords) hrep
  unfold PrepareWriteData FlushWriteData
  simp only [h1, if_false]
  split
  · simp [a1, a2]
  · simp [hrep]

theorem freeOldLinks_inactive (rules : Nat → PRSwitchRuleInternal) (fuel : Nat)
    (oldRule : PRSwitchRuleInternal) (free : List Nat) (hl : oldRule.linkActive = false) :
    SwitchUpdateRule.freeOldLinks rules fuel oldRule free = some (PRResult.kPRSuccess, free) := by
  unfold SwitchUpdateRule.freeOldLinks
  simp [hl]

theorem freeOldLinks_step (rules : Nat → PRSwitchRuleInternal) (fuel : Nat)
    (oldRule : PRSwitchRuleInternal) (free : List Nat) (hl : oldRule.linkActive = true)
    (hlen : free.length + 1 ≤ 128) :
    SwitchUpdateRule.freeOldLinks rules (fuel + 1) oldRule free =
      SwitchUpdateRule.freeOldLinks rules fuel (rules oldRule.linkIndex)
        (free ++ [(rules oldRule.linkIndex).linkIndex]) := by
  have hn : ¬ 128 < free.length + 1 := by omega
  rw [SwitchUpdateRule.freeOldLinks]
  simp [hl, hn]

theorem install_link (h : Header) (first : Nat) (d d2 : PRDriverState)
    (ds : List PRDriverState) (idx : Nat) (s : PRDevice) (front : Nat) (free : List Nat)
    (hmax : 4 ≤ h.maxWriteWords) (hrep : s.hw.txReplies = [])
    (hfree : s.freeSwitchRuleIndexes = front :: free) :
    ∃ s1, SwitchUpdateRule.install h first (d :: d2 :: ds) idx s =
        SwitchUpdateRule.install h first (d2 :: ds) front s1 ∧
      s1.switchRules = Function.update s.switchRules idx
        { s.switchRules idx with
          changeOutput := true, driver := d, linkActive := true, linkIndex := front } ∧
      s1.freeSwitchRuleIndexes = free ∧ s1.hw.txReplies = [] := by
  rw [SwitchUpdateRule.install]
  simp only [hfree, GetSwitchRuleByIndex, List.length_cons]
  have hlt : ds.length + 1 + 1 > 1 := by omega
  simp only [hlt, if_true]
  obtain ⟨a1, a2⟩ := PrepareWriteData_accepted h
    { s with
      switchRules := Function.update s.switchRules idx
        { s.switchRules idx with
          changeOutput := true, driver := d, linkActive := true, linkIndex := front }
      freeSwitchRuleIndexes := free }
    (switchRuleBurst h { s.switchRules idx with
          changeOutput := true, driver := d, linkActive := true, linkIndex := front })
    (by simpa [switchRuleBurst] using hmax) hrep
  refine ⟨_, ?_, ?_, ?_, a2⟩
  · simp only [a1, bne_self_eq_false, Bool.false_eq_true, if_false]
  · simp
  · simp

theorem install_last (h : Header) (first : Nat) (d : PRDriverState) (idx : Nat)
    (s : PRDevice) (hmax : 4 ≤ h.maxWriteWords) (hrep : s.hw.txReplies = []) :
    ∃ s1, SwitchUpdateRule.install h first [d] idx s = some (PRResult.kPRSuccess, s1) ∧
      s1.switchRules = Function.update s.switchRules idx
        { s.switchRules idx with changeOutput := true, driver := d, linkActive := false } ∧
      s1.freeSwitchRuleIndexes = s.freeSwitchRuleIndexes ∧ s1.hw.txReplies = [] := by
  rw [SwitchUpdateRule.install]
  simp only [GetSwitchRuleByIndex, List.length_nil, Nat.zero_add, gt_iff_lt, Nat.lt_irrefl,
    if_false]
  obtain ⟨a1, a2⟩ := PrepareWriteData_accepted h
    { s with
      switchRules := Function.update s.switchRules idx
        { s.switchRules idx with changeOutput := true, driver := d, linkActive := false } }
    (switchRuleBurst h { s.switchRules idx with
          changeOutput := true, driver := d, linkActive := false })
    (by simpa [switchRuleBurst] using hmax) hrep
  refine ⟨_, ?_, ?_, ?_, a2⟩
  · simp only [a1, bne_self_eq_false, Bool.false_eq_true, if_false, SwitchUpdateRule.install]
  · simp
  · simp

theorem SwitchUpdateRule_three (h : Header) (s : PRDevice) (switchNum : Nat)
    (eventType : PREventType) (rule : PRSwitchRule) (d1 d2 d3 : PRDriverState)
    (a b : Nat) (rest : List Nat)
    (hsw : switchNum ≤ h.kPRSwitchPhysicalLast)
    (hbase : (s.switchRules (h.CreateSwitchRuleIndex switchNum eventType)).linkActive = false)
    (hfree : s.freeSwitchRuleIndexes = a :: b :: rest)
    (hmax : 4 ≤ h.maxWriteWords) (hrep : s.hw.txReplies = [])
    (hba : h.CreateSwitchRuleIndex switchNum eventType ≠ a)
    (hbb : h.CreateSwitchRuleIndex switchNum eventType ≠ b) (hab : a ≠ b) :
    ∃ s1, SwitchUpdateRule h s switchNum eventType rule [d1, d2, d3] =
        some (PRResult.kPRSuccess, s1) ∧
      s1.freeSwitchRuleIndexes = rest ∧ s1.hw.txReplies = [] ∧
      (s1.switchRules (h.CreateSwitchRuleIndex switchNum eventType)).linkActive = true ∧
      (s1.switchRules (h.CreateSwitchRuleIndex switchNum eventType)).linkIndex = a ∧
      (s1.switchRules a).linkActive = true ∧ (s1.switchRules a).linkIndex = b ∧
      (s1.switchRules b).linkActive = false ∧
      (s1.switchRules b).linkIndex = (s.switchRules b).linkIndex ∧
      ∀ i, i ≠ h.CreateSwitchRuleIndex switchNum eventType → i ≠ a → i ≠ b →
        s1.switchRules i = s.switchRules i := by
  have hsw2 : ¬ switchNum > h.kPRSwitchPhysicalLast := by omega
  unfold SwitchUpdateRule
  simp only [hsw2, if_false, hfree, List.length_cons, GetSwitchRuleByIndex,
    freeOldLinks_inactive _ _ _ _ hbase]
  have hc : ¬ (rest.length + 1 + 1 < 0 + 1 + 1 + 1 - 1) := by omega
  simp only [List.length_nil, hc, decide_False, Bool.and_false, Bool.false_eq_true, if_false,
    gt_iff_lt, Nat.zero_lt_succ, if_true]
  obtain ⟨t1, e1, r1, f1, p1⟩ := install_link h (h.CreateSwitchRuleIndex switchNum eventType)
    d1 d2 [d3] (h.CreateSwitchRuleIndex switchNum eventType)
    { s with
      freeSwitchRuleIndexes := a :: b :: rest
      switchRules := Function.update s.switchRules (h.CreateSwitchRuleIndex switchNum eventType)
        { s.switchRules (h.CreateSwitchRuleIndex switchNum eventType) with
          notifyHost := rule.notifyHost, changeOutput := false, linkActive := false } }
    a (b :: rest) hmax hrep rfl
  obtain ⟨t2, e2, r2, f2, p2⟩ := install_link h (h.CreateSwitchRuleIndex switchNum eventType)
    d2 d3 [] a t1 b rest hmax p1 f1
  obtain ⟨t3, e3, r3, f3, p3⟩ := install_last h (h.CreateSwitchRuleIndex switchNum eventType)
    d3 b t2 hmax p2
  refine ⟨t3, ?_, by rw [f3, f2], p3, ?_, ?_, ?_, ?_, ?_, ?_, ?_⟩
  · rw [e1, e2, e3]
  all_goals simp [r3, r2, r1, Function.update_apply, hba, hbb, hab, hba.symm, hbb.symm, hab.symm]
  intro i hi1 hi2 hi3
  simp [hi1, hi2, hi3]

theorem SwitchUpdateRule_none_after_two_links (h : Header) (s : PRDevice) (switchNum : Nat)
    (eventType : PREventType) (rule : PRSwitchRule) (a b z : Nat)
    (hsw : switchNum ≤ h.kPRSwitchPhysicalLast)
    (hb1 : (s.switchRules (h.CreateSwitchRuleIndex switchNum eventType)).linkActive = true)
    (hb2 : (s.switchRules (h.CreateSwitchRuleIndex switchNum eventType)).linkIndex = a)
    (ha1 : (s.switchRules a).linkActive = true) (ha2 : (s.switchRules a).linkIndex = b)
    (hz1 : (s.switchRules b).linkActive = false) (hz2 : (s.switchRules b).linkIndex = z)
    (hlen : s.freeSwitchRuleIndexes.length + 2 ≤ 128)
    (hmax : 4 ≤ h.maxWriteWords) (hrep : s.hw.txReplies = []) :
    ∃ s2, SwitchUpdateRule h s switchNum eventType rule [] = some (PRResult.kPRSuccess, s2) ∧
      s2.freeSwitchRuleIndexes = s.freeSwitchRuleIndexes ++ [b, z] ∧
      (s2.switchRules (h.CreateSwitchRuleIndex switchNum eventType)).linkActive = false ∧
      ∀ i, i ≠ h.CreateSwitchRuleIndex switchNum eventType →
        s2.switchRules i = s.switchRules i := by
  have hsw2 : ¬ switchNum > h.kPRSwitchPhysicalLast := by omega
  have w1 := freeOldLinks_step s.switchRules 128
    (s.switchRules (h.CreateSwitchRuleIndex switchNum eventType)) s.freeSwitchRuleIndexes hb1
    (by omega)
  rw [hb2, ha2] at w1
  have w2 := freeOldLinks_step s.switchRules 127 (s.switchRules a)
    (s.freeSwitchRuleIndexes ++ [b]) ha1 (by simp; omega)
  rw [ha2, hz2] at w2
  have w3 := freeOldLinks_inactive s.switchRules 127 (s.switchRules b)
    (s.freeSwitchRuleIndexes ++ [b] ++ [z]) hz1
  obtain ⟨a1, _⟩ := PrepareWriteData_accepted h
    { s with
      freeSwitchRuleIndexes := s.freeSwitchRuleIndexes ++ [b] ++ [z]
      switchRules := Function.update s.switchRules (h.CreateSwitchRuleIndex switchNum eventType)
        { s.switchRules (h.CreateSwitchRuleIndex switchNum eventType) with
          notifyHost := rule.notifyHost, changeOutput := false, linkActive := false } }
    (switchRuleBurst h
      { s.switchRules (h.CreateSwitchRuleIndex switchNum eventType) with
          notifyHost := rule.notifyHost, changeOutput := false, linkActive := false })
    (by simpa [switchRuleBurst] using hmax) hrep
  unfold SwitchUpdateRule
  simp only [hsw2, if_false, List.length_nil, GetSwitchRuleByIndex, w1, w2, w3, gt_iff_lt,
    Nat.lt_irrefl, decide_False, Bool.false_and, Bool.false_eq_true]
  refine ⟨_, congrArg some (Prod.ext a1 rfl), ?_, ?_, ?_⟩
  · simp
  · simp
  · intro i hi
    simp [Function.update_apply, hi]


theorem apply_default_hw (h : Header) (p : MachineProfile) (s : PRDevice) :
    (DriverLoadMachineTypeDefaults.apply h p s false).2.hw = s.hw := by
  unfold DriverLoadMachineTypeDefaults.apply
  simp only [Bool.false_eq_true, if_false]
  refine forLoop_invariant (fun a : PRResult × PRDevice => a.2.hw = s.hw) _ _ _ _ ?_
    (fun i a ha => ha)
  refine forLoop_invariant (fun a : PRResult × PRDevice => a.2.hw = s.hw) _ _ _ _ ?_
    (fun i a ha => ha)
  refine forLoop_invariant (fun a : PRResult × PRDevice => a.2.hw = s.hw) _ _ _ _ ?_
    (fun i a ha => ha)
  exact forLoop_invariant (fun a : PRResult × PRDevice => a.2.hw = s.hw) _ _ _ _ rfl
    (fun i a ha => ha)

theorem initRules_spec (h : Header) (s : PRDevice) (n : Nat) :
    (forLoop 0 n (Reset.initRule h) s).freeSwitchRuleIndexes =
      s.freeSwitchRuleIndexes ++
        (List.range n).filter
          (fun i => decide ((h.ParseSwitchRuleIndex i).1 ≥ h.kPRSwitchVirtualFirst)) ∧
    (forLoop 0 n (Reset.initRule h) s).hw = s.hw ∧
    ∀ i,
      ((forLoop 0 n (Reset.initRule h) s).switchRules i).linkActive =
        (s.switchRules i).linkActive ∧
      ((forLoop 0 n (Reset.initRule h) s).switchRules i).linkIndex =
        (s.switchRules i).linkIndex := by
  induction n with
  | zero => simp [forLoop_self]
  | succ n ih =>
    rw [forLoop_succ _ _ _ _ (Nat.zero_le n)]
    obtain ⟨i1, i2, i3⟩ := ih
    refine ⟨?_, ?_, ?_⟩
    · simp only [Reset.initRule, i1, List.range_succ, List.filter_append, List.filter_cons,
        List.filter_nil]
      by_cases c : (h.ParseSwitchRuleIndex n).1 ≥ h.kPRSwitchVirtualFirst <;> simp [c]
    · simpa [Reset.initRule] using i2
    · intro i
      by_cases e : i = n
      · subst e
        simpa [Reset.initRule] using i3 i
      · simpa [Reset.initRule, Function.update_apply, e] using i3 i

theorem clearRules_default (h : Header) (s : PRDevice) :
    Reset.clearRules h false s = some s := by
  unfold Reset.clearRules
  exact forLoopM_some _ _ _ _ (by intro i t; simp)

theorem loadDefaults_default (h : Header) (s : PRDevice) :
    ∃ s2, Reset.loadDefaults h s false = some s2 ∧ s2.hw = s.hw := by
  unfold Reset.loadDefaults
  cases hm : s.machineType <;>
    simp [DriverLoadMachineTypeDefaults, DriverLoadMachineTypeDefaults.profile,
      apply_default_hw]

/-- `Reset` without the update flag returns success for every device; afterwards the
free list holds the rule indices of the virtual switches in ascending order,
the transport is untouched and every slot of the table has an inactive link
and link index zero. -/
theorem Reset_default (h : Header) (s : PRDevice) :
    ∃ s0, Reset h s false = some (PRResult.kPRSuccess, s0) ∧
      s0.freeSwitchRuleIndexes =
        (List.range h.kPRSwitchRulesCount).filter
          (fun i => decide ((h.ParseSwitchRuleIndex i).1 ≥ h.kPRSwitchVirtualFirst)) ∧
      s0.hw = s.hw ∧
      ∀ i, i < h.maxSwitchRules →
        (s0.switchRules i).linkActive = false ∧ (s0.switchRules i).linkIndex = 0 := by
  obtain ⟨s2, e2, hw2⟩ := loadDefaults_default h (Reset.clearBuffers s)
  obtain ⟨i1, i2, i3⟩ := initRules_spec h (Reset.clearRuleTable h s2) h.kPRSwitchRulesCount
  unfold Reset
  simp only [e2, Option.some_bind, clearRules_default, Reset.initRules, Option.map_some']
  refine ⟨_, rfl, ?_, ?_, ?_⟩
  · simpa [Reset.clearRuleTable] using i1
  · rw [i2]; exact hw2
  · intro i hi
    obtain ⟨j1, j2⟩ := i3 i
    rw [j1, j2]
    simp [Reset.clearRuleTable, hi, zeroSwitchRule]

theorem install_accepted (h : Header) (first : Nat) (hmax : 4 ≤ h.maxWriteWords) :
    ∀ (ds : List PRDriverState) (idx : Nat) (s : PRDevice), ds ≠ [] →
      ds.length ≤ s.freeSwitchRuleIndexes.length + 1 → s.hw.txReplies = [] →
      ∃ s1, SwitchUpdateRule.install h first ds idx s = some (PRResult.kPRSuccess, s1) ∧
        s1.freeSwitchRuleIndexes = s.freeSwitchRuleIndexes.drop (ds.length - 1) ∧
        s1.hw.txReplies = [] := by
  intro ds
  induction ds with
  | nil => intro idx s hne; exact absurd rfl hne
  | cons d ds ih =>
    intro idx s _ hlen hrep
    cases ds with
    | nil =>
      obtain ⟨s1, e1, _, f1, p1⟩ := install_last h first d idx s hmax hrep
      exact ⟨s1, e1, by simpa using f1, p1⟩
    | cons d2 ds =>
      cases hf : s.freeSwitchRuleIndexes with
      | nil => simp [hf] at hlen
      | cons front free =>
        obtain ⟨t, e1, _, f1, p1⟩ := install_link h first d d2 ds idx s front free hmax hrep hf
        obtain ⟨s1, e2, f2, p2⟩ := ih front t (by simp)
          (by rw [f1]; simp [hf] at hlen; simpa using hlen) p1
        refine ⟨s1, by rw [e1, e2], ?_, p2⟩
        rw [f2, f1]
        simp

theorem SwitchUpdateRule_fresh_base (h : Header) (s : PRDevice) (switchNum : Nat)
    (eventType : PREventType) (rule : PRSwitchRule) (ds : List PRDriverState)
    (hsw : switchNum ≤ h.kPRSwitchPhysicalLast)
    (hbase : (s.switchRules (h.CreateSwitchRuleIndex switchNum eventType)).linkActive = false)
    (hne : ds ≠ []) (hlen : ds.length ≤ s.freeSwitchRuleIndexes.length + 1)
    (hmax : 4 ≤ h.maxWriteWords) (hrep : s.hw.txReplies = []) :
    ∃ s1, SwitchUpdateRule h s switchNum eventType rule ds = some (PRResult.kPRSuccess, s1) ∧
      s1.freeSwitchRuleIndexes = s.freeSwitchRuleIndexes.drop (ds.length - 1) := by
  have hsw2 : ¬ switchNum > h.kPRSwitchPhysicalLast := by omega
  have hc : ¬ (s.freeSwitchRuleIndexes.length < ds.length - 1) := by omega
  have hpos : ds.length > 0 := List.length_pos.mpr hne
  obtain ⟨s1, e1, f1, _⟩ := install_accepted h (h.CreateSwitchRuleIndex switchNum eventType)
    hmax ds (h.CreateSwitchRuleIndex switchNum eventType)
    { s with
      switchRules := Function.update s.switchRules (h.CreateSwitchRuleIndex switchNum eventType)
        { s.switchRules (h.CreateSwitchRuleIndex switchNum eventType) with
          notifyHost := rule.notifyHost, changeOutput := false, linkActive := false } }
    hne hlen hrep
  unfold SwitchUpdateRule
  simp only [hsw2, if_false, hc, decide_False, Bool.and_false, Bool.false_eq_true,
    GetSwitchRuleByIndex, freeOldLinks_inactive _ _ _ _ hbase, hpos, if_true]
  exact ⟨s1, e1, f1⟩

theorem SwitchUpdateRule_pool_short (h : Header) (s : PRDevice) (switchNum : Nat)
    (eventType : PREventType) (rule : PRSwitchRule) (linkedDrivers : List PRDriverState)
    (hshort : s.freeSwitchRuleIndexes.length + 1 < linkedDrivers.length) :
    SwitchUpdateRule h s switchNum eventType rule linkedDrivers =
      some (PRResult.kPRFailure, s) := by
  have h1 : linkedDrivers.length > 0 := by omega
  have h2 : s.freeSwitchRuleIndexes.length < linkedDrivers.length - 1 := by omega
  unfold SwitchUpdateRule
  split
  · rfl
  · simp [h1, h2]

/-- The sequence `Reset`, `SwitchUpdateRule` with three reactions, `SwitchUpdateRule`
with none on the same pair, with `a` and `b` the first two free indices after
`Reset`: the first update takes `a` and `b`, the second one pushes `b` and 0. -/
theorem reset_three_then_none (h : Header) (s : PRDevice) (switchNum : Nat)
    (eventType : PREventType) (rule rule2 : PRSwitchRule) (d1 d2 d3 : PRDriverState)
    (a b : Nat) (rest : List Nat)
    (hsw : switchNum ≤ h.kPRSwitchPhysicalLast)
    (hbase : h.CreateSwitchRuleIndex switchNum eventType < h.maxSwitchRules)
    (hcount : h.kPRSwitchRulesCount ≤ h.maxSwitchRules)
    (hphys : (h.ParseSwitchRuleIndex (h.CreateSwitchRuleIndex switchNum eventType)).1 <
      h.kPRSwitchVirtualFirst)
    (hpool : (List.range h.kPRSwitchRulesCount).filter
        (fun i => decide ((h.ParseSwitchRuleIndex i).1 ≥ h.kPRSwitchVirtualFirst)) =
      a :: b :: rest)
    (hlen : rest.length + 2 ≤ 128)
    (hmax : 4 ≤ h.maxWriteWords) (hrep : s.hw.txReplies = []) :
    ∃ s0 s1 s2, Reset h s false = some (PRResult.kPRSuccess, s0) ∧
      s0.freeSwitchRuleIndexes = a :: b :: rest ∧
      SwitchUpdateRule h s0 switchNum eventType rule [d1, d2, d3] =
        some (PRResult.kPRSuccess, s1) ∧
      s1.freeSwitchRuleIndexes = rest ∧
      SwitchUpdateRule h s1 switchNum eventType rule2 [] = some (PRResult.kPRSuccess, s2) ∧
      s2.freeSwitchRuleIndexes = rest ++ [b, 0] ∧
      (∀ i, i < h.maxSwitchRules → i ≠ a → (s2.switchRules i).linkActive = false) ∧
      a ∉ rest ∧ a ≠ b := by
  have hmem : ∀ x, x ∈ a :: b :: rest →
      x < h.kPRSwitchRulesCount ∧ h.kPRSwitchVirtualFirst ≤ (h.ParseSwitchRuleIndex x).1 := by
    intro x hx
    rw [← hpool] at hx
    simpa using hx
  have hnodup : (a :: b :: rest).Nodup := by
    rw [← hpool]
    exact (List.nodup_range _).filter _
  have ha := hmem a (by simp)
  have hb := hmem b (by simp)
  have hba : h.CreateSwitchRuleIndex switchNum eventType ≠ a := by
    intro e; rw [e] at hphys; omega
  have hbb : h.CreateSwitchRuleIndex switchNum eventType ≠ b := by
    intro e; rw [e] at hphys; omega
  have hab : a ≠ b := by
    intro e
    simp [e] at hnodup
  have har : a ∉ rest := by
    intro e
    simp [e] at hnodup
  obtain ⟨s0, e0, f0, w0, l0⟩ := Reset_default h s
  rw [hpool] at f0
  obtain ⟨s1, e1, f1, p1, b1, b2, a1, a2, z1, z2, o1⟩ :=
    SwitchUpdateRule_three h s0 switchNum eventType rule d1 d2 d3 a b rest hsw
      (l0 _ hbase).1 f0 hmax (by rw [w0]; exact hrep) hba hbb hab
  rw [(l0 b (by omega)).2] at z2
  obtain ⟨s2, e2, f2, c1, o2⟩ :=
    SwitchUpdateRule_none_after_two_links h s1 switchNum eventType rule2 a b 0 hsw b1 b2 a1 a2
      z1 z2 (by rw [f1]; exact hlen) hmax p1
  refine ⟨s0, s1, s2, e0, f0, e1, f1, e2, by rw [f2, f1], ?_, har, hab⟩
  intro i hi hia
  by_cases c : i = h.CreateSwitchRuleIndex switchNum eventType
  · rw [c]; exact c1
  · rw [o2 i c]
    by_cases c2 : i = b
    · rw [c2]; exact z1
    · rw [o1 i c hia c2]
      exact (l0 i hi).1

/-! ## Fuel -/

/-- The walk over the old links never runs out of fuel when it starts with at least
one unit and `fuel + free.length ≥ 129`: every pass adds one entry to the free
list and the walk stops as soon as the list has more than 128 entries. The
free list it returns is at least as long as the one it started with. -/
theorem freeOldLinks_isSome (rules : Nat → PRSwitchRuleInternal) :
    ∀ (fuel : Nat) (oldRule : PRSwitchRuleInternal) (free : List Nat),
      1 ≤ fuel → 129 ≤ fuel + free.length →
      ∃ r, SwitchUpdateRule.freeOldLinks rules fuel oldRule free = some r ∧
        free.length ≤ r.2.length := by
  intro fuel
  induction fuel with
  | zero => intro _ _ h1; omega
  | succ fuel ih =>
    intro oldRule free _ h2
    rw [SwitchUpdateRule.freeOldLinks]
    by_cases hl : oldRule.linkActive = true
    · simp only [hl, if_true]
      by_cases hc : 128 < free.length + 1
      · exact ⟨(PRResult.kPRFailure, free ++ [(rules oldRule.linkIndex).linkIndex]),
          by simp [hc], by simp⟩
      · simp only [List.length_append, List.length_singleton, gt_iff_lt, hc, if_false]
        obtain ⟨r, e, l⟩ := ih (rules oldRule.linkIndex)
          (free ++ [(rules oldRule.linkIndex).linkIndex]) (by omega) (by simp; omega)
        exact ⟨r, e, by simp at l; omega⟩
    · exact ⟨(PRResult.kPRSuccess, free), by simp [hl], by simp⟩

/-- The install loop never calls `front()` on an empty free list when the list holds
at least one index less than there are reactions. -/
theorem install_isSome (h : Header) (first : Nat) :
    ∀ (ds : List PRDriverState) (idx : Nat) (s : PRDevice),
      ds.length ≤ s.freeSwitchRuleIndexes.length + 1 →
      (SwitchUpdateRule.install h first ds idx s).isSome = true := by
  intro ds
  induction ds with
  | nil => intro idx s _; simp [SwitchUpdateRule.install]
  | cons d ds ih =>
    intro idx s hlen
    rw [SwitchUpdateRule.install]
    by_cases hc : ds.length + 1 > 1
    · simp only [hc, if_true]
      cases hf : s.freeSwitchRuleIndexes with
      | nil =>
        simp only [hf, List.length_cons, List.length_nil] at hlen
        omega
      | cons front free =>
        simp only []
        split
        · simp
        · apply ih
          simp only [PrepareWriteData_free]
          simp [hf] at hlen
          omega
    · simp only [hc, if_false]
      split
      · simp
      · apply ih
        have : ds.length = 0 := by omega
        omega

/-- `SwitchUpdateRule` returns a result for every device and every argument: the 129
units of fuel of the walk suffice and the install loop finds the indices it
takes from the free list. -/
theorem SwitchUpdateRule_isSome (h : Header) (s : PRDevice) (switchNum : Nat)
    (eventType : PREventType) (rule : PRSwitchRule) (linkedDrivers : List PRDriverState) :
    (SwitchUpdateRule h s switchNum eventType rule linkedDrivers).isSome = true := by
  obtain ⟨r, e, l⟩ := freeOldLinks_isSome s.switchRules 129
    (GetSwitchRuleByIndex s (h.CreateSwitchRuleIndex switchNum eventType))
    s.freeSwitchRuleIndexes (by omega) (by omega)
  unfold SwitchUpdateRule
  split
  · rfl
  · split
    · rfl
    · next hpool =>
      simp only [e]
      obtain ⟨res, free⟩ := r
      cases res with
      | kPRFailure => rfl
      | kPRSuccess =>
        simp only []
        split
        · apply install_isSome
          simp only [Bool.and_eq_true, decide_eq_true_eq, not_and, not_lt] at hpool
          simp at l ⊢
          have := hpool (by assumption)
          omega
        · rfl

theorem ReadData_count_le (h : Header) (s : PRDevice) (n : Nat) :
    (ReadData h s n).2.2.num_collected_bytes ≤ s.num_collected_bytes := by
  unfold ReadData
  split
  · simp
  · simp

theorem ReadData_count_one (h : Header) (s : PRDevice) (hn : 4 ≤ s.num_collected_bytes) :
    (ReadData h s 1).2.2.num_collected_bytes = s.num_collected_bytes - 4 := by
  have hn2 : 1 * 4 ≤ s.num_collected_bytes := by omega
  simp [ReadData, hn2]

theorem step_count (h : Header) (s : PRDevice) (hn : 4 ≤ s.num_collected_bytes) :
    (SortReturningData.step h s).num_collected_bytes ≤ s.num_collected_bytes - 4 := by
  have e := ReadData_count_one h s hn
  unfold SortReturningData.step
  simp only []
  split
  · have c := ReadData_count_le h
      { (ReadData h s 1).2.2 with
        requestedDataQueue := (ReadData h s 1).2.2.requestedDataQueue ++
          [(ReadData h s 1).2.1.headD 0] }
      (((ReadData h s 1).2.1.headD 0 &&& h.P_ROC_HEADER_LENGTH_MASK) >>>
        h.P_ROC_HEADER_LENGTH_SHIFT)
    simp only [] at c ⊢
    omega
  · split
    · have c := ReadData_count_le h (ReadData h s 1).2.2 1
      simp only [] at c ⊢
      omega
    · omega

/-- The loop of `SortReturningData` never runs out of fuel when it starts with at
least `num_collected_bytes / 4 - 1` units: every pass takes at least one word
out of the buffer. -/
theorem SortReturningData_loop_isSome (h : Header) :
    ∀ (fuel : Nat) (s : PRDevice), s.num_collected_bytes / 4 ≤ fuel + 1 →
      (SortReturningData.loop h fuel s).isSome = true := by
  intro fuel
  induction fuel with
  | zero =>
    intro s hs
    have hc : ¬ s.num_collected_bytes / 4 ≥ 2 := by omega
    rw [SortReturningData.loop]
    simp [hc]
  | succ fuel ih =>
    intro s hs
    rw [SortReturningData.loop]
    by_cases hc : s.num_collected_bytes / 4 ≥ 2
    · simp only [hc, if_true]
      have hst := step_count h s (by omega)
      exact ih _ (by omega)
    · simp [hc]

/-- `SortReturningData` always returns. -/
theorem SortReturningData_isSome (h : Header) (s : PRDevice) :
    (SortReturningData h s).isSome = true := by
  unfold SortReturningData
  simp only [Option.isSome_map']
  exact SortReturningData_loop_isSome h _ _ (by omega)

set_option maxRecDepth 100000 in
/-- C6 (counterexample): after `Reset` on the sample header the free pool holds 128
indices; `SwitchUpdateRule` with 129 reactions, one more than the pool size,
on switch 5 returns success and leaves the pool empty. -/
theorem SwitchUpdateRule_one_more_than_pool :
    (Reset sampleHeader (blankDevice PRMachineType.kPRMachineWPC PRMachineType.kPRMachineWPC)
        false).map (fun r => (r.1, r.2.freeSwitchRuleIndexes.length)) =
      some (PRResult.kPRSuccess, 128) ∧
    (List.replicate 129 zeroDriverState).length = 129 ∧
    ((Reset sampleHeader (blankDevice PRMachineType.kPRMachineWPC PRMachineType.kPRMachineWPC)
        false).bind
      (fun r => SwitchUpdateRule sampleHeader r.2 5
        PREventType.kPREventTypeSwitchClosedDebounced { notifyHost := true }
        (List.replicate 129 zeroDriverState))).map
        (fun r => (r.1, r.2.freeSwitchRuleIndexes)) =
      some (PRResult.kPRSuccess, []) := by
  obtain ⟨s0, e0, f0, w0, l0⟩ := Reset_default sampleHeader
    (blankDevice PRMachineType.kPRMachineWPC PRMachineType.kPRMachineWPC)
  have hp : s0.freeSwitchRuleIndexes.length = 128 := by
    rw [f0]
    decide
  obtain ⟨s1, e1, f1⟩ := SwitchUpdateRule_fresh_base sampleHeader s0 5
    PREventType.kPREventTypeSwitchClosedDebounced { notifyHost := true }
    (List.replicate 129 zeroDriverState) (by decide) (l0 _ (by decide)).1 (by decide)
    (by rw [hp]; decide) (by decide) (by rw [w0]; rfl)
  refine ⟨?_, by decide, ?_⟩
  · rw [e0]
    simp [hp]
  · rw [e0]
    simp only [Option.some_bind, e1, Option.map_some', f1]
    rw [List.drop_of_length_le (by rw [hp]; decide)]

/-- C6 (amended): whenever the number of reactions exceeds the free-pool size by more
than one, `SwitchUpdateRule` returns failure and leaves the device (the rule
table, the free pool and the prepared-write buffer among its members) as it
was. -/
theorem SwitchUpdateRule_pool_exhausted (h : Header) (s : PRDevice) (switchNum : Nat)
    (eventType : PREventType) (rule : PRSwitchRule) (linkedDrivers : List PRDriverState)
    (hshort : s.freeSwitchRuleIndexes.length + 1 < linkedDrivers.length) :
    SwitchUpdateRule h s switchNum eventType rule linkedDrivers =
      some (PRResult.kPRFailure, s) :=
  SwitchUpdateRule_pool_short h s switchNum eventType rule linkedDrivers hshort

theorem SwitchUpdateRule_pool_exhausted_witness :
    (blankDevice PRMachineType.kPRMachineWPC
        PRMachineType.kPRMachineWPC).freeSwitchRuleIndexes.length + 1 <
      [zeroDriverState, zeroDriverState].length ∧
    SwitchUpdateRule sampleHeader
        (blankDevice PRMachineType.kPRMachineWPC PRMachineType.kPRMachineWPC) 5
        PREventType.kPREventTypeSwitchClosedDebounced { notifyHost := true }
        [zeroDriverState, zeroDriverState] =
      some (PRResult.kPRFailure,
        blankDevice PRMachineType.kPRMachineWPC PRMachineType.kPRMachineWPC) :=
  ⟨by decide,
    SwitchUpdateRule_pool_exhausted sampleHeader _ 5
      PREventType.kPREventTypeSwitchClosedDebounced { notifyHost := true }
      [zeroDriverState, zeroDriverState] (by decide)⟩

/-- C5 (the code where the claim fails): let `a` and `b` be the first two indices of
the free pool after `Reset`. `SwitchUpdateRule` with three reactions on a
physical switch takes exactly `a` and `b` out of the pool; the following
`SwitchUpdateRule` with no reaction on the same pair pushes `b` and the index 0
on the pool. The pool has its former size, but `a` has not come back and 0,
which was never taken, is now in it. -/
theorem SwitchUpdateRule_clear_returns_other_indices (h : Header) (s : PRDevice)
    (switchNum : Nat) (eventType : PREventType) (rule rule2 : PRSwitchRule)
    (d1 d2 d3 : PRDriverState) (a b : Nat) (rest : List Nat)
    (hsw : switchNum ≤ h.kPRSwitchPhysicalLast)
    (hbase : h.CreateSwitchRuleIndex switchNum eventType < h.maxSwitchRules)
    (hcount : h.kPRSwitchRulesCount ≤ h.maxSwitchRules)
    (hphys : (h.ParseSwitchRuleIndex (h.CreateSwitchRuleIndex switchNum eventType)).1 <
      h.kPRSwitchVirtualFirst)
    (hzero : (h.ParseSwitchRuleIndex 0).1 < h.kPRSwitchVirtualFirst)
    (hpool : (List.range h.kPRSwitchRulesCount).filter
        (fun i => decide ((h.ParseSwitchRuleIndex i).1 ≥ h.kPRSwitchVirtualFirst)) =
      a :: b :: rest)
    (hlen : rest.length + 2 ≤ 128)
    (hmax : 4 ≤ h.maxWriteWords) (hrep : s.hw.txReplies = []) :
    ∃ s0 s1 s2, Reset h s false = some (PRResult.kPRSuccess, s0) ∧
      s0.freeSwitchRuleIndexes = a :: b :: rest ∧
      SwitchUpdateRule h s0 switchNum eventType rule [d1, d2, d3] =
        some (PRResult.kPRSuccess, s1) ∧
      s1.freeSwitchRuleIndexes = rest ∧
      SwitchUpdateRule h s1 switchNum eventType rule2 [] = some (PRResult.kPRSuccess, s2) ∧
      s2.freeSwitchRuleIndexes = rest ++ [b, 0] ∧
      s2.freeSwitchRuleIndexes.length = s0.freeSwitchRuleIndexes.length ∧
      a ∉ s2.freeSwitchRuleIndexes ∧ 0 ∉ s0.freeSwitchRuleIndexes := by
  obtain ⟨s0, s1, s2, e0, f0, e1, f1, e2, f2, _, har, hab⟩ :=
    reset_three_then_none h s switchNum eventType rule rule2 d1 d2 d3 a b rest hsw hbase
      hcount hphys hpool hlen hmax hrep
  have hz : (0 : Nat) ∉ a :: b :: rest := by
    rw [← hpool]
    simp
    intro _
    exact hzero
  have ha0 : a ≠ 0 := by
    intro e
    exact hz (by simp [e])
  refine ⟨s0, s1, s2, e0, f0, e1, f1, e2, f2, by rw [f2, f0]; simp, ?_, by rw [f0]; exact hz⟩
  rw [f2]
  simp [har, hab, ha0]

set_option maxRecDepth 100000 in
theorem SwitchUpdateRule_clear_returns_other_indices_witness :
    (5 ≤ sampleHeader.kPRSwitchPhysicalLast ∧
      sampleHeader.CreateSwitchRuleIndex 5 PREventType.kPREventTypeSwitchClosedDebounced <
        sampleHeader.maxSwitchRules ∧
      sampleHeader.kPRSwitchRulesCount ≤ sampleHeader.maxSwitchRules ∧
      (sampleHeader.ParseSwitchRuleIndex
          (sampleHeader.CreateSwitchRuleIndex 5
            PREventType.kPREventTypeSwitchClosedDebounced)).1 <
        sampleHeader.kPRSwitchVirtualFirst ∧
      (sampleHeader.ParseSwitchRuleIndex 0).1 < sampleHeader.kPRSwitchVirtualFirst ∧
      (List.range sampleHeader.kPRSwitchRulesCount).filter
          (fun i => decide ((sampleHeader.ParseSwitchRuleIndex i).1 ≥
            sampleHeader.kPRSwitchVirtualFirst)) =
        224 :: 225 :: samplePoolRest ∧
      samplePoolRest.length + 2 ≤ 128 ∧
      4 ≤ sampleHeader.maxWriteWords ∧
      (blankDevice PRMachineType.kPRMachineWPC PRMachineType.kPRMachineWPC).hw.txReplies
        = []) ∧
    ∃ s0 s1 s2,
      Reset sampleHeader (blankDevice PRMachineType.kPRMachineWPC PRMachineType.kPRMachineWPC)
        false = some (PRResult.kPRSuccess, s0) ∧
      s0.freeSwitchRuleIndexes = 224 :: 225 :: samplePoolRest ∧
      SwitchUpdateRule sampleHeader s0 5 PREventType.kPREventTypeSwitchClosedDebounced
          { notifyHost := true }
          [{ zeroDriverState with driverNum := 40 }, { zeroDriverState with driverNum := 41 },
            { zeroDriverState with driverNum := 42 }] =
        some (PRResult.kPRSuccess, s1) ∧
      s1.freeSwitchRuleIndexes = samplePoolRest ∧
      SwitchUpdateRule sampleHeader s1 5 PREventType.kPREventTypeSwitchClosedDebounced
          { notifyHost := true } [] = some (PRResult.kPRSuccess, s2) ∧
      s2.freeSwitchRuleIndexes = samplePoolRest ++ [225, 0] ∧
      s2.freeSwitchRuleIndexes.length = s0.freeSwitchRuleIndexes.length ∧
      224 ∉ s2.freeSwitchRuleIndexes ∧ 0 ∉ s0.freeSwitchRuleIndexes :=
  ⟨by decide,
    SwitchUpdateRule_clear_returns_other_indices sampleHeader
      (blankDevice PRMachineType.kPRMachineWPC PRMachineType.kPRMachineWPC) 5
      PREventType.kPREventTypeSwitchClosedDebounced { notifyHost := true }
      { notifyHost := true } { zeroDriverState with driverNum := 40 }
      { zeroDriverState with driverNum := 41 } { zeroDriverState with driverNum := 42 }
      224 225 samplePoolRest (by decide) (by decide) (by decide) (by decide) (by decide)
      (by decide) (by decide) (by decide) (by decide)⟩

/-- C4 (the code where the claim fails): after `Reset`, a `SwitchUpdateRule` with three
reactions on a physical switch and a `SwitchUpdateRule` with no reaction on the
same pair, all writes being accepted, the free pool contains the index 0, whose
switch number is physical, and the index `a` (the first virtual index, taken
by the first update) is lost: its switch number is virtual, it is not in the
free pool, and no slot other than `a` itself has an active link, so that
every chain rooted at a physical base slot is empty. -/
theorem rule_slots_not_partitioned (h : Header) (s : PRDevice)
    (switchNum : Nat) (eventType : PREventType) (rule rule2 : PRSwitchRule)
    (d1 d2 d3 : PRDriverState) (a b : Nat) (rest : List Nat)
    (hsw : switchNum ≤ h.kPRSwitchPhysicalLast)
    (hbase : h.CreateSwitchRuleIndex switchNum eventType < h.maxSwitchRules)
    (hcount : h.kPRSwitchRulesCount ≤ h.maxSwitchRules)
    (hphys : (h.ParseSwitchRuleIndex (h.CreateSwitchRuleIndex switchNum eventType)).1 <
      h.kPRSwitchVirtualFirst)
    (hzero : (h.ParseSwitchRuleIndex 0).1 < h.kPRSwitchVirtualFirst)
    (hpool : (List.range h.kPRSwitchRulesCount).filter
        (fun i => decide ((h.ParseSwitchRuleIndex i).1 ≥ h.kPRSwitchVirtualFirst)) =
      a :: b :: rest)
    (hlen : rest.length + 2 ≤ 128)
    (hmax : 4 ≤ h.maxWriteWords) (hrep : s.hw.txReplies = []) :
    ∃ s0 s1 s2, Reset h s false = some (PRResult.kPRSuccess, s0) ∧
      SwitchUpdateRule h s0 switchNum eventType rule [d1, d2, d3] =
        some (PRResult.kPRSuccess, s1) ∧
      SwitchUpdateRule h s1 switchNum eventType rule2 [] = some (PRResult.kPRSuccess, s2) ∧
      0 ∈ s2.freeSwitchRuleIndexes ∧
      a < h.kPRSwitchRulesCount ∧
      h.kPRSwitchVirtualFirst ≤ (h.ParseSwitchRuleIndex a).1 ∧
      a ∉ s2.freeSwitchRuleIndexes ∧
      ∀ i, i < h.maxSwitchRules → i ≠ a → (s2.switchRules i).linkActive = false := by
  obtain ⟨s0, s1, s2, e0, _, e1, _, e2, f2, hl, har, hab⟩ :=
    reset_three_then_none h s switchNum eventType rule rule2 d1 d2 d3 a b rest hsw hbase
      hcount hphys hpool hlen hmax hrep
  have ha : a < h.kPRSwitchRulesCount ∧ h.kPRSwitchVirtualFirst ≤ (h.ParseSwitchRuleIndex a).1 := by
    have hx : a ∈ a :: b :: rest := by simp
    rw [← hpool] at hx
    simpa using hx
  have ha0 : a ≠ 0 := by
    intro e
    rw [e] at ha
    omega
  refine ⟨s0, s1, s2, e0, e1, e2, by rw [f2]; simp, ha.1, ha.2, ?_, hl⟩
  rw [f2]
  simp [har, hab, ha0]

set_option maxRecDepth 100000 in
theorem rule_slots_not_partitioned_witness :
    (5 ≤ sampleHeader.kPRSwitchPhysicalLast ∧
      sampleHeader.CreateSwitchRuleIndex 5 PREventType.kPREventTypeSwitchClosedDebounced <
        sampleHeader.maxSwitchRules ∧
      sampleHeader.kPRSwitchRulesCount ≤ sampleHeader.maxSwitchRules ∧
      (sampleHeader.ParseSwitchRuleIndex
          (sampleHeader.CreateSwitchRuleIndex 5
            PREventType.kPREventTypeSwitchClosedDebounced)).1 <
        sampleHeader.kPRSwitchVirtualFirst ∧
      (sampleHeader.ParseSwitchRuleIndex 0).1 < sampleHeader.kPRSwitchVirtualFirst ∧
      (List.range sampleHeader.kPRSwitchRulesCount).filter
          (fun i => decide ((sampleHeader.ParseSwitchRuleIndex i).1 ≥
            sampleHeader.kPRSwitchVirtualFirst)) =
        224 :: 225 :: samplePoolRest ∧
      samplePoolRest.length + 2 ≤ 128 ∧
      4 ≤ sampleHeader.maxWriteWords ∧
      (blankDevice PRMachineType.kPRMachineWPC PRMachineType.kPRMachineWPC).hw.txReplies
        = []) ∧
    ∃ s0 s1 s2,
      Reset sampleHeader (blankDevice PRMachineType.kPRMachineWPC PRMachineType.kPRMachineWPC)
        false = some (PRResult.kPRSuccess, s0) ∧
      SwitchUpdateRule sampleHeader s0 5 PREventType.kPREventTypeSwitchClosedDebounced
          { notifyHost := true }
          [{ zeroDriverState with driverNum := 40 }, { zeroDriverState with driverNum := 41 },
            { zeroDriverState with driverNum := 42 }] =
        some (PRResult.kPRSuccess, s1) ∧
      SwitchUpdateRule sampleHeader s1 5 PREventType.kPREventTypeSwitchClosedDebounced
          { notifyHost := true } [] = some (PRResult.kPRSuccess, s2) ∧
      0 ∈ s2.freeSwitchRuleIndexes ∧
      224 < sampleHeader.kPRSwitchRulesCount ∧
      sampleHeader.kPRSwitchVirtualFirst ≤ (sampleHeader.ParseSwitchRuleIndex 224).1 ∧
      224 ∉ s2.freeSwitchRuleIndexes ∧
      ∀ i, i < sampleHeader.maxSwitchRules → i ≠ 224 →
        (s2.switchRules i).linkActive = false :=
  ⟨by decide,
    rule_slots_not_partitioned sampleHeader
      (blankDevice PRMachineType.kPRMachineWPC PRMachineType.kPRMachineWPC) 5
      PREventType.kPREventTypeSwitchClosedDebounced { notifyHost := true }
      { notifyHost := true } { zeroDriverState with driverNum := 40 }
      { zeroDriverState with driverNum := 41 } { zeroDriverState with driverNum := 42 }
      224 225 samplePoolRest (by decide) (by decide) (by decide) (by decide) (by decide)
      (by decide) (by decide) (by decide) (by decide)⟩

/-! ## Rejections and acceptances -/

@[simp] theorem PrepareWriteData_drivers (h : Header) (s : PRDevice) (words : List Nat) :
    (PrepareWriteData h s words).2.drivers = s.drivers := by
  unfold PrepareWriteData FlushWriteData WriteData
  split
  · rfl
  · simp only []
    split <;> split <;> (try split) <;> (try split) <;> rfl

/-- C15: a call of `PrepareWriteData` with more than `maxWriteWords` words returns
`kPRFailure` and leaves the whole device object as it was: the transport, the
prepared-write buffer and `numPreparedWriteWords` are unchanged. -/
theorem PrepareWriteData_too_long (h : Header) (s : PRDevice) (words : List Nat)
    (hlong : words.length > h.maxWriteWords) :
    PrepareWriteData h s words = (PRResult.kPRFailure, s) := by
  simp [PrepareWriteData, hlong]

theorem PrepareWriteData_too_long_witness :
    (List.replicate 1537 7).length > sampleHeader.maxWriteWords ∧
    PrepareWriteData sampleHeader
        (blankDevice PRMachineType.kPRMachineWPC PRMachineType.kPRMachineWPC)
        (List.replicate 1537 7) =
      (PRResult.kPRFailure,
        blankDevice PRMachineType.kPRMachineWPC PRMachineType.kPRMachineWPC) :=
  ⟨by rw [List.length_replicate]; decide,
    PrepareWriteData_too_long sampleHeader _ (List.replicate 1537 7)
      (by rw [List.length_replicate]; decide)⟩

/-- C17: on a machine type other than Custom, `DriverUpdateState` with a state whose
polarity differs from the polarity stored for that driver returns `kPRFailure`
and leaves the whole device object as it was, the driver table and the
prepared-write buffer included. -/
theorem DriverUpdateState_polarity_change (h : Header) (s : PRDevice)
    (driverState : PRDriverState)
    (hmachine : s.machineType ≠ PRMachineType.kPRMachineCustom)
    (hpol : driverState.polarity ≠ (s.drivers driverState.driverNum).polarity) :
    DriverUpdateState h s driverState = (PRResult.kPRFailure, s) := by
  unfold DriverUpdateState
  rw [DriverUpdateState_switch_skipped]
  simp [hmachine, hpol]

theorem DriverUpdateState_polarity_change_witness :
    (blankDevice PRMachineType.kPRMachineWPC PRMachineType.kPRMachineWPC).machineType ≠
      PRMachineType.kPRMachineCustom ∧
    reversedDriver40.polarity ≠
      ((blankDevice PRMachineType.kPRMachineWPC PRMachineType.kPRMachineWPC).drivers
        reversedDriver40.driverNum).polarity ∧
    DriverUpdateState sampleHeader
        (blankDevice PRMachineType.kPRMachineWPC PRMachineType.kPRMachineWPC)
        reversedDriver40 =
      (PRResult.kPRFailure,
        blankDevice PRMachineType.kPRMachineWPC PRMachineType.kPRMachineWPC) :=
  ⟨by decide, by decide,
    DriverUpdateState_polarity_change sampleHeader _ reversedDriver40 (by decide) (by decide)⟩

/-- C18: when the machine type is Custom, `DriverUpdateState` with any state stores
the state and hands exactly one burst of three words to `PrepareWriteData`,
whose result it returns; afterwards `DriverGetState` of that driver gives the
state and every other driver record is as before. No hypothesis on the state
is needed: a constant-on state and a changed polarity are accepted. -/
theorem DriverUpdateState_custom (h : Header) (s : PRDevice) (driverState : PRDriverState)
    (hcustom : s.machineType = PRMachineType.kPRMachineCustom) :
    DriverUpdateState h s driverState =
      PrepareWriteData h
        { s with drivers := Function.update s.drivers driverState.driverNum driverState }
        [(h.CreateDriverUpdateBurst driverState).1, (h.CreateDriverUpdateBurst driverState).2.1,
          (h.CreateDriverUpdateBurst driverState).2.2] ∧
    DriverGetState (DriverUpdateState h s driverState).2 driverState.driverNum = driverState ∧
    (∀ i, i ≠ driverState.driverNum →
      DriverGetState (DriverUpdateState h s driverState).2 i = DriverGetState s i) := by
  have e : DriverUpdateState h s driverState =
      PrepareWriteData h
        { s with drivers := Function.update s.drivers driverState.driverNum driverState }
        [(h.CreateDriverUpdateBurst driverState).1, (h.CreateDriverUpdateBurst driverState).2.1,
          (h.CreateDriverUpdateBurst driverState).2.2] := by
    unfold DriverUpdateState
    rw [DriverUpdateState_switch_skipped]
    simp [hcustom]
  refine ⟨e, ?_, ?_⟩
  · rw [e]; simp [DriverGetState]
  · intro i hi
    rw [e]; simp [DriverGetState, Function.update_apply, hi]

set_option maxRecDepth 100000 in
theorem DriverUpdateState_custom_witness :
    (blankDevice PRMachineType.kPRMachineCustom PRMachineType.kPRMachineWPC).machineType =
      PRMachineType.kPRMachineCustom ∧
    (DriverUpdateState sampleHeader
        (blankDevice PRMachineType.kPRMachineCustom PRMachineType.kPRMachineWPC)
        reversedDriver40).1 = PRResult.kPRSuccess ∧
    DriverGetState (DriverUpdateState sampleHeader
        (blankDevice PRMachineType.kPRMachineCustom PRMachineType.kPRMachineWPC)
        reversedDriver40).2 reversedDriver40.driverNum = reversedDriver40 :=
  ⟨rfl, by decide,
    (DriverUpdateState_custom sampleHeader
      (blankDevice PRMachineType.kPRMachineCustom PRMachineType.kPRMachineWPC)
      reversedDriver40 rfl).2.1⟩

/-- C19: for a switch number above `kPRSwitchPhysicalLast`, whatever the event type,
the rule and the list of linked drivers, `SwitchUpdateRule` returns `kPRFailure`
and leaves the whole device object as it was: the rule table, the free pool
and the prepared-write buffer are unchanged. -/
theorem SwitchUpdateRule_out_of_range (h : Header) (s : PRDevice) (switchNum : Nat)
    (eventType : PREventType) (rule : PRSwitchRule) (linkedDrivers : List PRDriverState)
    (hrange : switchNum > h.kPRSwitchPhysicalLast) :
    SwitchUpdateRule h s switchNum eventType rule linkedDrivers =
      some (PRResult.kPRFailure, s) := by
  simp [SwitchUpdateRule, hrange]

theorem SwitchUpdateRule_out_of_range_witness :
    224 > sampleHeader.kPRSwitchPhysicalLast ∧
    SwitchUpdateRule sampleHeader
        (blankDevice PRMachineType.kPRMachineWPC PRMachineType.kPRMachineWPC) 224
        PREventType.kPREventTypeSwitchClosedDebounced { notifyHost := true }
        [zeroDriverState] =
      some (PRResult.kPRFailure,
        blankDevice PRMachineType.kPRMachineWPC PRMachineType.kPRMachineWPC) :=
  ⟨by decide,
    SwitchUpdateRule_out_of_range sampleHeader _ 224
      PREventType.kPREventTypeSwitchClosedDebounced { notifyHost := true }
      [zeroDriverState] (by decide)⟩

/-- C20: for a physical switch and a list of `n ≥ 1` linked drivers: if the free pool
holds fewer than `n - 1` indices, `SwitchUpdateRule` returns `kPRFailure` and
leaves the whole device object as it was; if the pool holds at least `n - 1`
indices, the call goes on to the code after the two checks (lines 507 to 588),
and when the base slot has no chain, the burst fits the prepared-write buffer
and the transport takes whole writes, it returns `kPRSuccess` having taken
exactly `n - 1` indices from the front of the pool. -/
theorem SwitchUpdateRule_free_index_check (h : Header) (s : PRDevice) (switchNum : Nat)
    (eventType : PREventType) (rule : PRSwitchRule) (linkedDrivers : List PRDriverState)
    (hphys : switchNum ≤ h.kPRSwitchPhysicalLast) (hn : 1 ≤ linkedDrivers.length) :
    (s.freeSwitchRuleIndexes.length < linkedDrivers.length - 1 →
      SwitchUpdateRule h s switchNum eventType rule linkedDrivers =
        some (PRResult.kPRFailure, s)) ∧
    (linkedDrivers.length - 1 ≤ s.freeSwitchRuleIndexes.length →
      SwitchUpdateRule h s switchNum eventType rule linkedDrivers =
        SwitchUpdateRule.afterChecks h s switchNum eventType rule linkedDrivers) ∧
    (linkedDrivers.length - 1 ≤ s.freeSwitchRuleIndexes.length →
      (s.switchRules (h.CreateSwitchRuleIndex switchNum eventType)).linkActive = false →
      4 ≤ h.maxWriteWords → s.hw.txReplies = [] →
      ∃ s1, SwitchUpdateRule h s switchNum eventType rule linkedDrivers =
          some (PRResult.kPRSuccess, s1) ∧
        s1.freeSwitchRuleIndexes =
          s.freeSwitchRuleIndexes.drop (linkedDrivers.length - 1)) := by
  have hsw2 : ¬ switchNum > h.kPRSwitchPhysicalLast := by omega
  refine ⟨?_, ?_, ?_⟩
  · intro hshort
    exact SwitchUpdateRule_pool_short h s switchNum eventType rule linkedDrivers (by omega)
  · intro hroom
    have hc : ¬ (s.freeSwitchRuleIndexes.length < linkedDrivers.length - 1) := by omega
    unfold SwitchUpdateRule SwitchUpdateRule.afterChecks
    simp only [hsw2, if_false, hc, decide_False, Bool.and_false, Bool.false_eq_true]
  · intro hroom hbase hmax hrep
    exact SwitchUpdateRule_fresh_base h s switchNum eventType rule linkedDrivers hphys hbase
      (List.length_pos.mp (by omega)) (by omega) hmax hrep

theorem SwitchUpdateRule_free_index_check_witness :
    5 ≤ sampleHeader.kPRSwitchPhysicalLast ∧ 1 ≤ [zeroDriverState].length ∧
    (blankDevice PRMachineType.kPRMachineWPC
      PRMachineType.kPRMachineWPC).freeSwitchRuleIndexes = [] ∧
    ∃ s1, SwitchUpdateRule sampleHeader
          (blankDevice PRMachineType.kPRMachineWPC PRMachineType.kPRMachineWPC) 5
          PREventType.kPREventTypeSwitchClosedDebounced { notifyHost := true }
          [zeroDriverState] = some (PRResult.kPRSuccess, s1) ∧
      s1.freeSwitchRuleIndexes = [] :=
  ⟨by decide, by decide, rfl,
    (SwitchUpdateRule_free_index_check sampleHeader
      (blankDevice PRMachineType.kPRMachineWPC PRMachineType.kPRMachineWPC) 5
      PREventType.kPREventTypeSwitchClosedDebounced { notifyHost := true }
      [zeroDriverState] (by decide) (by decide)).2.2 (by decide) (by decide) (by decide)
      (by decide)⟩

/-! ## Coalescing of writes -/

theorem wireBytes_length (ws : List Nat) : (wireBytes ws).length = ws.length * 4 := by
  induction ws with
  | nil => rfl
  | cons w ws ih => simp [wireBytes, ih]; omega

theorem wireBytes_getD (ws : List Nat) (j k : Nat) (hj : j < ws.length) (hk : k < 4) :
    (wireBytes ws).getD (j * 4 + k) 0 = ((ws.getD j 0 % 2 ^ 32) >>> (8 * (3 - k))) &&& 0xFF := by
  induction ws generalizing j with
  | nil => simp at hj
  | cons w ws ih =>
    cases j with
    | zero => interval_cases k <;> simp [wireBytes]
    | succ j =>
      have e : (j + 1) * 4 + k = (j * 4 + k) + 4 := by omega
      rw [e]
      simp only [wireBytes, List.getD_cons_succ]
      exact ih j (by simpa using hj)

theorem WriteData_bytes (wr0 : Nat → Nat) (words : List Nat) :
    readArr (forLoop 0 words.length
        (fun j wr => WriteData.storeWord wr j (words.getD j 0)) wr0) (words.length * 4) =
      wireBytes words := by
  apply List.ext_getElem
  · rw [readArr_length, wireBytes_length]
  · intro i h1 h2
    rw [readArr_length] at h1
    have hj : i / 4 < words.length := by omega
    have hk : i % 4 < 4 := Nat.mod_lt _ (by decide)
    have e : i = (i / 4) * 4 + i % 4 := by omega
    rw [← List.getD_eq_getElem _ 0, ← List.getD_eq_getElem _ 0, readArr_getD _ _ _ _ h1]
    rw [e, WriteData_layout _ _ _ _ _ hj hk, wireBytes_getD _ _ _ hj hk]

theorem WriteData_eq (s : PRDevice) (words : List Nat) (hn : words.length ≠ 0) :
    WriteData s words =
      (if (PRHardwareWrite s.hw (wireBytes words)).1 = words.length * 4
        then PRResult.kPRSuccess else PRResult.kPRFailure,
        { s with
          wr_buffer := forLoop 0 words.length
            (fun j wr => WriteData.storeWord wr j (words.getD j 0)) s.wr_buffer
          hw := (PRHardwareWrite s.hw (wireBytes words)).2 }) := by
  unfold WriteData
  simp only [hn, if_false, WriteData_bytes]
  by_cases c : (PRHardwareWrite s.hw (wireBytes words)).1 = words.length * 4
  · simp [c]
  · simp [c]

theorem PRHardwareWrite_txLog (hw : Hardware) (bytes : List Nat) :
    (PRHardwareWrite hw bytes).2.txLog = hw.txLog ++ [bytes] := by
  unfold PRHardwareWrite
  split <;> rfl

/-- A flush of a non-empty buffer is one transport write of the bytes of the
buffered words. -/
theorem FlushWriteData_txLog (s : PRDevice) (hnz : s.numPreparedWriteWords ≠ 0) :
    (FlushWriteData s).2.hw.txLog =
      s.hw.txLog ++ [wireBytes (readArr s.preparedWriteWords s.numPreparedWriteWords)] := by
  have hn : (readArr s.preparedWriteWords s.numPreparedWriteWords).length ≠ 0 := by
    rw [readArr_length]; exact hnz
  have e := WriteData_eq s _ hn
  rw [readArr_length] at e
  simp [FlushWriteData, e, PRHardwareWrite_txLog]

/-- C16: `FlushWriteData` leaves `numPreparedWriteWords` at 0 in every case; with an
empty buffer it returns `kPRSuccess` and the transport is untouched; with a
non-empty buffer the transport log grows by exactly one write, whose bytes are
those of the buffered words; and the result is `kPRFailure` exactly when the
buffer is non-empty and the transport reports a byte count other than 4 times
the number of buffered words. -/
theorem FlushWriteData_spec (s : PRDevice) :
    (FlushWriteData s).2.numPreparedWriteWords = 0 ∧
    (s.numPreparedWriteWords = 0 →
      (FlushWriteData s).1 = PRResult.kPRSuccess ∧ (FlushWriteData s).2.hw = s.hw) ∧
    (s.numPreparedWriteWords ≠ 0 →
      (FlushWriteData s).2.hw.txLog =
        s.hw.txLog ++ [wireBytes (readArr s.preparedWriteWords s.numPreparedWriteWords)]) ∧
    ((FlushWriteData s).1 = PRResult.kPRFailure ↔
      (s.numPreparedWriteWords ≠ 0 ∧
        (PRHardwareWrite s.hw
          (wireBytes (readArr s.preparedWriteWords s.numPreparedWriteWords))).1 ≠
          4 * s.numPreparedWriteWords)) := by
  by_cases hz : s.numPreparedWriteWords = 0
  · have e : WriteData s (readArr s.preparedWriteWords s.numPreparedWriteWords) =
        (PRResult.kPRSuccess, s) := by
      simp [WriteData, readArr_length, hz]
    rw [hz] at e
    simp [FlushWriteData, e, hz]
  · have hn : (readArr s.preparedWriteWords s.numPreparedWriteWords).length ≠ 0 := by
      rw [readArr_length]; exact hz
    have e := WriteData_eq s _ hn
    rw [readArr_length] at e
    refine ⟨rfl, fun h0 => absurd h0 hz, fun _ => ?_, ?_⟩
    · simp [FlushWriteData, e, PRHardwareWrite_txLog]
    · simp only [FlushWriteData, e, hz, ne_eq, not_false_eq_true, true_and,
        Nat.mul_comm 4 s.numPreparedWriteWords]
      by_cases c : (PRHardwareWrite s.hw
          (wireBytes (readArr s.preparedWriteWords s.numPreparedWriteWords))).1 =
          s.numPreparedWriteWords * 4
      · simp [c]
      · simp [c]

theorem readArr_memcpyAt {α : Type} (dst : Nat → α) (off : Nat) (src : List α) :
    readArr (memcpyAt dst off src) (off + src.length) = readArr dst off ++ src := by
  apply List.ext_getElem
  · simp [readArr_length]
  · intro i h1 h2
    rw [readArr_length] at h1
    simp only [readArr, List.getElem_map, List.getElem_range, memcpyAt]
    by_cases c : i < off
    · have hc : ¬ off ≤ i := by omega
      rw [List.getElem_append_left (by simpa using c)]
      simp [hc]
    · have hc : off ≤ i := by omega
      rw [List.getElem_append_right (by simpa using hc)]
      have hi : i - off < src.length := by omega
      simp [hc, List.getElem?_eq_getElem hi]

theorem allWords_length_cons (words : List Nat) (calls : List (List Nat)) :
    (allWords (words :: calls)).length = words.length + (allWords calls).length := by
  simp [allWords]

theorem prepareAll_room (h : Header) :
    ∀ (calls : List (List Nat)) (s : PRDevice),
      s.numPreparedWriteWords + (allWords calls).length ≤ h.maxWriteWords →
      (prepareAll h calls s).1 = List.replicate calls.length PRResult.kPRSuccess ∧
      (prepareAll h calls s).2.hw = s.hw ∧
      (prepareAll h calls s).2.numPreparedWriteWords =
        s.numPreparedWriteWords + (allWords calls).length ∧
      readArr (prepareAll h calls s).2.preparedWriteWords
          (s.numPreparedWriteWords + (allWords calls).length) =
        readArr s.preparedWriteWords s.numPreparedWriteWords ++ allWords calls := by
  intro calls
  induction calls with
  | nil => intro s _; simp [prepareAll, allWords]
  | cons words calls ih =>
    intro s hroom
    rw [allWords_length_cons] at hroom
    have e := PrepareWriteData_room h s words (by omega)
    obtain ⟨i1, i2, i3, i4⟩ := ih (PrepareWriteData h s words).2 (by rw [e]; simp; omega)
    rw [e] at i1 i2 i3 i4
    simp only [] at i1 i2 i3 i4
    refine ⟨?_, ?_, ?_, ?_⟩
    · simp [prepareAll, e, i1, List.replicate_succ]
    · simp [prepareAll, e, i2]
    · simp [prepareAll, e, i3, allWords]; omega
    · simp only [prepareAll, e, allWords, List.length_append]
      rw [← Nat.add_assoc, i4, readArr_memcpyAt, List.append_assoc]

/-- C14 (amended): from an empty prepared-write buffer, a sequence of
`PrepareWriteData` calls whose combined word count is at least 1 and at most
`maxWriteWords`: every call returns `kPRSuccess`, the transport is untouched by
the calls, and the following `FlushWriteData` adds exactly one write to the
transport log, whose bytes are those of all the words in call order. -/
theorem prepare_then_flush (h : Header) (s : PRDevice) (calls : List (List Nat))
    (hempty : s.numPreparedWriteWords = 0) (hpos : 1 ≤ (allWords calls).length)
    (hcap : (allWords calls).length ≤ h.maxWriteWords) :
    (prepareAll h calls s).1 = List.replicate calls.length PRResult.kPRSuccess ∧
    (prepareAll h calls s).2.hw = s.hw ∧
    (FlushWriteData (prepareAll h calls s).2).2.hw.txLog =
      s.hw.txLog ++ [wireBytes (allWords calls)] := by
  obtain ⟨i1, i2, i3, i4⟩ := prepareAll_room h calls s (by omega)
  rw [hempty, Nat.zero_add] at i3 i4
  refine ⟨i1, i2, ?_⟩
  have hnz : (prepareAll h calls s).2.numPreparedWriteWords ≠ 0 := by omega
  rw [FlushWriteData_txLog _ hnz, i3, i4, i2]
  simp [readArr]

set_option maxRecDepth 100000 in
/-- C14 (the claim as stated fails): three `PrepareWriteData` calls with no word
each start from an empty buffer and stay within `maxWriteWords`; all succeed,
but the following `FlushWriteData` makes no transport write at all, because
`WriteData` returns at once when `numWords` is 0. -/
theorem flush_without_words :
    (prepareAll sampleHeader [[], [], []]
        (blankDevice PRMachineType.kPRMachineWPC PRMachineType.kPRMachineWPC)).1 =
      [PRResult.kPRSuccess, PRResult.kPRSuccess, PRResult.kPRSuccess] ∧
    (blankDevice PRMachineType.kPRMachineWPC PRMachineType.kPRMachineWPC).numPreparedWriteWords
      = 0 ∧
    (allWords [[], [], []]).length ≤ sampleHeader.maxWriteWords ∧
    (FlushWriteData (prepareAll sampleHeader [[], [], []]
        (blankDevice PRMachineType.kPRMachineWPC PRMachineType.kPRMachineWPC)).2).1 =
      PRResult.kPRSuccess ∧
    (FlushWriteData (prepareAll sampleHeader [[], [], []]
        (blankDevice PRMachineType.kPRMachineWPC PRMachineType.kPRMachineWPC)).2).2.hw.txLog =
      [] := by
  decide

set_option maxRecDepth 100000 in
theorem prepare_then_flush_witness :
    (blankDevice PRMachineType.kPRMachineWPC PRMachineType.kPRMachineWPC).numPreparedWriteWords
      = 0 ∧
    1 ≤ (allWords [[0x01020304, 5], [6], [7, 8, 9]]).length ∧
    (allWords [[0x01020304, 5], [6], [7, 8, 9]]).length ≤ sampleHeader.maxWriteWords ∧
    ((prepareAll sampleHeader [[0x01020304, 5], [6], [7, 8, 9]]
        (blankDevice PRMachineType.kPRMachineWPC PRMachineType.kPRMachineWPC)).1 =
      List.replicate [[0x01020304, 5], [6], [7, 8, 9]].length PRResult.kPRSuccess ∧
    (prepareAll sampleHeader [[0x01020304, 5], [6], [7, 8, 9]]
        (blankDevice PRMachineType.kPRMachineWPC PRMachineType.kPRMachineWPC)).2.hw =
      (blankDevice PRMachineType.kPRMachineWPC PRMachineType.kPRMachineWPC).hw ∧
    (FlushWriteData (prepareAll sampleHeader [[0x01020304, 5], [6], [7, 8, 9]]
        (blankDevice PRMachineType.kPRMachineWPC PRMachineType.kPRMachineWPC)).2).2.hw.txLog =
      (blankDevice PRMachineType.kPRMachineWPC PRMachineType.kPRMachineWPC).hw.txLog ++
        [wireBytes (allWords [[0x01020304, 5], [6], [7, 8, 9]])]) ∧
    wireBytes (allWords [[0x01020304, 5], [6], [7, 8, 9]]) =
      [1, 2, 3, 4, 0, 0, 0, 5, 0, 0, 0, 6, 0, 0, 0, 7, 0, 0, 0, 8, 0, 0, 0, 9] :=
  ⟨by decide, by decide, by decide,
    prepare_then_flush sampleHeader
      (blankDevice PRMachineType.kPRMachineWPC PRMachineType.kPRMachineWPC)
      [[0x01020304, 5], [6], [7, 8, 9]] (by decide) (by decide) (by decide),
    by decide⟩

/-! ## PRDevice::ReadDataRaw -/

theorem poll_total (h : Header) (numReadWords : Nat) :
    ∀ (budget : Nat) (s : PRDevice),
      ∃ p, ReadDataRaw.poll h numReadWords budget s = some p ∧ p.1 ≤ budget := by
  intro budget
  induction budget with
  | zero =>
    intro s
    rw [ReadDataRaw.poll]
    split <;> exact ⟨(0, s), rfl, Nat.le_refl _⟩
  | succ budget ih =>
    intro s
    rw [ReadDataRaw.poll]
    split
    · obtain ⟨r, hr⟩ := Option.isSome_iff_exists.mp (SortReturningData_isSome h s)
      obtain ⟨p, hp, hle⟩ := ih r.2
      exact ⟨(p.1 + 1, p.2), by simp [hr, hp], by simpa using hle⟩
    · exact ⟨(0, s), rfl, Nat.zero_le _⟩

theorem copy_all : ∀ (n : Nat) (queue : List Nat), queue.length = n →
    ReadDataRaw.copy n queue = some (queue, []) := by
  intro n
  induction n with
  | zero =>
    intro queue hq
    rw [List.length_eq_zero.mp hq]
    rfl
  | succ n ih =>
    intro queue hq
    cases queue with
    | nil => simp at hq
    | cons w queue =>
      rw [ReadDataRaw.copy, ih queue (by simpa using hq)]

theorem ReadDataRaw_of_poll (h : Header) (s : PRDevice)
    (moduleSelect startingAddr count passes : Nat) (s2 : PRDevice)
    (hp : ReadDataRaw.poll h count 10 (RequestData h s moduleSelect startingAddr count).2 =
      some (passes, s2)) :
    ReadDataRaw h s moduleSelect startingAddr count =
      some
        (if s2.requestedDataQueue.length = count + 1 then
          { result := PRResult.kPRSuccess
            readBuffer := s2.requestedDataQueue.tail
            passes := passes
            device := { s2 with requestedDataQueue := [] } }
        else
          { result := PRResult.kPRFailure, readBuffer := [], passes := passes, device := s2 }) := by
  unfold ReadDataRaw
  simp only [hp]
  by_cases c : s2.requestedDataQueue.length = count + 1
  · have ht : s2.requestedDataQueue.tail.length = count := by simp [c]
    simp only [c, if_true, copy_all count _ ht]
  · simp only [c, if_false]

/-- C11: `ReadDataRaw` returns, and with `s2` the device when its polling loop ends:
the result is `kPRSuccess` exactly when the requested-data queue of `s2` holds
`count + 1` words; in that case the first word is dropped, `readBuffer` is the
`count` words that follow it in queue order, and the queue is empty afterwards;
when the queue holds fewer or more than `count + 1` words the result is
`kPRFailure` and the queue is left as it is. -/
theorem ReadDataRaw_spec (h : Header) (s : PRDevice) (moduleSelect startingAddr count : Nat) :
    ∃ passes s2 r,
      ReadDataRaw.poll h count 10 (RequestData h s moduleSelect startingAddr count).2 =
        some (passes, s2) ∧
      ReadDataRaw h s moduleSelect startingAddr count = some r ∧
      (r.result = PRResult.kPRSuccess ↔ s2.requestedDataQueue.length = count + 1) ∧
      (s2.requestedDataQueue.length = count + 1 →
        s2.requestedDataQueue = s2.requestedDataQueue.headD 0 :: r.readBuffer ∧
        r.readBuffer.length = count ∧ r.device.requestedDataQueue = []) ∧
      (s2.requestedDataQueue.length ≠ count + 1 →
        r.result = PRResult.kPRFailure ∧
        r.device.requestedDataQueue = s2.requestedDataQueue) := by
  obtain ⟨p, hp, _⟩ := poll_total h count 10 (RequestData h s moduleSelect startingAddr count).2
  refine ⟨p.1, p.2, _, hp, ReadDataRaw_of_poll h s moduleSelect startingAddr count p.1 p.2 hp,
    ?_, ?_, ?_⟩
  · by_cases c : p.2.requestedDataQueue.length = count + 1
    · simp [c]
    · simp [c]
  · intro c
    simp only [c, if_true]
    cases hq : p.2.requestedDataQueue with
    | nil => rw [hq] at c; simp at c
    | cons w ws =>
      rw [hq] at c
      simp at c
      simp [c]
  · intro c
    simp only [c, if_false]
    exact ⟨trivial, trivial⟩

theorem starved_poll (h : Header) (numReadWords : Nat) :
    ∀ (k : Nat) (s : PRDevice), ReadDataRaw.starved h numReadWords k s = true →
      ∃ s1, ReadDataRaw.poll h numReadWords k s = some (k, s1) ∧
        s1.requestedDataQueue.length < numReadWords + 1 := by
  intro k
  induction k with
  | zero =>
    intro s hs
    have hq : s.requestedDataQueue.length < numReadWords + 1 := by
      simpa [ReadDataRaw.starved] using hs
    exact ⟨s, by rw [ReadDataRaw.poll]; simp [hq], hq⟩
  | succ k ih =>
    intro s hs
    rw [ReadDataRaw.starved] at hs
    simp only [Bool.and_eq_true, decide_eq_true_eq] at hs
    obtain ⟨hq, hrest⟩ := hs
    cases hr : SortReturningData h s with
    | none => simp [hr] at hrest
    | some r =>
      simp only [hr] at hrest
      obtain ⟨s1, e1, q1⟩ := ih r.2 hrest
      exact ⟨s1, by rw [ReadDataRaw.poll]; simp [hq, hr, e1], q1⟩

/-! ## PRDevice::SortReturningData -/

theorem fifoByte_shift (h : Header) (s t : PRDevice) (n k : Nat)
    (hfifo : t.collected_bytes_fifo = s.collected_bytes_fifo)
    (hrd : t.collected_bytes_rd_addr = (s.collected_bytes_rd_addr + 4 * n) % h.FTDI_BUFFER_SIZE) :
    fifoByte h t k = fifoByte h s (4 * n + k) := by
  simp only [fifoByte, hfifo, hrd, Nat.mod_add_mod, Nat.add_assoc]

theorem fifoWord_shift (h : Header) (s t : PRDevice) (n j : Nat)
    (hfifo : t.collected_bytes_fifo = s.collected_bytes_fifo)
    (hrd : t.collected_bytes_rd_addr = (s.collected_bytes_rd_addr + 4 * n) % h.FTDI_BUFFER_SIZE) :
    fifoWord h t j = fifoWord h s (n + j) := by
  simp only [fifoWord, fifoByte_shift h s t n _ hfifo hrd, Nat.mul_add, Nat.add_assoc]

theorem ReadData_split (h : Header) (s : PRDevice) (ws1 ws2 : List Nat)
    (hrd : s.collected_bytes_rd_addr < h.FTDI_BUFFER_SIZE)
    (hbuf : bufferWords h s = ws1 ++ ws2) :
    ReadData h s ws1.length =
      (ws1.length, ws1,
        { s with
          collected_bytes_rd_addr :=
            (s.collected_bytes_rd_addr + 4 * ws1.length) % h.FTDI_BUFFER_SIZE
          num_collected_bytes := s.num_collected_bytes - 4 * ws1.length }) ∧
    bufferWords h
        { s with
          collected_bytes_rd_addr :=
            (s.collected_bytes_rd_addr + 4 * ws1.length) % h.FTDI_BUFFER_SIZE
          num_collected_bytes := s.num_collected_bytes - 4 * ws1.length } = ws2 := by
  have hlen : s.num_collected_bytes / 4 = ws1.length + ws2.length := by
    have := congrArg List.length hbuf
    simpa [bufferWords] using this
  have hsplit : s.num_collected_bytes / 4 =
      ws1.length + (s.num_collected_bytes / 4 - ws1.length) := by omega
  have hb := hbuf
  unfold bufferWords at hb
  rw [hsplit, List.range_add, List.map_append] at hb
  obtain ⟨h1, h2⟩ := List.append_inj hb (by simp)
  refine ⟨?_, ?_⟩
  · rw [ReadData_enough h s ws1.length hrd (by omega), h1]
  · unfold bufferWords
    have hq : (s.num_collected_bytes - 4 * ws1.length) / 4 =
        s.num_collected_bytes / 4 - ws1.length := by omega
    simp only [hq]
    rw [← h2, List.map_map]
    apply List.map_congr_left
    intro j _
    exact fifoWord_shift h s _ ws1.length j rfl rfl

theorem step_solicited (h : Header) (s : PRDevice) (header : Nat) (payload rest : List Nat)
    (hrd : s.collected_bytes_rd_addr < h.FTDI_BUFFER_SIZE)
    (hbuf : bufferWords h s = header :: (payload ++ rest))
    (hcmd : commandField h header = h.P_ROC_REQUESTED_DATA)
    (hlen : lengthField h header = payload.length) :
    (SortReturningData.step h s).requestedDataQueue =
      s.requestedDataQueue ++ header :: payload ∧
    (SortReturningData.step h s).unrequestedDataQueue = s.unrequestedDataQueue ∧
    (SortReturningData.step h s).collected_bytes_rd_addr =
      (s.collected_bytes_rd_addr + 4 * (1 + payload.length)) % h.FTDI_BUFFER_SIZE ∧
    (SortReturningData.step h s).num_collected_bytes =
      s.num_collected_bytes - 4 * (1 + payload.length) ∧
    bufferWords h (SortReturningData.step h s) = rest := by
  have hpos : 0 < h.FTDI_BUFFER_SIZE := by omega
  obtain ⟨r1, b1⟩ := ReadData_split h s [header] (payload ++ rest) hrd (by simpa using hbuf)
  have b2 : bufferWords h
      { ({ s with
          collected_bytes_rd_addr :=
            (s.collected_bytes_rd_addr + 4 * [header].length) % h.FTDI_BUFFER_SIZE
          num_collected_bytes := s.num_collected_bytes - 4 * [header].length } : PRDevice) with
        requestedDataQueue := s.requestedDataQueue ++ [header] } = payload ++ rest := b1
  obtain ⟨r2, b3⟩ := ReadData_split h _ payload rest (Nat.mod_lt _ hpos) b2
  simp only [List.length_singleton] at r1 r2 b3
  have hc : (header &&& h.P_ROC_COMMAND_MASK) >>> h.P_ROC_COMMAND_SHIFT =
      h.P_ROC_REQUESTED_DATA := hcmd
  have hl : (header &&& h.P_ROC_HEADER_LENGTH_MASK) >>> h.P_ROC_HEADER_LENGTH_SHIFT =
      payload.length := hlen
  unfold SortReturningData.step
  simp only [r1, List.headD_cons, hc, if_true, hl, r2]
  refine ⟨by simp, trivial, ?_, ?_, ?_⟩
  · simp only [Nat.mod_add_mod, Nat.mul_add, Nat.add_assoc]
  · simp only [Nat.mul_add, Nat.sub_sub]
  · exact b3

theorem step_unsolicited (h : Header) (s : PRDevice) (header data : Nat) (rest : List Nat)
    (hrd : s.collected_bytes_rd_addr < h.FTDI_BUFFER_SIZE)
    (hbuf : bufferWords h s = header :: data :: rest)
    (hne : h.P_ROC_REQUESTED_DATA ≠ h.P_ROC_UNREQUESTED_DATA)
    (hcmd : commandField h header = h.P_ROC_UNREQUESTED_DATA) :
    (SortReturningData.step h s).requestedDataQueue = s.requestedDataQueue ∧
    (SortReturningData.step h s).unrequestedDataQueue = s.unrequestedDataQueue ++ [data] ∧
    (SortReturningData.step h s).collected_bytes_rd_addr =
      (s.collected_bytes_rd_addr + 4 * 2) % h.FTDI_BUFFER_SIZE ∧
    (SortReturningData.step h s).num_collected_bytes = s.num_collected_bytes - 4 * 2 ∧
    bufferWords h (SortReturningData.step h s) = rest := by
  have hpos : 0 < h.FTDI_BUFFER_SIZE := by omega
  obtain ⟨r1, b1⟩ := ReadData_split h s [header] (data :: rest) hrd (by simpa using hbuf)
  obtain ⟨r2, b3⟩ := ReadData_split h _ [data] rest (Nat.mod_lt _ hpos)
    (by simpa using b1)
  simp only [List.length_singleton] at r1 r2 b3
  have hc : (header &&& h.P_ROC_COMMAND_MASK) >>> h.P_ROC_COMMAND_SHIFT =
      h.P_ROC_UNREQUESTED_DATA := hcmd
  have hc2 : ¬ h.P_ROC_UNREQUESTED_DATA = h.P_ROC_REQUESTED_DATA := fun e => hne e.symm
  unfold SortReturningData.step
  simp only [r1, List.headD_cons, hc, hc2, if_false, if_true, r2]
  refine ⟨trivial, trivial, ?_, ?_, ?_⟩
  · simp only [Nat.mod_add_mod, Nat.add_assoc]
  · simp only [Nat.sub_sub]
  · exact b3

theorem ReplyFrame.words_pos (f : ReplyFrame) : 1 ≤ f.words.length := by
  cases f <;> simp [ReplyFrame.words]

theorem endsWithBareHeader_tail (f : ReplyFrame) (frames : List ReplyFrame)
    (hlast : endsWithBareHeader (f :: frames) = false) : endsWithBareHeader frames = false := by
  cases frames with
  | nil => rfl
  | cons g gs => simpa [endsWithBareHeader] using hlast

theorem frameWords_two (frames : List ReplyFrame) (hlast : endsWithBareHeader frames = false)
    (hne : frames ≠ []) : 2 ≤ (frameWords frames).length := by
  induction frames with
  | nil => exact absurd rfl hne
  | cons f fs ih =>
    cases fs with
    | nil => simpa [endsWithBareHeader, frameWords] using hlast
    | cons g gs =>
      have i := ih (endsWithBareHeader_tail f _ hlast) (by simp)
      have p := f.words_pos
      have e : (frameWords (f :: g :: gs)).length =
          f.words.length + (frameWords (g :: gs)).length := by
        simp [frameWords]
      omega

theorem frameWords_length_ge (frames : List ReplyFrame) :
    frames.length ≤ (frameWords frames).length := by
  induction frames with
  | nil => simp
  | cons f fs ih =>
    have p := f.words_pos
    simp only [frameWords, List.length_cons, List.length_append]
    omega

theorem loop_frames (h : Header) (hne : h.P_ROC_REQUESTED_DATA ≠ h.P_ROC_UNREQUESTED_DATA) :
    ∀ (frames : List ReplyFrame) (fuel : Nat) (s : PRDevice),
      s.collected_bytes_rd_addr < h.FTDI_BUFFER_SIZE →
      (∀ f ∈ frames, ReplyFrame.Complete h f) →
      endsWithBareHeader frames = false →
      bufferWords h s = frameWords frames →
      s.num_collected_bytes = 4 * (frameWords frames).length →
      frames.length ≤ fuel →
      ∃ s1, SortReturningData.loop h fuel s = some s1 ∧
        s1.requestedDataQueue = s.requestedDataQueue ++ solicitedWords frames ∧
        s1.unrequestedDataQueue = s.unrequestedDataQueue ++ unsolicitedWords frames ∧
        s1.num_collected_bytes = 0 ∧
        s1.collected_bytes_rd_addr =
          (s.collected_bytes_rd_addr + s.num_collected_bytes) % h.FTDI_BUFFER_SIZE := by
  intro frames
  induction frames with
  | nil =>
    intro fuel s hrd _ _ _ hnum _
    have hz : s.num_collected_bytes = 0 := by simpa [frameWords] using hnum
    refine ⟨s, ?_, by simp [solicitedWords], by simp [unsolicitedWords], hz, ?_⟩
    · have hc : ¬ s.num_collected_bytes / 4 ≥ 2 := by omega
      cases fuel <;> (rw [SortReturningData.loop]; simp [hc])
    · rw [hz, Nat.add_zero, Nat.mod_eq_of_lt hrd]
  | cons f fs ih =>
    intro fuel s hrd hcomplete hlast hbuf hnum hfuel
    have hpos : 0 < h.FTDI_BUFFER_SIZE := by omega
    have h2 := frameWords_two (f :: fs) hlast (by simp)
    have hcond : s.num_collected_bytes / 4 ≥ 2 := by omega
    obtain ⟨k, hk⟩ : ∃ k, fuel = k + 1 := ⟨fuel - 1, by simp at hfuel; omega⟩
    subst hk
    rw [SortReturningData.loop]
    simp only [hcond, if_true]
    have hfs : ∀ g ∈ fs, ReplyFrame.Complete h g :=
      fun g hg => hcomplete g (List.mem_cons_of_mem _ hg)
    have hf := hcomplete f (List.mem_cons_self _ _)
    have hlast2 := endsWithBareHeader_tail f fs hlast
    have hk2 : fs.length ≤ k := by simpa using hfuel
    cases f with
    | solicited header payload =>
      obtain ⟨hcmd, hlen⟩ := hf
      obtain ⟨q1, q2, q3, q4, q5⟩ := step_solicited h s header payload (frameWords fs) hrd
        (by simpa [frameWords, ReplyFrame.words] using hbuf) hcmd hlen
      have hl : (frameWords (ReplyFrame.solicited header payload :: fs)).length =
          1 + payload.length + (frameWords fs).length := by
        simp [frameWords, ReplyFrame.words]; omega
      obtain ⟨s1, e1, r1, r2, r3, r4⟩ := ih k (SortReturningData.step h s)
        (by rw [q3]; exact Nat.mod_lt _ hpos) hfs hlast2 q5 (by rw [q4]; omega) hk2
      refine ⟨s1, e1, ?_, ?_, r3, ?_⟩
      · rw [r1, q1]; simp [solicitedWords]
      · rw [r2, q2]; simp [unsolicitedWords]
      · rw [r4, q3, q4, Nat.mod_add_mod]
        congr 1
        omega
    | unsolicited header data =>
      obtain ⟨q1, q2, q3, q4, q5⟩ := step_unsolicited h s header data (frameWords fs) hrd
        (by simpa [frameWords, ReplyFrame.words] using hbuf) hne hf
      have hl : (frameWords (ReplyFrame.unsolicited header data :: fs)).length =
          2 + (frameWords fs).length := by
        simp [frameWords, ReplyFrame.words]; omega
      obtain ⟨s1, e1, r1, r2, r3, r4⟩ := ih k (SortReturningData.step h s)
        (by rw [q3]; exact Nat.mod_lt _ hpos) hfs hlast2 q5 (by rw [q4]; omega) hk2
      refine ⟨s1, e1, ?_, ?_, r3, ?_⟩
      · rw [r1, q1]; simp [solicitedWords]
      · rw [r2, q2]; simp [unsolicitedWords]
      · rw [r4, q3, q4, Nat.mod_add_mod]
        congr 1
        omega

/-- C13 (amended): let the circular buffer, after the collect step of
`SortReturningData`, hold exactly the words of a sequence of complete reply
frames that does not end with a solicited frame of length 0, and let the two
command codes differ. Then `SortReturningData` returns `kPRSuccess`, appends
to the requested-data queue the header and payload words of the solicited
frames in arrival order, appends to the unrequested-data queue the data words
of the unsolicited frames in arrival order, and leaves no byte in the buffer. -/
theorem SortReturningData_files_frames (h : Header) (s : PRDevice) (frames : List ReplyFrame)
    (hne : h.P_ROC_REQUESTED_DATA ≠ h.P_ROC_UNREQUESTED_DATA)
    (hcomplete : ∀ f ∈ frames, ReplyFrame.Complete h f)
    (hlast : endsWithBareHeader frames = false)
    (hrd : (CollectReadData h s).2.collected_bytes_rd_addr < h.FTDI_BUFFER_SIZE)
    (hnum : (CollectReadData h s).2.num_collected_bytes = 4 * (frameWords frames).length)
    (hbuf : bufferWords h (CollectReadData h s).2 = frameWords frames) :
    ∃ s1, SortReturningData h s = some (PRResult.kPRSuccess, s1) ∧
      s1.requestedDataQueue = s.requestedDataQueue ++ solicitedWords frames ∧
      s1.unrequestedDataQueue = s.unrequestedDataQueue ++ unsolicitedWords frames ∧
      s1.num_collected_bytes = 0 := by
  have hfuel : frames.length ≤ (CollectReadData h s).2.num_collected_bytes := by
    have := frameWords_length_ge frames
    omega
  obtain ⟨s1, e1, r1, r2, r3, _⟩ := loop_frames h hne frames _ _ hrd hcomplete hlast hbuf hnum hfuel
  refine ⟨s1, ?_, r1, r2, r3⟩
  unfold SortReturningData
  simp only [e1, Option.map_some']

set_option maxRecDepth 1000000 in
/-- C13 (the claim as stated fails): the transport delivers one complete solicited
frame whose length field is 0, a header word alone. `SortReturningData` returns
`kPRSuccess` with both queues empty and the four bytes of the frame still in
the buffer: the loop runs only while at least two words are buffered. -/
theorem SortReturningData_bare_header_unfiled :
    (∀ f ∈ [ReplyFrame.solicited 0 []], ReplyFrame.Complete sampleHeader f) ∧
    bufferWords sampleHeader
        (CollectReadData sampleHeader (deviceWithReplies [0, 0, 0, 0])).2 =
      frameWords [ReplyFrame.solicited 0 []] ∧
    solicitedWords [ReplyFrame.solicited 0 []] = [0] ∧
    (SortReturningData sampleHeader (deviceWithReplies [0, 0, 0, 0])).map
        (fun r => (r.1, r.2.requestedDataQueue, r.2.unrequestedDataQueue,
          r.2.num_collected_bytes)) =
      some (PRResult.kPRSuccess, [], [], 4) := by
  decide

set_option maxRecDepth 1000000 in
theorem SortReturningData_files_frames_witness :
    sampleHeader.P_ROC_REQUESTED_DATA ≠ sampleHeader.P_ROC_UNREQUESTED_DATA ∧
    (∀ f ∈ sampleFrames, ReplyFrame.Complete sampleHeader f) ∧
    endsWithBareHeader sampleFrames = false ∧
    bufferWords sampleHeader
        (CollectReadData sampleHeader
          (deviceWithReplies (wireBytes (frameWords sampleFrames)))).2 =
      frameWords sampleFrames ∧
    solicitedWords sampleFrames = [0x00200000, 7, 8] ∧
    unsolicitedWords sampleFrames = [5, 6] ∧
    ∃ s1, SortReturningData sampleHeader
          (deviceWithReplies (wireBytes (frameWords sampleFrames))) =
        some (PRResult.kPRSuccess, s1) ∧
      s1.requestedDataQueue =
        (deviceWithReplies (wireBytes (frameWords sampleFrames))).requestedDataQueue ++
          solicitedWords sampleFrames ∧
      s1.unrequestedDataQueue =
        (deviceWithReplies (wireBytes (frameWords sampleFrames))).unrequestedDataQueue ++
          unsolicitedWords sampleFrames ∧
      s1.num_collected_bytes = 0 :=
  ⟨by decide, by decide, by decide, by decide, by decide, by decide,
    SortReturningData_files_frames sampleHeader
      (deviceWithReplies (wireBytes (frameWords sampleFrames))) sampleFrames
      (by decide) (by decide) (by decide) (by decide) (by decide) (by decide)⟩

/-! ## PRDevice::GetEvents, the count -/

theorem GetEvents_loop_eq (h : Header) :
    ∀ (maxEvents : Nat) (queue : List Nat),
      GetEvents.loop h maxEvents queue =
        ((queue.take maxEvents).map (GetEvents.decode h), queue.drop maxEvents) := by
  intro maxEvents
  induction maxEvents with
  | zero => intro queue; simp [GetEvents.loop]
  | succ n ih =>
    intro queue
    cases queue with
    | nil => simp [GetEvents.loop]
    | cons w ws => simp [GetEvents.loop, ih]

/-- C27: `GetEvents` returns; with `q` the unrequested-data queue that its call of
`SortReturningData` leaves, the return value is `min maxEvents q.length`, the
events stored are the decodings of the first that many words of `q` in order
(the `i`-th event from the `i`-th oldest word), and the queue afterwards is
`q` without those words, in the original order. -/
theorem GetEvents_count (h : Header) (s : PRDevice) (maxEvents : Nat) :
    ∃ r, SortReturningData h s = some r ∧
      GetEvents h s maxEvents =
        some (min maxEvents r.2.unrequestedDataQueue.length,
          (r.2.unrequestedDataQueue.take maxEvents).map (GetEvents.decode h),
          { r.2 with unrequestedDataQueue := r.2.unrequestedDataQueue.drop maxEvents }) := by
  obtain ⟨r, hr⟩ := Option.isSome_iff_exists.mp (SortReturningData_isSome h s)
  refine ⟨r, hr, ?_⟩
  simp [GetEvents, hr, GetEvents_loop_eq]

/-! ## The walk over the old links -/

theorem freeOldLinks_bound (rules : Nat → PRSwitchRuleInternal) :
    ∀ (k : Nat) (oldRule : PRSwitchRuleInternal) (free : List Nat),
      free.length + k = 129 → 1 ≤ k →
      ∃ r, (∀ fuel, k ≤ fuel →
          SwitchUpdateRule.freeOldLinks rules fuel oldRule free = some r) ∧
        r.2.length ≤ 129 ∧ free <+: r.2 ∧
        (r.1 = PRResult.kPRFailure ↔ 128 < r.2.length) := by
  intro k
  induction k with
  | zero => intro _ _ _ h1; omega
  | succ k ih =>
    intro oldRule free hk _
    by_cases hl : oldRule.linkActive = true
    · by_cases hc : 128 < free.length + 1
      · refine ⟨(PRResult.kPRFailure, free ++ [(rules oldRule.linkIndex).linkIndex]),
          ?_, by simp; omega, by simp, by simp; omega⟩
        intro fuel hf
        obtain ⟨f, rfl⟩ : ∃ f, fuel = f + 1 := ⟨fuel - 1, by omega⟩
        rw [SwitchUpdateRule.freeOldLinks]
        simp [hl, hc]
      · obtain ⟨r, e, l, p, q⟩ := ih (rules oldRule.linkIndex)
          (free ++ [(rules oldRule.linkIndex).linkIndex]) (by simp; omega) (by omega)
        refine ⟨r, ?_, l, (List.prefix_append _ _).trans p, q⟩
        intro fuel hf
        obtain ⟨f, rfl⟩ : ∃ f, fuel = f + 1 := ⟨fuel - 1, by omega⟩
        rw [freeOldLinks_step rules f oldRule free hl (by omega)]
        exact e f (by omega)
    · refine ⟨(PRResult.kPRSuccess, free), ?_, by simp; omega, by simp, by simp; omega⟩
      intro fuel _
      exact freeOldLinks_inactive rules fuel oldRule free (by simpa using hl)

/-- C30: for every rule table, cyclic or malformed chains included, and every free
pool of at most 128 entries, the walk over the old links of `SwitchUpdateRule`
ends within `129 - pool size` link steps (that much fuel, or any larger
amount, gives the same result), it only adds entries to the pool, at most up
to 129, its result is `kPRFailure` exactly when the pool has grown beyond 128
entries, and `SwitchUpdateRule` then returns `kPRFailure` at once with that
pool. -/
theorem SwitchUpdateRule_walk_bounded (h : Header) (s : PRDevice) (switchNum : Nat)
    (eventType : PREventType) (rule : PRSwitchRule) (linkedDrivers : List PRDriverState)
    (hfree : s.freeSwitchRuleIndexes.length ≤ 128)
    (hsw : switchNum ≤ h.kPRSwitchPhysicalLast)
    (hpool : linkedDrivers.length - 1 ≤ s.freeSwitchRuleIndexes.length) :
    ∃ r, (∀ fuel, 129 - s.freeSwitchRuleIndexes.length ≤ fuel →
        SwitchUpdateRule.freeOldLinks s.switchRules fuel
          (GetSwitchRuleByIndex s (h.CreateSwitchRuleIndex switchNum eventType))
          s.freeSwitchRuleIndexes = some r) ∧
      r.2.length ≤ 129 ∧ s.freeSwitchRuleIndexes <+: r.2 ∧
      (r.1 = PRResult.kPRFailure ↔ 128 < r.2.length) ∧
      (r.1 = PRResult.kPRFailure →
        SwitchUpdateRule h s switchNum eventType rule linkedDrivers =
          some (PRResult.kPRFailure, { s with freeSwitchRuleIndexes := r.2 })) := by
  obtain ⟨r, e, l, p, q⟩ := freeOldLinks_bound s.switchRules
    (129 - s.freeSwitchRuleIndexes.length)
    (GetSwitchRuleByIndex s (h.CreateSwitchRuleIndex switchNum eventType))
    s.freeSwitchRuleIndexes (by omega) (by omega)
  refine ⟨r, e, l, p, q, ?_⟩
  intro hfail
  have hsw2 : ¬ switchNum > h.kPRSwitchPhysicalLast := by omega
  have hc : ¬ (s.freeSwitchRuleIndexes.length < linkedDrivers.length - 1) := by omega
  have e129 := e 129 (by omega)
  obtain ⟨res, free⟩ := r
  simp only at hfail
  subst hfail
  unfold SwitchUpdateRule
  simp only [hsw2, if_false, hc, decide_False, Bool.and_false, Bool.false_eq_true, e129]

set_option maxRecDepth 1000000 in
theorem SwitchUpdateRule_walk_bounded_witness :
    cyclicDevice.freeSwitchRuleIndexes.length ≤ 128 ∧
    5 ≤ sampleHeader.kPRSwitchPhysicalLast ∧
    [zeroDriverState].length - 1 ≤ cyclicDevice.freeSwitchRuleIndexes.length ∧
    (SwitchUpdateRule sampleHeader cyclicDevice 5
        PREventType.kPREventTypeSwitchClosedNondebounced { notifyHost := true }
        [zeroDriverState]).map (fun r => (r.1, r.2.freeSwitchRuleIndexes.length)) =
      some (PRResult.kPRFailure, 129) ∧
    ∃ r, (∀ fuel, 129 - cyclicDevice.freeSwitchRuleIndexes.length ≤ fuel →
        SwitchUpdateRule.freeOldLinks cyclicDevice.switchRules fuel
          (GetSwitchRuleByIndex cyclicDevice
            (sampleHeader.CreateSwitchRuleIndex 5
              PREventType.kPREventTypeSwitchClosedNondebounced))
          cyclicDevice.freeSwitchRuleIndexes = some r) ∧
      r.2.length ≤ 129 ∧ cyclicDevice.freeSwitchRuleIndexes <+: r.2 ∧
      (r.1 = PRResult.kPRFailure ↔ 128 < r.2.length) ∧
      (r.1 = PRResult.kPRFailure →
        SwitchUpdateRule sampleHeader cyclicDevice 5
            PREventType.kPREventTypeSwitchClosedNondebounced { notifyHost := true }
            [zeroDriverState] =
          some (PRResult.kPRFailure, { cyclicDevice with freeSwitchRuleIndexes := r.2 })) :=
  ⟨by decide, by decide, by decide, by decide,
    SwitchUpdateRule_walk_bounded sampleHeader cyclicDevice 5
      PREventType.kPREventTypeSwitchClosedNondebounced { notifyHost := true }
      [zeroDriverState] (by decide) (by decide) (by decide)⟩
/-! ## The rollback of SwitchUpdateRule -/

theorem revert_inert (h : Header) (first : Nat) (res : PRResult) (t : PRDevice) :
    (SwitchUpdateRule.revert h first res t).1 = res ∧
    ((SwitchUpdateRule.revert h first res t).2.switchRules first).changeOutput = false ∧
    ((SwitchUpdateRule.revert h first res t).2.switchRules first).linkActive = false := by
  simp [SwitchUpdateRule.revert, GetSwitchRuleByIndex]

/-- The install loop returns `kPRFailure` only through the rollback: the device it
leaves is the one the rollback leaves, after a submission that failed. -/
theorem install_failure (h : Header) (first : Nat) :
    ∀ (ds : List PRDriverState) (idx : Nat) (s s1 : PRDevice),
      SwitchUpdateRule.install h first ds idx s = some (PRResult.kPRFailure, s1) →
      ∃ t words, (PrepareWriteData h t words).1 = PRResult.kPRFailure ∧
        s1 = (SwitchUpdateRule.revert h first PRResult.kPRFailure
          (PrepareWriteData h t words).2).2 := by
  intro ds
  induction ds with
  | nil =>
    intro idx s s1 hres
    simp [SwitchUpdateRule.install] at hres
  | cons d ds ih =>
    intro idx s s1 hres
    rw [SwitchUpdateRule.install] at hres
    by_cases hc : ds.length + 1 > 1
    · simp only [hc, if_true] at hres
      cases hf : s.freeSwitchRuleIndexes with
      | nil => simp [hf] at hres
      | cons front free =>
        simp only [hf] at hres
        split at hres
        · next hw =>
          have hw2 : (PrepareWriteData h
              { s with
                switchRules := Function.update s.switchRules idx
                  { GetSwitchRuleByIndex s idx with
                    changeOutput := true, driver := d, linkActive := true, linkIndex := front }
                freeSwitchRuleIndexes := free }
              (switchRuleBurst h
                { GetSwitchRuleByIndex s idx with
                  changeOutput := true, driver := d, linkActive := true,
                  linkIndex := front })).1 = PRResult.kPRFailure := by
            revert hw
            cases (PrepareWriteData h _ _).1 <;> simp
          rw [hw2] at hres
          refine ⟨_, _, hw2, ?_⟩
          have := congrArg Prod.snd (Option.some.inj hres)
          exact this.symm
        · exact ih _ _ _ hres
    · simp only [hc, if_false] at hres
      split at hres
      · next hw =>
        have hw2 : (PrepareWriteData h
            { s with
              switchRules := Function.update s.switchRules idx
                { GetSwitchRuleByIndex s idx with
                  changeOutput := true, driver := d, linkActive := false } }
            (switchRuleBurst h
              { GetSwitchRuleByIndex s idx with
                changeOutput := true, driver := d, linkActive := false })).1 =
            PRResult.kPRFailure := by
          revert hw
          cases (PrepareWriteData h _ _).1 <;> simp
        rw [hw2] at hres
        refine ⟨_, _, hw2, ?_⟩
        have := congrArg Prod.snd (Option.some.inj hres)
        exact this.symm
      · exact ih _ _ _ hres

/-! ## Draining a split stream -/

set_option maxRecDepth 1000000 in
/-- C29 (the code where the claim fails): the byte stream is one complete solicited
frame, the header `0x00300000` (command `P_ROC_REQUESTED_DATA`, length 3) and
the payload `0x80000001, 2, 3`. Collected at once and drained, it leaves the
four words in the requested-data queue and an empty buffer. Delivered in two
chunks of two words, the first drain takes the header although the payload has
not arrived, and the second drain reads the payload word `0x80000001` as the
header of an unsolicited frame: the requested-data queue holds the header
only, the word 2 is in the unrequested-data queue and four bytes stay
buffered. -/
theorem SortReturningData_split_frame :
    (∀ f ∈ [ReplyFrame.solicited 0x00300000 [0x80000001, 2, 3]],
      ReplyFrame.Complete sampleHeader f) ∧
    wireBytes (frameWords [ReplyFrame.solicited 0x00300000 [0x80000001, 2, 3]]) =
      wireBytes [0x00300000, 0x80000001] ++ wireBytes [2, 3] ∧
    drained (SortReturningData sampleHeader
        (deviceWithChunks [wireBytes [0x00300000, 0x80000001] ++ wireBytes [2, 3]])) =
      some ([0x00300000, 0x80000001, 2, 3], [], 0) ∧
    drained (SortReturningData sampleHeader
        (deviceWithChunks [wireBytes [0x00300000, 0x80000001], wireBytes [2, 3]])) =
      some ([0x00300000], [], 4) ∧
    drained ((SortReturningData sampleHeader
        (deviceWithChunks [wireBytes [0x00300000, 0x80000001], wireBytes [2, 3]])).bind
          (fun r => SortReturningData sampleHeader r.2)) =
      some ([0x00300000], [2], 4) := by
  decide
/-! ## The coalescing buffer -/

theorem wireBytes_append (a b : List Nat) : wireBytes (a ++ b) = wireBytes a ++ wireBytes b := by
  induction a with
  | nil => rfl
  | cons w ws ih => simp [wireBytes, ih]

theorem PRHardwareWrite_accepted (hw : Hardware) (bytes : List Nat) (hrep : hw.txReplies = []) :
    PRHardwareWrite hw bytes = (bytes.length, { hw with txLog := hw.txLog ++ [bytes] }) := by
  unfold PRHardwareWrite
  rw [hrep]

/-- One call of `PrepareWriteData` with at most `maxWriteWords` words on a transport
that takes whole writes: the call succeeds; when the buffered count plus the new
count exceeds `maxWriteWords` the buffered words are written in one transport
write and the buffer holds the new words, otherwise the transport is untouched
and the new words follow the buffered ones. -/
theorem PrepareWriteData_step (h : Header) (s : PRDevice) (words : List Nat)
    (hlen : words.length ≤ h.maxWriteWords) (hrep : s.hw.txReplies = []) :
    (PrepareWriteData h s words).1 = PRResult.kPRSuccess ∧
    (PrepareWriteData h s words).2.hw.txReplies = [] ∧
    (s.numPreparedWriteWords + words.length > h.maxWriteWords →
      (PrepareWriteData h s words).2.hw.txLog =
        s.hw.txLog ++ [wireBytes (readArr s.preparedWriteWords s.numPreparedWriteWords)] ∧
      (PrepareWriteData h s words).2.numPreparedWriteWords = words.length ∧
      readArr (PrepareWriteData h s words).2.preparedWriteWords words.length = words) ∧
    (s.numPreparedWriteWords + words.length ≤ h.maxWriteWords →
      (PrepareWriteData h s words).2.hw = s.hw ∧
      (PrepareWriteData h s words).2.numPreparedWriteWords =
        s.numPreparedWriteWords + words.length ∧
      readArr (PrepareWriteData h s words).2.preparedWriteWords
          (s.numPreparedWriteWords + words.length) =
        readArr s.preparedWriteWords s.numPreparedWriteWords ++ words) := by
  obtain ⟨a1, a2⟩ := PrepareWriteData_accepted h s words hlen hrep
  refine ⟨a1, a2, ?_, ?_⟩
  · intro hover
    have hnz : s.numPreparedWriteWords ≠ 0 := by omega
    have hn : (readArr s.preparedWriteWords s.numPreparedWriteWords).length ≠ 0 := by
      rw [readArr_length]; exact hnz
    have e := WriteData_eq s _ hn
    rw [readArr_length, PRHardwareWrite_accepted _ _ hrep] at e
    have h1 : ¬ words.length > h.maxWriteWords := by omega
    have e2 : PrepareWriteData h s words =
        (PRResult.kPRSuccess,
          { s with
            wr_buffer := forLoop 0 s.numPreparedWriteWords
              (fun j wr => WriteData.storeWord wr j
                ((readArr s.preparedWriteWords s.numPreparedWriteWords).getD j 0)) s.wr_buffer
            hw := { s.hw with
              txLog := s.hw.txLog ++
                [wireBytes (readArr s.preparedWriteWords s.numPreparedWriteWords)] }
            preparedWriteWords := memcpyAt s.preparedWriteWords 0 words
            numPreparedWriteWords := 0 + words.length }) := by
      unfold PrepareWriteData FlushWriteData
      simp only [h1, if_false, hover, if_true, e, wireBytes_length]
      simp [readArr_length]
    rw [e2]
    refine ⟨rfl, by simp, ?_⟩
    have := readArr_memcpyAt s.preparedWriteWords 0 words
    simpa [readArr] using this
  · intro hroom
    rw [PrepareWriteData_room h s words hroom]
    exact ⟨rfl, rfl, readArr_memcpyAt _ _ _⟩

/-- What `PrepareWriteData` adds to the bytes a device has been given to send. -/
theorem PrepareWriteData_submitted (h : Header) (s : PRDevice) (words : List Nat)
    (hlen : words.length ≤ h.maxWriteWords) (hrep : s.hw.txReplies = []) :
    submittedBytes (PrepareWriteData h s words).2 = submittedBytes s ++ wireBytes words := by
  obtain ⟨_, _, c1, c2⟩ := PrepareWriteData_step h s words hlen hrep
  by_cases hover : s.numPreparedWriteWords + words.length > h.maxWriteWords
  · obtain ⟨e1, e2, e3⟩ := c1 hover
    simp [submittedBytes, e1, e2, e3]
  · obtain ⟨e1, e2, e3⟩ := c2 (by omega)
    simp [submittedBytes, e1, e2, e3, wireBytes_append]

theorem prepareAll_accepted (h : Header) :
    ∀ (calls : List (List Nat)) (s : PRDevice),
      s.hw.txReplies = [] → s.numPreparedWriteWords ≤ h.maxWriteWords →
      (∀ c ∈ calls, c.length ≤ h.maxWriteWords) →
      (prepareAll h calls s).1 = List.replicate calls.length PRResult.kPRSuccess ∧
      (prepareAll h calls s).2.hw.txReplies = [] ∧
      (prepareAll h calls s).2.numPreparedWriteWords ≤ h.maxWriteWords ∧
      submittedBytes (prepareAll h calls s).2 =
        submittedBytes s ++ wireBytes (allWords calls) := by
  intro calls
  induction calls with
  | nil => intro s hrep hinv _; simp [prepareAll, allWords, wireBytes, hrep, hinv]
  | cons words calls ih =>
    intro s hrep hinv hcalls
    have hlen : words.length ≤ h.maxWriteWords := hcalls words (List.mem_cons_self _ _)
    obtain ⟨a1, a2, c1, c2⟩ := PrepareWriteData_step h s words hlen hrep
    have hinv2 : (PrepareWriteData h s words).2.numPreparedWriteWords ≤ h.maxWriteWords := by
      by_cases hover : s.numPreparedWriteWords + words.length > h.maxWriteWords
      · rw [(c1 hover).2.1]; exact hlen
      · rw [(c2 (by omega)).2.1]; omega
    obtain ⟨i1, i2, i3, i4⟩ := ih (PrepareWriteData h s words).2 a2 hinv2
      (fun c hc => hcalls c (List.mem_cons_of_mem _ hc))
    refine ⟨?_, i2, i3, ?_⟩
    · simp [prepareAll, a1, i1, List.replicate_succ]
    · simp only [prepareAll, i4, PrepareWriteData_submitted h s words hlen hrep, allWords,
        wireBytes_append, List.append_assoc]

/-- C28: on a transport that takes whole writes, from a buffer of at most
`maxWriteWords` words, after any sequence `calls` of `PrepareWriteData` calls of
at most `maxWriteWords` words each and for one more such call `words`: all
calls succeed; the buffer holds at most `maxWriteWords` words before and after
the last call; the last call makes a transport write exactly when the buffered
count plus the new count exceeds `maxWriteWords`, and that write carries the
bytes of exactly the words buffered before; and the bytes handed to the
transport followed by those of the buffer are, before and after the last
call, the bytes at the start followed by those of all submitted words in call
order. -/
theorem PrepareWriteData_coalescing (h : Header) (s : PRDevice) (calls : List (List Nat))
    (words : List Nat) (hrep : s.hw.txReplies = [])
    (hinv : s.numPreparedWriteWords ≤ h.maxWriteWords)
    (hcalls : ∀ c ∈ calls, c.length ≤ h.maxWriteWords)
    (hwords : words.length ≤ h.maxWriteWords) :
    (prepareAll h calls s).1 = List.replicate calls.length PRResult.kPRSuccess ∧
    (PrepareWriteData h (prepareAll h calls s).2 words).1 = PRResult.kPRSuccess ∧
    (prepareAll h calls s).2.numPreparedWriteWords ≤ h.maxWriteWords ∧
    (PrepareWriteData h (prepareAll h calls s).2 words).2.numPreparedWriteWords ≤
      h.maxWriteWords ∧
    ((prepareAll h calls s).2.numPreparedWriteWords + words.length > h.maxWriteWords →
      (PrepareWriteData h (prepareAll h calls s).2 words).2.hw.txLog =
        (prepareAll h calls s).2.hw.txLog ++
          [wireBytes (readArr (prepareAll h calls s).2.preparedWriteWords
            (prepareAll h calls s).2.numPreparedWriteWords)]) ∧
    ((prepareAll h calls s).2.numPreparedWriteWords + words.length ≤ h.maxWriteWords →
      (PrepareWriteData h (prepareAll h calls s).2 words).2.hw.txLog =
        (prepareAll h calls s).2.hw.txLog) ∧
    submittedBytes (prepareAll h calls s).2 =
      submittedBytes s ++ wireBytes (allWords calls) ∧
    submittedBytes (PrepareWriteData h (prepareAll h calls s).2 words).2 =
      submittedBytes s ++ wireBytes (allWords calls ++ words) := by
  obtain ⟨i1, i2, i3, i4⟩ := prepareAll_accepted h calls s hrep hinv hcalls
  obtain ⟨a1, a2, c1, c2⟩ := PrepareWriteData_step h (prepareAll h calls s).2 words hwords i2
  refine ⟨i1, a1, i3, ?_, fun hover => (c1 hover).1, fun hroom => by rw [(c2 hroom).1], i4, ?_⟩
  · by_cases hover :
        (prepareAll h calls s).2.numPreparedWriteWords + words.length > h.maxWriteWords
    · rw [(c1 hover).2.1]; exact hwords
    · rw [(c2 (by omega)).2.1]; omega
  · rw [PrepareWriteData_submitted h _ words hwords i2, i4, wireBytes_append,
      List.append_assoc]

set_option maxRecDepth 1000000 in
theorem PrepareWriteData_coalescing_witness :
    (blankDevice PRMachineType.kPRMachineWPC PRMachineType.kPRMachineWPC).hw.txReplies = [] ∧
    (blankDevice PRMachineType.kPRMachineWPC PRMachineType.kPRMachineWPC).numPreparedWriteWords
      ≤ tightHeader.maxWriteWords ∧
    (∀ c ∈ [[1, 2], [3]], c.length ≤ tightHeader.maxWriteWords) ∧
    [4, 5].length ≤ tightHeader.maxWriteWords ∧
    (PrepareWriteData tightHeader (prepareAll tightHeader [[1, 2], [3]]
        (blankDevice PRMachineType.kPRMachineWPC PRMachineType.kPRMachineWPC)).2
        [4, 5]).2.hw.txLog = [wireBytes [1, 2, 3]] ∧
    submittedBytes (PrepareWriteData tightHeader (prepareAll tightHeader [[1, 2], [3]]
        (blankDevice PRMachineType.kPRMachineWPC PRMachineType.kPRMachineWPC)).2 [4, 5]).2 =
      submittedBytes (blankDevice PRMachineType.kPRMachineWPC PRMachineType.kPRMachineWPC) ++
        wireBytes (allWords [[1, 2], [3]] ++ [4, 5]) :=
  ⟨by decide, by decide, by decide, by decide, by decide,
    (PrepareWriteData_coalescing tightHeader
      (blankDevice PRMachineType.kPRMachineWPC PRMachineType.kPRMachineWPC)
      [[1, 2], [3]] [4, 5] (by decide) (by decide) (by decide) (by decide)).2.2.2.2.2.2.2⟩

/-! ## PRDevice::DriverLoadMachineTypeDefaults -/

/-- The body of `DriverLoadMachineTypeDefaults` is its three parts in sequence: the
tables are cleared, the global configuration is stored or sent twice, first
with the outputs disabled and then with the outputs enabled, and the groups are
configured. -/
theorem apply_phases (h : Header) (p : MachineProfile) (s : PRDevice) (updateDevice : Bool) :
    DriverLoadMachineTypeDefaults.apply h p s updateDevice =
      DriverLoadMachineTypeDefaults.configureGroups h p updateDevice
        (DriverLoadMachineTypeDefaults.storeGlobals h updateDevice
          { DriverLoadMachineTypeDefaults.globals p with enableOutputs := true }
          (DriverLoadMachineTypeDefaults.storeGlobals h updateDevice
            (DriverLoadMachineTypeDefaults.globals p)
            (DriverLoadMachineTypeDefaults.clearTables h p s updateDevice))) := by
  rfl

/-- What a write leaves of the device: only `wr_buffer` and the transport change, the
pending input is untouched and a transport that took whole writes still does. -/
theorem WriteData_shape (s : PRDevice) (words : List Nat) :
    ∃ wr hw, (WriteData s words).2 = { s with wr_buffer := wr, hw := hw } ∧
      hw.rxPending = s.hw.rxPending ∧ (s.hw.txReplies = [] → hw.txReplies = []) := by
  unfold WriteData
  split
  · exact ⟨s.wr_buffer, s.hw, rfl, rfl, id⟩
  · have hx : ∀ bytes, (PRHardwareWrite s.hw bytes).2.rxPending = s.hw.rxPending ∧
        (s.hw.txReplies = [] → (PRHardwareWrite s.hw bytes).2.txReplies = []) := by
      intro bytes
      unfold PRHardwareWrite
      split
      · exact ⟨rfl, id⟩
      · next hr => exact ⟨rfl, fun e => by rw [e] at hr; simp at hr⟩
    simp only []
    split <;> exact ⟨_, _, rfl, (hx _).1, (hx _).2⟩

/-- What `PrepareWriteData` leaves of the device: only the prepared-write buffer, its
counter, `wr_buffer` and the transport change. -/
theorem PrepareWriteData_shape (h : Header) (s : PRDevice) (words : List Nat) :
    ∃ wr pw n hw,
      (PrepareWriteData h s words).2 =
        { s with wr_buffer := wr, preparedWriteWords := pw, numPreparedWriteWords := n,
                 hw := hw } ∧
      hw.rxPending = s.hw.rxPending ∧ (s.hw.txReplies = [] → hw.txReplies = []) := by
  obtain ⟨wr, hw, e, r1, r2⟩ := WriteData_shape s
    (readArr s.preparedWriteWords s.numPreparedWriteWords)
  unfold PrepareWriteData FlushWriteData
  split
  · exact ⟨s.wr_buffer, s.preparedWriteWords, s.numPreparedWriteWords, s.hw, rfl, rfl, id⟩
  · simp only [e]
    split
    · split
      · exact ⟨_, _, _, _, rfl, r1, r2⟩
      · exact ⟨_, _, _, _, rfl, r1, r2⟩
    · split
      · exact ⟨_, _, _, _, rfl, rfl, id⟩
      · exact ⟨_, _, _, _, rfl, rfl, id⟩

theorem KeepsReadPath.refl (s : PRDevice) : KeepsReadPath s s :=
  ⟨rfl, rfl, rfl, rfl, rfl, id⟩

theorem KeepsReadPath.trans {s t u : PRDevice} (a : KeepsReadPath s t)
    (b : KeepsReadPath t u) : KeepsReadPath s u := by
  obtain ⟨a1, a2, a3, a4, a5, a6⟩ := a
  obtain ⟨b1, b2, b3, b4, b5, b6⟩ := b
  exact ⟨b1.trans a1, b2.trans a2, b3.trans a3, b4.trans a4, b5.trans a5, fun e => b6 (a6 e)⟩

theorem PrepareWriteData_keeps (h : Header) (s : PRDevice) (words : List Nat) :
    KeepsReadPath s (PrepareWriteData h s words).2 := by
  obtain ⟨wr, pw, n, hw, e, _, r2⟩ := PrepareWriteData_shape h s words
  rw [e]
  exact ⟨rfl, rfl, rfl, rfl, rfl, r2⟩

@[simp] theorem PrepareWriteData_driverGroups (h : Header) (s : PRDevice) (words : List Nat) :
    (PrepareWriteData h s words).2.driverGroups = s.driverGroups := by
  obtain ⟨wr, pw, n, hw, e, _, _⟩ := PrepareWriteData_shape h s words
  rw [e]

@[simp] theorem PrepareWriteData_driverGlobalConfig (h : Header) (s : PRDevice)
    (words : List Nat) :
    (PrepareWriteData h s words).2.driverGlobalConfig = s.driverGlobalConfig := by
  obtain ⟨wr, pw, n, hw, e, _, _⟩ := PrepareWriteData_shape h s words
  rw [e]

theorem DriverUpdateState_keeps (h : Header) (s : PRDevice) (d : PRDriverState) :
    KeepsReadPath s (DriverUpdateState h s d).2 := by
  unfold DriverUpdateState
  rw [DriverUpdateState_switch_skipped]
  simp only []
  split
  · exact KeepsReadPath.refl s
  · exact KeepsReadPath.trans ⟨rfl, rfl, rfl, rfl, rfl, id⟩ (PrepareWriteData_keeps h _ _)

theorem DriverUpdateGlobalConfig_keeps (h : Header) (s : PRDevice) (g : PRDriverGlobalConfig) :
    KeepsReadPath s (DriverUpdateGlobalConfig h s g).2 := by
  unfold DriverUpdateGlobalConfig
  exact KeepsReadPath.trans ⟨rfl, rfl, rfl, rfl, rfl, id⟩ (PrepareWriteData_keeps h _ _)

theorem DriverUpdateGroupConfig_keeps (h : Header) (s : PRDevice) (g : PRDriverGroupConfig) :
    KeepsReadPath s (DriverUpdateGroupConfig h s g).2 := by
  unfold DriverUpdateGroupConfig
  exact KeepsReadPath.trans ⟨rfl, rfl, rfl, rfl, rfl, id⟩ (PrepareWriteData_keeps h _ _)

theorem configureGroup_keeps (h : Header) (u : Bool)
    (build : PRDriverGroupConfig → Nat → PRDriverGroupConfig) (i : Nat)
    (a : PRResult × PRDevice) :
    KeepsReadPath a.2 (DriverLoadMachineTypeDefaults.configureGroup h u build i a).2 := by
  unfold DriverLoadMachineTypeDefaults.configureGroup
  cases u
  · exact ⟨rfl, rfl, rfl, rfl, rfl, id⟩
  · exact DriverUpdateGroupConfig_keeps h _ _

theorem storeGlobals_keeps (h : Header) (u : Bool) (g : PRDriverGlobalConfig)
    (a : PRResult × PRDevice) :
    KeepsReadPath a.2 (DriverLoadMachineTypeDefaults.storeGlobals h u g a).2 := by
  unfold DriverLoadMachineTypeDefaults.storeGlobals
  cases u
  · exact ⟨rfl, rfl, rfl, rfl, rfl, id⟩
  · exact DriverUpdateGlobalConfig_keeps h _ _

theorem clearDriver_keeps (h : Header) (p : MachineProfile) (u : Bool) (i : Nat)
    (a : PRResult × PRDevice) :
    KeepsReadPath a.2 (DriverLoadMachineTypeDefaults.clearDriver h p u i a).2 := by
  unfold DriverLoadMachineTypeDefaults.clearDriver
  cases u
  · exact ⟨rfl, rfl, rfl, rfl, rfl, id⟩
  · exact KeepsReadPath.trans ⟨rfl, rfl, rfl, rfl, rfl, id⟩ (DriverUpdateState_keeps h _ _)

/-- `DriverLoadMachineTypeDefaults` leaves the read path as it was, with or without
the update flag. -/
theorem apply_keeps (h : Header) (p : MachineProfile) (s : PRDevice) (u : Bool) :
    KeepsReadPath s (DriverLoadMachineTypeDefaults.apply h p s u).2 := by
  rw [apply_phases]
  unfold DriverLoadMachineTypeDefaults.configureGroups DriverLoadMachineTypeDefaults.clearTables
  refine forLoop_invariant (fun a : PRResult × PRDevice => KeepsReadPath s a.2) _ _ _ _ ?_
    (fun i a ha => ha.trans (configureGroup_keeps h u _ i a))
  refine forLoop_invariant (fun a : PRResult × PRDevice => KeepsReadPath s a.2) _ _ _ _ ?_
    (fun i a ha => ha.trans (configureGroup_keeps h u _ i a))
  refine KeepsReadPath.trans ?_ (storeGlobals_keeps h u _ _)
  refine KeepsReadPath.trans ?_ (storeGlobals_keeps h u _ _)
  refine forLoop_invariant (fun a : PRResult × PRDevice => KeepsReadPath s a.2) _ _ _ _ ?_
    (fun i a ha => ha.trans ⟨rfl, rfl, rfl, rfl, rfl, id⟩)
  exact forLoop_invariant (fun a : PRResult × PRDevice => KeepsReadPath s a.2) _ _ _ _
    ⟨rfl, rfl, rfl, rfl, rfl, id⟩ (fun i a ha => ha.trans (clearDriver_keeps h p u i a))
/-- `DriverUpdateState` of the record that is already stored for its driver is one
submission of its burst: the polarity test passes and the table is unchanged. -/
theorem DriverUpdateState_stored (h : Header) (s : PRDevice) (d : PRDriverState)
    (hd : s.drivers d.driverNum = d) :
    DriverUpdateState h s d = PrepareWriteData h s (driverStateBurst h d) := by
  have hu : Function.update s.drivers d.driverNum d = s.drivers := by
    funext j
    by_cases c : j = d.driverNum
    · subst c; simp [hd]
    · simp [Function.update_apply, c]
  have hp : (d.polarity != (s.drivers d.driverNum).polarity) = false := by
    rw [hd]; simp
  unfold DriverUpdateState
  rw [DriverUpdateState_switch_skipped]
  simp only [hp, Bool.false_and, Bool.false_eq_true, if_false, hu, Function.update_same,
    driverStateBurst]

theorem clearDriver_true (h : Header) (p : MachineProfile) (i : Nat)
    (a : PRResult × PRDevice) :
    DriverLoadMachineTypeDefaults.clearDriver h p true i a =
      PrepareWriteData h
        { a.2 with
          drivers :=
            Function.update a.2.drivers i (DriverLoadMachineTypeDefaults.clearedDriver p i) }
        (driverStateBurst h (DriverLoadMachineTypeDefaults.clearedDriver p i)) := by
  unfold DriverLoadMachineTypeDefaults.clearDriver
  simp only [if_true, Function.update_same]
  exact DriverUpdateState_stored h _ _
    (by simp [DriverLoadMachineTypeDefaults.clearedDriver])

/-- The tables after the first `n` passes of the loop over the drivers. -/
theorem clearDrivers_tables (h : Header) (p : MachineProfile) (u : Bool) :
    ∀ (n : Nat) (init : PRResult × PRDevice),
      (forLoop 0 n (DriverLoadMachineTypeDefaults.clearDriver h p u) init).2.drivers =
        (fun i => if i < n then DriverLoadMachineTypeDefaults.clearedDriver p i
          else init.2.drivers i) ∧
      (forLoop 0 n (DriverLoadMachineTypeDefaults.clearDriver h p u) init).2.driverGroups =
        init.2.driverGroups ∧
      (forLoop 0 n
        (DriverLoadMachineTypeDefaults.clearDriver h p u) init).2.driverGlobalConfig =
        init.2.driverGlobalConfig := by
  intro n init
  induction n with
  | zero => simp [forLoop_self]
  | succ n ih =>
    rw [forLoop_succ _ _ _ _ (Nat.zero_le n)]
    obtain ⟨i1, i2, i3⟩ := ih
    have hd : ∀ a : PRResult × PRDevice,
        (DriverLoadMachineTypeDefaults.clearDriver h p u n a).2.drivers =
          Function.update a.2.drivers n (DriverLoadMachineTypeDefaults.clearedDriver p n) ∧
        (DriverLoadMachineTypeDefaults.clearDriver h p u n a).2.driverGroups =
          a.2.driverGroups ∧
        (DriverLoadMachineTypeDefaults.clearDriver h p u n a).2.driverGlobalConfig =
          a.2.driverGlobalConfig := by
      intro a
      cases u
      · exact ⟨rfl, rfl, rfl⟩
      · rw [clearDriver_true]
        simp
    obtain ⟨d1, d2, d3⟩ := hd (forLoop 0 n (DriverLoadMachineTypeDefaults.clearDriver h p u) init)
    refine ⟨?_, d2.trans i2, d3.trans i3⟩
    rw [d1, i1]
    funext j
    by_cases c : j = n
    · subst c; simp
    · have : j < n + 1 ↔ j < n := by omega
      simp [Function.update_apply, c, this]

/-- The loop over the groups at lines 368 to 374. -/
theorem clearGroups_eq (p : MachineProfile) :
    ∀ (n : Nat) (init : PRResult × PRDevice),
      forLoop 0 n (DriverLoadMachineTypeDefaults.clearGroup p) init =
        (init.1, { init.2 with
          driverGroups := fun g =>
            if g < n then DriverLoadMachineTypeDefaults.clearedGroup p g
            else init.2.driverGroups g }) := by
  intro n init
  induction n with
  | zero => simp [forLoop_self]
  | succ n ih =>
    rw [forLoop_succ _ _ _ _ (Nat.zero_le n), ih]
    simp only [DriverLoadMachineTypeDefaults.clearGroup]
    congr 2
    funext j
    by_cases c : j = n
    · subst c; simp
    · have : j < n + 1 ↔ j < n := by omega
      simp [Function.update_apply, c, this]

theorem DriverUpdateGroupConfig_eq (h : Header) (s : PRDevice) (g : PRDriverGroupConfig) :
    DriverUpdateGroupConfig h s g =
      PrepareWriteData h
        { s with driverGroups := Function.update s.driverGroups g.groupNum g }
        (groupConfigBurst h g) := by
  rfl

theorem DriverUpdateGlobalConfig_eq (h : Header) (s : PRDevice) (g : PRDriverGlobalConfig) :
    DriverUpdateGlobalConfig h s g =
      PrepareWriteData h { s with driverGlobalConfig := g } (globalConfigBurst h g) := by
  rfl

/-- The tables after a loop over groups `lo` to `lo + n - 1`, when the records of
these groups carry their own number and `build` keeps the number. -/
theorem configureGroups_tables (h : Header) (u : Bool)
    (build : PRDriverGroupConfig → Nat → PRDriverGroupConfig)
    (hb : ∀ g i, (build g i).groupNum = g.groupNum) (lo : Nat) :
    ∀ (n : Nat) (init : PRResult × PRDevice),
      (∀ g, lo ≤ g → g < lo + n → (init.2.driverGroups g).groupNum = g) →
      (forLoop lo (lo + n)
        (DriverLoadMachineTypeDefaults.configureGroup h u build) init).2.driverGroups =
        (fun g => if lo ≤ g ∧ g < lo + n then build (init.2.driverGroups g) g
          else init.2.driverGroups g) ∧
      (forLoop lo (lo + n)
        (DriverLoadMachineTypeDefaults.configureGroup h u build) init).2.drivers =
        init.2.drivers ∧
      (forLoop lo (lo + n)
        (DriverLoadMachineTypeDefaults.configureGroup h u build) init).2.driverGlobalConfig =
        init.2.driverGlobalConfig := by
  intro n init
  induction n with
  | zero =>
    intro _
    simp only [Nat.add_zero, forLoop_self]
    refine ⟨?_, trivial, trivial⟩
    funext g
    have : ¬ (lo ≤ g ∧ g < lo) := by omega
    simp [this]
  | succ n ih =>
    intro hnum
    rw [← Nat.add_assoc, forLoop_succ _ _ _ _ (Nat.le_add_right lo n)]
    obtain ⟨i1, i2, i3⟩ := ih (fun g h1 h2 => hnum g h1 (by omega))
    have hcur : ((forLoop lo (lo + n)
        (DriverLoadMachineTypeDefaults.configureGroup h u build) init).2.driverGroups
          (lo + n)).groupNum = lo + n := by
      rw [i1]
      have : ¬ (lo ≤ lo + n ∧ lo + n < lo + n) := by omega
      simp only [this, if_false]
      exact hnum _ (by omega) (by omega)
    have hd : ∀ a : PRResult × PRDevice, (a.2.driverGroups (lo + n)).groupNum = lo + n →
        (DriverLoadMachineTypeDefaults.configureGroup h u build (lo + n) a).2.driverGroups =
          Function.update a.2.driverGroups (lo + n) (build (a.2.driverGroups (lo + n)) (lo + n)) ∧
        (DriverLoadMachineTypeDefaults.configureGroup h u build (lo + n) a).2.drivers =
          a.2.drivers ∧
        (DriverLoadMachineTypeDefaults.configureGroup h u build (lo + n) a).2.driverGlobalConfig =
          a.2.driverGlobalConfig := by
      intro a ha
      unfold DriverLoadMachineTypeDefaults.configureGroup
      cases u
      · exact ⟨rfl, rfl, rfl⟩
      · simp [DriverUpdateGroupConfig_eq, DriverGetGroupConfig, hb, ha]
    obtain ⟨d1, d2, d3⟩ := hd _ hcur
    refine ⟨?_, d2.trans i2, d3.trans i3⟩
    rw [d1, i1]
    funext g
    by_cases c : g = lo + n
    · subst c
      have h1 : ¬ (lo ≤ lo + n ∧ lo + n < lo + n) := by omega
      have h2 : lo ≤ lo + n ∧ lo + n < lo + (n + 1) := by omega
      simp [h1, h2]
    · have : (lo ≤ g ∧ g < lo + n + 1) ↔ (lo ≤ g ∧ g < lo + n) := by omega
      simp [Function.update_apply, c, this]
theorem storeGlobals_tables (h : Header) (u : Bool) (g : PRDriverGlobalConfig)
    (a : PRResult × PRDevice) :
    (DriverLoadMachineTypeDefaults.storeGlobals h u g a).2.driverGlobalConfig = g ∧
    (DriverLoadMachineTypeDefaults.storeGlobals h u g a).2.drivers = a.2.drivers ∧
    (DriverLoadMachineTypeDefaults.storeGlobals h u g a).2.driverGroups = a.2.driverGroups := by
  unfold DriverLoadMachineTypeDefaults.storeGlobals
  cases u
  · exact ⟨rfl, rfl, rfl⟩
  · simp [DriverUpdateGlobalConfig_eq]

/-- The driver table, the group table and the global configuration that
`DriverLoadMachineTypeDefaults` leaves, with or without the update flag, for a
profile whose coil groups 4 to `lastCoilDriverGroup` and matrix groups 10 to
`10 + numMatrixGroups - 1` lie inside the group table and do not overlap. -/
theorem apply_tables (h : Header) (p : MachineProfile) (s : PRDevice) (u : Bool)
    (h4 : 4 ≤ p.lastCoilDriverGroup + 1) (h10 : p.lastCoilDriverGroup + 1 ≤ 10)
    (hmatrix : 10 + p.numMatrixGroups ≤ h.kPRDriverGroupsMax) :
    (DriverLoadMachineTypeDefaults.apply h p s u).2.drivers =
      (fun i => if i < h.kPRDriverCount then DriverLoadMachineTypeDefaults.clearedDriver p i
        else s.drivers i) ∧
    (DriverLoadMachineTypeDefaults.apply h p s u).2.driverGroups =
      (fun g =>
        if 10 ≤ g ∧ g < 10 + p.numMatrixGroups then
          DriverLoadMachineTypeDefaults.matrixGroup p
            (DriverLoadMachineTypeDefaults.clearedGroup p g) g
        else if 4 ≤ g ∧ g < p.lastCoilDriverGroup + 1 then
          DriverLoadMachineTypeDefaults.coilGroup p
            (DriverLoadMachineTypeDefaults.clearedGroup p g) g
        else if g < h.kPRDriverGroupsMax then DriverLoadMachineTypeDefaults.clearedGroup p g
        else s.driverGroups g) ∧
    (DriverLoadMachineTypeDefaults.apply h p s u).2.driverGlobalConfig =
      { DriverLoadMachineTypeDefaults.globals p with enableOutputs := true } := by
  obtain ⟨n, hn⟩ : ∃ n, p.lastCoilDriverGroup + 1 = 4 + n :=
    ⟨p.lastCoilDriverGroup + 1 - 4, by omega⟩
  obtain ⟨t1, t2, t3⟩ := clearDrivers_tables h p u h.kPRDriverCount
    (PRResult.kPRSuccess, { s with driverGlobalConfig := zeroDriverGlobalConfig })
  have c0 := clearGroups_eq p h.kPRDriverGroupsMax
    (forLoop 0 h.kPRDriverCount (DriverLoadMachineTypeDefaults.clearDriver h p u)
      (PRResult.kPRSuccess, { s with driverGlobalConfig := zeroDriverGlobalConfig }))
  have c1 : (DriverLoadMachineTypeDefaults.clearTables h p s u).2.drivers =
      (fun i => if i < h.kPRDriverCount then DriverLoadMachineTypeDefaults.clearedDriver p i
        else s.drivers i) := by
    unfold DriverLoadMachineTypeDefaults.clearTables
    rw [c0]
    exact t1
  have c2 : (DriverLoadMachineTypeDefaults.clearTables h p s u).2.driverGroups =
      (fun g => if g < h.kPRDriverGroupsMax then DriverLoadMachineTypeDefaults.clearedGroup p g
        else s.driverGroups g) := by
    unfold DriverLoadMachineTypeDefaults.clearTables
    rw [c0]
    simp only [t2]
  obtain ⟨g1, g2, g3⟩ := storeGlobals_tables h u (DriverLoadMachineTypeDefaults.globals p)
    (DriverLoadMachineTypeDefaults.clearTables h p s u)
  obtain ⟨k1, k2, k3⟩ := storeGlobals_tables h u
    { DriverLoadMachineTypeDefaults.globals p with enableOutputs := true }
    (DriverLoadMachineTypeDefaults.storeGlobals h u (DriverLoadMachineTypeDefaults.globals p)
      (DriverLoadMachineTypeDefaults.clearTables h p s u))
  have hnum4 : ∀ g, g < h.kPRDriverGroupsMax →
      ((DriverLoadMachineTypeDefaults.storeGlobals h u
        { DriverLoadMachineTypeDefaults.globals p with enableOutputs := true }
        (DriverLoadMachineTypeDefaults.storeGlobals h u
          (DriverLoadMachineTypeDefaults.globals p)
          (DriverLoadMachineTypeDefaults.clearTables h p s u))).2.driverGroups g).groupNum =
        g := by
    intro g hg
    rw [k3, g3, c2]
    simp [hg, DriverLoadMachineTypeDefaults.clearedGroup]
  obtain ⟨m1, m2, m3⟩ := configureGroups_tables h u (DriverLoadMachineTypeDefaults.coilGroup p)
    (fun g i => rfl) 4 n _ (fun g _ hg => hnum4 g (by omega))
  obtain ⟨x1, x2, x3⟩ := configureGroups_tables h u
    (DriverLoadMachineTypeDefaults.matrixGroup p) (fun g i => rfl) 10 p.numMatrixGroups
    (forLoop 4 (4 + n)
      (DriverLoadMachineTypeDefaults.configureGroup h u
        (DriverLoadMachineTypeDefaults.coilGroup p))
      (DriverLoadMachineTypeDefaults.storeGlobals h u
        { DriverLoadMachineTypeDefaults.globals p with enableOutputs := true }
        (DriverLoadMachineTypeDefaults.storeGlobals h u
          (DriverLoadMachineTypeDefaults.globals p)
          (DriverLoadMachineTypeDefaults.clearTables h p s u))))
    (by
      intro g hg1 hg2
      rw [m1]
      have hc : ¬ (4 ≤ g ∧ g < 4 + n) := by omega
      simp only [hc, if_false]
      exact hnum4 g (by omega))
  rw [apply_phases]
  unfold DriverLoadMachineTypeDefaults.configureGroups
  rw [hn]
  refine ⟨?_, ?_, ?_⟩
  · rw [x2, m2, k2, g2, c1]
  · rw [x1, m1, k3, g3, c2]
    funext g
    by_cases a1 : 10 ≤ g ∧ g < 10 + p.numMatrixGroups
    · have a2 : ¬ (4 ≤ g ∧ g < 4 + n) := by omega
      have a3 : g < h.kPRDriverGroupsMax := by omega
      simp [a1, a2, a3]
    · simp only [a1, if_false]
      by_cases a2 : 4 ≤ g ∧ g < 4 + n
      · have a3 : g < h.kPRDriverGroupsMax := by omega
        simp [a2, a3]
      · simp [a2]
  · rw [x3, m3, k1]

/-! ### The words submitted with the update flag -/

theorem PrepareWriteData_submitted_of (h : Header) (t t1 : PRDevice) (words : List Nat)
    (hlen : words.length ≤ h.maxWriteWords) (hrep : t.hw.txReplies = [])
    (e1 : t1.hw = t.hw) (e2 : t1.numPreparedWriteWords = t.numPreparedWriteWords)
    (e3 : t1.preparedWriteWords = t.preparedWriteWords) :
    (PrepareWriteData h t1 words).2.hw.txReplies = [] ∧
    submittedBytes (PrepareWriteData h t1 words).2 = submittedBytes t ++ wireBytes words := by
  have hrep1 : t1.hw.txReplies = [] := by rw [e1]; exact hrep
  refine ⟨(PrepareWriteData_accepted h t1 words hlen hrep1).2, ?_⟩
  rw [PrepareWriteData_submitted h t1 words hlen hrep1]
  simp [submittedBytes, e1, e2, e3]

theorem clearDrivers_submitted (h : Header) (p : MachineProfile) (hmax : 3 ≤ h.maxWriteWords) :
    ∀ (n : Nat) (init : PRResult × PRDevice), init.2.hw.txReplies = [] →
      (forLoop 0 n (DriverLoadMachineTypeDefaults.clearDriver h p true) init).2.hw.txReplies =
        [] ∧
      submittedBytes (forLoop 0 n (DriverLoadMachineTypeDefaults.clearDriver h p true) init).2 =
        submittedBytes init.2 ++
          wireBytes ((List.range n).map (fun i =>
            driverStateBurst h (DriverLoadMachineTypeDefaults.clearedDriver p i))).flatten := by
  intro n init hrep
  induction n with
  | zero => simp [forLoop_self, hrep, wireBytes]
  | succ n ih =>
    rw [forLoop_succ _ _ _ _ (Nat.zero_le n), clearDriver_true]
    obtain ⟨i1, i2⟩ := ih
    have hlen : (driverStateBurst h (DriverLoadMachineTypeDefaults.clearedDriver p n)).length ≤
        h.maxWriteWords := by simpa [driverStateBurst] using hmax
    have e : submittedBytes init.2 ++
          wireBytes ((List.range (n + 1)).map (fun i =>
            driverStateBurst h (DriverLoadMachineTypeDefaults.clearedDriver p i))).flatten =
        submittedBytes (forLoop 0 n
          (DriverLoadMachineTypeDefaults.clearDriver h p true) init).2 ++
          wireBytes (driverStateBurst h (DriverLoadMachineTypeDefaults.clearedDriver p n)) := by
      rw [i2]
      simp [List.range_succ, wireBytes_append]
    rw [e]
    exact PrepareWriteData_submitted_of h
      (forLoop 0 n (DriverLoadMachineTypeDefaults.clearDriver h p true) init).2 _ _ hlen i1
      (by rfl) (by rfl) (by rfl)

theorem storeGlobals_submitted (h : Header) (g : PRDriverGlobalConfig)
    (a : PRResult × PRDevice) (hmax : 4 ≤ h.maxWriteWords) (hrep : a.2.hw.txReplies = []) :
    (DriverLoadMachineTypeDefaults.storeGlobals h true g a).2.hw.txReplies = [] ∧
    submittedBytes (DriverLoadMachineTypeDefaults.storeGlobals h true g a).2 =
      submittedBytes a.2 ++ wireBytes (globalConfigBurst h g) := by
  have hlen : (globalConfigBurst h g).length ≤ h.maxWriteWords := by
    simpa [globalConfigBurst] using hmax
  unfold DriverLoadMachineTypeDefaults.storeGlobals
  simp only [if_true, DriverUpdateGlobalConfig_eq]
  exact PrepareWriteData_submitted_of h a.2 _ _ hlen hrep (by rfl) (by rfl) (by rfl)

theorem configureGroup_true (h : Header)
    (build : PRDriverGroupConfig → Nat → PRDriverGroupConfig) (i : Nat)
    (a : PRResult × PRDevice) :
    DriverLoadMachineTypeDefaults.configureGroup h true build i a =
      PrepareWriteData h
        { a.2 with
          driverGroups :=
            Function.update a.2.driverGroups (build (a.2.driverGroups i) i).groupNum
              (build (a.2.driverGroups i) i) }
        (groupConfigBurst h (build (a.2.driverGroups i) i)) := by
  rfl

theorem configureGroups_submitted (h : Header)
    (build : PRDriverGroupConfig → Nat → PRDriverGroupConfig)
    (hb : ∀ g i, (build g i).groupNum = g.groupNum) (lo : Nat) (hmax : 2 ≤ h.maxWriteWords) :
    ∀ (n : Nat) (init : PRResult × PRDevice),
      (∀ g, lo ≤ g → g < lo + n → (init.2.driverGroups g).groupNum = g) →
      init.2.hw.txReplies = [] →
      (forLoop lo (lo + n)
        (DriverLoadMachineTypeDefaults.configureGroup h true build) init).2.hw.txReplies =
        [] ∧
      submittedBytes (forLoop lo (lo + n)
        (DriverLoadMachineTypeDefaults.configureGroup h true build) init).2 =
        submittedBytes init.2 ++
          wireBytes ((List.range' lo n).map (fun g =>
            groupConfigBurst h (build (init.2.driverGroups g) g))).flatten := by
  intro n init
  induction n with
  | zero => intro _ hrep; simp [forLoop_self, hrep, wireBytes]
  | succ n ih =>
    intro hnum hrep
    rw [← Nat.add_assoc, forLoop_succ _ _ _ _ (Nat.le_add_right lo n)]
    obtain ⟨i1, i2⟩ := ih (fun g h1 h2 => hnum g h1 (by omega)) hrep
    obtain ⟨t1, _, _⟩ := configureGroups_tables h true build hb lo n init
      (fun g h1 h2 => hnum g h1 (by omega))
    have hcur : (forLoop lo (lo + n)
        (DriverLoadMachineTypeDefaults.configureGroup h true build) init).2.driverGroups
          (lo + n) = init.2.driverGroups (lo + n) := by
      rw [t1]
      have : ¬ (lo ≤ lo + n ∧ lo + n < lo + n) := by omega
      simp only [this, if_false]
    have hlen : ∀ g, (groupConfigBurst h g).length ≤ h.maxWriteWords := by
      intro g; simpa [groupConfigBurst] using hmax
    rw [configureGroup_true, hcur]
    have e : submittedBytes init.2 ++
          wireBytes ((List.range' lo (n + 1)).map (fun g =>
            groupConfigBurst h (build (init.2.driverGroups g) g))).flatten =
        submittedBytes (forLoop lo (lo + n)
          (DriverLoadMachineTypeDefaults.configureGroup h true build) init).2 ++
          wireBytes (groupConfigBurst h (build (init.2.driverGroups (lo + n)) (lo + n))) := by
      rw [i2]
      simp [List.range'_1_concat, wireBytes_append]
    rw [e]
    exact PrepareWriteData_submitted_of h
      (forLoop lo (lo + n) (DriverLoadMachineTypeDefaults.configureGroup h true build) init).2
      _ _ (hlen _) i1 (by rfl) (by rfl) (by rfl)
/-- The words `DriverLoadMachineTypeDefaults` submits with the update flag on a
transport that takes whole writes: the bursts of the drivers, the burst of the
global configuration with the outputs disabled, the burst of the global
configuration with the outputs enabled, and the bursts of the groups. -/
theorem apply_submitted (h : Header) (p : MachineProfile) (s : PRDevice)
    (h4 : 4 ≤ p.lastCoilDriverGroup + 1) (h10 : p.lastCoilDriverGroup + 1 ≤ 10)
    (hmatrix : 10 + p.numMatrixGroups ≤ h.kPRDriverGroupsMax)
    (hmax : 4 ≤ h.maxWriteWords) (hrep : s.hw.txReplies = []) :
    (DriverLoadMachineTypeDefaults.apply h p s true).2.hw.txReplies = [] ∧
    submittedBytes (DriverLoadMachineTypeDefaults.apply h p s true).2 =
      submittedBytes s ++
        wireBytes (clearedDriverBursts h p ++
          globalConfigBurst h (DriverLoadMachineTypeDefaults.globals p) ++
          globalConfigBurst h
            { DriverLoadMachineTypeDefaults.globals p with enableOutputs := true } ++
          configuredGroupBursts h p) := by
  obtain ⟨n, hn⟩ : ∃ n, p.lastCoilDriverGroup + 1 = 4 + n :=
    ⟨p.lastCoilDriverGroup + 1 - 4, by omega⟩
  have hn2 : p.lastCoilDriverGroup + 1 - 4 = n := by omega
  -- the drivers
  obtain ⟨d1, d2⟩ := clearDrivers_submitted h p (by omega) h.kPRDriverCount
    (PRResult.kPRSuccess, { s with driverGlobalConfig := zeroDriverGlobalConfig }) hrep
  obtain ⟨_, t2, _⟩ := clearDrivers_tables h p true h.kPRDriverCount
    (PRResult.kPRSuccess, { s with driverGlobalConfig := zeroDriverGlobalConfig })
  have c0 := clearGroups_eq p h.kPRDriverGroupsMax
    (forLoop 0 h.kPRDriverCount (DriverLoadMachineTypeDefaults.clearDriver h p true)
      (PRResult.kPRSuccess, { s with driverGlobalConfig := zeroDriverGlobalConfig }))
  have c1 : (DriverLoadMachineTypeDefaults.clearTables h p s true).2.hw.txReplies = [] := by
    unfold DriverLoadMachineTypeDefaults.clearTables
    rw [c0]; exact d1
  have c2 : submittedBytes (DriverLoadMachineTypeDefaults.clearTables h p s true).2 =
      submittedBytes s ++ wireBytes (clearedDriverBursts h p) := by
    unfold DriverLoadMachineTypeDefaults.clearTables
    rw [c0]; exact d2
  have c3 : (DriverLoadMachineTypeDefaults.clearTables h p s true).2.driverGroups =
      (fun g => if g < h.kPRDriverGroupsMax then DriverLoadMachineTypeDefaults.clearedGroup p g
        else s.driverGroups g) := by
    unfold DriverLoadMachineTypeDefaults.clearTables
    rw [c0]
    simp only [t2]
  -- the global configuration, twice
  obtain ⟨g1, g2⟩ := storeGlobals_submitted h (DriverLoadMachineTypeDefaults.globals p)
    (DriverLoadMachineTypeDefaults.clearTables h p s true) hmax c1
  obtain ⟨_, _, g3⟩ := storeGlobals_tables h true (DriverLoadMachineTypeDefaults.globals p)
    (DriverLoadMachineTypeDefaults.clearTables h p s true)
  obtain ⟨k1, k2⟩ := storeGlobals_submitted h
    { DriverLoadMachineTypeDefaults.globals p with enableOutputs := true }
    (DriverLoadMachineTypeDefaults.storeGlobals h true (DriverLoadMachineTypeDefaults.globals p)
      (DriverLoadMachineTypeDefaults.clearTables h p s true)) hmax g1
  obtain ⟨_, _, k3⟩ := storeGlobals_tables h true
    { DriverLoadMachineTypeDefaults.globals p with enableOutputs := true }
    (DriverLoadMachineTypeDefaults.storeGlobals h true (DriverLoadMachineTypeDefaults.globals p)
      (DriverLoadMachineTypeDefaults.clearTables h p s true))
  have hgr : ∀ g, g < h.kPRDriverGroupsMax →
      (DriverLoadMachineTypeDefaults.storeGlobals h true
        { DriverLoadMachineTypeDefaults.globals p with enableOutputs := true }
        (DriverLoadMachineTypeDefaults.storeGlobals h true
          (DriverLoadMachineTypeDefaults.globals p)
          (DriverLoadMachineTypeDefaults.clearTables h p s true))).2.driverGroups g =
        DriverLoadMachineTypeDefaults.clearedGroup p g := by
    intro g hg
    rw [k3, g3, c3]
    simp [hg]
  -- the coil groups
  have hnum4 : ∀ g, 4 ≤ g → g < 4 + n →
      ((DriverLoadMachineTypeDefaults.storeGlobals h true
        { DriverLoadMachineTypeDefaults.globals p with enableOutputs := true }
        (DriverLoadMachineTypeDefaults.storeGlobals h true
          (DriverLoadMachineTypeDefaults.globals p)
          (DriverLoadMachineTypeDefaults.clearTables h p s true))).2.driverGroups g).groupNum =
        g := by
    intro g _ hg
    rw [hgr g (by omega)]
    rfl
  obtain ⟨m1, m2⟩ := configureGroups_submitted h (DriverLoadMachineTypeDefaults.coilGroup p)
    (fun g i => rfl) 4 (by omega) n _ hnum4 k1
  obtain ⟨mt1, _, _⟩ := configureGroups_tables h true
    (DriverLoadMachineTypeDefaults.coilGroup p) (fun g i => rfl) 4 n _ hnum4
  -- the matrix groups
  have hgr10 : ∀ g, 10 ≤ g → g < 10 + p.numMatrixGroups →
      (forLoop 4 (4 + n)
        (DriverLoadMachineTypeDefaults.configureGroup h true
          (DriverLoadMachineTypeDefaults.coilGroup p))
        (DriverLoadMachineTypeDefaults.storeGlobals h true
          { DriverLoadMachineTypeDefaults.globals p with enableOutputs := true }
          (DriverLoadMachineTypeDefaults.storeGlobals h true
            (DriverLoadMachineTypeDefaults.globals p)
            (DriverLoadMachineTypeDefaults.clearTables h p s true)))).2.driverGroups g =
        DriverLoadMachineTypeDefaults.clearedGroup p g := by
    intro g hg1 hg2
    rw [mt1]
    have hc : ¬ (4 ≤ g ∧ g < 4 + n) := by omega
    simp only [hc, if_false]
    exact hgr g (by omega)
  obtain ⟨x1, x2⟩ := configureGroups_submitted h (DriverLoadMachineTypeDefaults.matrixGroup p)
    (fun g i => rfl) 10 (by omega) p.numMatrixGroups
    (forLoop 4 (4 + n)
      (DriverLoadMachineTypeDefaults.configureGroup h true
        (DriverLoadMachineTypeDefaults.coilGroup p))
      (DriverLoadMachineTypeDefaults.storeGlobals h true
        { DriverLoadMachineTypeDefaults.globals p with enableOutputs := true }
        (DriverLoadMachineTypeDefaults.storeGlobals h true
          (DriverLoadMachineTypeDefaults.globals p)
          (DriverLoadMachineTypeDefaults.clearTables h p s true))))
    (by intro g hg1 hg2; rw [hgr10 g hg1 hg2]; rfl) m1
  have e4 : (List.range' 4 n).map (fun g =>
      groupConfigBurst h (DriverLoadMachineTypeDefaults.coilGroup p
        ((DriverLoadMachineTypeDefaults.storeGlobals h true
          { DriverLoadMachineTypeDefaults.globals p with enableOutputs := true }
          (DriverLoadMachineTypeDefaults.storeGlobals h true
            (DriverLoadMachineTypeDefaults.globals p)
            (DriverLoadMachineTypeDefaults.clearTables h p s true))).2.driverGroups g) g)) =
      (List.range' 4 n).map (fun g =>
        groupConfigBurst h (DriverLoadMachineTypeDefaults.coilGroup p
          (DriverLoadMachineTypeDefaults.clearedGroup p g) g)) := by
    apply List.map_congr_left
    intro g hg
    rw [List.mem_range'_1] at hg
    rw [hgr g (by omega)]
  have e10 : (List.range' 10 p.numMatrixGroups).map (fun g =>
      groupConfigBurst h (DriverLoadMachineTypeDefaults.matrixGroup p
        ((forLoop 4 (4 + n)
          (DriverLoadMachineTypeDefaults.configureGroup h true
            (DriverLoadMachineTypeDefaults.coilGroup p))
          (DriverLoadMachineTypeDefaults.storeGlobals h true
            { DriverLoadMachineTypeDefaults.globals p with enableOutputs := true }
            (DriverLoadMachineTypeDefaults.storeGlobals h true
              (DriverLoadMachineTypeDefaults.globals p)
              (DriverLoadMachineTypeDefaults.clearTables h p s true)))).2.driverGroups g) g)) =
      (List.range' 10 p.numMatrixGroups).map (fun g =>
        groupConfigBurst h (DriverLoadMachineTypeDefaults.matrixGroup p
          (DriverLoadMachineTypeDefaults.clearedGroup p g) g)) := by
    apply List.map_congr_left
    intro g hg
    rw [List.mem_range'_1] at hg
    rw [hgr10 g hg.1 hg.2]
  rw [apply_phases]
  unfold DriverLoadMachineTypeDefaults.configureGroups
  rw [hn]
  refine ⟨x1, ?_⟩
  rw [x2, m2, k2, g2, c2, e4, e10]
  simp only [configuredGroupBursts, hn2, wireBytes_append, List.append_assoc]

/-- The global configuration `DriverLoadMachineTypeDefaults` leaves, with or without
the update flag: the local `globals` with the outputs enabled. -/
theorem apply_globals (h : Header) (p : MachineProfile) (s : PRDevice) (u : Bool) :
    (DriverLoadMachineTypeDefaults.apply h p s u).2.driverGlobalConfig =
      { DriverLoadMachineTypeDefaults.globals p with enableOutputs := true } := by
  rw [apply_phases]
  unfold DriverLoadMachineTypeDefaults.configureGroups
  have hstep : ∀ (build : PRDriverGroupConfig → Nat → PRDriverGroupConfig) (i : Nat)
      (a : PRResult × PRDevice),
      (DriverLoadMachineTypeDefaults.configureGroup h u build i a).2.driverGlobalConfig =
        a.2.driverGlobalConfig := by
    intro build i a
    cases u
    · rfl
    · rw [configureGroup_true]; simp
  refine forLoop_invariant (fun a : PRResult × PRDevice => a.2.driverGlobalConfig =
    { DriverLoadMachineTypeDefaults.globals p with enableOutputs := true }) _ _ _ _ ?_
    (fun i a ha => (hstep _ i a).trans ha)
  refine forLoop_invariant (fun a : PRResult × PRDevice => a.2.driverGlobalConfig =
    { DriverLoadMachineTypeDefaults.globals p with enableOutputs := true }) _ _ _ _ ?_
    (fun i a ha => (hstep _ i a).trans ha)
  exact (storeGlobals_tables h u _ _).1

/-- Without the update flag `DriverLoadMachineTypeDefaults` leaves the write path as
it was: the transport, the prepared-write buffer, its counter and `wr_buffer`. -/
theorem apply_local (h : Header) (p : MachineProfile) (s : PRDevice) :
    (DriverLoadMachineTypeDefaults.apply h p s false).2.hw = s.hw ∧
    (DriverLoadMachineTypeDefaults.apply h p s false).2.numPreparedWriteWords =
      s.numPreparedWriteWords ∧
    (DriverLoadMachineTypeDefaults.apply h p s false).2.preparedWriteWords =
      s.preparedWriteWords ∧
    (DriverLoadMachineTypeDefaults.apply h p s false).2.wr_buffer = s.wr_buffer := by
  unfold DriverLoadMachineTypeDefaults.apply
  simp only [Bool.false_eq_true, if_false]
  refine forLoop_invariant (fun a : PRResult × PRDevice => a.2.hw = s.hw ∧
    a.2.numPreparedWriteWords = s.numPreparedWriteWords ∧
    a.2.preparedWriteWords = s.preparedWriteWords ∧ a.2.wr_buffer = s.wr_buffer) _ _ _ _ ?_
    (fun i a ha => ha)
  refine forLoop_invariant (fun a : PRResult × PRDevice => a.2.hw = s.hw ∧
    a.2.numPreparedWriteWords = s.numPreparedWriteWords ∧
    a.2.preparedWriteWords = s.preparedWriteWords ∧ a.2.wr_buffer = s.wr_buffer) _ _ _ _ ?_
    (fun i a ha => ha)
  refine forLoop_invariant (fun a : PRResult × PRDevice => a.2.hw = s.hw ∧
    a.2.numPreparedWriteWords = s.numPreparedWriteWords ∧
    a.2.preparedWriteWords = s.preparedWriteWords ∧ a.2.wr_buffer = s.wr_buffer) _ _ _ _ ?_
    (fun i a ha => ha)
  exact forLoop_invariant (fun a : PRResult × PRDevice => a.2.hw = s.hw ∧
    a.2.numPreparedWriteWords = s.numPreparedWriteWords ∧
    a.2.preparedWriteWords = s.preparedWriteWords ∧ a.2.wr_buffer = s.wr_buffer) _ _ _ _
    ⟨rfl, rfl, rfl, rfl⟩ (fun i a ha => ha)
theorem profile_isSome (machineType : PRMachineType)
    (hmt : machineType ≠ PRMachineType.kPRMachineCustom) :
    ∃ p, DriverLoadMachineTypeDefaults.profile machineType = some p ∧
      p.globalPolarity = familyPolarity machineType ∧
      4 ≤ p.lastCoilDriverGroup + 1 ∧ p.lastCoilDriverGroup + 1 ≤ 10 ∧
      10 + p.numMatrixGroups ≤ 26 := by
  cases machineType
  · exact absurd rfl hmt
  all_goals exact ⟨_, rfl, rfl, by decide, by decide, by decide⟩

theorem DriverLoadMachineTypeDefaults_eq (h : Header) (s : PRDevice)
    (machineType : PRMachineType) (u : Bool) (p : MachineProfile)
    (hp : DriverLoadMachineTypeDefaults.profile machineType = some p) :
    DriverLoadMachineTypeDefaults h s machineType u =
      some (DriverLoadMachineTypeDefaults.apply h p s u) := by
  simp only [DriverLoadMachineTypeDefaults, hp, Option.map_some']

/-- C24: for a machine type other than Custom, with `p` the local variables its
`switch` case sets: (1) the local `globals` has the outputs disabled; (2) with
the update flag the call is the clearing of the tables, then
`DriverUpdateGlobalConfig` of `globals`, then `DriverUpdateGlobalConfig` of
`globals` with `enableOutputs = true` and every other field the same, then
the configuration of the groups; (3) with or without the flag the stored global
configuration afterwards is `globals` with the outputs enabled, so it has
`enableOutputs = true`, `watchdogEnable = true`, `watchdogResetTime = 1000` and
the polarity of the family; (4) with the flag, on a transport that takes whole
writes, with room for a burst and a group table of at least 26 records, the
bytes submitted are those of the driver bursts, of the burst of `globals`, of
the burst of `globals` with the outputs enabled, and of the group bursts, in
this order: exactly two global-configuration bursts. -/
theorem DriverLoadMachineTypeDefaults_globals (h : Header) (s : PRDevice)
    (machineType : PRMachineType) (hmt : machineType ≠ PRMachineType.kPRMachineCustom) :
    ∃ p, DriverLoadMachineTypeDefaults.profile machineType = some p ∧
      (DriverLoadMachineTypeDefaults.globals p).enableOutputs = false ∧
      DriverLoadMachineTypeDefaults h s machineType true =
        some (DriverLoadMachineTypeDefaults.configureGroups h p true
          (DriverUpdateGlobalConfig h
            (DriverUpdateGlobalConfig h
              (DriverLoadMachineTypeDefaults.clearTables h p s true).2
              (DriverLoadMachineTypeDefaults.globals p)).2
            { DriverLoadMachineTypeDefaults.globals p with enableOutputs := true })) ∧
      (∀ updateDevice, ∃ r,
        DriverLoadMachineTypeDefaults h s machineType updateDevice = some r ∧
        r.2.driverGlobalConfig =
          { DriverLoadMachineTypeDefaults.globals p with enableOutputs := true } ∧
        r.2.driverGlobalConfig.enableOutputs = true ∧
        r.2.driverGlobalConfig.watchdogEnable = true ∧
        r.2.driverGlobalConfig.watchdogResetTime = 1000 ∧
        r.2.driverGlobalConfig.globalPolarity = familyPolarity machineType) ∧
      (s.hw.txReplies = [] → 4 ≤ h.maxWriteWords → 26 ≤ h.kPRDriverGroupsMax →
        ∃ r, DriverLoadMachineTypeDefaults h s machineType true = some r ∧
          submittedBytes r.2 =
            submittedBytes s ++
              wireBytes (clearedDriverBursts h p ++
                globalConfigBurst h (DriverLoadMachineTypeDefaults.globals p) ++
                globalConfigBurst h
                  { DriverLoadMachineTypeDefaults.globals p with enableOutputs := true } ++
                configuredGroupBursts h p)) := by
  obtain ⟨p, hp, hpol, h4, h10, h26⟩ := profile_isSome machineType hmt
  refine ⟨p, hp, rfl, ?_, ?_, ?_⟩
  · rw [DriverLoadMachineTypeDefaults_eq h s machineType true p hp, apply_phases]
    rfl
  · intro u
    refine ⟨_, DriverLoadMachineTypeDefaults_eq h s machineType _ p hp, ?_⟩
    rw [apply_globals]
    exact ⟨rfl, rfl, rfl, rfl, hpol⟩
  · intro hrep hmax hgroups
    refine ⟨_, DriverLoadMachineTypeDefaults_eq h s machineType _ p hp, ?_⟩
    exact (apply_submitted h p s h4 h10 (by omega) hmax hrep).2

theorem DriverLoadMachineTypeDefaults_globals_witness :
    PRMachineType.kPRMachineSternSAM ≠ PRMachineType.kPRMachineCustom ∧
    ∃ p, DriverLoadMachineTypeDefaults.profile PRMachineType.kPRMachineSternSAM = some p ∧
      (DriverLoadMachineTypeDefaults.globals p).enableOutputs = false ∧
      DriverLoadMachineTypeDefaults sampleHeader
          (blankDevice PRMachineType.kPRMachineSternSAM PRMachineType.kPRMachineSternSAM)
          PRMachineType.kPRMachineSternSAM true =
        some (DriverLoadMachineTypeDefaults.configureGroups sampleHeader p true
          (DriverUpdateGlobalConfig sampleHeader
            (DriverUpdateGlobalConfig sampleHeader
              (DriverLoadMachineTypeDefaults.clearTables sampleHeader p
                (blankDevice PRMachineType.kPRMachineSternSAM
                  PRMachineType.kPRMachineSternSAM) true).2
              (DriverLoadMachineTypeDefaults.globals p)).2
            { DriverLoadMachineTypeDefaults.globals p with enableOutputs := true })) ∧
      (∀ updateDevice, ∃ r,
        DriverLoadMachineTypeDefaults sampleHeader
          (blankDevice PRMachineType.kPRMachineSternSAM PRMachineType.kPRMachineSternSAM)
          PRMachineType.kPRMachineSternSAM updateDevice = some r ∧
        r.2.driverGlobalConfig =
          { DriverLoadMachineTypeDefaults.globals p with enableOutputs := true } ∧
        r.2.driverGlobalConfig.enableOutputs = true ∧
        r.2.driverGlobalConfig.watchdogEnable = true ∧
        r.2.driverGlobalConfig.watchdogResetTime = 1000 ∧
        r.2.driverGlobalConfig.globalPolarity =
          familyPolarity PRMachineType.kPRMachineSternSAM) ∧
      ((blankDevice PRMachineType.kPRMachineSternSAM
          PRMachineType.kPRMachineSternSAM).hw.txReplies = [] →
        4 ≤ sampleHeader.maxWriteWords → 26 ≤ sampleHeader.kPRDriverGroupsMax →
        ∃ r, DriverLoadMachineTypeDefaults sampleHeader
            (blankDevice PRMachineType.kPRMachineSternSAM PRMachineType.kPRMachineSternSAM)
            PRMachineType.kPRMachineSternSAM true = some r ∧
          submittedBytes r.2 =
            submittedBytes (blankDevice PRMachineType.kPRMachineSternSAM
                PRMachineType.kPRMachineSternSAM) ++
              wireBytes (clearedDriverBursts sampleHeader p ++
                globalConfigBurst sampleHeader (DriverLoadMachineTypeDefaults.globals p) ++
                globalConfigBurst sampleHeader
                  { DriverLoadMachineTypeDefaults.globals p with enableOutputs := true } ++
                configuredGroupBursts sampleHeader p)) :=
  ⟨by decide,
    DriverLoadMachineTypeDefaults_globals sampleHeader
      (blankDevice PRMachineType.kPRMachineSternSAM PRMachineType.kPRMachineSternSAM)
      PRMachineType.kPRMachineSternSAM (by decide)⟩

/-- The closed form of the group table for the two families, against the reference
table. -/
theorem reference_groups (machineType : PRMachineType) (p : MachineProfile)
    (hp : DriverLoadMachineTypeDefaults.profile machineType = some p) (g : Nat)
    (hg : g < 26) :
    (if 10 ≤ g ∧ g < 10 + p.numMatrixGroups then
        DriverLoadMachineTypeDefaults.matrixGroup p
          (DriverLoadMachineTypeDefaults.clearedGroup p g) g
      else if 4 ≤ g ∧ g < p.lastCoilDriverGroup + 1 then
        DriverLoadMachineTypeDefaults.coilGroup p
          (DriverLoadMachineTypeDefaults.clearedGroup p g) g
      else DriverLoadMachineTypeDefaults.clearedGroup p g) =
      referenceGroup (familyPolarity machineType) g := by
  cases machineType
  · simp [DriverLoadMachineTypeDefaults.profile] at hp
  all_goals
    simp only [DriverLoadMachineTypeDefaults.profile, Option.some.injEq] at hp
    subst hp
    interval_cases g <;> decide

/-- C25: for a machine type other than Custom and a group table of at least 26
records, after `DriverLoadMachineTypeDefaults`, with or without the update
flag, every group `g < 26` has the record of the reference table of the
family, and every driver record `i < kPRDriverCount` has `driverNum = i`, the
polarity of the family and every other field zero. -/
theorem DriverLoadMachineTypeDefaults_tables (h : Header) (s : PRDevice)
    (machineType : PRMachineType) (updateDevice : Bool)
    (hmt : machineType ≠ PRMachineType.kPRMachineCustom)
    (hgroups : 26 ≤ h.kPRDriverGroupsMax) :
    ∃ r, DriverLoadMachineTypeDefaults h s machineType updateDevice = some r ∧
      (∀ g, g < 26 → r.2.driverGroups g = referenceGroup (familyPolarity machineType) g) ∧
      (∀ i, i < h.kPRDriverCount →
        r.2.drivers i =
          { zeroDriverState with driverNum := i, polarity := familyPolarity machineType }) := by
  obtain ⟨p, hp, hpol, h4, h10, h26⟩ := profile_isSome machineType hmt
  obtain ⟨t1, t2, _⟩ := apply_tables h p s updateDevice h4 h10 (by omega)
  refine ⟨_, DriverLoadMachineTypeDefaults_eq h s machineType _ p hp, ?_, ?_⟩
  · intro g hg
    rw [t2, ← reference_groups machineType p hp g hg]
    have : g < h.kPRDriverGroupsMax := by omega
    simp only [this, if_true]
  · intro i hi
    rw [t1]
    simp only [hi, if_true, DriverLoadMachineTypeDefaults.clearedDriver, hpol]

theorem DriverLoadMachineTypeDefaults_tables_witness :
    PRMachineType.kPRMachineWPC ≠ PRMachineType.kPRMachineCustom ∧
    26 ≤ sampleHeader.kPRDriverGroupsMax ∧
    ∃ r, DriverLoadMachineTypeDefaults sampleHeader
          (blankDevice PRMachineType.kPRMachineWPC PRMachineType.kPRMachineWPC)
          PRMachineType.kPRMachineWPC true = some r ∧
      (∀ g, g < 26 →
        r.2.driverGroups g = referenceGroup (familyPolarity PRMachineType.kPRMachineWPC) g) ∧
      (∀ i, i < sampleHeader.kPRDriverCount →
        r.2.drivers i =
          { zeroDriverState with
            driverNum := i, polarity := familyPolarity PRMachineType.kPRMachineWPC }) :=
  ⟨by decide, by decide,
    DriverLoadMachineTypeDefaults_tables sampleHeader
      (blankDevice PRMachineType.kPRMachineWPC PRMachineType.kPRMachineWPC)
      PRMachineType.kPRMachineWPC true (by decide) (by decide)⟩

/-- C26: for a machine type other than Custom and a group table of at least 26
records, `DriverLoadMachineTypeDefaults` without the update flag leaves the
transport, the prepared-write buffer and its counter as they were (no word is
submitted, no transport write is made), and the driver table, the group table
and the global configuration it leaves are those the call with the update flag
leaves. -/
theorem DriverLoadMachineTypeDefaults_local_only (h : Header) (s : PRDevice)
    (machineType : PRMachineType) (hmt : machineType ≠ PRMachineType.kPRMachineCustom)
    (hgroups : 26 ≤ h.kPRDriverGroupsMax) :
    ∃ r0 r1, DriverLoadMachineTypeDefaults h s machineType false = some r0 ∧
      DriverLoadMachineTypeDefaults h s machineType true = some r1 ∧
      r0.2.hw = s.hw ∧ r0.2.numPreparedWriteWords = s.numPreparedWriteWords ∧
      r0.2.preparedWriteWords = s.preparedWriteWords ∧
      submittedBytes r0.2 = submittedBytes s ∧
      r0.2.drivers = r1.2.drivers ∧ r0.2.driverGroups = r1.2.driverGroups ∧
      r0.2.driverGlobalConfig = r1.2.driverGlobalConfig := by
  obtain ⟨p, hp, hpol, h4, h10, h26⟩ := profile_isSome machineType hmt
  obtain ⟨a1, a2, a3⟩ := apply_tables h p s false h4 h10 (by omega)
  obtain ⟨b1, b2, b3⟩ := apply_tables h p s true h4 h10 (by omega)
  obtain ⟨l1, l2, l3, _⟩ := apply_local h p s
  refine ⟨_, _, DriverLoadMachineTypeDefaults_eq h s machineType _ p hp,
    DriverLoadMachineTypeDefaults_eq h s machineType _ p hp, l1, l2, l3, ?_,
    a1.trans b1.symm, a2.trans b2.symm, a3.trans b3.symm⟩
  simp only [submittedBytes, l1, l2, l3]

theorem DriverLoadMachineTypeDefaults_local_only_witness :
    PRMachineType.kPRMachineWPC95 ≠ PRMachineType.kPRMachineCustom ∧
    26 ≤ sampleHeader.kPRDriverGroupsMax ∧
    ∃ r0 r1, DriverLoadMachineTypeDefaults sampleHeader
          (blankDevice PRMachineType.kPRMachineWPC95 PRMachineType.kPRMachineWPC95)
          PRMachineType.kPRMachineWPC95 false = some r0 ∧
      DriverLoadMachineTypeDefaults sampleHeader
          (blankDevice PRMachineType.kPRMachineWPC95 PRMachineType.kPRMachineWPC95)
          PRMachineType.kPRMachineWPC95 true = some r1 ∧
      r0.2.hw = (blankDevice PRMachineType.kPRMachineWPC95 PRMachineType.kPRMachineWPC95).hw ∧
      r0.2.numPreparedWriteWords =
        (blankDevice PRMachineType.kPRMachineWPC95
          PRMachineType.kPRMachineWPC95).numPreparedWriteWords ∧
      r0.2.preparedWriteWords =
        (blankDevice PRMachineType.kPRMachineWPC95
          PRMachineType.kPRMachineWPC95).preparedWriteWords ∧
      submittedBytes r0.2 =
        submittedBytes
          (blankDevice PRMachineType.kPRMachineWPC95 PRMachineType.kPRMachineWPC95) ∧
      r0.2.drivers = r1.2.drivers ∧ r0.2.driverGroups = r1.2.driverGroups ∧
      r0.2.driverGlobalConfig = r1.2.driverGlobalConfig :=
  ⟨by decide, by decide,
    DriverLoadMachineTypeDefaults_local_only sampleHeader
      (blankDevice PRMachineType.kPRMachineWPC95 PRMachineType.kPRMachineWPC95)
      PRMachineType.kPRMachineWPC95 (by decide) (by decide)⟩

/-! ## The state after Reset -/

theorem forLoopM_invariant {σ : Type} (P : σ → Prop) (lo hi : Nat)
    (body : Nat → σ → Option σ) (init : σ) (h0 : P init)
    (hstep : ∀ i s, P s → ∃ s1, body i s = some s1 ∧ P s1) :
    ∃ r, forLoopM lo hi body init = some r ∧ P r := by
  unfold forLoopM
  generalize List.range' lo (hi - lo) = l
  induction l generalizing init with
  | nil => exact ⟨init, rfl, h0⟩
  | cons a l ih =>
    obtain ⟨s1, e1, p1⟩ := hstep a init h0
    obtain ⟨r, e, p⟩ := ih s1 p1
    exact ⟨r, by simpa [List.foldlM, e1] using e, p⟩

/-- The slots after the first `n` passes of the loop at lines 116 to 125 of `Reset`:
slot `i < n` carries the switch number and event type parsed from `i`, and no
pass touches `notifyHost` or `changeOutput`. -/
theorem initRules_slots (h : Header) (s : PRDevice) (n : Nat) :
    KeepsReadPath s (forLoop 0 n (Reset.initRule h) s) ∧
    ∀ i,
      ((forLoop 0 n (Reset.initRule h) s).switchRules i).changeOutput =
        (s.switchRules i).changeOutput ∧
      ((forLoop 0 n (Reset.initRule h) s).switchRules i).notifyHost =
        (s.switchRules i).notifyHost ∧
      (i < n →
        ((forLoop 0 n (Reset.initRule h) s).switchRules i).switchNum =
          (h.ParseSwitchRuleIndex i).1 ∧
        ((forLoop 0 n (Reset.initRule h) s).switchRules i).eventType =
          (h.ParseSwitchRuleIndex i).2) := by
  induction n with
  | zero =>
    rw [forLoop_self]
    exact ⟨KeepsReadPath.refl s, fun i => ⟨rfl, rfl, fun hi => absurd hi (Nat.not_lt_zero i)⟩⟩
  | succ n ih =>
    rw [forLoop_succ _ _ _ _ (Nat.zero_le n)]
    obtain ⟨k, i3⟩ := ih
    refine ⟨k.trans ⟨rfl, rfl, rfl, rfl, rfl, id⟩, ?_⟩
    intro i
    obtain ⟨j1, j2, j3⟩ := i3 i
    by_cases e : i = n
    · subst e
      refine ⟨?_, ?_, fun _ => ?_⟩
      · simpa [Reset.initRule] using j1
      · simpa [Reset.initRule] using j2
      · simp [Reset.initRule]
    · refine ⟨?_, ?_, fun hi => ?_⟩
      · simpa [Reset.initRule, Function.update_apply, e] using j1
      · simpa [Reset.initRule, Function.update_apply, e] using j2
      · simpa [Reset.initRule, Function.update_apply, e] using j3 (by omega)

theorem loadDefaults_keeps (h : Header) (s : PRDevice) (u : Bool) :
    ∃ s2, Reset.loadDefaults h s u = some s2 ∧ KeepsReadPath s s2 := by
  unfold Reset.loadDefaults
  by_cases hm : s.machineType = PRMachineType.kPRMachineCustom
  · exact ⟨s, by simp [hm], KeepsReadPath.refl s⟩
  · obtain ⟨p, hp, _⟩ := profile_isSome s.machineType hm
    refine ⟨(DriverLoadMachineTypeDefaults.apply h p s u).2, ?_, apply_keeps h p s u⟩
    simp [hm, DriverLoadMachineTypeDefaults_eq h s s.machineType u p hp]

/-- `SwitchUpdateRule` with no reaction on a table whose slots all have an inactive
link: the call returns, the free pool is unchanged, the slots still have
inactive links and `changeOutput` clear, the switch numbers and event types of
the slots are unchanged and the read path is as it was. -/
theorem SwitchUpdateRule_blank (h : Header) (t : PRDevice) (switchNum : Nat)
    (eventType : PREventType) (rule : PRSwitchRule)
    (hidx : ∀ sw et, sw ≤ h.kPRSwitchPhysicalLast →
      h.CreateSwitchRuleIndex sw et < h.maxSwitchRules)
    (hinv : ∀ i, i < h.maxSwitchRules →
      (t.switchRules i).linkActive = false ∧ (t.switchRules i).changeOutput = false) :
    ∃ r, SwitchUpdateRule h t switchNum eventType rule [] = some r ∧
      r.2.freeSwitchRuleIndexes = t.freeSwitchRuleIndexes ∧
      (∀ i, i < h.maxSwitchRules →
        (r.2.switchRules i).linkActive = false ∧ (r.2.switchRules i).changeOutput = false) ∧
      (∀ i, (r.2.switchRules i).switchNum = (t.switchRules i).switchNum ∧
        (r.2.switchRules i).eventType = (t.switchRules i).eventType) ∧
      KeepsReadPath t r.2 := by
  by_cases hsw : switchNum > h.kPRSwitchPhysicalLast
  · exact ⟨(PRResult.kPRFailure, t), by simp [SwitchUpdateRule, hsw], rfl, hinv,
      fun i => ⟨rfl, rfl⟩, KeepsReadPath.refl t⟩
  · have hb := (hinv _ (hidx switchNum eventType (by omega))).1
    unfold SwitchUpdateRule
    simp only [hsw, if_false, List.length_nil, gt_iff_lt, Nat.lt_irrefl, decide_False,
      Bool.false_and, Bool.false_eq_true, GetSwitchRuleByIndex,
      freeOldLinks_inactive _ _ _ _ hb]
    refine ⟨_, rfl, ?_, ?_, ?_, ?_⟩
    · simp
    · intro i hi
      simp only [PrepareWriteData_switchRules, Function.update_apply]
      split
      · exact ⟨rfl, rfl⟩
      · exact hinv i hi
    · intro i
      simp only [PrepareWriteData_switchRules, Function.update_apply]
      split
      · next e => subst e; exact ⟨rfl, rfl⟩
      · exact ⟨rfl, rfl⟩
    · exact KeepsReadPath.trans ⟨rfl, rfl, rfl, rfl, rfl, id⟩ (PrepareWriteData_keeps h _ _)

/-- The state `Reset` leaves, with or without the update flag, when the rule indices
of the physical switches lie inside the rule table. -/
theorem Reset_post (h : Header) (s : PRDevice) (u : Bool)
    (hidx : ∀ sw et, sw ≤ h.kPRSwitchPhysicalLast →
      h.CreateSwitchRuleIndex sw et < h.maxSwitchRules) :
    ∃ s0, Reset h s u = some (PRResult.kPRSuccess, s0) ∧
      s0.freeSwitchRuleIndexes = virtualRuleIndexes h ∧
      (∀ i, i < h.maxSwitchRules →
        (s0.switchRules i).linkActive = false ∧ (s0.switchRules i).changeOutput = false) ∧
      (∀ i, i < h.kPRSwitchRulesCount →
        (s0.switchRules i).switchNum = (h.ParseSwitchRuleIndex i).1 ∧
        (s0.switchRules i).eventType = (h.ParseSwitchRuleIndex i).2) ∧
      KeepsReadPath (Reset.clearBuffers s) s0 := by
  obtain ⟨s2, e2, k2⟩ := loadDefaults_keeps h (Reset.clearBuffers s) u
  obtain ⟨i1, _, i3⟩ := initRules_spec h (Reset.clearRuleTable h s2) h.kPRSwitchRulesCount
  obtain ⟨k3, j3⟩ := initRules_slots h (Reset.clearRuleTable h s2) h.kPRSwitchRulesCount
  have base : (forLoop 0 h.kPRSwitchRulesCount (Reset.initRule h)
        (Reset.clearRuleTable h s2)).freeSwitchRuleIndexes = virtualRuleIndexes h ∧
      (∀ i, i < h.maxSwitchRules →
        ((forLoop 0 h.kPRSwitchRulesCount (Reset.initRule h)
          (Reset.clearRuleTable h s2)).switchRules i).linkActive = false ∧
        ((forLoop 0 h.kPRSwitchRulesCount (Reset.initRule h)
          (Reset.clearRuleTable h s2)).switchRules i).changeOutput = false) ∧
      (∀ i, i < h.kPRSwitchRulesCount →
        ((forLoop 0 h.kPRSwitchRulesCount (Reset.initRule h)
          (Reset.clearRuleTable h s2)).switchRules i).switchNum =
            (h.ParseSwitchRuleIndex i).1 ∧
        ((forLoop 0 h.kPRSwitchRulesCount (Reset.initRule h)
          (Reset.clearRuleTable h s2)).switchRules i).eventType =
            (h.ParseSwitchRuleIndex i).2) ∧
      KeepsReadPath (Reset.clearBuffers s) (forLoop 0 h.kPRSwitchRulesCount (Reset.initRule h)
        (Reset.clearRuleTable h s2)) := by
    refine ⟨?_, ?_, ?_, ?_⟩
    · simpa [Reset.clearRuleTable, virtualRuleIndexes] using i1
    · intro i hi
      rw [(i3 i).1, (j3 i).1]
      simp [Reset.clearRuleTable, hi, zeroSwitchRule]
    · intro i hi
      exact (j3 i).2.2 hi
    · exact k2.trans (KeepsReadPath.trans ⟨rfl, rfl, rfl, rfl, rfl, id⟩ k3)
  have hclear : ∃ s5, Reset.clearRules h u (forLoop 0 h.kPRSwitchRulesCount (Reset.initRule h)
        (Reset.clearRuleTable h s2)) = some s5 ∧
      (s5.freeSwitchRuleIndexes = virtualRuleIndexes h ∧
      (∀ i, i < h.maxSwitchRules →
        (s5.switchRules i).linkActive = false ∧ (s5.switchRules i).changeOutput = false) ∧
      (∀ i, i < h.kPRSwitchRulesCount →
        (s5.switchRules i).switchNum = (h.ParseSwitchRuleIndex i).1 ∧
        (s5.switchRules i).eventType = (h.ParseSwitchRuleIndex i).2) ∧
      KeepsReadPath (Reset.clearBuffers s) s5) := by
    unfold Reset.clearRules
    refine forLoopM_invariant _ _ _ _ _ base ?_
    intro i t ⟨p1, p2, p3, p4⟩
    by_cases c : (u && decide (i ≤ h.kPRSwitchPhysicalLast)) = true
    · simp only [c, if_true]
      obtain ⟨r1, e1, a1, b1, c1, d1⟩ := SwitchUpdateRule_blank h t (i % 256)
        PREventType.kPREventTypeSwitchOpenDebounced { notifyHost := false } hidx p2
      obtain ⟨r2, e2, a2, b2, c2, d2⟩ := SwitchUpdateRule_blank h r1.2 (i % 256)
        PREventType.kPREventTypeSwitchClosedDebounced { notifyHost := false } hidx b1
      obtain ⟨r3, e3, a3, b3, c3, d3⟩ := SwitchUpdateRule_blank h r2.2 (i % 256)
        PREventType.kPREventTypeSwitchOpenNondebounced { notifyHost := false } hidx b2
      obtain ⟨r4, e4, a4, b4, c4, d4⟩ := SwitchUpdateRule_blank h r3.2 (i % 256)
        PREventType.kPREventTypeSwitchClosedNondebounced { notifyHost := false } hidx b3
      refine ⟨r4.2, ?_, ?_, b4, ?_, ?_⟩
      · simp [e1, e2, e3, e4]
      · rw [a4, a3, a2, a1, p1]
      · intro j hj
        rw [(c4 j).1, (c4 j).2, (c3 j).1, (c3 j).2, (c2 j).1, (c2 j).2, (c1 j).1, (c1 j).2]
        exact p3 j hj
      · exact p4.trans (d1.trans (d2.trans (d3.trans d4)))
    · exact ⟨t, by simp [c], p1, p2, p3, p4⟩
  obtain ⟨s5, e5, q1, q2, q3, q4⟩ := hclear
  refine ⟨s5, ?_, q1, q2, q3, q4⟩
  unfold Reset
  simp only [e2, Option.some_bind, Reset.initRules, e5, Option.map_some']
theorem virtualRuleIndexes_mem (h : Header) (i : Nat) :
    i ∈ virtualRuleIndexes h ↔
      (i < h.kPRSwitchRulesCount ∧ h.kPRSwitchVirtualFirst ≤ (h.ParseSwitchRuleIndex i).1) := by
  simp [virtualRuleIndexes]

theorem virtualRuleIndexes_sorted (h : Header) :
    (virtualRuleIndexes h).Pairwise (fun a b => a < b) :=
  (List.pairwise_lt_range _).filter _

theorem sampleCreateSwitchRuleIndex_lt (switchNum : Nat) (eventType : PREventType) :
    sampleHeader.CreateSwitchRuleIndex switchNum eventType < sampleHeader.maxSwitchRules := by
  have hs : switchNum % 256 < 2 ^ 10 := by omega
  show sampleCreateSwitchRuleIndex switchNum eventType < 2 ^ 10
  unfold sampleCreateSwitchRuleIndex
  cases eventType <;>
    exact Nat.or_lt_two_pow (Nat.or_lt_two_pow (by decide) (by decide)) hs

/-- C23: when the indices below `kPRSwitchRulesCount` and the rule indices of the
physical switches lie inside the rule table, `Reset` returns `kPRSuccess`, with
or without the update flag, and afterwards: every slot below
`kPRSwitchRulesCount` has an inactive link, `changeOutput` clear and the switch
number and event type parsed from its own index; the free pool is the list of
the indices below `kPRSwitchRulesCount` whose parsed switch number is at least
`kPRSwitchVirtualFirst`, in ascending order, each once; the byte count and both
cursors of the circular buffer are 0 and both data queues are empty. -/
theorem Reset_state (h : Header) (s : PRDevice) (updateDevice : Bool)
    (hcount : h.kPRSwitchRulesCount ≤ h.maxSwitchRules)
    (hidx : ∀ sw et, sw ≤ h.kPRSwitchPhysicalLast →
      h.CreateSwitchRuleIndex sw et < h.maxSwitchRules) :
    ∃ s0, Reset h s updateDevice = some (PRResult.kPRSuccess, s0) ∧
      (∀ i, i < h.kPRSwitchRulesCount →
        (s0.switchRules i).linkActive = false ∧ (s0.switchRules i).changeOutput = false ∧
        (s0.switchRules i).switchNum = (h.ParseSwitchRuleIndex i).1 ∧
        (s0.switchRules i).eventType = (h.ParseSwitchRuleIndex i).2) ∧
      s0.freeSwitchRuleIndexes = virtualRuleIndexes h ∧
      s0.freeSwitchRuleIndexes.Pairwise (fun a b => a < b) ∧
      (∀ i, i ∈ s0.freeSwitchRuleIndexes ↔
        (i < h.kPRSwitchRulesCount ∧
          h.kPRSwitchVirtualFirst ≤ (h.ParseSwitchRuleIndex i).1)) ∧
      s0.num_collected_bytes = 0 ∧ s0.collected_bytes_rd_addr = 0 ∧
      s0.collected_bytes_wr_addr = 0 ∧
      s0.unrequestedDataQueue = [] ∧ s0.requestedDataQueue = [] := by
  obtain ⟨s0, e0, f0, l0, p0, k1, k2, k3, k4, k5, _⟩ := Reset_post h s updateDevice hidx
  refine ⟨s0, e0, ?_, f0, ?_, ?_, k3, k1, k2, k4, k5⟩
  · intro i hi
    exact ⟨(l0 i (by omega)).1, (l0 i (by omega)).2, (p0 i hi).1, (p0 i hi).2⟩
  · rw [f0]; exact virtualRuleIndexes_sorted h
  · intro i
    rw [f0]; exact virtualRuleIndexes_mem h i

theorem Reset_state_witness :
    sampleHeader.kPRSwitchRulesCount ≤ sampleHeader.maxSwitchRules ∧
    (∀ sw et, sw ≤ sampleHeader.kPRSwitchPhysicalLast →
      sampleHeader.CreateSwitchRuleIndex sw et < sampleHeader.maxSwitchRules) ∧
    ∃ s0, Reset sampleHeader
          (blankDevice PRMachineType.kPRMachineWPC PRMachineType.kPRMachineWPC) true =
        some (PRResult.kPRSuccess, s0) ∧
      (∀ i, i < sampleHeader.kPRSwitchRulesCount →
        (s0.switchRules i).linkActive = false ∧ (s0.switchRules i).changeOutput = false ∧
        (s0.switchRules i).switchNum = (sampleHeader.ParseSwitchRuleIndex i).1 ∧
        (s0.switchRules i).eventType = (sampleHeader.ParseSwitchRuleIndex i).2) ∧
      s0.freeSwitchRuleIndexes = virtualRuleIndexes sampleHeader ∧
      s0.freeSwitchRuleIndexes.Pairwise (fun a b => a < b) ∧
      (∀ i, i ∈ s0.freeSwitchRuleIndexes ↔
        (i < sampleHeader.kPRSwitchRulesCount ∧
          sampleHeader.kPRSwitchVirtualFirst ≤ (sampleHeader.ParseSwitchRuleIndex i).1)) ∧
      s0.num_collected_bytes = 0 ∧ s0.collected_bytes_rd_addr = 0 ∧
      s0.collected_bytes_wr_addr = 0 ∧
      s0.unrequestedDataQueue = [] ∧ s0.requestedDataQueue = [] :=
  ⟨by decide, fun sw et _ => sampleCreateSwitchRuleIndex_lt sw et,
    Reset_state sampleHeader
      (blankDevice PRMachineType.kPRMachineWPC PRMachineType.kPRMachineWPC) true (by decide)
      (fun sw et _ => sampleCreateSwitchRuleIndex_lt sw et)⟩
/-! ## The chain SwitchUpdateRule installs -/

/-- One pass of the install loop with a further reaction to come, on a transport that
takes whole writes: the slot gets the reaction and an active link to the front
of the free pool, its burst is submitted, and the loop goes on at that index. -/
theorem install_step_link (h : Header) (first : Nat) (d d2 : PRDriverState)
    (ds : List PRDriverState) (idx : Nat) (s : PRDevice) (front : Nat) (free : List Nat)
    (hmax : 4 ≤ h.maxWriteWords) (hrep : s.hw.txReplies = [])
    (hfree : s.freeSwitchRuleIndexes = front :: free) :
    ∃ s1, SwitchUpdateRule.install h first (d :: d2 :: ds) idx s =
        SwitchUpdateRule.install h first (d2 :: ds) front s1 ∧
      s1.switchRules = Function.update s.switchRules idx
        { s.switchRules idx with
          changeOutput := true, driver := d, linkActive := true, linkIndex := front } ∧
      s1.freeSwitchRuleIndexes = free ∧ s1.hw.txReplies = [] ∧
      submittedBytes s1 = submittedBytes s ++
        wireBytes (switchRuleBurst h
          { s.switchRules idx with
            changeOutput := true, driver := d, linkActive := true, linkIndex := front }) := by
  rw [SwitchUpdateRule.install]
  simp only [hfree, GetSwitchRuleByIndex, List.length_cons]
  have hlt : ds.length + 1 + 1 > 1 := by omega
  simp only [hlt, if_true]
  have hlen : (switchRuleBurst h { s.switchRules idx with
      changeOutput := true, driver := d, linkActive := true, linkIndex := front }).length ≤
      h.maxWriteWords := by simpa [switchRuleBurst] using hmax
  obtain ⟨a1, _⟩ := PrepareWriteData_accepted h
    { s with
      switchRules := Function.update s.switchRules idx
        { s.switchRules idx with
          changeOutput := true, driver := d, linkActive := true, linkIndex := front }
      freeSwitchRuleIndexes := free }
    _ hlen hrep
  obtain ⟨b1, b2⟩ := PrepareWriteData_submitted_of h s
    { s with
      switchRules := Function.update s.switchRules idx
        { s.switchRules idx with
          changeOutput := true, driver := d, linkActive := true, linkIndex := front }
      freeSwitchRuleIndexes := free }
    _ hlen hrep rfl rfl rfl
  refine ⟨_, ?_, ?_, ?_, b1, b2⟩
  · simp only [a1, bne_self_eq_false, Bool.false_eq_true, if_false]
  · simp
  · simp

/-- The last pass of the install loop on a transport that takes whole writes: the
slot gets the reaction and an inactive link and its burst is submitted. -/
theorem install_step_last (h : Header) (first : Nat) (d : PRDriverState) (idx : Nat)
    (s : PRDevice) (hmax : 4 ≤ h.maxWriteWords) (hrep : s.hw.txReplies = []) :
    ∃ s1, SwitchUpdateRule.install h first [d] idx s = some (PRResult.kPRSuccess, s1) ∧
      s1.switchRules = Function.update s.switchRules idx
        { s.switchRules idx with changeOutput := true, driver := d, linkActive := false } ∧
      s1.freeSwitchRuleIndexes = s.freeSwitchRuleIndexes ∧ s1.hw.txReplies = [] ∧
      submittedBytes s1 = submittedBytes s ++
        wireBytes (switchRuleBurst h
          { s.switchRules idx with changeOutput := true, driver := d, linkActive := false }) := by
  rw [SwitchUpdateRule.install]
  simp only [GetSwitchRuleByIndex, List.length_nil, Nat.zero_add, gt_iff_lt, Nat.lt_irrefl,
    if_false]
  have hlen : (switchRuleBurst h { s.switchRules idx with
      changeOutput := true, driver := d, linkActive := false }).length ≤
      h.maxWriteWords := by simpa [switchRuleBurst] using hmax
  obtain ⟨a1, _⟩ := PrepareWriteData_accepted h
    { s with
      switchRules := Function.update s.switchRules idx
        { s.switchRules idx with changeOutput := true, driver := d, linkActive := false } }
    _ hlen hrep
  obtain ⟨b1, b2⟩ := PrepareWriteData_submitted_of h s
    { s with
      switchRules := Function.update s.switchRules idx
        { s.switchRules idx with changeOutput := true, driver := d, linkActive := false } }
    _ hlen hrep rfl rfl rfl
  refine ⟨_, ?_, ?_, ?_, b1, b2⟩
  · simp only [a1, bne_self_eq_false, Bool.false_eq_true, if_false, SwitchUpdateRule.install]
  · simp
  · simp

/-- The install loop on a transport that takes whole writes, started at a slot that
is not in the free pool, with a pool that has no index twice and holds enough
indices: it returns `kPRSuccess`, takes the indices it needs from the front of
the pool, leaves the chain of the reactions through these indices, touches no
other slot, keeps `notifyHost` of the first slot and submits one burst for each
slot of the chain, in the order of the chain. -/
theorem install_chain (h : Header) (first : Nat) (hmax : 4 ≤ h.maxWriteWords) :
    ∀ (ds : List PRDriverState) (d : PRDriverState) (idx : Nat) (s : PRDevice),
      ds.length ≤ s.freeSwitchRuleIndexes.length → s.hw.txReplies = [] →
      idx ∉ s.freeSwitchRuleIndexes → s.freeSwitchRuleIndexes.Nodup →
      ∃ s1, SwitchUpdateRule.install h first (d :: ds) idx s =
          some (PRResult.kPRSuccess, s1) ∧
        s1.freeSwitchRuleIndexes = s.freeSwitchRuleIndexes.drop ds.length ∧
        s1.hw.txReplies = [] ∧
        (∀ j, j ≠ idx → j ∉ s.freeSwitchRuleIndexes.take ds.length →
          s1.switchRules j = s.switchRules j) ∧
        (s1.switchRules idx).notifyHost = (s.switchRules idx).notifyHost ∧
        LinkedChain s1.switchRules idx (d :: ds) (s.freeSwitchRuleIndexes.take ds.length) ∧
        submittedBytes s1 = submittedBytes s ++
          wireBytes ((idx :: s.freeSwitchRuleIndexes.take ds.length).map
            (fun i => switchRuleBurst h (s1.switchRules i))).flatten := by
  intro ds
  induction ds with
  | nil =>
    intro d idx s _ hrep _ _
    obtain ⟨s1, e1, r1, f1, p1, b1⟩ := install_step_last h first d idx s hmax hrep
    refine ⟨s1, e1, by simpa using f1, p1, ?_, ?_, ?_, ?_⟩
    · intro j hj _
      rw [r1]; simp [Function.update_apply, hj]
    · rw [r1]; simp
    · simp [LinkedChain, r1]
    · rw [b1, r1]; simp
  | cons d2 ds ih =>
    intro d idx s hlen hrep hidx hnodup
    cases hf : s.freeSwitchRuleIndexes with
    | nil => simp [hf] at hlen
    | cons front free =>
      rw [hf] at hlen hidx hnodup
      have hif : idx ≠ front := fun e => hidx (by simp [e])
      have hifree : idx ∉ free := fun e => hidx (List.mem_cons_of_mem _ e)
      have hffree : front ∉ free := (List.nodup_cons.mp hnodup).1
      obtain ⟨t, e1, r1, f1, p1, b1⟩ :=
        install_step_link h first d d2 ds idx s front free hmax hrep hf
      obtain ⟨s1, e2, f2, p2, o2, _, c2, b2⟩ := ih d2 front t
        (by rw [f1]; simpa using hlen) p1 (by rw [f1]; exact hffree)
        (by rw [f1]; exact (List.nodup_cons.mp hnodup).2)
      rw [f1] at f2 o2 c2 b2
      have hidx1 : s1.switchRules idx =
          { s.switchRules idx with
            changeOutput := true, driver := d, linkActive := true, linkIndex := front } := by
        rw [o2 idx hif (fun e => hifree (List.mem_of_mem_take e)), r1]
        simp
      refine ⟨s1, by rw [e1, e2], ?_, p2, ?_, ?_, ?_, ?_⟩
      · rw [f2]; simp
      · intro j hj1 hj2
        simp only [List.length_cons, List.take_succ_cons, List.mem_cons, not_or] at hj2
        rw [o2 j hj2.1 hj2.2, r1]
        simp [Function.update_apply, hj1]
      · rw [hidx1]
      · simp only [List.length_cons, List.take_succ_cons, LinkedChain]
        rw [hidx1]
        exact ⟨rfl, rfl, rfl, rfl, c2⟩
      · rw [b2, b1]
        simp only [List.length_cons, List.take_succ_cons, List.map_cons, List.flatten_cons,
          wireBytes_append, List.append_assoc, hidx1]
/-- `SwitchUpdateRule` on a transport that takes whole writes, for a physical switch
whose base slot has an inactive link and is not in the free pool, with a pool
that has no index twice and holds at least `n - 1` indices. -/
theorem SwitchUpdateRule_chain (h : Header) (s : PRDevice) (switchNum : Nat)
    (eventType : PREventType) (rule : PRSwitchRule) (ds : List PRDriverState)
    (hsw : switchNum ≤ h.kPRSwitchPhysicalLast)
    (hbase : (s.switchRules (h.CreateSwitchRuleIndex switchNum eventType)).linkActive = false)
    (hnot : h.CreateSwitchRuleIndex switchNum eventType ∉ s.freeSwitchRuleIndexes)
    (hnodup : s.freeSwitchRuleIndexes.Nodup)
    (hpool : ds.length - 1 ≤ s.freeSwitchRuleIndexes.length)
    (hmax : 4 ≤ h.maxWriteWords) (hrep : s.hw.txReplies = []) :
    ∃ s1, SwitchUpdateRule h s switchNum eventType rule ds = some (PRResult.kPRSuccess, s1) ∧
      (s1.switchRules (h.CreateSwitchRuleIndex switchNum eventType)).notifyHost =
        rule.notifyHost ∧
      s1.freeSwitchRuleIndexes = s.freeSwitchRuleIndexes.drop (ds.length - 1) ∧
      LinkedChain s1.switchRules (h.CreateSwitchRuleIndex switchNum eventType) ds
        (s.freeSwitchRuleIndexes.take (ds.length - 1)) ∧
      (∀ j, j ≠ h.CreateSwitchRuleIndex switchNum eventType →
        j ∉ s.freeSwitchRuleIndexes.take (ds.length - 1) →
        s1.switchRules j = s.switchRules j) ∧
      submittedBytes s1 = submittedBytes s ++
        wireBytes ((h.CreateSwitchRuleIndex switchNum eventType ::
          s.freeSwitchRuleIndexes.take (ds.length - 1)).map
            (fun i => switchRuleBurst h (s1.switchRules i))).flatten := by
  have hsw2 : ¬ switchNum > h.kPRSwitchPhysicalLast := by omega
  have hc : ¬ (s.freeSwitchRuleIndexes.length < ds.length - 1) := by omega
  cases ds with
  | nil =>
    have hlen : (switchRuleBurst h
        { s.switchRules (h.CreateSwitchRuleIndex switchNum eventType) with
          notifyHost := rule.notifyHost, changeOutput := false, linkActive := false }).length ≤
        h.maxWriteWords := by simpa [switchRuleBurst] using hmax
    obtain ⟨a1, _⟩ := PrepareWriteData_accepted h
      { s with
        switchRules := Function.update s.switchRules
          (h.CreateSwitchRuleIndex switchNum eventType)
          { s.switchRules (h.CreateSwitchRuleIndex switchNum eventType) with
            notifyHost := rule.notifyHost, changeOutput := false, linkActive := false } }
      _ hlen hrep
    obtain ⟨_, b2⟩ := PrepareWriteData_submitted_of h s
      { s with
        switchRules := Function.update s.switchRules
          (h.CreateSwitchRuleIndex switchNum eventType)
          { s.switchRules (h.CreateSwitchRuleIndex switchNum eventType) with
            notifyHost := rule.notifyHost, changeOutput := false, linkActive := false } }
      _ hlen hrep rfl rfl rfl
    unfold SwitchUpdateRule
    simp only [hsw2, if_false, List.length_nil, gt_iff_lt, Nat.lt_irrefl, decide_False,
      Bool.false_and, Bool.false_eq_true, GetSwitchRuleByIndex,
      freeOldLinks_inactive _ _ _ _ hbase]
    refine ⟨_, congrArg some (Prod.ext a1 rfl), ?_, ?_, ?_, ?_, ?_⟩
    · simp
    · simp
    · simp [LinkedChain]
    · intro j hj _
      simp [Function.update_apply, hj]
    · rw [b2]
      simp
  | cons d ds =>
    have hpos : (d :: ds).length > 0 := by simp
    obtain ⟨s1, e1, f1, _, o1, n1, c1, b1⟩ :=
      install_chain h (h.CreateSwitchRuleIndex switchNum eventType) hmax ds d
        (h.CreateSwitchRuleIndex switchNum eventType)
        { s with
          switchRules := Function.update s.switchRules
            (h.CreateSwitchRuleIndex switchNum eventType)
            { s.switchRules (h.CreateSwitchRuleIndex switchNum eventType) with
              notifyHost := rule.notifyHost, changeOutput := false, linkActive := false } }
        (by simpa using hpool) hrep hnot hnodup
    unfold SwitchUpdateRule
    simp only [hsw2, if_false, hc, decide_False, Bool.and_false, Bool.false_eq_true,
      GetSwitchRuleByIndex, freeOldLinks_inactive _ _ _ _ hbase, hpos, if_true]
    refine ⟨s1, e1, ?_, ?_, ?_, ?_, ?_⟩
    · rw [n1]; simp
    · simpa using f1
    · simpa using c1
    · intro j hj1 hj2
      rw [o1 j hj1 (by simpa using hj2)]
      simp [Function.update_apply, hj1]
    · simpa [submittedBytes] using b1

/-- C21: let the rule indices of the physical switches lie inside the rule table and
let the transport take whole writes, with room for a burst. After `Reset`
(with or without the update flag), for a physical switch whose base slot
`CreateSwitchRuleIndex(switch, eventType)` parses to a physical switch number,
and `n` reactions with `n - 1` at most the pool size, `SwitchUpdateRule`
returns `kPRSuccess` and: the `n - 1` first indices of the pool are taken, in
order; the chain from the base slot goes through exactly these indices and
carries the reactions in order, every slot with `changeOutput` set, all but the
last with an active link to the next index, the last with an inactive link
(for `n = 0` the base slot has `changeOutput` clear and an inactive link and
nothing is taken); the base slot has `notifyHost` of the rule; no other slot
changes; and the words submitted are one burst of four words for each slot of
the chain, in order (`n` bursts, one for `n = 0`). -/
theorem SwitchUpdateRule_after_Reset (h : Header) (s : PRDevice) (updateDevice : Bool)
    (switchNum : Nat) (eventType : PREventType) (rule : PRSwitchRule)
    (ds : List PRDriverState)
    (hidx : ∀ sw et, sw ≤ h.kPRSwitchPhysicalLast →
      h.CreateSwitchRuleIndex sw et < h.maxSwitchRules)
    (hsw : switchNum ≤ h.kPRSwitchPhysicalLast)
    (hphys : (h.ParseSwitchRuleIndex (h.CreateSwitchRuleIndex switchNum eventType)).1 <
      h.kPRSwitchVirtualFirst)
    (hpool : ds.length - 1 ≤ (virtualRuleIndexes h).length)
    (hmax : 4 ≤ h.maxWriteWords) (hrep : s.hw.txReplies = []) :
    ∃ s0 s1, Reset h s updateDevice = some (PRResult.kPRSuccess, s0) ∧
      s0.freeSwitchRuleIndexes = virtualRuleIndexes h ∧
      SwitchUpdateRule h s0 switchNum eventType rule ds = some (PRResult.kPRSuccess, s1) ∧
      (s1.switchRules (h.CreateSwitchRuleIndex switchNum eventType)).notifyHost =
        rule.notifyHost ∧
      s1.freeSwitchRuleIndexes = s0.freeSwitchRuleIndexes.drop (ds.length - 1) ∧
      LinkedChain s1.switchRules (h.CreateSwitchRuleIndex switchNum eventType) ds
        (s0.freeSwitchRuleIndexes.take (ds.length - 1)) ∧
      (∀ j, j ≠ h.CreateSwitchRuleIndex switchNum eventType →
        j ∉ s0.freeSwitchRuleIndexes.take (ds.length - 1) →
        s1.switchRules j = s0.switchRules j) ∧
      (h.CreateSwitchRuleIndex switchNum eventType ::
        s0.freeSwitchRuleIndexes.take (ds.length - 1)).length = max ds.length 1 ∧
      (∀ i, (switchRuleBurst h (s1.switchRules i)).length = 4) ∧
      submittedBytes s1 = submittedBytes s0 ++
        wireBytes ((h.CreateSwitchRuleIndex switchNum eventType ::
          s0.freeSwitchRuleIndexes.take (ds.length - 1)).map
            (fun i => switchRuleBurst h (s1.switchRules i))).flatten := by
  obtain ⟨s0, e0, f0, l0, _, k⟩ := Reset_post h s updateDevice hidx
  have hrep0 : s0.hw.txReplies = [] := k.2.2.2.2.2 hrep
  have hnot : h.CreateSwitchRuleIndex switchNum eventType ∉ s0.freeSwitchRuleIndexes := by
    rw [f0, virtualRuleIndexes_mem]
    omega
  have hnodup : s0.freeSwitchRuleIndexes.Nodup := by
    rw [f0]
    exact (List.nodup_range _).filter _
  obtain ⟨s1, e1, n1, f1, c1, o1, b1⟩ := SwitchUpdateRule_chain h s0 switchNum eventType rule ds
    hsw (l0 _ (hidx switchNum eventType hsw)).1 hnot hnodup (by rw [f0]; exact hpool) hmax hrep0
  refine ⟨s0, s1, e0, f0, e1, n1, f1, c1, o1, ?_, fun i => rfl, b1⟩
  rw [List.length_cons, List.length_take, f0]
  omega

set_option maxRecDepth 1000000 in
theorem SwitchUpdateRule_after_Reset_witness :
    (∀ sw et, sw ≤ sampleHeader.kPRSwitchPhysicalLast →
      sampleHeader.CreateSwitchRuleIndex sw et < sampleHeader.maxSwitchRules) ∧
    5 ≤ sampleHeader.kPRSwitchPhysicalLast ∧
    (sampleHeader.ParseSwitchRuleIndex (sampleHeader.CreateSwitchRuleIndex 5
      PREventType.kPREventTypeSwitchClosedDebounced)).1 < sampleHeader.kPRSwitchVirtualFirst ∧
    [constantOnDriver40, reversedDriver40, zeroDriverState].length - 1 ≤
      (virtualRuleIndexes sampleHeader).length ∧
    4 ≤ sampleHeader.maxWriteWords ∧
    (blankDevice PRMachineType.kPRMachineWPC PRMachineType.kPRMachineWPC).hw.txReplies = [] ∧
    (virtualRuleIndexes sampleHeader).take 2 = [224, 225] ∧
    ∃ s0 s1, Reset sampleHeader
          (blankDevice PRMachineType.kPRMachineWPC PRMachineType.kPRMachineWPC) true =
        some (PRResult.kPRSuccess, s0) ∧
      s0.freeSwitchRuleIndexes = virtualRuleIndexes sampleHeader ∧
      SwitchUpdateRule sampleHeader s0 5 PREventType.kPREventTypeSwitchClosedDebounced
          { notifyHost := true } [constantOnDriver40, reversedDriver40, zeroDriverState] =
        some (PRResult.kPRSuccess, s1) ∧
      (s1.switchRules (sampleHeader.CreateSwitchRuleIndex 5
        PREventType.kPREventTypeSwitchClosedDebounced)).notifyHost =
          ({ notifyHost := true } : PRSwitchRule).notifyHost ∧
      s1.freeSwitchRuleIndexes =
        s0.freeSwitchRuleIndexes.drop
          ([constantOnDriver40, reversedDriver40, zeroDriverState].length - 1) ∧
      LinkedChain s1.switchRules
        (sampleHeader.CreateSwitchRuleIndex 5 PREventType.kPREventTypeSwitchClosedDebounced)
        [constantOnDriver40, reversedDriver40, zeroDriverState]
        (s0.freeSwitchRuleIndexes.take
          ([constantOnDriver40, reversedDriver40, zeroDriverState].length - 1)) ∧
      (∀ j, j ≠ sampleHeader.CreateSwitchRuleIndex 5
          PREventType.kPREventTypeSwitchClosedDebounced →
        j ∉ s0.freeSwitchRuleIndexes.take
          ([constantOnDriver40, reversedDriver40, zeroDriverState].length - 1) →
        s1.switchRules j = s0.switchRules j) ∧
      (sampleHeader.CreateSwitchRuleIndex 5 PREventType.kPREventTypeSwitchClosedDebounced ::
        s0.freeSwitchRuleIndexes.take
          ([constantOnDriver40, reversedDriver40, zeroDriverState].length - 1)).length =
        max [constantOnDriver40, reversedDriver40, zeroDriverState].length 1 ∧
      (∀ i, (switchRuleBurst sampleHeader (s1.switchRules i)).length = 4) ∧
      submittedBytes s1 = submittedBytes s0 ++
        wireBytes ((sampleHeader.CreateSwitchRuleIndex 5
            PREventType.kPREventTypeSwitchClosedDebounced ::
          s0.freeSwitchRuleIndexes.take
            ([constantOnDriver40, reversedDriver40, zeroDriverState].length - 1)).map
            (fun i => switchRuleBurst sampleHeader (s1.switchRules i))).flatten :=
  ⟨fun sw et _ => sampleCreateSwitchRuleIndex_lt sw et, by decide, by decide, by decide,
    by decide, by decide, by decide,
    SwitchUpdateRule_after_Reset sampleHeader
      (blankDevice PRMachineType.kPRMachineWPC PRMachineType.kPRMachineWPC) true 5
      PREventType.kPREventTypeSwitchClosedDebounced { notifyHost := true }
      [constantOnDriver40, reversedDriver40, zeroDriverState]
      (fun sw et _ => sampleCreateSwitchRuleIndex_lt sw et) (by decide) (by decide)
      (by decide) (by decide) (by decide)⟩

/-! ## PRDevice::SwitchGetStates -/

theorem forLoopM_succ {σ : Type} (lo hi : Nat) (body : Nat → σ → Option σ) (init : σ)
    (hle : lo ≤ hi) :
    forLoopM lo (hi + 1) body init = (forLoopM lo hi body init).bind (body hi) := by
  have e : hi + 1 - lo = (hi - lo) + 1 := by omega
  have e2 : lo + (hi - lo) = hi := by omega
  simp only [forLoopM, e, List.range'_1_concat, List.foldlM_append, e2]
  cases List.foldlM (fun s i => body i s) init (List.range' lo (hi - lo)) with
  | none => rfl
  | some a => simp [List.foldlM]

theorem eventType_bits (stateWord debounceWord j : Nat) :
    SwitchGetStates.eventType stateWord debounceWord j =
      switchStateOf (wordBit stateWord j) (wordBit debounceWord j) := by
  have hb : ∀ w, ((w >>> j) &&& 1 ≠ 0) ↔ w / 2 ^ j % 2 = 1 := by
    intro w
    rw [Nat.shiftRight_eq_div_pow, Nat.and_one_is_mod]
    omega
  unfold SwitchGetStates.eventType wordBit
  by_cases h1 : stateWord / 2 ^ j % 2 = 1 <;> by_cases h2 : debounceWord / 2 ^ j % 2 = 1 <;>
    simp only [hb, h1, h2, if_true, if_false, decide_True, decide_False, switchStateOf]

/-- The first `m` passes of the loop over the bits of block `i`. -/
theorem bits_upto (numSwitches i stateWord debounceWord : Nat) (arr : Nat → PREventType) :
    ∀ (m k : Nat),
      forLoop 0 m
        (fun j (switchStates : Nat → PREventType) =>
          if (i * 32) + j < numSwitches then
            Function.update switchStates ((i * 32) + j)
              (SwitchGetStates.eventType stateWord debounceWord j)
          else switchStates)
        arr k =
      if i * 32 ≤ k ∧ k < i * 32 + m ∧ k < numSwitches then
        SwitchGetStates.eventType stateWord debounceWord (k - i * 32)
      else arr k := by
  intro m
  induction m with
  | zero =>
    intro k
    rw [forLoop_self]
    have : ¬ (i * 32 ≤ k ∧ k < i * 32 + 0 ∧ k < numSwitches) := by omega
    rw [if_neg this]
  | succ m ih =>
    intro k
    rw [forLoop_succ _ _ _ _ (Nat.zero_le _)]
    by_cases hg : i * 32 + m < numSwitches
    · simp only [hg, if_true]
      by_cases hk : k = i * 32 + m
      · subst hk
        rw [Function.update_same]
        have : i * 32 ≤ i * 32 + m ∧ i * 32 + m < i * 32 + (m + 1) ∧
            i * 32 + m < numSwitches := by omega
        rw [if_pos this]
        congr 1
        omega
      · rw [Function.update_noteq hk, ih k]
        by_cases hc : i * 32 ≤ k ∧ k < i * 32 + m ∧ k < numSwitches
        · rw [if_pos hc, if_pos (by omega)]
        · rw [if_neg hc, if_neg (by omega)]
    · simp only [hg, if_false]
      rw [ih k]
      by_cases hc : i * 32 ≤ k ∧ k < i * 32 + m ∧ k < numSwitches
      · rw [if_pos hc, if_pos (by omega)]
      · rw [if_neg hc, if_neg (by omega)]

theorem bits_spec (numSwitches i stateWord debounceWord : Nat) (arr : Nat → PREventType)
    (k : Nat) :
    SwitchGetStates.bits numSwitches i stateWord debounceWord arr k =
      if i * 32 ≤ k ∧ k < i * 32 + 32 ∧ k < numSwitches then
        SwitchGetStates.eventType stateWord debounceWord (k - i * 32)
      else arr k :=
  bits_upto numSwitches i stateWord debounceWord arr 32 k

theorem block_some (numSwitches i : Nat) (arr : Nat → PREventType) (queue : List Nat)
    (hlen : 4 ≤ queue.length) :
    SwitchGetStates.block numSwitches i (arr, queue) =
      some (SwitchGetStates.bits numSwitches i (queue.getD 1 0) (queue.getD 3 0) arr,
        queue.drop 4) := by
  match queue, hlen with
  | _ :: _ :: _ :: _ :: _, _ => rfl

/-- The loop over the blocks: with four words in the queue for each block, the
passes take them in order and store the event types of the whole blocks. -/
theorem blocks_spec (numSwitches : Nat) (arr : Nat → PREventType) (queue : List Nat) :
    ∀ m, 4 * m ≤ queue.length →
      ∃ states, forLoopM 0 m (SwitchGetStates.block numSwitches) (arr, queue) =
          some (states, queue.drop (4 * m)) ∧
        ∀ k, states k =
          if k < 32 * m ∧ k < numSwitches then
            SwitchGetStates.eventType (queue.getD (4 * (k / 32) + 1) 0)
              (queue.getD (4 * (k / 32) + 3) 0) (k % 32)
          else arr k := by
  intro m
  induction m with
  | zero =>
    intro _
    refine ⟨arr, by simp [forLoopM], ?_⟩
    intro k
    rw [if_neg (by omega)]
  | succ m ih =>
    intro hlen
    obtain ⟨states, e, hs⟩ := ih (by omega)
    rw [forLoopM_succ _ _ _ _ (Nat.zero_le _), e, Option.some_bind,
      block_some _ _ _ _ (by rw [List.length_drop]; omega)]
    refine ⟨SwitchGetStates.bits numSwitches m ((List.drop (4 * m) queue).getD 1 0)
      ((List.drop (4 * m) queue).getD 3 0) states, ?_, ?_⟩
    · rw [List.drop_drop]
      rfl
    · intro k
      rw [bits_spec, hs k]
      have g1 : (List.drop (4 * m) queue).getD 1 0 = queue.getD (4 * m + 1) 0 := by
        simp [List.getD_eq_getElem?_getD, List.getElem?_drop]
      have g3 : (List.drop (4 * m) queue).getD 3 0 = queue.getD (4 * m + 3) 0 := by
        simp [List.getD_eq_getElem?_getD, List.getElem?_drop]
      rw [g1, g3]
      by_cases hc : m * 32 ≤ k ∧ k < m * 32 + 32 ∧ k < numSwitches
      · have hd : k / 32 = m := by omega
        have hr : k % 32 = k - m * 32 := by omega
        rw [if_pos hc, if_pos (by omega), hd, hr]
      · rw [if_neg hc]
        by_cases hc2 : k < 32 * m ∧ k < numSwitches
        · rw [if_pos hc2, if_pos (by omega)]
        · rw [if_neg hc2, if_neg (by omega)]

theorem SwitchGetStates_poll_total (h : Header) (numWords : Nat) :
    ∀ (budget : Nat) (s : PRDevice),
      ∃ p, SwitchGetStates.poll h numWords budget s = some p ∧ p.1 ≤ budget := by
  intro budget
  induction budget with
  | zero =>
    intro s
    rw [SwitchGetStates.poll]
    split <;> exact ⟨(0, s), rfl, Nat.le_refl _⟩
  | succ budget ih =>
    intro s
    rw [SwitchGetStates.poll]
    split
    · obtain ⟨r, hr⟩ := Option.isSome_iff_exists.mp (SortReturningData_isSome h s)
      obtain ⟨p, hp, hle⟩ := ih r.2
      exact ⟨(p.1 + 1, p.2), by simp [hr, hp], by simpa using hle⟩
    · exact ⟨(0, s), rfl, Nat.zero_le _⟩

set_option maxRecDepth 1000000 in
/-- C31: for `numSwitches / 32 ≤ 255`, `SwitchGetStates` returns after at most ten
passes of its polling loop, with success if and only if the solicited queue then
holds exactly `4 * (numSwitches / 32)` words, and with failure and an untouched
array otherwise. On success the entries of the whole blocks, `k` below
`32 * (numSwitches / 32)`, are the event types of bit `k % 32` of the state word
and of the debounce word of block `k / 32` (the second and the fourth of the
four words of that block in the queue): state 1 is open, state 0 is closed,
debounce 1 is debounced, debounce 0 is not. Every other entry is left as it was,
also the entries from `32 * (numSwitches / 32)` up to `numSwitches` when
`numSwitches` is not a multiple of 32, and the queue is left empty. With 40
switches and the replies for one block, entries 32 to 39 are still what the
caller put there while the call returns success. In the passes the loops make,
the test `(i * 32) + j < numSwitches` of line 643 is always true. -/
theorem SwitchGetStates_whole_blocks (h : Header) (s : PRDevice)
    (switchStates : Nat → PREventType) (numSwitches : Nat) (hn : numSwitches / 32 ≤ 255) :
    (∃ passes s2 r,
      SwitchGetStates.poll h (4 * (numSwitches / 32)) 10
        (SwitchGetStates.request h (numSwitches / 32) s) = some (passes, s2) ∧
      SwitchGetStates h s switchStates numSwitches = some r ∧
      passes ≤ 10 ∧ r.passes = passes ∧
      (r.result = PRResult.kPRSuccess ↔
        s2.requestedDataQueue.length = 4 * (numSwitches / 32)) ∧
      (r.result ≠ PRResult.kPRSuccess →
        r.result = PRResult.kPRFailure ∧ r.switchStates = switchStates ∧ r.device = s2) ∧
      (r.result = PRResult.kPRSuccess →
        (∀ k, k < 32 * (numSwitches / 32) →
          r.switchStates k =
            switchStateOf (wordBit (s2.requestedDataQueue.getD (4 * (k / 32) + 1) 0) (k % 32))
              (wordBit (s2.requestedDataQueue.getD (4 * (k / 32) + 3) 0) (k % 32))) ∧
        (∀ k, 32 * (numSwitches / 32) ≤ k → r.switchStates k = switchStates k) ∧
        r.device = { s2 with requestedDataQueue := [] })) ∧
    (∀ i j, i < numSwitches / 32 → j < 32 → (i * 32) + j < numSwitches) ∧
    (SwitchGetStates sampleHeader oneBlockDevice
        (fun _ => PREventType.kPREventTypeInvalid) 40).map (outcomeView 40) =
      some (PRResult.kPRSuccess,
        [PREventType.kPREventTypeSwitchOpenDebounced,
          PREventType.kPREventTypeSwitchClosedDebounced,
          PREventType.kPREventTypeSwitchOpenNondebounced] ++
          List.replicate 29 PREventType.kPREventTypeSwitchClosedNondebounced ++
          List.replicate 8 PREventType.kPREventTypeInvalid,
        1, []) := by
  refine ⟨?_, fun i j hi hj => by omega, by decide⟩
  obtain ⟨p, hp, hle⟩ := SwitchGetStates_poll_total h (4 * (numSwitches / 32)) 10
    (SwitchGetStates.request h (numSwitches / 32) s)
  obtain ⟨passes, s2⟩ := p
  have hw : (4 * (numSwitches / 32)) % 2 ^ 16 = 4 * (numSwitches / 32) :=
    Nat.mod_eq_of_lt (by omega)
  have hgt : ¬ numSwitches / 32 > 255 := by omega
  by_cases hq : s2.requestedDataQueue.length = 4 * (numSwitches / 32)
  · obtain ⟨states, e, hs⟩ := blocks_spec numSwitches switchStates s2.requestedDataQueue
      (numSwitches / 32) (Nat.le_of_eq hq.symm)
    have hd : List.drop (4 * (numSwitches / 32)) s2.requestedDataQueue = [] :=
      List.drop_eq_nil_of_le (Nat.le_of_eq hq)
    rw [hd] at e
    refine ⟨passes, s2,
      { result := PRResult.kPRSuccess, switchStates := states, passes := passes,
        device := { s2 with requestedDataQueue := [] } }, hp, ?_, hle, rfl, ?_, ?_, ?_⟩
    · unfold SwitchGetStates
      simp only [hgt, if_false, hw, hp, hq, if_true, e]
    · exact ⟨fun _ => hq, fun _ => rfl⟩
    · intro c
      exact absurd rfl c
    · intro _
      refine ⟨?_, ?_, rfl⟩
      · intro k hk
        show states k = _
        rw [hs k, if_pos (by omega), eventType_bits]
      · intro k hk
        show states k = _
        rw [hs k, if_neg (by omega)]
  · refine ⟨passes, s2,
      { result := PRResult.kPRFailure, switchStates := switchStates, passes := passes,
        device := s2 }, hp, ?_, hle, rfl, ?_, ?_, ?_⟩
    · unfold SwitchGetStates
      simp only [hgt, if_false, hw, hp, hq]
    · exact ⟨fun c => (by cases c), fun c => absurd c hq⟩
    · intro _
      exact ⟨rfl, rfl, rfl⟩
    · intro c
      cases c

theorem SwitchGetStates_whole_blocks_witness :
    40 / 32 ≤ 255 ∧
    ((∃ passes s2 r,
      SwitchGetStates.poll sampleHeader (4 * (40 / 32)) 10
        (SwitchGetStates.request sampleHeader (40 / 32) oneBlockDevice) = some (passes, s2) ∧
      SwitchGetStates sampleHeader oneBlockDevice (fun _ => PREventType.kPREventTypeInvalid) 40 =
        some r ∧
      passes ≤ 10 ∧ r.passes = passes ∧
      (r.result = PRResult.kPRSuccess ↔
        s2.requestedDataQueue.length = 4 * (40 / 32)) ∧
      (r.result ≠ PRResult.kPRSuccess →
        r.result = PRResult.kPRFailure ∧
        r.switchStates = (fun _ => PREventType.kPREventTypeInvalid) ∧ r.device = s2) ∧
      (r.result = PRResult.kPRSuccess →
        (∀ k, k < 32 * (40 / 32) →
          r.switchStates k =
            switchStateOf (wordBit (s2.requestedDataQueue.getD (4 * (k / 32) + 1) 0) (k % 32))
              (wordBit (s2.requestedDataQueue.getD (4 * (k / 32) + 3) 0) (k % 32))) ∧
        (∀ k, 32 * (40 / 32) ≤ k →
          r.switchStates k = (fun _ => PREventType.kPREventTypeInvalid) k) ∧
        r.device = { s2 with requestedDataQueue := [] })) ∧
    (∀ i j, i < 40 / 32 → j < 32 → (i * 32) + j < 40) ∧
    (SwitchGetStates sampleHeader oneBlockDevice
        (fun _ => PREventType.kPREventTypeInvalid) 40).map (outcomeView 40) =
      some (PRResult.kPRSuccess,
        [PREventType.kPREventTypeSwitchOpenDebounced,
          PREventType.kPREventTypeSwitchClosedDebounced,
          PREventType.kPREventTypeSwitchOpenNondebounced] ++
          List.replicate 29 PREventType.kPREventTypeSwitchClosedNondebounced ++
          List.replicate 8 PREventType.kPREventTypeInvalid,
        1, [])) :=
  ⟨by decide,
    SwitchGetStates_whole_blocks sampleHeader oneBlockDevice
      (fun _ => PREventType.kPREventTypeInvalid) 40 (by decide)⟩

/-! ## The invariant of the circular buffer -/

theorem BufferInvariant_congr (h : Header) (s t : PRDevice)
    (e1 : t.collected_bytes_rd_addr = s.collected_bytes_rd_addr)
    (e2 : t.collected_bytes_wr_addr = s.collected_bytes_wr_addr)
    (e3 : t.num_collected_bytes = s.num_collected_bytes) (hinv : BufferInvariant h s) :
    BufferInvariant h t := by
  unfold BufferInvariant at hinv ⊢
  rw [e1, e2, e3]
  exact hinv

/-- The cells the loop of `CollectReadData` does not reach are unchanged. -/
theorem collect_fold_other (h : Header) (bs : List Nat) (fifo : Nat → Nat) (wr : Nat)
    (hpos : 0 < h.FTDI_BUFFER_SIZE) (p : Nat)
    (hp : ∀ i, i < bs.length → p ≠ (wr + i) % h.FTDI_BUFFER_SIZE) :
    (bs.foldl (fun (a : (Nat → Nat) × Nat) byte =>
        (Function.update a.1 a.2 (byte % 256), nextAddr h a.2))
      (fifo, wr % h.FTDI_BUFFER_SIZE)).1 p = fifo p := by
  induction bs using List.reverseRecOn with
  | nil => simp
  | append_singleton bs b ih =>
    have ih1 := ih (fun i hi => hp i (by simp; omega))
    have hwr : (bs.foldl (fun (a : (Nat → Nat) × Nat) byte =>
        (Function.update a.1 a.2 (byte % 256), nextAddr h a.2))
      (fifo, wr % h.FTDI_BUFFER_SIZE)).2 = (wr + bs.length) % h.FTDI_BUFFER_SIZE := by
      clear ih ih1 hp
      induction bs using List.reverseRecOn with
      | nil => simp
      | append_singleton bs c ih2 =>
        rw [List.foldl_append]
        simp only [List.foldl_cons, List.foldl_nil, ih2, List.length_append,
          List.length_singleton]
        rw [nextAddr_eq h _ (Nat.mod_lt _ hpos), Nat.mod_add_mod, Nat.add_assoc]
    rw [List.foldl_append]
    simp only [List.foldl_cons, List.foldl_nil, hwr]
    rw [Function.update_noteq (hp bs.length (by simp)), ih1]

/-- `CollectReadData` keeps the invariant and puts the bytes it reads behind the
bytes that are in the buffer, in the order of their arrival. -/
theorem CollectReadData_invariant (h : Header) (s : PRDevice)
    (hinv : BufferInvariant h s) :
    BufferInvariant h (CollectReadData h s).2 ∧
    bufferBytes h (CollectReadData h s).2 =
      bufferBytes h s ++
        (PRHardwareRead s.hw (h.FTDI_BUFFER_SIZE - s.num_collected_bytes)).1.map
          (fun b => b % 256) := by
  obtain ⟨h1, h2, h3, h4⟩ := hinv
  have hpos : 0 < h.FTDI_BUFFER_SIZE := by omega
  have hlen : (PRHardwareRead s.hw (h.FTDI_BUFFER_SIZE - s.num_collected_bytes)).1.length ≤
      h.FTDI_BUFFER_SIZE - s.num_collected_bytes := by
    unfold PRHardwareRead
    split
    · simp
    · simp only [List.length_take]
      omega
  generalize hbs : (PRHardwareRead s.hw (h.FTDI_BUFFER_SIZE - s.num_collected_bytes)).1 = bs
    at hlen
  obtain ⟨c1, c2⟩ := collect_fold h bs s.collected_bytes_fifo
    (s.collected_bytes_rd_addr + s.num_collected_bytes) (by omega) hpos
  have c3 := fun p => collect_fold_other h bs s.collected_bytes_fifo
    (s.collected_bytes_rd_addr + s.num_collected_bytes) hpos p
  rw [← h4] at c1 c2 c3
  refine ⟨?_, ?_⟩
  · unfold BufferInvariant
    simp only [CollectReadData, hbs]
    refine ⟨by omega, h2, ?_, ?_⟩
    · rw [c1]; exact Nat.mod_lt _ hpos
    · rw [c1, Nat.add_assoc]
  · apply List.ext_getElem
    · simp [bufferBytes, CollectReadData, hbs]
    · intro k hk1 hk2
      simp only [bufferBytes, List.length_map, List.length_range, CollectReadData,
        hbs] at hk1
      simp only [bufferBytes, List.getElem_map, List.getElem_range]
      by_cases hk : k < s.num_collected_bytes
      · rw [List.getElem_append_left (by simpa using hk)]
        simp only [List.getElem_map, List.getElem_range, fifoByte, CollectReadData, hbs]
        rw [c3]
        intro i hi
        have hne := mod_add_ne h.FTDI_BUFFER_SIZE s.collected_bytes_rd_addr k
          (s.num_collected_bytes + i) (by omega) (by omega)
        rwa [← Nat.add_assoc] at hne
      · rw [List.getElem_append_right (by simpa using hk)]
        simp only [List.length_map, List.length_range, List.getElem_map, fifoByte,
          CollectReadData, hbs]
        have e : s.collected_bytes_rd_addr + k =
            s.collected_bytes_rd_addr + s.num_collected_bytes +
              (k - s.num_collected_bytes) := by omega
        rw [e, c2 _ (by omega), Nat.mod_mod, List.getD_eq_getElem _ 0 (by omega)]

/-- `ReadData` keeps the invariant; when it reads, the words it stores are made of
the oldest bytes of the buffer, in order, and the other bytes stay, in order;
otherwise it changes nothing. -/
theorem ReadData_invariant (h : Header) (s : PRDevice) (n : Nat)
    (hinv : BufferInvariant h s) :
    BufferInvariant h (ReadData h s n).2.2 ∧
    (4 * n ≤ s.num_collected_bytes →
      (ReadData h s n).2.1 = leadingWords (bufferBytes h s) n ∧
      bufferBytes h (ReadData h s n).2.2 = (bufferBytes h s).drop (4 * n)) ∧
    (¬ 4 * n ≤ s.num_collected_bytes → ReadData h s n = (0, [], s)) := by
  obtain ⟨h1, h2, h3, h4⟩ := hinv
  have hpos : 0 < h.FTDI_BUFFER_SIZE := by omega
  by_cases hn : 4 * n ≤ s.num_collected_bytes
  · have e := ReadData_enough h s n h2 hn
    refine ⟨?_, fun _ => ⟨?_, ?_⟩, fun c => absurd hn c⟩
    · rw [e]
      unfold BufferInvariant
      simp only []
      refine ⟨by omega, Nat.mod_lt _ hpos, h3, ?_⟩
      rw [h4, Nat.mod_add_mod]
      congr 1
      omega
    · rw [e]
      simp only [leadingWords]
      apply List.map_congr_left
      intro j hj
      rw [List.mem_range] at hj
      have hb : ∀ i, i < 4 → (bufferBytes h s).getD (4 * j + i) 0 = fifoByte h s (4 * j + i) := by
        intro i hi
        rw [List.getD_eq_getElem _ 0 (by simp [bufferBytes]; omega)]
        simp [bufferBytes]
      have hb0 := hb 0 (by omega)
      rw [Nat.add_zero] at hb0
      rw [hb0, hb 1 (by omega), hb 2 (by omega), hb 3 (by omega)]
      rfl
    · rw [e]
      apply List.ext_getElem
      · simp [bufferBytes]
      · intro k hk1 hk2
        simp only [bufferBytes, List.getElem_map, List.getElem_range, List.getElem_drop]
        exact fifoByte_shift h s _ n k rfl rfl
  · have e : ReadData h s n = (0, [], s) := by
      unfold ReadData
      have : ¬ n * 4 ≤ s.num_collected_bytes := by omega
      simp [this]
    refine ⟨by rw [e]; exact ⟨h1, h2, h3, h4⟩, fun c => absurd c hn, fun _ => e⟩

theorem step_invariant (h : Header) (s : PRDevice) (hinv : BufferInvariant h s) :
    BufferInvariant h (SortReturningData.step h s) := by
  have r1 := (ReadData_invariant h s 1 hinv).1
  unfold SortReturningData.step
  simp only []
  split
  · refine BufferInvariant_congr h _ _ rfl rfl rfl (ReadData_invariant h _ _ ?_).1
    exact BufferInvariant_congr h _ _ rfl rfl rfl r1
  · split
    · exact BufferInvariant_congr h _ _ rfl rfl rfl (ReadData_invariant h _ 1 r1).1
    · exact r1

theorem loop_invariant (h : Header) :
    ∀ (fuel : Nat) (s s1 : PRDevice), BufferInvariant h s →
      SortReturningData.loop h fuel s = some s1 → BufferInvariant h s1 := by
  intro fuel
  induction fuel with
  | zero =>
    intro s s1 hinv e
    rw [SortReturningData.loop] at e
    split at e
    · simp at e
    · cases e; exact hinv
  | succ fuel ih =>
    intro s s1 hinv e
    rw [SortReturningData.loop] at e
    split at e
    · exact ih _ _ (step_invariant h s hinv) e
    · cases e; exact hinv

theorem SortReturningData_invariant (h : Header) (s : PRDevice)
    (hinv : BufferInvariant h s) :
    ∃ r, SortReturningData h s = some r ∧ BufferInvariant h r.2 := by
  obtain ⟨r, hr⟩ := Option.isSome_iff_exists.mp (SortReturningData_isSome h s)
  refine ⟨r, hr, ?_⟩
  unfold SortReturningData at hr
  cases hl : SortReturningData.loop h (CollectReadData h s).2.num_collected_bytes
      (CollectReadData h s).2 with
  | none => simp [hl] at hr
  | some s1 =>
    simp only [hl, Option.map_some', Option.some.injEq] at hr
    rw [← hr]
    exact loop_invariant h _ _ _ (CollectReadData_invariant h s hinv).1 hl

/-- C32: when `FTDI_BUFFER_SIZE` is positive, the invariant of the circular buffer
(the byte count is at most `FTDI_BUFFER_SIZE`, both cursors are below it, the
write cursor is the read cursor advanced by the byte count modulo
`FTDI_BUFFER_SIZE`) holds after `FlushReadBuffer` and after `Reset`, and it is
kept by `CollectReadData`, whatever the transport delivers, by `ReadData` and by
`SortReturningData`. Under it, `CollectReadData` leaves the buffered bytes as
they are and puts the bytes it reads behind them in the order of arrival, and
`ReadData` takes the oldest bytes, in order, and leaves the others, in order. -/
theorem BufferInvariant_kept (h : Header) (hpos : 0 < h.FTDI_BUFFER_SIZE) :
    (∀ s, BufferInvariant h (FlushReadBuffer h s)) ∧
    (∀ s updateDevice,
      (∀ sw et, sw ≤ h.kPRSwitchPhysicalLast →
        h.CreateSwitchRuleIndex sw et < h.maxSwitchRules) →
      ∃ s0, Reset h s updateDevice = some (PRResult.kPRSuccess, s0) ∧ BufferInvariant h s0) ∧
    (∀ s, ∃ s0, Reset h s false = some (PRResult.kPRSuccess, s0) ∧ BufferInvariant h s0) ∧
    (∀ s, BufferInvariant h s →
      BufferInvariant h (CollectReadData h s).2 ∧
      bufferBytes h (CollectReadData h s).2 =
        bufferBytes h s ++
          (PRHardwareRead s.hw (h.FTDI_BUFFER_SIZE - s.num_collected_bytes)).1.map
            (fun b => b % 256)) ∧
    (∀ s n, BufferInvariant h s →
      BufferInvariant h (ReadData h s n).2.2 ∧
      (4 * n ≤ s.num_collected_bytes →
        (ReadData h s n).2.1 = leadingWords (bufferBytes h s) n ∧
        bufferBytes h (ReadData h s n).2.2 = (bufferBytes h s).drop (4 * n)) ∧
      (¬ 4 * n ≤ s.num_collected_bytes → ReadData h s n = (0, [], s))) ∧
    (∀ s, BufferInvariant h s →
      ∃ r, SortReturningData h s = some r ∧ BufferInvariant h r.2) := by
  have hzero : ∀ t : PRDevice, t.collected_bytes_rd_addr = 0 → t.collected_bytes_wr_addr = 0 →
      t.num_collected_bytes = 0 → BufferInvariant h t := by
    intro t e1 e2 e3
    unfold BufferInvariant
    rw [e1, e2, e3]
    exact ⟨Nat.zero_le _, hpos, hpos, by simp⟩
  refine ⟨fun s => hzero _ rfl rfl rfl, ?_, ?_, CollectReadData_invariant h,
    ReadData_invariant h, SortReturningData_invariant h⟩
  · intro s u hidx
    obtain ⟨s0, e0, _, _, _, k1, k2, k3, _⟩ := Reset_post h s u hidx
    exact ⟨s0, e0, hzero s0 k1 k2 k3⟩
  · intro s
    obtain ⟨s2, e2, k2⟩ := loadDefaults_keeps h (Reset.clearBuffers s) false
    obtain ⟨k3, _⟩ := initRules_slots h (Reset.clearRuleTable h s2) h.kPRSwitchRulesCount
    have k := k2.trans (KeepsReadPath.trans (t := Reset.clearRuleTable h s2)
      ⟨rfl, rfl, rfl, rfl, rfl, id⟩ k3)
    unfold Reset
    simp only [e2, Option.some_bind, clearRules_default, Reset.initRules, Option.map_some']
    exact ⟨_, rfl, hzero _ k.1 k.2.1 k.2.2.1⟩

set_option maxRecDepth 1000000 in
theorem BufferInvariant_kept_witness :
    0 < sampleHeader.FTDI_BUFFER_SIZE ∧
    BufferInvariant sampleHeader wrappedBufferDevice ∧
    bufferBytes sampleHeader wrappedBufferDevice = [254, 255, 0, 1, 2, 3, 4, 5] ∧
    (ReadData sampleHeader wrappedBufferDevice 1).2.1 = [0xFEFF0001] ∧
    bufferBytes sampleHeader (ReadData sampleHeader wrappedBufferDevice 1).2.2 =
      [2, 3, 4, 5] ∧
    ((∀ s, BufferInvariant sampleHeader (FlushReadBuffer sampleHeader s)) ∧
    (∀ s updateDevice,
      (∀ sw et, sw ≤ sampleHeader.kPRSwitchPhysicalLast →
        sampleHeader.CreateSwitchRuleIndex sw et < sampleHeader.maxSwitchRules) →
      ∃ s0, Reset sampleHeader s updateDevice = some (PRResult.kPRSuccess, s0) ∧
        BufferInvariant sampleHeader s0) ∧
    (∀ s, ∃ s0, Reset sampleHeader s false = some (PRResult.kPRSuccess, s0) ∧
      BufferInvariant sampleHeader s0) ∧
    (∀ s, BufferInvariant sampleHeader s →
      BufferInvariant sampleHeader (CollectReadData sampleHeader s).2 ∧
      bufferBytes sampleHeader (CollectReadData sampleHeader s).2 =
        bufferBytes sampleHeader s ++
          (PRHardwareRead s.hw
            (sampleHeader.FTDI_BUFFER_SIZE - s.num_collected_bytes)).1.map
            (fun b => b % 256)) ∧
    (∀ s n, BufferInvariant sampleHeader s →
      BufferInvariant sampleHeader (ReadData sampleHeader s n).2.2 ∧
      (4 * n ≤ s.num_collected_bytes →
        (ReadData sampleHeader s n).2.1 = leadingWords (bufferBytes sampleHeader s) n ∧
        bufferBytes sampleHeader (ReadData sampleHeader s n).2.2 =
          (bufferBytes sampleHeader s).drop (4 * n)) ∧
      (¬ 4 * n ≤ s.num_collected_bytes → ReadData sampleHeader s n = (0, [], s))) ∧
    (∀ s, BufferInvariant sampleHeader s →
      ∃ r, SortReturningData sampleHeader s = some r ∧ BufferInvariant sampleHeader r.2)) :=
  ⟨by decide, by decide, by decide, by decide, by decide,
    BufferInvariant_kept sampleHeader (by decide)⟩

/-! ## PRDevice::Open and the machine type the board reports -/

theorem WriteData_readMachineType (s : PRDevice) (words : List Nat) :
    (WriteData s words).2.readMachineType = s.readMachineType := by
  unfold WriteData
  split
  · rfl
  · simp only []
    split <;> rfl

theorem wait_spec (h : Header) :
    ∀ (budget : Nat) (s : PRDevice),
      (VerifyChipID.wait h budget s).1 ≤ budget ∧
      ((VerifyChipID.wait h budget s).1 < budget →
        5 * 4 ≤ (VerifyChipID.wait h budget s).2.num_collected_bytes) ∧
      (VerifyChipID.wait h budget s).2.readMachineType = s.readMachineType := by
  intro budget
  induction budget with
  | zero =>
    intro s
    exact ⟨Nat.le_refl _, fun c => absurd c (Nat.lt_irrefl _), rfl⟩
  | succ budget ih =>
    intro s
    rw [VerifyChipID.wait]
    by_cases hq : s.num_collected_bytes < 5 * 4
    · obtain ⟨a1, a2, a3⟩ := ih (CollectReadData h s).2
      rw [if_pos hq]
      refine ⟨Nat.succ_le_succ a1, fun c => a2 (Nat.lt_of_succ_lt_succ c), ?_⟩
      rw [a3]
      rfl
    · rw [if_neg hq]
      exact ⟨Nat.zero_le _, fun _ => Nat.le_of_not_lt hq, rfl⟩

/-- `VerifyChipID` returns; when it returns `kPRSuccess` it has stored
`kPRMachineSternWhitestar` or `kPRMachineWPC` in `readMachineType`, and it
never replaces one of these two by another type. -/
theorem VerifyChipID_spec (h : Header) (s : PRDevice) :
    ∃ rc s1, VerifyChipID h s = some (rc, s1) ∧
      (rc = PRResult.kPRSuccess → StoredByVerifyChipID s1.readMachineType) ∧
      (StoredByVerifyChipID s.readMachineType → StoredByVerifyChipID s1.readMachineType) := by
  obtain ⟨w1, w2, w3⟩ := wait_spec h 10
    (RequestData h s h.P_ROC_MANAGER_SELECT h.P_ROC_REG_CHIP_ID_ADDR 4).2
  have hreq : (RequestData h s h.P_ROC_MANAGER_SELECT h.P_ROC_REG_CHIP_ID_ADDR
      4).2.readMachineType = s.readMachineType := WriteData_readMachineType s _
  rw [hreq] at w3
  unfold VerifyChipID
  simp only []
  generalize VerifyChipID.wait h 10
    (RequestData h s h.P_ROC_MANAGER_SELECT h.P_ROC_REG_CHIP_ID_ADDR 4).2 = w at w1 w2 w3
  by_cases hten : w.1 = 10
  · rw [if_neg (not_not.mpr hten)]
    refine ⟨PRResult.kPRFailure, w.2, rfl, fun c => (by cases c), ?_⟩
    intro hs
    rw [w3]
    exact hs
  · have hnum := w2 (by omega)
    have hfive : (ReadData h w.2 5).1 = 5 := by
      unfold ReadData
      simp [hnum]
    have hstored : ∀ b : Bool, StoredByVerifyChipID
        (if b = true then PRMachineType.kPRMachineSternWhitestar
          else PRMachineType.kPRMachineWPC) := by
      intro b
      cases b
      · exact Or.inl rfl
      · exact Or.inr rfl
    rw [if_pos hten, if_pos hfive]
    generalize ReadData h w.2 5 = r
    exact ⟨_, _, rfl, fun _ => hstored _, fun _ => hstored _⟩

theorem verify_unfold (h : Header) (budget : Nat) (res rc : PRResult) (s s1 : PRDevice)
    (e : VerifyChipID h s = some (rc, s1)) :
    Open.verify h budget res s =
      if rc = PRResult.kPRFailure then
        match budget with
        | 0 => some (res, s1)
        | budget + 1 =>
          (VerifyChipID h
              (WriteData (WriteData (FlushReadBuffer h s1) [h.P_ROC_INIT_PATTERN_A]).2
                [h.P_ROC_INIT_PATTERN_B]).2).bind fun r1 => Open.verify h budget r1.1 r1.2
      else some (res, s1) := by
  conv_lhs => rw [Open.verify]
  rw [e]
  rfl

/-- The first test of the verification loop of `Open` and what follows, entered with
`res = kPRSuccess`. -/
theorem verify_first (h : Header) (ih : ∀ (res : PRResult) (s : PRDevice),
      (res = PRResult.kPRSuccess → StoredByVerifyChipID s.readMachineType) →
      ∃ r t, Open.verify h budget res s = some (r, t) ∧
        (r = PRResult.kPRSuccess → StoredByVerifyChipID t.readMachineType))
    (res : PRResult) (s : PRDevice) :
    ∃ r t, Open.verify h (budget + 1) res s = some (r, t) ∧
      (r = PRResult.kPRSuccess → StoredByVerifyChipID t.readMachineType) := by
  obtain ⟨rc, s1, e1, g1, k1⟩ := VerifyChipID_spec h s
  rw [verify_unfold h (budget + 1) res rc s s1 e1]
  by_cases hrc : rc = PRResult.kPRFailure
  · rw [if_pos hrc]
    obtain ⟨res1, s5, e5, g5, _⟩ := VerifyChipID_spec h
      (WriteData (WriteData (FlushReadBuffer h s1) [h.P_ROC_INIT_PATTERN_A]).2
        [h.P_ROC_INIT_PATTERN_B]).2
    simp only [e5, Option.some_bind]
    exact ih res1 s5 g5
  · rw [if_neg hrc]
    refine ⟨res, s1, rfl, fun _ => g1 ?_⟩
    cases rc
    · rfl
    · exact absurd rfl hrc

/-- The verification loop of `Open`, entered with a `res` that is `kPRSuccess` only
when `readMachineType` has been stored by `VerifyChipID`. -/
theorem verify_spec (h : Header) :
    ∀ (budget : Nat) (res : PRResult) (s : PRDevice),
      (res = PRResult.kPRSuccess → StoredByVerifyChipID s.readMachineType) →
      ∃ r t, Open.verify h budget res s = some (r, t) ∧
        (r = PRResult.kPRSuccess → StoredByVerifyChipID t.readMachineType) := by
  intro budget
  induction budget with
  | zero =>
    intro res s hs
    obtain ⟨rc, s1, e1, _, k1⟩ := VerifyChipID_spec h s
    rw [verify_unfold h 0 res rc s s1 e1]
    by_cases hrc : rc = PRResult.kPRFailure
    · rw [if_pos hrc]
      exact ⟨res, s1, rfl, fun c => k1 (hs c)⟩
    · rw [if_neg hrc]
      exact ⟨res, s1, rfl, fun c => k1 (hs c)⟩
  | succ budget ih =>
    intro res s hs
    exact verify_first h ih res s

/-- `Open` returns, and when it returns `kPRSuccess` the machine type the board
reports is one `VerifyChipID` has stored. -/
theorem Open_spec (h : Header) (s : PRDevice) (hardwareOpen : PRResult)
    (dmdBurst switchBurst : Nat → Nat) :
    ∃ res opened, Open h s hardwareOpen dmdBurst switchBurst = some (res, opened) ∧
      (res = PRResult.kPRSuccess → hardwareOpen = PRResult.kPRSuccess) ∧
      (res = PRResult.kPRSuccess → StoredByVerifyChipID opened.readMachineType) := by
  unfold Open
  by_cases ho : hardwareOpen = PRResult.kPRSuccess
  · rw [if_pos ho]
    obtain ⟨r, t, e, g⟩ := verify_first h (verify_spec h 49) PRResult.kPRSuccess
      (FlushReadBuffer h (SwitchUpdateConfig h (DMDUpdateConfig h s dmdBurst).2 switchBurst).2)
    exact ⟨r, t, e, fun _ => ho, g⟩
  · rw [if_neg ho]
    exact ⟨hardwareOpen, s, rfl, fun c => absurd c ho, fun c => absurd c ho⟩

/-- C2: `Open` returns for every device object, every result of `PRHardwareOpen` and
all configuration words, and when it returns `kPRSuccess` the machine type the
board reports is `kPRMachineWPC` or `kPRMachineSternWhitestar`, the two types
`VerifyChipID` stores. For a requested `kPRMachineSternWhitestar` or
`kPRMachineSternSAM`, when `Open` has succeeded and the reported type is in
the WPC family (`kPRMachineWPC` or `kPRMachineWPC95`), `Create` rejects the
request. -/
theorem Create_stern_on_wpc_rejected (h : Header) (s : PRDevice) (hardwareOpen : PRResult)
    (dmdBurst switchBurst : Nat → Nat) (machineType : PRMachineType)
    (hm : machineType = PRMachineType.kPRMachineSternWhitestar ∨
      machineType = PRMachineType.kPRMachineSternSAM) :
    ∃ res opened, Open h s hardwareOpen dmdBurst switchBurst = some (res, opened) ∧
      (res = PRResult.kPRSuccess →
        opened.readMachineType = PRMachineType.kPRMachineWPC ∨
          opened.readMachineType = PRMachineType.kPRMachineSternWhitestar) ∧
      (res = PRResult.kPRSuccess →
        (opened.readMachineType = PRMachineType.kPRMachineWPC ∨
          opened.readMachineType = PRMachineType.kPRMachineWPC95) →
        Create machineType res opened.readMachineType = CreateOutcome.rejected) := by
  obtain ⟨res, opened, e, _, g⟩ := Open_spec h s hardwareOpen dmdBurst switchBurst
  refine ⟨res, opened, e, g, ?_⟩
  intro hres hfam
  have hw : opened.readMachineType = PRMachineType.kPRMachineWPC := by
    rcases g hres with g1 | g1
    · exact g1
    · rcases hfam with f1 | f1
      · exact f1
      · rw [g1] at f1
        cases f1
  rw [hw, hres]
  rcases hm with hm | hm <;> rw [hm] <;> decide

set_option maxRecDepth 1000000 in
theorem Create_stern_on_wpc_rejected_witness :
    (PRMachineType.kPRMachineSternWhitestar = PRMachineType.kPRMachineSternWhitestar ∨
      PRMachineType.kPRMachineSternSAM = PRMachineType.kPRMachineSternSAM) ∧
    (Open sampleHeader chipReplyDevice PRResult.kPRSuccess (fun _ => 0) (fun _ => 0)).map
        (fun r => (r.1, r.2.readMachineType,
          Create PRMachineType.kPRMachineSternSAM r.1 r.2.readMachineType)) =
      some (PRResult.kPRSuccess, PRMachineType.kPRMachineWPC, CreateOutcome.rejected) ∧
    ∃ res opened,
      Open sampleHeader chipReplyDevice PRResult.kPRSuccess (fun _ => 0) (fun _ => 0) =
        some (res, opened) ∧
      (res = PRResult.kPRSuccess →
        opened.readMachineType = PRMachineType.kPRMachineWPC ∨
          opened.readMachineType = PRMachineType.kPRMachineSternWhitestar) ∧
      (res = PRResult.kPRSuccess →
        (opened.readMachineType = PRMachineType.kPRMachineWPC ∨
          opened.readMachineType = PRMachineType.kPRMachineWPC95) →
        Create PRMachineType.kPRMachineSternSAM res opened.readMachineType =
          CreateOutcome.rejected) :=
  ⟨Or.inl rfl, by decide,
    Create_stern_on_wpc_rejected sampleHeader chipReplyDevice PRResult.kPRSuccess
      (fun _ => 0) (fun _ => 0) PRMachineType.kPRMachineSternSAM (Or.inr rfl)⟩

/-! ## The polling loop of ReadDataRaw -/

/-- The polling loop makes `k` passes, `k` at most the budget, and leaves the device
that `k` calls of `SortReturningData` in a row leave; the queue was short
before each of these calls, and it is not short at the end unless the budget is
used up. -/
theorem poll_drains (h : Header) (numReadWords : Nat) :
    ∀ (budget : Nat) (s : PRDevice),
      ∃ k d, ReadDataRaw.poll h numReadWords budget s = some (k, d) ∧ k ≤ budget ∧
        drainTimes h k s = some d ∧
        (∀ j, j < k → ∃ dj, drainTimes h j s = some dj ∧
          dj.requestedDataQueue.length < numReadWords + 1) ∧
        (k < budget → ¬ d.requestedDataQueue.length < numReadWords + 1) := by
  intro budget
  induction budget with
  | zero =>
    intro s
    refine ⟨0, s, ?_, Nat.le_refl _, rfl, ?_, ?_⟩
    · rw [ReadDataRaw.poll]
      split <;> rfl
    · intro j hj
      omega
    · intro hk
      omega
  | succ budget ih =>
    intro s
    by_cases hq : s.requestedDataQueue.length < numReadWords + 1
    · obtain ⟨r, hr⟩ := Option.isSome_iff_exists.mp (SortReturningData_isSome h s)
      obtain ⟨k, d, e, hle, hd, hbefore, hend⟩ := ih r.2
      refine ⟨k + 1, d, ?_, by omega, ?_, ?_, ?_⟩
      · rw [ReadDataRaw.poll]
        simp [hq, hr, e]
      · simp only [drainTimes, hr, hd]
      · intro j hj
        cases j with
        | zero => exact ⟨s, rfl, hq⟩
        | succ j =>
          obtain ⟨dj, e1, e2⟩ := hbefore j (by omega)
          exact ⟨dj, by simp only [drainTimes, hr, e1], e2⟩
      · intro hk
        exact hend (by omega)
    · refine ⟨0, s, ?_, Nat.zero_le _, rfl, ?_, fun _ => hq⟩
      · rw [ReadDataRaw.poll]
        simp [hq]
      · intro j hj
        omega

/-- C12: for every device and all arguments `ReadDataRaw` returns after `k` passes of
its polling loop, `k` at most 10, and the passes are `k` calls of
`SortReturningData` in a row on the device the request leaves: the device
returned is the one these `k` calls leave (with the queue emptied on success),
the queue was shorter than `count + 1` before each call, and with fewer than
10 passes it is not shorter than `count + 1` at the end. When the queue is
shorter than `count + 1` at the start and after each of the 10 calls of
`SortReturningData`, `ReadDataRaw` makes exactly 10 passes, returns
`kPRFailure`, and the device is the one the 10 calls leave. -/
theorem ReadDataRaw_poll_ceiling (h : Header) (s : PRDevice)
    (moduleSelect startingAddr count : Nat)
    (hstarved : ReadDataRaw.starved h count 10
      (RequestData h s moduleSelect startingAddr count).2 = true) :
    (∀ (t : PRDevice) (m a c : Nat), ∃ r d,
      ReadDataRaw h t m a c = some r ∧ r.passes ≤ 10 ∧
      drainTimes h r.passes (RequestData h t m a c).2 = some d ∧
      r.device = { d with requestedDataQueue := r.device.requestedDataQueue } ∧
      (r.result = PRResult.kPRFailure → r.device = d) ∧
      (∀ j, j < r.passes → ∃ dj, drainTimes h j (RequestData h t m a c).2 = some dj ∧
        dj.requestedDataQueue.length < c + 1) ∧
      (r.passes < 10 → ¬ d.requestedDataQueue.length < c + 1)) ∧
    ∃ r d, ReadDataRaw h s moduleSelect startingAddr count = some r ∧ r.passes = 10 ∧
      r.result = PRResult.kPRFailure ∧
      drainTimes h 10 (RequestData h s moduleSelect startingAddr count).2 = some d ∧
      r.device = d := by
  refine ⟨?_, ?_⟩
  · intro t m a c
    obtain ⟨k, d, e, hle, hd, hbefore, hend⟩ := poll_drains h c 10 (RequestData h t m a c).2
    refine ⟨_, d, ReadDataRaw_of_poll h t m a c k d e, ?_⟩
    by_cases hq : d.requestedDataQueue.length = c + 1
    · rw [if_pos hq]
      exact ⟨hle, hd, rfl, fun x => (by cases x), hbefore, hend⟩
    · rw [if_neg hq]
      exact ⟨hle, hd, rfl, fun _ => rfl, hbefore, hend⟩
  · obtain ⟨s1, e1, q1⟩ := starved_poll h count 10 _ hstarved
    obtain ⟨k, d, e, _, hd, _, _⟩ :=
      poll_drains h count 10 (RequestData h s moduleSelect startingAddr count).2
    rw [e1] at e
    cases e
    have hne : ¬ s1.requestedDataQueue.length = count + 1 := by omega
    refine ⟨_, s1, ReadDataRaw_of_poll h s moduleSelect startingAddr count 10 s1 e1, ?_⟩
    rw [if_neg hne]
    exact ⟨rfl, rfl, hd, rfl⟩

set_option maxRecDepth 1000000 in
theorem ReadDataRaw_poll_ceiling_witness :
    ReadDataRaw.starved sampleHeader 2 10
        (RequestData sampleHeader eventsOnlyDevice 0 0 2).2 = true ∧
    (drainTimes sampleHeader 10 (RequestData sampleHeader eventsOnlyDevice 0 0 2).2).map
        (fun d => (d.unrequestedDataQueue, d.requestedDataQueue, d.hw.rxPending)) =
      some ([0, 1, 2, 3, 4, 5, 6, 7, 8, 9], [],
        [wireBytes [0x8000000A, 10], wireBytes [0x8000000B, 11]]) ∧
    ∃ r d, ReadDataRaw sampleHeader eventsOnlyDevice 0 0 2 = some r ∧ r.passes = 10 ∧
      r.result = PRResult.kPRFailure ∧
      drainTimes sampleHeader 10 (RequestData sampleHeader eventsOnlyDevice 0 0 2).2 = some d ∧
      r.device = d :=
  ⟨by decide, by decide,
    (ReadDataRaw_poll_ceiling sampleHeader eventsOnlyDevice 0 0 2 (by decide)).2⟩

/-! ## The rollback of SwitchUpdateRule: a failed submission -/

/-- The install loop at a failed submission: it returns what the rollback returns,
the result of the failed submission. -/
theorem install_refused (h : Header) (first : Nat) :
    ∀ (ds : List PRDriverState) (idx : Nat) (s : PRDevice) (res : PRResult) (t : PRDevice),
      firstFailedSubmission h ds idx s = some (res, t) →
      res = PRResult.kPRFailure ∧
      SwitchUpdateRule.install h first ds idx s =
        some (res, (SwitchUpdateRule.revert h first res t).2) := by
  intro ds
  induction ds with
  | nil =>
    intro idx s res t hf
    simp [firstFailedSubmission] at hf
  | cons d ds ih =>
    intro idx s res t hf
    cases ds with
    | nil =>
      rw [firstFailedSubmission] at hf
      rw [SwitchUpdateRule.install]
      simp only [GetSwitchRuleByIndex, List.length_nil, Nat.zero_add, gt_iff_lt,
        Nat.lt_irrefl, if_false]
      simp only [] at hf
      split at hf
      · cases hf
      · next hw =>
        have e := Option.some.inj hf
        have e1 : (PrepareWriteData h
            { s with
              switchRules := Function.update s.switchRules idx
                { s.switchRules idx with
                  changeOutput := true, driver := d, linkActive := false } }
            (switchRuleBurst h
              { s.switchRules idx with
                changeOutput := true, driver := d, linkActive := false })).1 = res :=
          congrArg Prod.fst e
        have e2 := congrArg Prod.snd e
        simp only [] at e2
        have hres : res = PRResult.kPRFailure := by
          rw [e1] at hw
          cases res
          · exact absurd rfl hw
          · rfl
        refine ⟨hres, ?_⟩
        rw [e1, e2]
        subst hres
        rfl
    | cons d2 ds =>
      rw [firstFailedSubmission] at hf
      rw [SwitchUpdateRule.install]
      have hlt : (d2 :: ds).length + 1 > 1 := by simp
      simp only [GetSwitchRuleByIndex, hlt, if_true]
      cases hfree : s.freeSwitchRuleIndexes with
      | nil => simp [hfree] at hf
      | cons front free =>
        simp only [hfree] at hf ⊢
        split at hf
        · next hw =>
          simp only [hw, bne_self_eq_false, Bool.false_eq_true, if_false]
          exact ih front _ res t hf
        · next hw =>
          have e := Option.some.inj hf
          have e1 : (PrepareWriteData h
              { s with
                switchRules := Function.update s.switchRules idx
                  { s.switchRules idx with
                    changeOutput := true, driver := d, linkActive := true,
                    linkIndex := front }
                freeSwitchRuleIndexes := free }
              (switchRuleBurst h
                { s.switchRules idx with
                  changeOutput := true, driver := d, linkActive := true,
                  linkIndex := front })).1 = res :=
            congrArg Prod.fst e
          have e2 := congrArg Prod.snd e
          simp only [] at e2
          have hres : res = PRResult.kPRFailure := by
            rw [e1] at hw
            cases res
            · exact absurd rfl hw
            · rfl
          refine ⟨hres, ?_⟩
          rw [e1, e2]
          subst hres
          rfl

/-- C22: let a call of `SwitchUpdateRule` with at least one reaction pass the range
check and the free-index check and let its walk over the old links end
normally, and let the submission of the burst of one of the slots to
`PrepareWriteData` fail, with result `res` and device `t` at the first such
submission. Then `res` is `kPRFailure` and `SwitchUpdateRule` returns `res`
with the device the rollback submission leaves, whatever the result of the
rollback submission is; in that device the base slot of the pair has
`changeOutput = false` and an inactive link. -/
theorem SwitchUpdateRule_rollback (h : Header) (s : PRDevice) (switchNum : Nat)
    (eventType : PREventType) (rule : PRSwitchRule) (linkedDrivers : List PRDriverState)
    (free : List Nat) (res : PRResult) (t : PRDevice)
    (hsw : switchNum ≤ h.kPRSwitchPhysicalLast) (hn : 1 ≤ linkedDrivers.length)
    (hpool : linkedDrivers.length - 1 ≤ s.freeSwitchRuleIndexes.length)
    (hwalk : SwitchUpdateRule.freeOldLinks s.switchRules 129
      (GetSwitchRuleByIndex s (h.CreateSwitchRuleIndex switchNum eventType))
      s.freeSwitchRuleIndexes = some (PRResult.kPRSuccess, free))
    (hfail : firstFailedSubmission h linkedDrivers (h.CreateSwitchRuleIndex switchNum eventType)
      (installStart h s switchNum eventType rule free) = some (res, t)) :
    res = PRResult.kPRFailure ∧
    SwitchUpdateRule h s switchNum eventType rule linkedDrivers =
      some (res,
        (rollbackSubmission h (h.CreateSwitchRuleIndex switchNum eventType) t).2) ∧
    (((rollbackSubmission h (h.CreateSwitchRuleIndex switchNum eventType) t).2.switchRules
      (h.CreateSwitchRuleIndex switchNum eventType)).changeOutput = false) ∧
    (((rollbackSubmission h (h.CreateSwitchRuleIndex switchNum eventType) t).2.switchRules
      (h.CreateSwitchRuleIndex switchNum eventType)).linkActive = false) := by
  have hsw2 : ¬ switchNum > h.kPRSwitchPhysicalLast := by omega
  have hc : ¬ (s.freeSwitchRuleIndexes.length < linkedDrivers.length - 1) := by omega
  have hpos : linkedDrivers.length > 0 := by omega
  obtain ⟨hres, hinst⟩ := install_refused h (h.CreateSwitchRuleIndex switchNum eventType)
    linkedDrivers _ _ res t hfail
  have hcall : SwitchUpdateRule h s switchNum eventType rule linkedDrivers =
      some (res,
        (rollbackSubmission h (h.CreateSwitchRuleIndex switchNum eventType) t).2) := by
    unfold SwitchUpdateRule
    simp only [hsw2, if_false, hc, decide_False, Bool.and_false, Bool.false_eq_true, hwalk,
      hpos, if_true]
    exact hinst
  have hinert := revert_inert h (h.CreateSwitchRuleIndex switchNum eventType) res t
  exact ⟨hres, hcall, hinert.2.1, hinert.2.2⟩

set_option maxRecDepth 1000000 in
theorem SwitchUpdateRule_rollback_witness :
    (5 ≤ tightHeader.kPRSwitchPhysicalLast ∧
      1 ≤ [zeroDriverState, zeroDriverState].length ∧
      [zeroDriverState, zeroDriverState].length - 1 ≤
        fullBufferPoolDevice.freeSwitchRuleIndexes.length ∧
      (rollbackSubmission tightHeader
        (tightHeader.CreateSwitchRuleIndex 5 PREventType.kPREventTypeSwitchClosedDebounced)
        (refusedLinkDevice tightHeader)).1 = PRResult.kPRSuccess ∧
      PRResult.kPRFailure = PRResult.kPRFailure ∧
      SwitchUpdateRule tightHeader fullBufferPoolDevice 5
          PREventType.kPREventTypeSwitchClosedDebounced { notifyHost := true }
          [zeroDriverState, zeroDriverState] =
        some (PRResult.kPRFailure,
          (rollbackSubmission tightHeader
            (tightHeader.CreateSwitchRuleIndex 5 PREventType.kPREventTypeSwitchClosedDebounced)
            (refusedLinkDevice tightHeader)).2) ∧
      (((rollbackSubmission tightHeader
          (tightHeader.CreateSwitchRuleIndex 5 PREventType.kPREventTypeSwitchClosedDebounced)
          (refusedLinkDevice tightHeader)).2.switchRules
        (tightHeader.CreateSwitchRuleIndex 5
          PREventType.kPREventTypeSwitchClosedDebounced)).changeOutput = false) ∧
      (((rollbackSubmission tightHeader
          (tightHeader.CreateSwitchRuleIndex 5 PREventType.kPREventTypeSwitchClosedDebounced)
          (refusedLinkDevice tightHeader)).2.switchRules
        (tightHeader.CreateSwitchRuleIndex 5
          PREventType.kPREventTypeSwitchClosedDebounced)).linkActive = false)) ∧
    ((rollbackSubmission narrowHeader
        (narrowHeader.CreateSwitchRuleIndex 5 PREventType.kPREventTypeSwitchClosedDebounced)
        (refusedLinkDevice narrowHeader)).1 = PRResult.kPRFailure ∧
      PRResult.kPRFailure = PRResult.kPRFailure ∧
      SwitchUpdateRule narrowHeader fullBufferPoolDevice 5
          PREventType.kPREventTypeSwitchClosedDebounced { notifyHost := true }
          [zeroDriverState, zeroDriverState] =
        some (PRResult.kPRFailure,
          (rollbackSubmission narrowHeader
            (narrowHeader.CreateSwitchRuleIndex 5 PREventType.kPREventTypeSwitchClosedDebounced)
            (refusedLinkDevice narrowHeader)).2) ∧
      (((rollbackSubmission narrowHeader
          (narrowHeader.CreateSwitchRuleIndex 5 PREventType.kPREventTypeSwitchClosedDebounced)
          (refusedLinkDevice narrowHeader)).2.switchRules
        (narrowHeader.CreateSwitchRuleIndex 5
          PREventType.kPREventTypeSwitchClosedDebounced)).changeOutput = false) ∧
      (((rollbackSubmission narrowHeader
          (narrowHeader.CreateSwitchRuleIndex 5 PREventType.kPREventTypeSwitchClosedDebounced)
          (refusedLinkDevice narrowHeader)).2.switchRules
        (narrowHeader.CreateSwitchRuleIndex 5
          PREventType.kPREventTypeSwitchClosedDebounced)).linkActive = false)) :=
  ⟨⟨by decide, by decide, by decide, by decide,
    SwitchUpdateRule_rollback tightHeader fullBufferPoolDevice 5
      PREventType.kPREventTypeSwitchClosedDebounced { notifyHost := true }
      [zeroDriverState, zeroDriverState] [230] PRResult.kPRFailure
      (refusedLinkDevice tightHeader) (by decide) (by decide) (by decide) (by decide)
      (by rfl)⟩,
    ⟨by decide,
    SwitchUpdateRule_rollback narrowHeader fullBufferPoolDevice 5
      PREventType.kPREventTypeSwitchClosedDebounced { notifyHost := true }
      [zeroDriverState, zeroDriverState] [230] PRResult.kPRFailure
      (refusedLinkDevice narrowHeader) (by decide) (by decide) (by decide) (by decide)
      (by rfl)⟩⟩

end PinProc
